import Mathlib

/-!
# LongMarch (grassland): buffers, transient pool, acceleration structures, shader table

A shallow embedding of the D3D12 resource layer of the repository:

* `code/grassland/d3d12/buffer.{h,cpp}`: `Buffer`, `CopyBuffer`;
* `code/grassland/d3d12/device.cpp`: `Device::CreateBuffer`, the scratch / instance
  pool, the bottom-level and top-level acceleration structure builds,
  `Device::CreateShaderTable`;
* `code/grassland/graphics/backend/d3d12/d3d12_buffer.cpp`: the Static, Dynamic and
  CUDA (interop) buffer variants.

GPU memory is an explicit heap owned by the device model: a resource handle is an index
into `Device.resources`, a released resource leaves `none` behind, and handles are never
reused.  Every function that dereferences a pointer returns `Option`; `none` stands for
undefined behaviour (null or dangling dereference, out-of-range `memcpy`, failed
`assert`).  Calls into the platform that report an `HRESULT` draw their outcome from the
script `Device.hresults`; once the script is exhausted every call succeeds.

Sizes and offsets are natural numbers.  The 64-bit sums of the sources cannot wrap for
data that fits into an address space, so they are not reduced modulo `2^64`; the 32-bit
product `primitive_count * 3` of the triangle build is reduced modulo `2^32`, and the
assignment to the 24-bit field `InstanceID` of an instance record modulo `2^24`.

The identifier lookup of a state object returns the null pointer for a name that is not
exported; `CreateShaderTable` copies from the returned pointer unchecked, so
`Device.CreateShaderTable_properties` is undefined on such a name.
`Device.CreateShaderTable` is that function on a pipeline whose lookups all succeed.
-/

namespace grassland

/-! ## Platform model -/

/-- One byte of memory.  Bytes are only ever copied, never computed with. -/
abbrev Byte := Nat

/-- Windows result code: negative values are failures. -/
abbrev HRESULT := Int

/-- The success code. -/
def S_OK : HRESULT := 0

/-- The `FAILED` test of the platform headers. -/
def FAILED (hr : HRESULT) : Bool := decide (hr < 0)

/-- The `SUCCEEDED` test of the platform headers. -/
def SUCCEEDED (hr : HRESULT) : Bool := decide (0 ≤ hr)

/-- Heap types used by the sources. -/
inductive D3D12_HEAP_TYPE where
  | DEFAULT
  | UPLOAD
  | READBACK
deriving DecidableEq, Repr

/-- Heap flags used by the sources. -/
inductive D3D12_HEAP_FLAGS where
  | NONE
  | SHARED
deriving DecidableEq, Repr

/-- Resource states used by the sources. -/
inductive D3D12_RESOURCE_STATES where
  | COMMON
  | GENERIC_READ
  | COPY_DEST
  | RAYTRACING_ACCELERATION_STRUCTURE
deriving DecidableEq, Repr

/-- Resource flags used by the sources. -/
inductive D3D12_RESOURCE_FLAGS where
  | NONE
  | ALLOW_UNORDERED_ACCESS
deriving DecidableEq, Repr

/-- A committed buffer resource (`ID3D12Resource`): its description and its bytes. -/
structure Resource where
  Width : Nat
  heap_type : D3D12_HEAP_TYPE
  heap_flags : D3D12_HEAP_FLAGS
  state : D3D12_RESOURCE_STATES
  flags : D3D12_RESOURCE_FLAGS
  bytes : List Byte
deriving DecidableEq, Repr

/-- Kind of an acceleration structure build. -/
inductive D3D12_RAYTRACING_ACCELERATION_STRUCTURE_TYPE where
  | TOP_LEVEL
  | BOTTOM_LEVEL
deriving DecidableEq, Repr

/-- Build flag `PREFER_FAST_TRACE` (bit value of the platform headers). -/
def D3D12_RAYTRACING_ACCELERATION_STRUCTURE_BUILD_FLAG_PREFER_FAST_TRACE : Nat := 4

/-- Build flag `ALLOW_UPDATE` (bit value of the platform headers). -/
def D3D12_RAYTRACING_ACCELERATION_STRUCTURE_BUILD_FLAG_ALLOW_UPDATE : Nat := 1

/-- Geometry flag `NO_DUPLICATE_ANYHIT_INVOCATION` (bit value of the platform headers). -/
def D3D12_RAYTRACING_GEOMETRY_FLAG_NO_DUPLICATE_ANYHIT_INVOCATION : Nat := 2

/-- Instance flag `TRIANGLE_CULL_DISABLE` (bit value of the platform headers). -/
def D3D12_RAYTRACING_INSTANCE_FLAG_TRIANGLE_CULL_DISABLE : Nat := 1

/-- Size in bytes of one instance record, `sizeof(D3D12_RAYTRACING_INSTANCE_DESC)`. -/
def sizeof_D3D12_RAYTRACING_INSTANCE_DESC : Nat := 64

/-- Element formats used by the sources. -/
inductive DXGI_FORMAT where
  | R32G32B32_FLOAT
  | R32_UINT
deriving DecidableEq, Repr

/-- Geometry description of a bottom-level build: procedural boxes or indexed triangles.
The fields are listed in the order the sources assign them. -/
inductive D3D12_RAYTRACING_GEOMETRY_DESC where
  | AABBS (StartAddress StrideInBytes AABBCount Flags : Nat)
  | TRIANGLES (VertexBuffer_StartAddress VertexBuffer_StrideInBytes VertexCount : Nat)
      (VertexFormat : DXGI_FORMAT) (IndexBuffer IndexCount : Nat) (IndexFormat : DXGI_FORMAT)
      (Transform3x4 Flags : Nat)
deriving DecidableEq, Repr

/-- Inputs of an acceleration structure build.  The platform type holds either the
geometry descriptions or the address of the instance records; both are kept here. -/
structure D3D12_BUILD_RAYTRACING_ACCELERATION_STRUCTURE_INPUTS where
  Type_ : D3D12_RAYTRACING_ACCELERATION_STRUCTURE_TYPE
  NumDescs : Nat
  Flags : Nat
  pGeometryDescs : List D3D12_RAYTRACING_GEOMETRY_DESC
  InstanceDescs : Nat
deriving DecidableEq, Repr

/-- Answer of the prebuild query. -/
structure D3D12_RAYTRACING_ACCELERATION_STRUCTURE_PREBUILD_INFO where
  ResultDataMaxSizeInBytes : Nat
  ScratchDataSizeInBytes : Nat
deriving DecidableEq, Repr

/-- Description handed to `BuildRaytracingAccelerationStructure`. -/
structure D3D12_BUILD_RAYTRACING_ACCELERATION_STRUCTURE_DESC where
  Inputs : D3D12_BUILD_RAYTRACING_ACCELERATION_STRUCTURE_INPUTS
  ScratchAccelerationStructureData : Nat
  DestAccelerationStructureData : Nat
  SourceAccelerationStructureData : Nat
deriving DecidableEq, Repr

/-- Commands a command list can hold.  Resources are named by handle. -/
inductive Command where
  | ResourceBarrier (resource : Nat) (before after : D3D12_RESOURCE_STATES)
  | CopyBufferRegion (dst dst_offset src src_offset size : Nat)
  | BuildRaytracingAccelerationStructure
      (desc : D3D12_BUILD_RAYTRACING_ACCELERATION_STRUCTURE_DESC)
deriving DecidableEq, Repr

/-- State of `d3d12::Device` together with the GPU memory it allocates from.

* `resources`: the heap, indexed by handle; `none` marks a released resource;
* `hresults`: outcomes of the coming fallible platform calls, first call first;
* `gpu_va`: the GPU virtual address the platform gives to a handle;
* `prebuild`: the answer of the platform to a prebuild query;
* `executed`: the commands the queue has executed so far, oldest first;
* `scratch_buffer_`, `instance_buffer_`: the two pooled transient buffers. -/
structure Device where
  resources : List (Option Resource)
  hresults : List HRESULT
  gpu_va : Nat → Nat
  prebuild : D3D12_BUILD_RAYTRACING_ACCELERATION_STRUCTURE_INPUTS →
    D3D12_RAYTRACING_ACCELERATION_STRUCTURE_PREBUILD_INFO
  executed : List Command
  scratch_buffer_ : Option Nat
  instance_buffer_ : Option Nat

/-- Dereference of a resource handle: `none` for a handle that names no live resource. -/
def Device.resource (dev : Device) (h : Nat) : Option Resource :=
  (dev.resources[h]?).join

/-- Overwrite the resource behind a handle. -/
def Device.store (dev : Device) (h : Nat) (r : Resource) : Device :=
  { dev with resources := dev.resources.set h (some r) }

/-- Release of the last reference to a resource (`ComPtr::Reset`, `unique_ptr::reset`). -/
def Device.release (dev : Device) (h : Nat) : Device :=
  { dev with resources := dev.resources.set h none }

/-- A new resource enters the heap under a handle never used before. -/
def Device.alloc (dev : Device) (r : Resource) : Device × Nat :=
  ({ dev with resources := dev.resources ++ [some r] }, dev.resources.length)

/-- The device once the outcome of a platform call has been consumed. -/
def Device.afterCall (dev : Device) : Device :=
  { dev with hresults := dev.hresults.tail }

/-- Outcome of the next fallible platform call; a finished script means success. -/
def Device.platformCall (dev : Device) : HRESULT × Device :=
  (dev.hresults.headD S_OK, dev.afterCall)

/-- The device once the queue has executed one more command. -/
def Device.log (dev : Device) (c : Command) : Device :=
  { dev with executed := dev.executed ++ [c] }

/-- An environment in which no platform call fails. -/
def Device.NoFailure (dev : Device) : Prop := ∀ hr ∈ dev.hresults, 0 ≤ hr

/-- `ID3D12Resource::GetGPUVirtualAddress`. -/
def Device.GetGPUVirtualAddress (dev : Device) (h : Nat) : Nat := dev.gpu_va h

/-- `ID3D12Resource::Map`: a fallible platform call on a live resource; the mapped
pointer gives access to the bytes of the resource. -/
def Device.Map (dev : Device) (h : Nat) : Option (HRESULT × Device) :=
  match dev.resource h with
  | none => none
  | some _ => some dev.platformCall

/-- `std::memcpy(dst + dst_off, src + src_off, n)` on arrays of known extent: `none` when
a range leaves its array. -/
def memcpy (dst : List Byte) (dst_off : Nat) (src : List Byte) (src_off n : Nat) :
    Option (List Byte) :=
  if dst_off + n ≤ dst.length ∧ src_off + n ≤ src.length then
    some (dst.take dst_off ++ (src.drop src_off).take n ++ dst.drop (dst_off + n))
  else none

/-- The `n` bytes found at offset `off`; `none` when the range leaves the array. -/
def readBytes (mem : List Byte) (off n : Nat) : Option (List Byte) :=
  if off + n ≤ mem.length then some ((mem.drop off).take n) else none

/-- Modelled from the spec: the free function `d3d12::CreateBuffer` (declared outside the
given sources) is the `createBuffer(size, memoryClass, initialState, usageFlags)` of the
device collaborator.  It is one fallible platform call; on failure the out-parameter is
left alone, on success a zero-filled committed resource of `size` bytes is created. -/
def d3d12.CreateBuffer (dev : Device) (size : Nat) (heap_type : D3D12_HEAP_TYPE)
    (heap_flags : D3D12_HEAP_FLAGS) (resource_state : D3D12_RESOURCE_STATES)
    (resource_flags : D3D12_RESOURCE_FLAGS) : HRESULT × Device × Option Nat :=
  let (hr, dev) := dev.platformCall
  if FAILED hr then (hr, dev, none)
  else
    let (dev, h) := dev.alloc
      { Width := size, heap_type := heap_type, heap_flags := heap_flags,
        state := resource_state, flags := resource_flags,
        bytes := List.replicate size 0 }
    (S_OK, dev, some h)

/-! ## Shader table (`Device::CreateShaderTable`) -/

/-- Modelled from the spec: `SizeAlignTo` (declared outside the given sources) rounds a
size up to the next multiple of the alignment. -/
def SizeAlignTo (size alignment : Nat) : Nat :=
  (size + alignment - 1) / alignment * alignment

/-- Platform constant: size of a shader identifier. -/
def D3D12_SHADER_IDENTIFIER_SIZE_IN_BYTES : Nat := 32

/-- Platform constant: alignment of a shader record. -/
def D3D12_RAYTRACING_SHADER_RECORD_BYTE_ALIGNMENT : Nat := 32

/-- Platform constant: alignment of a shader table. -/
def D3D12_RAYTRACING_SHADER_TABLE_BYTE_ALIGNMENT : Nat := 64

/-- A shader identifier: the fixed-size opaque bytes behind the pointer returned by
`GetShaderIdentifier`. -/
structure ShaderIdentifier where
  bytes : List Byte
  size_eq : bytes.length = D3D12_SHADER_IDENTIFIER_SIZE_IN_BYTES

/-- The interface `ID3D12StateObjectProperties` that `CreateShaderTable` obtains from the
state object of the pipeline: `GetShaderIdentifier` returns the pointer to the identifier
of an export, and the null pointer (`none`) for a name the state object does not export. -/
structure StateObjectProperties where
  GetShaderIdentifier : String → Option ShaderIdentifier

/-- A ray tracing pipeline whose state object knows every export name it is asked for:
identifier lookup by export name that never returns null, and the three counts. -/
structure RayTracingPipeline where
  GetShaderIdentifier : String → ShaderIdentifier
  miss_shader_count_ : Nat
  hit_group_count_ : Nat
  callable_shader_count_ : Nat

/-- The properties interface of such a pipeline: every lookup returns an identifier. -/
def RayTracingPipeline.properties (self : RayTracingPipeline) : StateObjectProperties :=
  { GetShaderIdentifier := fun name => some (self.GetShaderIdentifier name) }

/-- The object built by `pp_shader_table.construct`: buffer, four offsets, three counts. -/
structure ShaderTable where
  buffer_ : Nat
  ray_gen_offset_ : Nat
  miss_offset_ : Nat
  hit_group_offset_ : Nat
  callable_offset_ : Nat
  miss_shader_count_ : Nat
  hit_group_count_ : Nat
  callable_shader_count_ : Nat
deriving DecidableEq, Repr

/-- Record stride of the shader table: the identifier size aligned to the record
alignment (`shader_record_size` in the source). -/
def shader_record_size : Nat :=
  SizeAlignTo D3D12_SHADER_IDENTIFIER_SIZE_IN_BYTES D3D12_RAYTRACING_SHADER_RECORD_BYTE_ALIGNMENT

/-- The mapped table buffer while `CreateShaderTable` fills it: the bytes behind `data`
and, kept for the proofs, the destination ranges `(offset, length)` of the copies made so
far, in the order they were made. -/
structure MappedTable where
  data : List Byte
  writes : List (Nat × Nat)

/-- `std::memcpy(data + offset, shader_idenfitier, size)`: undefined when the identifier
pointer is null or when a range leaves its array; the destination range is put on
record. -/
def MappedTable.copyIdentifier (mapped : MappedTable) (offset : Nat)
    (shader_idenfitier : Option ShaderIdentifier) (size : Nat) : Option MappedTable :=
  match shader_idenfitier with
  | none => none
  | some identifier =>
    match memcpy mapped.data offset identifier.bytes 0 size with
    | none => none
    | some data => some { data := data, writes := mapped.writes ++ [(offset, size)] }

/-- One of the three record loops of `CreateShaderTable`: for `i = start, start+1, ...`
the identifier of export `name ++ to_wstring(indices[i])` is looked up and copied to
`data + region_offset + i * shader_record_size`. -/
def copyShaderRecords (pipeline_properties : StateObjectProperties) (name : String)
    (region_offset : Nat) : List Int → Nat → MappedTable → Option MappedTable
  | [], _, mapped => some mapped
  | id :: rest, i, mapped =>
    match mapped.copyIdentifier (region_offset + i * shader_record_size)
        (pipeline_properties.GetShaderIdentifier (name ++ toString id))
        D3D12_SHADER_IDENTIFIER_SIZE_IN_BYTES with
    | none => none
    | some mapped => copyShaderRecords pipeline_properties name region_offset rest (i + 1) mapped

/-- `Device::CreateShaderTable` with explicit index lists, on the properties interface of
the state object of the pipeline.  Next to the table the result lists the destination
ranges of the copies into the mapped buffer. -/
def Device.CreateShaderTable_properties (dev : Device)
    (pipeline_properties : StateObjectProperties)
    (miss_shader_indices hit_group_indices callable_shader_indices : List Int) :
    Option (HRESULT × Device × Option (ShaderTable × List (Nat × Nat))) :=
  -- QueryInterface for the pipeline properties
  let (hr, dev) := dev.platformCall
  if FAILED hr then some (hr, dev, none)
  else
    let shader_idenfitier_size := D3D12_SHADER_IDENTIFIER_SIZE_IN_BYTES
    let shader_table_alignment := D3D12_RAYTRACING_SHADER_TABLE_BYTE_ALIGNMENT
    let accum_offset := 0
    let ray_gen_shader_offset := 0
    let accum_offset := SizeAlignTo (accum_offset + shader_record_size * 1) shader_table_alignment
    let miss_shader_offset := accum_offset
    let accum_offset :=
      SizeAlignTo (accum_offset + shader_record_size * miss_shader_indices.length)
        shader_table_alignment
    let hit_group_offset := accum_offset
    let accum_offset :=
      SizeAlignTo (accum_offset + shader_record_size * hit_group_indices.length)
        shader_table_alignment
    let callable_shader_offset := accum_offset
    let accum_offset :=
      SizeAlignTo (accum_offset + shader_record_size * callable_shader_indices.length)
        shader_table_alignment
    match d3d12.CreateBuffer dev accum_offset .UPLOAD .NONE .GENERIC_READ .NONE with
    | (hr, dev, none) => some (hr, dev, none)
    | (_, dev, some buffer) =>
      match dev.Map buffer with
      | none => none
      | some (hr, dev) =>
        if FAILED hr then some (hr, dev.release buffer, none)
        else
          match dev.resource buffer with
          | none => none
          | some res =>
            match MappedTable.copyIdentifier { data := res.bytes, writes := [] } 0
                (pipeline_properties.GetShaderIdentifier "RayGenMain")
                shader_idenfitier_size with
            | none => none
            | some mapped =>
            match copyShaderRecords pipeline_properties "MissMain" miss_shader_offset
                miss_shader_indices 0 mapped with
            | none => none
            | some mapped =>
            match copyShaderRecords pipeline_properties "HitGroup" hit_group_offset
                hit_group_indices 0 mapped with
            | none => none
            | some mapped =>
            match copyShaderRecords pipeline_properties "CallableMain"
                callable_shader_offset callable_shader_indices 0 mapped with
            | none => none
            | some mapped =>
              some (S_OK, dev.store buffer { res with bytes := mapped.data },
                some
                  ({ buffer_ := buffer
                     ray_gen_offset_ := ray_gen_shader_offset
                     miss_offset_ := miss_shader_offset
                     hit_group_offset_ := hit_group_offset
                     callable_offset_ := callable_shader_offset
                     miss_shader_count_ := miss_shader_indices.length
                     hit_group_count_ := hit_group_indices.length
                     callable_shader_count_ := callable_shader_indices.length },
                    mapped.writes))

/-- `Device::CreateShaderTable` with explicit index lists on a pipeline whose lookups never
return null: the table that `CreateShaderTable_properties` builds. -/
def Device.CreateShaderTable (dev : Device) (ray_tracing_pipeline : RayTracingPipeline)
    (miss_shader_indices hit_group_indices callable_shader_indices : List Int) :
    Option (HRESULT × Device × Option ShaderTable) :=
  (dev.CreateShaderTable_properties ray_tracing_pipeline.properties miss_shader_indices
    hit_group_indices callable_shader_indices).map
    fun result => (result.1, result.2.1, result.2.2.map Prod.fst)

/-- Every export name `CreateShaderTable` looks up for the given index lists is known to
the state object: the lookup returns an identifier, not the null pointer. -/
def StateObjectProperties.Resolves (self : StateObjectProperties)
    (miss_shader_indices hit_group_indices callable_shader_indices : List Int) : Prop :=
  (self.GetShaderIdentifier "RayGenMain").isSome = true ∧
  (∀ id ∈ miss_shader_indices,
    (self.GetShaderIdentifier ("MissMain" ++ toString id)).isSome = true) ∧
  (∀ id ∈ hit_group_indices,
    (self.GetShaderIdentifier ("HitGroup" ++ toString id)).isSome = true) ∧
  (∀ id ∈ callable_shader_indices,
    (self.GetShaderIdentifier ("CallableMain" ++ toString id)).isSome = true)

/-! ## `d3d12::Buffer` and `CopyBuffer` (`buffer.h`, `buffer.cpp`) -/

/-- The class `d3d12::Buffer`: a resource and the size it was created with. -/
structure Buffer where
  buffer_ : Nat
  allocated_size_ : Nat
deriving DecidableEq, Repr

/-- `Buffer::Size`. -/
def Buffer.Size (self : Buffer) : Nat := self.allocated_size_

/-- `Buffer::Handle`. -/
def Buffer.Handle (self : Buffer) : Nat := self.buffer_

/-- `Buffer::Map`: maps the resource and asserts that a pointer came back.  The result is
the device after the call; the mapped pointer is the byte array of the resource. -/
def Buffer.Map (self : Buffer) (dev : Device) : Option Device :=
  match dev.Map self.buffer_ with
  | none => none
  | some (hr, dev) => if FAILED hr then none else some dev

/-- `Buffer::Unmap`. -/
def Buffer.Unmap (_self : Buffer) (dev : Device) : Device := dev

/-- `CopyBuffer` of `buffer.cpp`: records, on the command list, a transition of the
destination to copy-destination (unless that is its declared state already), the copy, and
the transition back.  The header gives `src_offset` and `dst_offset` the default 0 and
`dst_original_state` the default `GENERIC_READ`; callers here pass them explicitly. -/
def CopyBuffer (command_list : List Command) (src_buffer dst_buffer : Buffer)
    (size src_offset dst_offset : Nat) (dst_original_state : D3D12_RESOURCE_STATES) :
    List Command :=
  let command_list :=
    if dst_original_state ≠ .COPY_DEST then
      command_list ++ [Command.ResourceBarrier dst_buffer.Handle dst_original_state .COPY_DEST]
    else command_list
  let command_list :=
    command_list ++
      [Command.CopyBufferRegion dst_buffer.Handle dst_offset src_buffer.Handle src_offset size]
  if dst_original_state ≠ .COPY_DEST then
    command_list ++ [Command.ResourceBarrier dst_buffer.Handle .COPY_DEST dst_original_state]
  else command_list

/-- Execution of one command by the GPU.  A barrier changes the tracked state of its
resource and moves no data; a copy is a `memcpy` between the two resources; a build is
only logged.  A command on a dead resource, or a copy leaving a resource, is
undefined. -/
def Device.executeCommand (dev : Device) : Command → Option Device
  | .ResourceBarrier resource before after =>
    match dev.resource resource with
    | none => none
    | some r =>
      some ((dev.store resource { r with state := after }).log
        (Command.ResourceBarrier resource before after))
  | .CopyBufferRegion dst dst_offset src src_offset size =>
    match dev.resource dst, dev.resource src with
    | some rd, some rs =>
      match memcpy rd.bytes dst_offset rs.bytes src_offset size with
      | none => none
      | some bytes =>
        some ((dev.store dst { rd with bytes := bytes }).log
          (Command.CopyBufferRegion dst dst_offset src src_offset size))
    | _, _ => none
  | .BuildRaytracingAccelerationStructure desc =>
    some (dev.log (Command.BuildRaytracingAccelerationStructure desc))

/-- Execution of a command list, first command first. -/
def Device.execute (dev : Device) : List Command → Option Device
  | [] => some dev
  | c :: cs =>
    match dev.executeCommand c with
    | none => none
    | some dev => dev.execute cs

/-- Modelled from the spec: `SingleTimeCommand` (of the queue and of the core, both outside
the given sources) is the synchronous single-time command: the recording function fills a
fresh command list, which is submitted and has finished when the call returns. -/
def Device.SingleTimeCommand (dev : Device) (record : List Command → List Command) :
    Option Device :=
  dev.execute (record [])

/-! ## `Device::CreateBuffer` (`device.cpp`) -/

/-- Modelled from the spec: `HeapTypeDefaultResourceState` is declared outside the given
sources.  The declared original state of a buffer is generic-read, which is also the default
of `CopyBuffer`; readback memory starts as copy destination, the state `DownloadData` of
the Static variant declares for its staging buffer. -/
def HeapTypeDefaultResourceState : D3D12_HEAP_TYPE → D3D12_RESOURCE_STATES
  | .DEFAULT => .GENERIC_READ
  | .UPLOAD => .GENERIC_READ
  | .READBACK => .COPY_DEST

/-- `Device::CreateBuffer`, full form.  On failure the result code is returned and no
`Buffer` is constructed; on success the `Buffer` records `size` as its allocated size. -/
def Device.CreateBuffer (dev : Device) (size : Nat) (heap_type : D3D12_HEAP_TYPE)
    (heap_flags : D3D12_HEAP_FLAGS) (resource_state : D3D12_RESOURCE_STATES)
    (resource_flags : D3D12_RESOURCE_FLAGS) : HRESULT × Device × Option Buffer :=
  match d3d12.CreateBuffer dev size heap_type heap_flags resource_state resource_flags with
  | (hr, dev, none) => (hr, dev, none)
  | (_, dev, some buffer) => (S_OK, dev, some { buffer_ := buffer, allocated_size_ := size })

/-- `Device::CreateBuffer(size, heap_type, resource_state, resource_flags, pp_buffer)`. -/
def Device.CreateBuffer_state_flags (dev : Device) (size : Nat) (heap_type : D3D12_HEAP_TYPE)
    (resource_state : D3D12_RESOURCE_STATES) (resource_flags : D3D12_RESOURCE_FLAGS) :
    HRESULT × Device × Option Buffer :=
  dev.CreateBuffer size heap_type .NONE resource_state resource_flags

/-- `Device::CreateBuffer(size, heap_type, resource_state, pp_buffer)`. -/
def Device.CreateBuffer_state (dev : Device) (size : Nat) (heap_type : D3D12_HEAP_TYPE)
    (resource_state : D3D12_RESOURCE_STATES) : HRESULT × Device × Option Buffer :=
  dev.CreateBuffer_state_flags size heap_type resource_state
    (if heap_type = .DEFAULT then .ALLOW_UNORDERED_ACCESS else .NONE)

/-- `Device::CreateBuffer(size, heap_type, pp_buffer)`. -/
def Device.CreateBuffer_heap (dev : Device) (size : Nat) (heap_type : D3D12_HEAP_TYPE) :
    HRESULT × Device × Option Buffer :=
  dev.CreateBuffer_state size heap_type (HeapTypeDefaultResourceState heap_type)

/-! ## The backend core (outside the given sources) -/

/-- Modelled from the spec: the state of `D3D12Core` the buffer variants use.  It owns the
device, one reusable upload and one reusable download staging buffer, the number of
frames in flight with the index of the current frame, and the external memory objects of
the second API (each names the resource it was made from; `none` once destroyed). -/
structure D3D12Core where
  device_ : Device
  upload_staging_buffer_ : Option Buffer
  download_staging_buffer_ : Option Buffer
  frames_in_flight_ : Nat
  current_frame_ : Nat
  cuda_external_memory_ : List (Option Nat)

/-- Modelled from the spec: `D3D12Core::WaitGPU` blocks until the GPU is idle; every
submission of this model is synchronous, so nothing is left to wait for. -/
def D3D12Core.WaitGPU (core : D3D12Core) : D3D12Core := core

/-- Modelled from the spec: `D3D12Core::SingleTimeCommand`, the synchronous single-time
command on the device of the core. -/
def D3D12Core.SingleTimeCommand (core : D3D12Core) (record : List Command → List Command) :
    Option D3D12Core :=
  match core.device_.SingleTimeCommand record with
  | none => none
  | some dev => some { core with device_ := dev }

/-- Modelled from the spec: `D3D12Core::RequestUploadStagingBuffer` obtains a host-visible
staging buffer of at least `size` bytes from the pool: the pooled upload buffer is kept if
it is large enough and replaced by one of `size` bytes otherwise.  The result is the
pooled buffer (null when its creation failed). -/
def D3D12Core.RequestUploadStagingBuffer (core : D3D12Core) (size : Nat) :
    D3D12Core × Option Buffer :=
  match core.upload_staging_buffer_ with
  | some b =>
    if b.Size < size then
      match (core.device_.release b.buffer_).CreateBuffer_heap size .UPLOAD with
      | (_, dev, nb) => ({ core with device_ := dev, upload_staging_buffer_ := nb }, nb)
    else (core, some b)
  | none =>
    match core.device_.CreateBuffer_heap size .UPLOAD with
    | (_, dev, nb) => ({ core with device_ := dev, upload_staging_buffer_ := nb }, nb)

/-- Modelled from the spec: `D3D12Core::RequestDownloadStagingBuffer`, the readback
counterpart of `RequestUploadStagingBuffer`. -/
def D3D12Core.RequestDownloadStagingBuffer (core : D3D12Core) (size : Nat) :
    D3D12Core × Option Buffer :=
  match core.download_staging_buffer_ with
  | some b =>
    if b.Size < size then
      match (core.device_.release b.buffer_).CreateBuffer_heap size .READBACK with
      | (_, dev, nb) => ({ core with device_ := dev, download_staging_buffer_ := nb }, nb)
    else (core, some b)
  | none =>
    match core.device_.CreateBuffer_heap size .READBACK with
    | (_, dev, nb) => ({ core with device_ := dev, download_staging_buffer_ := nb }, nb)

/-- Modelled from the spec: `D3D12Core::ImportCudaExternalMemory` brings the resource of a
buffer into the memory space of the second API; the new external memory object is
returned through `cuda_memory`.  A null buffer is dereferenced. -/
def D3D12Core.ImportCudaExternalMemory (core : D3D12Core) (buffer : Option Buffer) :
    Option (D3D12Core × Nat) :=
  match buffer with
  | none => none
  | some b =>
    some ({ core with cuda_external_memory_ := core.cuda_external_memory_ ++ [some b.Handle] },
      core.cuda_external_memory_.length)

/-- Modelled from the spec: `cudaDestroyExternalMemory` (second API) destroys an external
memory object. -/
def D3D12Core.cudaDestroyExternalMemory (core : D3D12Core) (cuda_memory : Nat) : D3D12Core :=
  { core with cuda_external_memory_ := core.cuda_external_memory_.set cuda_memory none }

/-- Write through a mapped pointer: `std::memcpy(ptr + dst_off, src + src_off, n)` where
`ptr` is the mapped pointer of the resource `h`. -/
def Device.memcpyTo (dev : Device) (h dst_off : Nat) (src : List Byte) (src_off n : Nat) :
    Option Device :=
  match dev.resource h with
  | none => none
  | some r =>
    match memcpy r.bytes dst_off src src_off n with
    | none => none
    | some bytes => some (dev.store h { r with bytes := bytes })

/-- Read through a mapped pointer: `std::memcpy(dst + dst_off, ptr + src_off, n)` where
`ptr` is the mapped pointer of the resource `h`. -/
def Device.memcpyFrom (dev : Device) (dst : List Byte) (dst_off h src_off n : Nat) :
    Option (List Byte) :=
  match dev.resource h with
  | none => none
  | some r => memcpy dst dst_off r.bytes src_off n

/-- Copy between two mapped pointers:
`std::memcpy(dst_ptr + dst_off, src_ptr + src_off, n)`. -/
def Device.memcpyMapped (dev : Device) (dst dst_off src src_off n : Nat) : Option Device :=
  match dev.resource src with
  | none => none
  | some r => dev.memcpyTo dst dst_off r.bytes src_off n

/-! ## Static buffer (`d3d12_buffer.cpp`) -/

/-- The class `D3D12StaticBuffer`: one device-local buffer. -/
structure D3D12StaticBuffer where
  buffer_ : Option Buffer
deriving DecidableEq, Repr

/-- Constructor of `D3D12StaticBuffer`; the result code of `CreateBuffer` is dropped. -/
def D3D12StaticBuffer.new (core : D3D12Core) (size : Nat) : D3D12Core × D3D12StaticBuffer :=
  match core.device_.CreateBuffer_heap size .DEFAULT with
  | (_, dev, buffer) => ({ core with device_ := dev }, { buffer_ := buffer })

/-- `D3D12StaticBuffer::Size`. -/
def D3D12StaticBuffer.Size (self : D3D12StaticBuffer) : Option Nat :=
  match self.buffer_ with
  | none => none
  | some buffer => some buffer.Size

/-- `D3D12StaticBuffer::Resize`. -/
def D3D12StaticBuffer.Resize (self : D3D12StaticBuffer) (core : D3D12Core) (new_size : Nat) :
    Option (D3D12Core × D3D12StaticBuffer) :=
  let core := core.WaitGPU
  match core.device_.CreateBuffer_heap new_size .DEFAULT with
  | (_, dev, new_buffer) =>
    let core := { core with device_ := dev }
    match self.buffer_, new_buffer with
    | some buffer, some new_buffer =>
      match core.SingleTimeCommand fun command_list =>
          CopyBuffer command_list buffer new_buffer (min buffer.Size new_size) 0 0
            .GENERIC_READ with
      | none => none
      | some core =>
        some ({ core with device_ := core.device_.release buffer.buffer_ },
          { buffer_ := some new_buffer })
    | _, _ => none

/-- `D3D12StaticBuffer::UploadData`. -/
def D3D12StaticBuffer.UploadData (self : D3D12StaticBuffer) (core : D3D12Core)
    (data : List Byte) (size offset : Nat) : Option D3D12Core :=
  let core := core.WaitGPU
  match core.RequestUploadStagingBuffer size with
  | (_, none) => none
  | (core, some staging_buffer) =>
    match staging_buffer.Map core.device_ with
    | none => none
    | some dev =>
      match dev.memcpyTo staging_buffer.buffer_ 0 data 0 size with
      | none => none
      | some dev =>
        let core := { core with device_ := staging_buffer.Unmap dev }
        match self.buffer_ with
        | none => none
        | some buffer =>
          core.SingleTimeCommand fun command_list =>
            CopyBuffer command_list staging_buffer buffer size 0 offset .GENERIC_READ

/-- `D3D12StaticBuffer::DownloadData`; `data` is the array of the caller, the result its
content after the call. -/
def D3D12StaticBuffer.DownloadData (self : D3D12StaticBuffer) (core : D3D12Core)
    (data : List Byte) (size offset : Nat) : Option (D3D12Core × List Byte) :=
  let core := core.WaitGPU
  match core.RequestDownloadStagingBuffer size, self.buffer_ with
  | (core, some staging_buffer), some buffer =>
    match core.SingleTimeCommand fun command_list =>
        CopyBuffer command_list buffer staging_buffer size offset 0 .COPY_DEST with
    | none => none
    | some core =>
      match staging_buffer.Map core.device_ with
      | none => none
      | some dev =>
        match dev.memcpyFrom data 0 staging_buffer.buffer_ 0 size with
        | none => none
        | some data => some ({ core with device_ := staging_buffer.Unmap dev }, data)
  | _, _ => none

/-- `D3D12StaticBuffer::Buffer`. -/
def D3D12StaticBuffer.Buffer (self : D3D12StaticBuffer) : Option grassland.Buffer := self.buffer_

/-- `D3D12StaticBuffer::InstantBuffer`. -/
def D3D12StaticBuffer.InstantBuffer (self : D3D12StaticBuffer) : Option grassland.Buffer := self.buffer_

/-! ## Dynamic buffer (`d3d12_buffer.cpp`) -/

/-- The class `D3D12DynamicBuffer`: one device-local buffer per frame in flight and one
staging buffer. -/
structure D3D12DynamicBuffer where
  buffers_ : List (Option Buffer)
  staging_buffer_ : Option Buffer
deriving DecidableEq, Repr

/-- The constructor loop `for i < buffers_.size()`: one `CreateBuffer` per frame, in
index order; a failed creation leaves a null entry. -/
def D3D12DynamicBuffer.createFrameBuffers (dev : Device) (size : Nat) :
    Nat → Device × List (Option Buffer)
  | 0 => (dev, [])
  | n + 1 =>
    match dev.CreateBuffer_heap size .DEFAULT with
    | (_, dev, buffer) =>
      match D3D12DynamicBuffer.createFrameBuffers dev size n with
      | (dev, buffers) => (dev, buffer :: buffers)

/-- Constructor of `D3D12DynamicBuffer`. -/
def D3D12DynamicBuffer.new (core : D3D12Core) (size : Nat) : D3D12Core × D3D12DynamicBuffer :=
  match D3D12DynamicBuffer.createFrameBuffers core.device_ size core.frames_in_flight_ with
  | (dev, buffers) =>
    match dev.CreateBuffer_heap size .UPLOAD with
    | (_, dev, staging_buffer) =>
      ({ core with device_ := dev }, { buffers_ := buffers, staging_buffer_ := staging_buffer })

/-- `D3D12DynamicBuffer::Size`. -/
def D3D12DynamicBuffer.Size (self : D3D12DynamicBuffer) : Option Nat :=
  match self.staging_buffer_ with
  | none => none
  | some buffer => some buffer.Size

/-- `D3D12DynamicBuffer::Resize`. -/
def D3D12DynamicBuffer.Resize (self : D3D12DynamicBuffer) (core : D3D12Core) (new_size : Nat) :
    Option (D3D12Core × D3D12DynamicBuffer) :=
  match core.device_.CreateBuffer_heap new_size .UPLOAD with
  | (_, dev, new_buffer) =>
    match new_buffer, self.staging_buffer_ with
    | some new_buffer, some staging_buffer =>
      match new_buffer.Map dev with
      | none => none
      | some dev =>
        match staging_buffer.Map dev with
        | none => none
        | some dev =>
          match dev.memcpyMapped new_buffer.buffer_ 0 staging_buffer.buffer_ 0
              (min new_size staging_buffer.Size) with
          | none => none
          | some dev =>
            let dev := staging_buffer.Unmap (new_buffer.Unmap dev)
            some ({ core with device_ := dev.release staging_buffer.buffer_ },
              { self with staging_buffer_ := some new_buffer })
    | _, _ => none

/-- `D3D12DynamicBuffer::UploadData`. -/
def D3D12DynamicBuffer.UploadData (self : D3D12DynamicBuffer) (core : D3D12Core)
    (data : List Byte) (size offset : Nat) : Option D3D12Core :=
  match self.staging_buffer_ with
  | none => none
  | some staging_buffer =>
    match staging_buffer.Map core.device_ with
    | none => none
    | some dev =>
      match dev.memcpyTo staging_buffer.buffer_ offset data 0 size with
      | none => none
      | some dev => some { core with device_ := staging_buffer.Unmap dev }

/-- `D3D12DynamicBuffer::DownloadData`; `data` is the array of the caller, the result its
content after the call. -/
def D3D12DynamicBuffer.DownloadData (self : D3D12DynamicBuffer) (core : D3D12Core)
    (data : List Byte) (size offset : Nat) : Option (D3D12Core × List Byte) :=
  match self.staging_buffer_ with
  | none => none
  | some staging_buffer =>
    match staging_buffer.Map core.device_ with
    | none => none
    | some dev =>
      match dev.memcpyFrom data 0 staging_buffer.buffer_ offset size with
      | none => none
      | some data => some ({ core with device_ := staging_buffer.Unmap dev }, data)

/-- `D3D12DynamicBuffer::Buffer`: the device-local copy of the current frame. -/
def D3D12DynamicBuffer.Buffer (self : D3D12DynamicBuffer) (core : D3D12Core) : Option grassland.Buffer :=
  (self.buffers_[core.current_frame_]?).join

/-- `D3D12DynamicBuffer::InstantBuffer`: the staging copy. -/
def D3D12DynamicBuffer.InstantBuffer (self : D3D12DynamicBuffer) : Option grassland.Buffer :=
  self.staging_buffer_

/-- `D3D12DynamicBuffer::TransferData`: the copy is recorded on the command list of the
caller, not executed. -/
def D3D12DynamicBuffer.TransferData (self : D3D12DynamicBuffer) (core : D3D12Core)
    (command_list : List Command) :
    Option (D3D12Core × D3D12DynamicBuffer × List Command) :=
  match self.buffers_[core.current_frame_]?, self.staging_buffer_ with
  | some (some frame_buffer), some staging_buffer =>
    if frame_buffer.Size ≠ staging_buffer.Size then
      match (core.device_.release frame_buffer.buffer_).CreateBuffer_heap staging_buffer.Size
          .DEFAULT with
      | (_, _, none) => none
      | (_, dev, some new_buffer) =>
        some ({ core with device_ := dev },
          { self with buffers_ := self.buffers_.set core.current_frame_ (some new_buffer) },
          CopyBuffer command_list staging_buffer new_buffer staging_buffer.Size 0 0
            .GENERIC_READ)
    else
      some (core, self,
        CopyBuffer command_list staging_buffer frame_buffer staging_buffer.Size 0 0
          .GENERIC_READ)
  | _, _ => none

/-! ## Interop buffer (`D3D12CUDABuffer`, `d3d12_buffer.cpp`) -/

/-- The class `D3D12CUDABuffer`: one device-local buffer and the external memory object
through which the second API sees it. -/
structure D3D12CUDABuffer where
  buffer_ : Option Buffer
  cuda_memory_ : Nat
deriving DecidableEq, Repr

/-- Constructor of `D3D12CUDABuffer`. -/
def D3D12CUDABuffer.new (core : D3D12Core) (size : Nat) : Option (D3D12Core × D3D12CUDABuffer) :=
  match core.device_.CreateBuffer size .DEFAULT .SHARED .GENERIC_READ
      .ALLOW_UNORDERED_ACCESS with
  | (_, dev, buffer) =>
    match D3D12Core.ImportCudaExternalMemory { core with device_ := dev } buffer with
    | none => none
    | some (core, cuda_memory) => some (core, { buffer_ := buffer, cuda_memory_ := cuda_memory })

/-- `D3D12CUDABuffer::Size`. -/
def D3D12CUDABuffer.Size (self : D3D12CUDABuffer) : Option Nat :=
  match self.buffer_ with
  | none => none
  | some buffer => some buffer.Size

/-- `D3D12CUDABuffer::Resize`. -/
def D3D12CUDABuffer.Resize (self : D3D12CUDABuffer) (core : D3D12Core) (new_size : Nat) :
    Option (D3D12Core × D3D12CUDABuffer) :=
  let core := core.WaitGPU
  match core.device_.CreateBuffer_heap new_size .DEFAULT with
  | (_, dev, new_buffer) =>
    let core := { core with device_ := dev }
    match self.buffer_, new_buffer with
    | some buffer, some new_buffer =>
      match core.SingleTimeCommand fun command_list =>
          CopyBuffer command_list buffer new_buffer (min buffer.Size new_size) 0 0
            .GENERIC_READ with
      | none => none
      | some core =>
        let core := core.cudaDestroyExternalMemory self.cuda_memory_
        let core := { core with device_ := core.device_.release buffer.buffer_ }
        match core.ImportCudaExternalMemory (some new_buffer) with
        | none => none
        | some (core, cuda_memory) =>
          some (core, { buffer_ := some new_buffer, cuda_memory_ := cuda_memory })
    | _, _ => none

/-- `D3D12CUDABuffer::UploadData`. -/
def D3D12CUDABuffer.UploadData (self : D3D12CUDABuffer) (core : D3D12Core)
    (data : List Byte) (size offset : Nat) : Option D3D12Core :=
  let core := core.WaitGPU
  match core.RequestUploadStagingBuffer size with
  | (_, none) => none
  | (core, some staging_buffer) =>
    match staging_buffer.Map core.device_ with
    | none => none
    | some dev =>
      match dev.memcpyTo staging_buffer.buffer_ 0 data 0 size with
      | none => none
      | some dev =>
        let core := { core with device_ := staging_buffer.Unmap dev }
        match self.buffer_ with
        | none => none
        | some buffer =>
          core.SingleTimeCommand fun command_list =>
            CopyBuffer command_list staging_buffer buffer size 0 offset .GENERIC_READ

/-- `D3D12CUDABuffer::DownloadData`; `data` is the array of the caller, the result its
content after the call.  The pointer obtained from the pool is overwritten by a readback
buffer created on the spot (kept when that creation fails). -/
def D3D12CUDABuffer.DownloadData (self : D3D12CUDABuffer) (core : D3D12Core)
    (data : List Byte) (size offset : Nat) : Option (D3D12Core × List Byte) :=
  let core := core.WaitGPU
  match core.RequestDownloadStagingBuffer size with
  | (core, staging_buffer) =>
    match core.device_.CreateBuffer_heap size .READBACK with
    | (_, dev, created) =>
      let core := { core with device_ := dev }
      let staging_buffer := if created.isSome then created else staging_buffer
      match staging_buffer, self.buffer_ with
      | some staging_buffer, some buffer =>
        match core.SingleTimeCommand fun command_list =>
            CopyBuffer command_list buffer staging_buffer size offset 0 .GENERIC_READ with
        | none => none
        | some core =>
          match staging_buffer.Map core.device_ with
          | none => none
          | some dev =>
            match dev.memcpyFrom data 0 staging_buffer.buffer_ 0 size with
            | none => none
            | some data => some ({ core with device_ := staging_buffer.Unmap dev }, data)
      | _, _ => none

/-- `D3D12CUDABuffer::Buffer`. -/
def D3D12CUDABuffer.Buffer (self : D3D12CUDABuffer) : Option grassland.Buffer := self.buffer_

/-- `D3D12CUDABuffer::InstantBuffer`. -/
def D3D12CUDABuffer.InstantBuffer (self : D3D12CUDABuffer) : Option grassland.Buffer := self.buffer_
/-! ## Transient pool (`Device::RequestScratchBuffer`, `Device::RequestInstanceBuffer`) -/

/-- Assignment to the member `scratch_buffer_`. -/
def Device.setScratch (dev : Device) (p : Option Nat) : Device :=
  { dev with scratch_buffer_ := p }

/-- Assignment to the member `instance_buffer_`. -/
def Device.setInstance (dev : Device) (p : Option Nat) : Device :=
  { dev with instance_buffer_ := p }

/-- `Device::RequestScratchBuffer`.  The outer `Option` is `none` only when the pooled
pointer dangles (its description cannot be read); the inner one is the returned pointer,
null when the pool is empty after a failed creation. -/
def Device.RequestScratchBuffer (dev : Device) (size : Nat) : Option (Device × Option Nat) :=
  match dev.scratch_buffer_ with
  | none =>
    match d3d12.CreateBuffer dev size .DEFAULT .NONE .COMMON .ALLOW_UNORDERED_ACCESS with
    | (_, dev, created) => some (dev.setScratch created, created)
  | some h =>
    match dev.resource h with
    | none => none
    | some r =>
      if r.Width < size then
        match d3d12.CreateBuffer ((dev.release h).setScratch none) size .DEFAULT .NONE .COMMON
            .ALLOW_UNORDERED_ACCESS with
        | (_, dev, created) => some (dev.setScratch created, created)
      else some (dev, some h)

/-- `Device::RequestInstanceBuffer`. -/
def Device.RequestInstanceBuffer (dev : Device) (size : Nat) : Option (Device × Option Nat) :=
  match dev.instance_buffer_ with
  | none =>
    match d3d12.CreateBuffer dev size .UPLOAD .NONE .GENERIC_READ .NONE with
    | (_, dev, created) => some (dev.setInstance created, created)
  | some h =>
    match dev.resource h with
    | none => none
    | some r =>
      if r.Width < size then
        match d3d12.CreateBuffer ((dev.release h).setInstance none) size .UPLOAD .NONE
            .GENERIC_READ .NONE with
        | (_, dev, created) => some (dev.setInstance created, created)
      else some (dev, some h)

/-- The two purposes the transient pool keeps a buffer for. -/
inductive PoolPurpose where
  | Scratch
  | Instance
deriving DecidableEq, Repr

/-- The pooled buffer of a purpose. -/
def Device.pooled (dev : Device) : PoolPurpose → Option Nat
  | .Scratch => dev.scratch_buffer_
  | .Instance => dev.instance_buffer_

/-- The request function of a purpose. -/
def Device.Request (dev : Device) : PoolPurpose → Nat → Option (Device × Option Nat)
  | .Scratch => dev.RequestScratchBuffer
  | .Instance => dev.RequestInstanceBuffer

/-- Capacity of the pool for a purpose: `GetDesc().Width` of the pooled buffer, 0 for an
empty pool. -/
def Device.capacity (dev : Device) (p : PoolPurpose) : Nat :=
  match dev.pooled p with
  | none => 0
  | some h =>
    match dev.resource h with
    | none => 0
    | some r => r.Width

/-- A session of requests to the pool, in order; `none` as soon as one is undefined. -/
def Device.RequestAll (dev : Device) : List (PoolPurpose × Nat) → Option Device
  | [] => some dev
  | (p, size) :: rest =>
    match dev.Request p size with
    | none => none
    | some (dev, _) => dev.RequestAll rest

/-- Invariant of the pool: a pooled buffer is live and as long as its description says,
and the two purposes do not share a resource. -/
def Device.PoolValid (dev : Device) : Prop :=
  (∀ p h, dev.pooled p = some h → ∃ r, dev.resource h = some r ∧ r.bytes.length = r.Width) ∧
  (∀ h1 h2, dev.scratch_buffer_ = some h1 → dev.instance_buffer_ = some h2 → h1 ≠ h2)

/-! ## Top-level acceleration structure (`Device::CreateTopLevelAccelerationStructure`) -/

/-- A 32-bit float, by its bit pattern; floats are only copied here. -/
structure FLOAT where
  bits : Nat
deriving DecidableEq, Repr

/-- The matrix type `glm::mat4`: `m c r` is `m[c][r]`, row `r` of column `c`. -/
abbrev mat4 := Fin 4 → Fin 4 → FLOAT

/-- Modelled from the spec: the instance record `D3D12_RAYTRACING_INSTANCE_DESC` is
declared in the platform headers.  It carries a row-major 3x4 transform, an instance
identifier, a visibility mask, a hit group contribution, flags, and the address of a
bottom-level structure.  `InstanceID` is a bit-field of 24 bits: an assignment to it keeps
the value modulo `2^24`.  The other values the source assigns (the mask `0xFF`, the
contribution 0, the flag) fit their bit-fields and are held as they are. -/
structure D3D12_RAYTRACING_INSTANCE_DESC where
  Transform : Fin 3 → Fin 4 → FLOAT
  InstanceID : Nat
  InstanceMask : Nat
  InstanceContributionToHitGroupIndex : Nat
  Flags : Nat
  AccelerationStructure : Nat

/-- Modelled from the spec: the class `AccelerationStructure` (outside the given sources)
wraps the result buffer and the primitive or instance count it is constructed with. -/
structure AccelerationStructure where
  as_ : Nat
  primitive_count_ : Nat
deriving DecidableEq, Repr

/-- `AccelerationStructure::Handle`. -/
def AccelerationStructure.Handle (self : AccelerationStructure) : Nat := self.as_

/-- In-memory representation of an instance record: `sizeof` bytes per record. -/
structure InstanceLayout where
  encode : D3D12_RAYTRACING_INSTANCE_DESC → List Byte
  size_eq : ∀ d, (encode d).length = sizeof_D3D12_RAYTRACING_INSTANCE_DESC

/-- The bytes of `instances.data()`: the records one after the other. -/
def InstanceLayout.encodeAll (layout : InstanceLayout)
    (instances : List D3D12_RAYTRACING_INSTANCE_DESC) : List Byte :=
  instances.flatMap layout.encode

/-- `Device::CreateTopLevelAccelerationStructure`, instance-record overload. -/
def Device.CreateTopLevelAccelerationStructure_instances (dev : Device)
    (layout : InstanceLayout) (instances : List D3D12_RAYTRACING_INSTANCE_DESC) :
    Option (HRESULT × Device × Option AccelerationStructure) :=
  match dev.RequestInstanceBuffer (sizeof_D3D12_RAYTRACING_INSTANCE_DESC * instances.length) with
  | none => none
  | some (_, none) => none
  | some (dev, some instance_buffer) =>
    match dev.Map instance_buffer with
    | none => none
    | some (hr, dev) =>
      if FAILED hr then some (hr, dev, none)
      else
        match dev.memcpyTo instance_buffer 0 (layout.encodeAll instances) 0
            (instances.length * sizeof_D3D12_RAYTRACING_INSTANCE_DESC) with
        | none => none
        | some dev =>
          let as_inputs : D3D12_BUILD_RAYTRACING_ACCELERATION_STRUCTURE_INPUTS :=
            { Type_ := .TOP_LEVEL
              NumDescs := instances.length
              Flags := D3D12_RAYTRACING_ACCELERATION_STRUCTURE_BUILD_FLAG_PREFER_FAST_TRACE |||
                D3D12_RAYTRACING_ACCELERATION_STRUCTURE_BUILD_FLAG_ALLOW_UPDATE
              pGeometryDescs := []
              InstanceDescs := dev.GetGPUVirtualAddress instance_buffer }
          let as_prebuild_info := dev.prebuild as_inputs
          match dev.RequestScratchBuffer as_prebuild_info.ScratchDataSizeInBytes with
          | none => none
          | some (dev, scratch_buffer) =>
            match d3d12.CreateBuffer dev as_prebuild_info.ResultDataMaxSizeInBytes .DEFAULT
                .NONE .RAYTRACING_ACCELERATION_STRUCTURE .ALLOW_UNORDERED_ACCESS with
            | (hr, dev, none) => some (hr, dev, none)
            | (_, dev, some as) =>
              match scratch_buffer with
              | none => none
              | some scratch_buffer =>
                let as_desc : D3D12_BUILD_RAYTRACING_ACCELERATION_STRUCTURE_DESC :=
                  { Inputs := as_inputs
                    ScratchAccelerationStructureData := dev.GetGPUVirtualAddress scratch_buffer
                    DestAccelerationStructureData := dev.GetGPUVirtualAddress as
                    SourceAccelerationStructureData := 0 }
                -- QueryInterface for the command list interface, inside the recording
                match dev.platformCall with
                | (hr, dev) =>
                  match dev.SingleTimeCommand fun command_list =>
                      if SUCCEEDED hr then
                        command_list ++ [Command.BuildRaytracingAccelerationStructure as_desc]
                      else command_list with
                  | none => none
                  | some dev =>
                    some (S_OK, dev,
                      some { as_ := as, primitive_count_ := instances.length })

/-- The instance record the object overload fills in for `objects[i]`; the assignment
`instance_desc.InstanceID = i` stores `i` in a field of 24 bits. -/
def Device.instanceDesc (dev : Device) (i : Nat) (object : AccelerationStructure × mat4) :
    D3D12_RAYTRACING_INSTANCE_DESC :=
  { Transform :=
      ![![object.2 0 0, object.2 1 0, object.2 2 0, object.2 3 0],
        ![object.2 0 1, object.2 1 1, object.2 2 1, object.2 3 1],
        ![object.2 0 2, object.2 1 2, object.2 2 2, object.2 3 2]]
    InstanceID := i % 2 ^ 24
    InstanceMask := 0xFF
    InstanceContributionToHitGroupIndex := 0
    Flags := D3D12_RAYTRACING_INSTANCE_FLAG_TRIANGLE_CULL_DISABLE
    AccelerationStructure := dev.GetGPUVirtualAddress object.1.Handle }

/-- The loop of the object overload: record `i` is made from `objects[i]` and pushed to
the back of `instance_descs`. -/
def Device.instanceDescs (dev : Device) :
    List (AccelerationStructure × mat4) → Nat → List D3D12_RAYTRACING_INSTANCE_DESC
  | [], _ => []
  | object :: objects, i => dev.instanceDesc i object :: dev.instanceDescs objects (i + 1)

/-- `Device::CreateTopLevelAccelerationStructure`, object overload. -/
def Device.CreateTopLevelAccelerationStructure (dev : Device) (layout : InstanceLayout)
    (objects : List (AccelerationStructure × mat4)) :
    Option (HRESULT × Device × Option AccelerationStructure) :=
  dev.CreateTopLevelAccelerationStructure_instances layout (dev.instanceDescs objects 0)

/-! ## Bottom-level acceleration structure (`Device::CreateBottomLevelAccelerationStructure`) -/

/-- The text the AABB overload and the triangle overload of
`Device::CreateBottomLevelAccelerationStructure` share word for word, from `build_flags`
to `return S_OK`: build inputs with the one geometry, prebuild query, scratch request,
result buffer, build command, handle.  The prebuild query returns nothing; the pointer
returned by `RequestScratchBuffer` is dereferenced after the result buffer exists. -/
def Device.buildBottomLevel (dev : Device) (geometry : D3D12_RAYTRACING_GEOMETRY_DESC)
    (primitive_count : Nat) : Option (HRESULT × Device × Option AccelerationStructure) :=
  let build_flags := D3D12_RAYTRACING_ACCELERATION_STRUCTURE_BUILD_FLAG_PREFER_FAST_TRACE
  let as_inputs : D3D12_BUILD_RAYTRACING_ACCELERATION_STRUCTURE_INPUTS :=
    { Type_ := .BOTTOM_LEVEL
      NumDescs := 1
      Flags := build_flags
      pGeometryDescs := [geometry]
      InstanceDescs := 0 }
  let as_prebuild_info := dev.prebuild as_inputs
  match dev.RequestScratchBuffer as_prebuild_info.ScratchDataSizeInBytes with
  | none => none
  | some (dev, scratch_buffer) =>
    match d3d12.CreateBuffer dev as_prebuild_info.ResultDataMaxSizeInBytes .DEFAULT
        .NONE .RAYTRACING_ACCELERATION_STRUCTURE .ALLOW_UNORDERED_ACCESS with
    | (hr, dev, none) => some (hr, dev, none)
    | (_, dev, some as) =>
      match scratch_buffer with
      | none => none
      | some scratch_buffer =>
        let as_desc : D3D12_BUILD_RAYTRACING_ACCELERATION_STRUCTURE_DESC :=
          { Inputs := as_inputs
            ScratchAccelerationStructureData := dev.GetGPUVirtualAddress scratch_buffer
            DestAccelerationStructureData := dev.GetGPUVirtualAddress as
            SourceAccelerationStructureData := 0 }
        -- QueryInterface for the command list interface, inside the recording
        match dev.platformCall with
        | (hr, dev) =>
          match dev.SingleTimeCommand fun command_list =>
              if SUCCEEDED hr then
                command_list ++ [Command.BuildRaytracingAccelerationStructure as_desc]
              else command_list with
          | none => none
          | some dev =>
            some (S_OK, dev, some { as_ := as, primitive_count_ := primitive_count })

/-- `Device::CreateBottomLevelAccelerationStructure`, AABB overload.  The four numeric
parameters are `D3D12_GPU_VIRTUAL_ADDRESS`, `uint32_t`, `uint32_t` and the geometry
flags. -/
def Device.CreateBottomLevelAccelerationStructure_aabb (dev : Device)
    (aabb_buffer stride num_aabb flags : Nat) :
    Option (HRESULT × Device × Option AccelerationStructure) :=
  dev.buildBottomLevel (.AABBS aabb_buffer stride num_aabb flags) num_aabb

/-- `Device::CreateBottomLevelAccelerationStructure`, triangle overload with geometry
flags.  `primitive_count` is a `uint32_t`, so `primitive_count * 3` is computed modulo
`2^32`. -/
def Device.CreateBottomLevelAccelerationStructure_triangles (dev : Device)
    (vertex_buffer index_buffer num_vertex stride primitive_count flags : Nat) :
    Option (HRESULT × Device × Option AccelerationStructure) :=
  dev.buildBottomLevel
    (.TRIANGLES vertex_buffer stride num_vertex .R32G32B32_FLOAT index_buffer
      (primitive_count * 3 % 2 ^ 32) .R32_UINT 0 flags)
    primitive_count

/-- The two geometry forms of a bottom-level build, each with the arguments of its
overload. -/
inductive BottomLevelForm where
  | aabb (aabb_buffer stride num_aabb flags : Nat)
  | triangles (vertex_buffer index_buffer num_vertex stride primitive_count flags : Nat)
deriving DecidableEq, Repr

/-- The build entry point of a form. -/
def Device.CreateBottomLevelAccelerationStructure (dev : Device) :
    BottomLevelForm → Option (HRESULT × Device × Option AccelerationStructure)
  | .aabb aabb_buffer stride num_aabb flags =>
    dev.CreateBottomLevelAccelerationStructure_aabb aabb_buffer stride num_aabb flags
  | .triangles vertex_buffer index_buffer num_vertex stride primitive_count flags =>
    dev.CreateBottomLevelAccelerationStructure_triangles vertex_buffer index_buffer num_vertex
      stride primitive_count flags

/-- The primitive count the caller passes to a form. -/
def BottomLevelForm.primitive_count : BottomLevelForm → Nat
  | .aabb _ _ num_aabb _ => num_aabb
  | .triangles _ _ _ _ primitive_count _ => primitive_count

/-- The geometry description a form builds. -/
def BottomLevelForm.geometry : BottomLevelForm → D3D12_RAYTRACING_GEOMETRY_DESC
  | .aabb aabb_buffer stride num_aabb flags => .AABBS aabb_buffer stride num_aabb flags
  | .triangles vertex_buffer index_buffer num_vertex stride primitive_count flags =>
    .TRIANGLES vertex_buffer stride num_vertex .R32G32B32_FLOAT index_buffer
      (primitive_count * 3 % 2 ^ 32) .R32_UINT 0 flags

/-- The build inputs a bottom-level build hands to the prebuild query and to the build
command. -/
def BottomLevelForm.inputs (form : BottomLevelForm) :
    D3D12_BUILD_RAYTRACING_ACCELERATION_STRUCTURE_INPUTS :=
  { Type_ := .BOTTOM_LEVEL
    NumDescs := 1
    Flags := D3D12_RAYTRACING_ACCELERATION_STRUCTURE_BUILD_FLAG_PREFER_FAST_TRACE
    pGeometryDescs := [form.geometry]
    InstanceDescs := 0 }

/-- `Device::CreateBottomLevelAccelerationStructure`, triangle overload without geometry
flags: it passes `NO_DUPLICATE_ANYHIT_INVOCATION`. -/
def Device.CreateBottomLevelAccelerationStructure_default_flags (dev : Device)
    (vertex_buffer index_buffer num_vertex stride primitive_count : Nat) :
    Option (HRESULT × Device × Option AccelerationStructure) :=
  dev.CreateBottomLevelAccelerationStructure_triangles vertex_buffer index_buffer num_vertex
    stride primitive_count D3D12_RAYTRACING_GEOMETRY_FLAG_NO_DUPLICATE_ANYHIT_INVOCATION

/-- Size of `uint32_t` in bytes. -/
def sizeof_uint32_t : Nat := 4

/-- `Device::CreateBottomLevelAccelerationStructure`, overload taking the vertex and the
index buffer.  `stride` is a `uint32_t`; the two quotients are computed in `size_t` and
then passed to `uint32_t` parameters, which keeps their low 32 bits; a division by zero is
undefined. -/
def Device.CreateBottomLevelAccelerationStructure_buffers (dev : Device)
    (vertex_buffer index_buffer : Buffer) (stride : Nat) :
    Option (HRESULT × Device × Option AccelerationStructure) :=
  if stride = 0 then none
  else
    dev.CreateBottomLevelAccelerationStructure_default_flags
      (dev.GetGPUVirtualAddress vertex_buffer.Handle)
      (dev.GetGPUVirtualAddress index_buffer.Handle)
      (vertex_buffer.Size / stride % 2 ^ 32) stride
      (index_buffer.Size / (sizeof_uint32_t * 3) % 2 ^ 32)

/-! ## Ray tracing pipeline (`Device::CreateRayTracingPipeline`) and the default shader table -/

/-- Modelled from the spec: the class `ShaderModule` (declared outside the given sources)
gives the compiled code of a shader (`Handle`) and the name of its entry point
(`EntryPoint`). -/
structure ShaderModule where
  code : Nat
  entry_point : String
deriving DecidableEq, Repr

/-- Modelled from the spec: the structure `HitGroup` (declared outside the given sources):
a closest-hit shader, optional any-hit and intersection shaders (null when absent), and
whether the group is procedural. -/
structure HitGroup where
  closest_hit_shader : ShaderModule
  any_hit_shader : Option ShaderModule
  intersection_shader : Option ShaderModule
  procedure : Bool
deriving DecidableEq, Repr

/-- Hit group types of the platform headers. -/
inductive D3D12_HIT_GROUP_TYPE where
  | TRIANGLES
  | PROCEDURAL_PRIMITIVE
deriving DecidableEq, Repr

/-- A subobject of a state object description, with what the sources set on it: a DXIL
library with its one export (`DefineExport(name, export_to_rename)`), a hit group with its
export name and shader imports, and the three configuration subobjects. -/
inductive Subobject where
  | DXIL_LIBRARY (library : Nat) (name export_to_rename : String)
  | HIT_GROUP (hit_group_export closest_hit_import : String)
      (intersection_import any_hit_import : Option String) (type : D3D12_HIT_GROUP_TYPE)
  | RAYTRACING_SHADER_CONFIG (max_payload_size max_attribute_size : Nat)
  | GLOBAL_ROOT_SIGNATURE (root_signature : Nat)
  | RAYTRACING_PIPELINE_CONFIG (max_trace_recursion_depth : Nat)
deriving DecidableEq, Repr

/-- Size of `float` in bytes. -/
def sizeof_float : Nat := 4

/-- The loop over `miss_shaders` of `CreateRayTracingPipeline`: shader `i` becomes a library
exporting `"MissMain" + to_wstring(i)`. -/
def missLibraries : List ShaderModule → Nat → List Subobject
  | [], _ => []
  | miss_shader :: rest, i =>
    Subobject.DXIL_LIBRARY miss_shader.code ("MissMain" ++ toString i) miss_shader.entry_point ::
      missLibraries rest (i + 1)

/-- The subobjects one pass of the loop over `hit_groups` creates, in the order of the
`CreateSubobject` calls: the hit group, the closest-hit library, then the intersection and
any-hit libraries when the group has these shaders. -/
def hitGroupSubobjectsOf (hit_group : HitGroup) (i : Nat) : List Subobject :=
  [Subobject.HIT_GROUP ("HitGroup" ++ toString i) ("ClosestHitMain" ++ toString i)
      (hit_group.intersection_shader.map fun _ => "IntersectionMain" ++ toString i)
      (hit_group.any_hit_shader.map fun _ => "AnyHitMain" ++ toString i)
      (if hit_group.procedure then .PROCEDURAL_PRIMITIVE else .TRIANGLES),
    Subobject.DXIL_LIBRARY hit_group.closest_hit_shader.code ("ClosestHitMain" ++ toString i)
      hit_group.closest_hit_shader.entry_point] ++
  (match hit_group.intersection_shader with
    | some shader =>
      [Subobject.DXIL_LIBRARY shader.code ("IntersectionMain" ++ toString i) shader.entry_point]
    | none => []) ++
  (match hit_group.any_hit_shader with
    | some shader =>
      [Subobject.DXIL_LIBRARY shader.code ("AnyHitMain" ++ toString i) shader.entry_point]
    | none => [])

/-- The loop over `hit_groups` of `CreateRayTracingPipeline`. -/
def hitGroupSubobjects : List HitGroup → Nat → List Subobject
  | [], _ => []
  | hit_group :: rest, i => hitGroupSubobjectsOf hit_group i ++ hitGroupSubobjects rest (i + 1)

/-- The loop over `callable_shaders` of `CreateRayTracingPipeline`. -/
def callableLibraries : List ShaderModule → Nat → List Subobject
  | [], _ => []
  | callable_shader :: rest, i =>
    Subobject.DXIL_LIBRARY callable_shader.code ("CallableMain" ++ toString i)
        callable_shader.entry_point ::
      callableLibraries rest (i + 1)

/-- The state object description `pipeline_desc` that `CreateRayTracingPipeline` hands to
`CreateStateObject`. -/
def rayTracingPipelineDesc (root_signature : Nat) (ray_gen_shader : ShaderModule)
    (miss_shaders : List ShaderModule) (hit_groups : List HitGroup)
    (callable_shaders : List ShaderModule) : List Subobject :=
  [Subobject.DXIL_LIBRARY ray_gen_shader.code "RayGenMain" ray_gen_shader.entry_point] ++
    missLibraries miss_shaders 0 ++ hitGroupSubobjects hit_groups 0 ++
    callableLibraries callable_shaders 0 ++
    [Subobject.RAYTRACING_SHADER_CONFIG (512 * sizeof_float) (4 * sizeof_float),
     Subobject.GLOBAL_ROOT_SIGNATURE root_signature,
     Subobject.RAYTRACING_PIPELINE_CONFIG 31]

/-- `Device::CreateRayTracingPipeline`.  `CreateStateObject` is one fallible platform
call; `properties` is the answer of the platform to `GetShaderIdentifier` on the state
object made from a description.  The pipeline object is constructed with the state object
and the three counts. -/
def Device.CreateRayTracingPipeline (dev : Device)
    (properties : List Subobject → String → ShaderIdentifier) (root_signature : Nat)
    (ray_gen_shader : ShaderModule) (miss_shaders : List ShaderModule)
    (hit_groups : List HitGroup) (callable_shaders : List ShaderModule) :
    HRESULT × Device × Option RayTracingPipeline :=
  let pipeline_desc :=
    rayTracingPipelineDesc root_signature ray_gen_shader miss_shaders hit_groups
      callable_shaders
  let (hr, dev) := dev.platformCall
  if FAILED hr then (hr, dev, none)
  else
    (S_OK, dev,
      some
        { GetShaderIdentifier := properties pipeline_desc
          miss_shader_count_ := miss_shaders.length
          hit_group_count_ := hit_groups.length
          callable_shader_count_ := callable_shaders.length })

/-- `std::iota(first, last, value)`: the elements are overwritten by `value`, `value + 1`,
and so on.  The elements are `int32_t`; a vector a pipeline can give rise to stays far
below `2^31` elements, so the values are not reduced. -/
def iota : List Int → Int → List Int
  | [], _ => []
  | _ :: rest, value => value :: iota rest (value + 1)

/-- `Device::CreateShaderTable(ray_tracing_pipeline, pp_shader_table)`: the index lists
are vectors of the three counts, filled by `std::iota` from 0. -/
def Device.CreateShaderTable_default (dev : Device) (ray_tracing_pipeline : RayTracingPipeline) :
    Option (HRESULT × Device × Option ShaderTable) :=
  let miss_shader_indices := iota (List.replicate ray_tracing_pipeline.miss_shader_count_ 0) 0
  let hit_group_indices := iota (List.replicate ray_tracing_pipeline.hit_group_count_ 0) 0
  let callable_shader_indices :=
    iota (List.replicate ray_tracing_pipeline.callable_shader_count_ 0) 0
  dev.CreateShaderTable ray_tracing_pipeline miss_shader_indices hit_group_indices
    callable_shader_indices

/-- Modelled from the spec: the index list `[0 .. n-1]`. -/
def indexRange (n : Nat) : List Int := (List.range n).map Int.ofNat

/-! ## Object invariants -/

/-- A `Buffer` object is valid on a device: its resource is live and has the size the
object recorded. -/
def Buffer.Valid (self : Buffer) (dev : Device) : Prop :=
  ∃ r, dev.resource self.buffer_ = some r ∧ r.Width = self.allocated_size_ ∧
    r.bytes.length = self.allocated_size_

/-- The bytes of the resource behind a buffer. -/
def Buffer.bytes (self : Buffer) (dev : Device) : Option (List Byte) :=
  match dev.resource self.buffer_ with
  | none => none
  | some r => some r.bytes

/-- The core owns the resource `h` as one of its staging buffers. -/
def D3D12Core.ownsStaging (core : D3D12Core) (h : Nat) : Prop :=
  (∃ b, core.upload_staging_buffer_ = some b ∧ b.buffer_ = h) ∨
  (∃ b, core.download_staging_buffer_ = some b ∧ b.buffer_ = h)

/-- Invariant of the core: no platform call fails, and the pooled staging buffers are
valid and distinct. -/
def D3D12Core.Valid (core : D3D12Core) : Prop :=
  core.device_.NoFailure ∧
  (∀ b, core.upload_staging_buffer_ = some b → b.Valid core.device_) ∧
  (∀ b, core.download_staging_buffer_ = some b → b.Valid core.device_) ∧
  (∀ b c, core.upload_staging_buffer_ = some b → core.download_staging_buffer_ = some c →
    b.buffer_ ≠ c.buffer_)

/-- Invariant of a Static buffer: its buffer exists, is valid, and is not one of the
staging buffers of the core. -/
def D3D12StaticBuffer.Valid (self : D3D12StaticBuffer) (core : D3D12Core) : Prop :=
  ∃ b, self.buffer_ = some b ∧ b.Valid core.device_ ∧ ¬ core.ownsStaging b.buffer_

/-- Invariant of an Interop buffer: its buffer exists, is valid, and is not one of the
staging buffers of the core. -/
def D3D12CUDABuffer.Valid (self : D3D12CUDABuffer) (core : D3D12Core) : Prop :=
  ∃ b, self.buffer_ = some b ∧ b.Valid core.device_ ∧ ¬ core.ownsStaging b.buffer_

/-- Invariant of a Dynamic buffer: there is one non-null device-local buffer per frame in
flight, the current frame index is in range, the staging buffer exists, and the buffers
owned by the object are valid and are distinct resources. -/
def D3D12DynamicBuffer.Valid (self : D3D12DynamicBuffer) (core : D3D12Core) : Prop :=
  self.buffers_.length = core.frames_in_flight_ ∧
  core.current_frame_ < core.frames_in_flight_ ∧
  ∃ sb, self.staging_buffer_ = some sb ∧ sb.Valid core.device_ ∧
    ∃ fbs : List grassland.Buffer, self.buffers_ = fbs.map some ∧
      (∀ fb ∈ fbs, fb.Valid core.device_) ∧
      ((sb :: fbs).map fun b : grassland.Buffer => b.buffer_).Nodup

/-- One step of a session with a Dynamic buffer: a call of one of its four operations, or
the renderer moving on to another frame. -/
inductive DynamicOp where
  | Resize (new_size : Nat)
  | UploadData (data : List Byte) (size offset : Nat)
  | DownloadData (data : List Byte) (size offset : Nat)
  | TransferData (command_list : List Command)
  | NextFrame (frame : Nat)

/-- Effect of one step on the core and the buffer. -/
def DynamicOp.apply (op : DynamicOp) (st : D3D12Core × D3D12DynamicBuffer) :
    Option (D3D12Core × D3D12DynamicBuffer) :=
  match op with
  | .Resize new_size => st.2.Resize st.1 new_size
  | .UploadData data size offset =>
    match st.2.UploadData st.1 data size offset with
    | none => none
    | some core => some (core, st.2)
  | .DownloadData data size offset =>
    match st.2.DownloadData st.1 data size offset with
    | none => none
    | some (core, _) => some (core, st.2)
  | .TransferData command_list =>
    match st.2.TransferData st.1 command_list with
    | none => none
    | some (core, self, _) => some (core, self)
  | .NextFrame frame => some ({ st.1 with current_frame_ := frame }, st.2)

/-- A step respects the preconditions of the call: an upload or download stays within
`Size()` and within the array of the caller; a frame index is below the number of frames
in flight. -/
def DynamicOp.Admissible (op : DynamicOp) (st : D3D12Core × D3D12DynamicBuffer) : Prop :=
  match op with
  | .Resize _ => True
  | .UploadData data size offset =>
    size ≤ data.length ∧ ∃ n, st.2.Size = some n ∧ offset + size ≤ n
  | .DownloadData data size offset =>
    size ≤ data.length ∧ ∃ n, st.2.Size = some n ∧ offset + size ≤ n
  | .TransferData _ => True
  | .NextFrame frame => frame < st.1.frames_in_flight_

/-- A session: the steps in order; `none` as soon as one is undefined. -/
def DynamicOp.runAll :
    List DynamicOp → D3D12Core × D3D12DynamicBuffer → Option (D3D12Core × D3D12DynamicBuffer)
  | [], st => some st
  | op :: ops, st =>
    match op.apply st with
    | none => none
    | some st => DynamicOp.runAll ops st

/-- Every step of a session respects its preconditions in the state it is taken in. -/
def DynamicOp.AdmissibleAll :
    List DynamicOp → D3D12Core × D3D12DynamicBuffer → Prop
  | [], _ => True
  | op :: ops, st =>
    op.Admissible st ∧ ∀ st2, op.apply st = some st2 → DynamicOp.AdmissibleAll ops st2

/-! ## The buffer interface

The three variants implement one interface (`Size`, `Resize`, `UploadData`,
`DownloadData`); a call through the interface dispatches on the variant. -/

/-- A buffer behind the interface `D3D12Buffer`. -/
inductive D3D12Buffer where
  | Static (b : D3D12StaticBuffer)
  | Dynamic (b : D3D12DynamicBuffer)
  | Interop (b : D3D12CUDABuffer)
deriving DecidableEq, Repr

/-- Virtual call of `Size`. -/
def D3D12Buffer.Size : D3D12Buffer → Option Nat
  | .Static b => b.Size
  | .Dynamic b => b.Size
  | .Interop b => b.Size

/-- Virtual call of `Resize`. -/
def D3D12Buffer.Resize (self : D3D12Buffer) (core : D3D12Core) (new_size : Nat) :
    Option (D3D12Core × D3D12Buffer) :=
  match self with
  | .Static b => (b.Resize core new_size).map fun p => (p.1, .Static p.2)
  | .Dynamic b => (b.Resize core new_size).map fun p => (p.1, .Dynamic p.2)
  | .Interop b => (b.Resize core new_size).map fun p => (p.1, .Interop p.2)

/-- Virtual call of `UploadData`. -/
def D3D12Buffer.UploadData (self : D3D12Buffer) (core : D3D12Core) (data : List Byte)
    (size offset : Nat) : Option D3D12Core :=
  match self with
  | .Static b => b.UploadData core data size offset
  | .Dynamic b => b.UploadData core data size offset
  | .Interop b => b.UploadData core data size offset

/-- Virtual call of `DownloadData`. -/
def D3D12Buffer.DownloadData (self : D3D12Buffer) (core : D3D12Core) (data : List Byte)
    (size offset : Nat) : Option (D3D12Core × List Byte) :=
  match self with
  | .Static b => b.DownloadData core data size offset
  | .Dynamic b => b.DownloadData core data size offset
  | .Interop b => b.DownloadData core data size offset

/-- Virtual call of `InstantBuffer`: the buffer object `UploadData` and `DownloadData`
address. -/
def D3D12Buffer.InstantBuffer : D3D12Buffer → Option Buffer
  | .Static b => b.InstantBuffer
  | .Dynamic b => b.InstantBuffer
  | .Interop b => b.InstantBuffer

/-- Invariant of a buffer behind the interface. -/
def D3D12Buffer.Valid (self : D3D12Buffer) (core : D3D12Core) : Prop :=
  match self with
  | .Static b => b.Valid core
  | .Dynamic b => b.Valid core
  | .Interop b => b.Valid core


/-! ## Example data -/

/-- A device with an empty heap on which no platform call fails. -/
def exampleDevice : Device :=
  { resources := []
    hresults := []
    gpu_va := fun h => 65536 * (h + 1)
    prebuild := fun inputs =>
      { ResultDataMaxSizeInBytes := 256 * (inputs.NumDescs + 1)
        ScratchDataSizeInBytes := 128 * (inputs.NumDescs + 1) }
    executed := []
    scratch_buffer_ := none
    instance_buffer_ := none }

/-- A pipeline with two miss shaders and one hit group; the identifier of an export is
its name length repeated. -/
def examplePipeline : RayTracingPipeline :=
  { GetShaderIdentifier := fun name =>
      { bytes := List.replicate D3D12_SHADER_IDENTIFIER_SIZE_IN_BYTES name.length
        size_eq := List.length_replicate _ _ }
    miss_shader_count_ := 2
    hit_group_count_ := 1
    callable_shader_count_ := 0 }

/-- The state object of the example pipeline: it exports `RayGenMain`, `MissMain0`,
`MissMain1` and `HitGroup0`, whose identifiers are 32 bytes of value 1, 2, 3 and 4; the
lookup of any other name returns null. -/
def exampleStateObject : StateObjectProperties :=
  { GetShaderIdentifier := fun name =>
      (([("RayGenMain", 1), ("MissMain0", 2), ("MissMain1", 3), ("HitGroup0", 4)] :
        List (String × Byte)).lookup name).map fun tag =>
          { bytes := List.replicate D3D12_SHADER_IDENTIFIER_SIZE_IN_BYTES tag
            size_eq := List.length_replicate _ _ } }

/-- A core on the example device: empty staging pool, two frames in flight. -/
def exampleCore : D3D12Core :=
  { device_ := exampleDevice
    upload_staging_buffer_ := none
    download_staging_buffer_ := none
    frames_in_flight_ := 2
    current_frame_ := 0
    cuda_external_memory_ := [] }

/-- A Static buffer of 8 bytes created on the example core, with the core after its
creation. -/
def exampleStatic : D3D12Core × D3D12StaticBuffer := D3D12StaticBuffer.new exampleCore 8

/-- The core after the bytes 1 to 8 have been uploaded to the Static example buffer. -/
def exampleWritten : D3D12Core :=
  (exampleStatic.2.UploadData exampleStatic.1 [1, 2, 3, 4, 5, 6, 7, 8] 8 0).getD exampleStatic.1

/-- A Dynamic buffer of 8 bytes created on the example core, with the core after its
creation. -/
def exampleDynamic : D3D12Core × D3D12DynamicBuffer := D3D12DynamicBuffer.new exampleCore 8

/-- An Interop buffer of 8 bytes created on the example core, with the core after its
creation. -/
def exampleInterop : D3D12Core × D3D12CUDABuffer :=
  (D3D12CUDABuffer.new exampleCore 8).getD (exampleCore, { buffer_ := none, cuda_memory_ := 0 })

/-- Result code `E_INVALIDARG` of the platform headers (`0x80070057` as a signed value). -/
def E_INVALIDARG : HRESULT := -2147024809

/-- Result code `E_OUTOFMEMORY` of the platform headers (`0x8007000E` as a signed value). -/
def E_OUTOFMEMORY : HRESULT := -2147024882

/-- Result code `E_NOINTERFACE` of the platform headers (`0x80004002` as a signed value). -/
def E_NOINTERFACE : HRESULT := -2147467262

/-- A device whose scratch pool holds a buffer of 16 bytes and whose instance pool holds a
buffer of 8 bytes. -/
def examplePoolDevice : Device :=
  { exampleDevice with
    resources :=
      [some { Width := 16, heap_type := .DEFAULT, heap_flags := .NONE, state := .COMMON,
              flags := .ALLOW_UNORDERED_ACCESS, bytes := List.replicate 16 0 },
       some { Width := 8, heap_type := .UPLOAD, heap_flags := .NONE, state := .GENERIC_READ,
              flags := .NONE, bytes := List.replicate 8 0 }]
    scratch_buffer_ := some 0
    instance_buffer_ := some 1 }

/-- The example pool in an environment where the platform refuses the next buffer
creation. -/
def examplePoolFailingDevice : Device :=
  { examplePoolDevice with hresults := [E_OUTOFMEMORY] }

/-- An instance layout for the examples: 64 copies of the instance identifier. -/
def exampleLayout : InstanceLayout :=
  { encode := fun d => List.replicate sizeof_D3D12_RAYTRACING_INSTANCE_DESC d.InstanceID
    size_eq := fun _ => List.length_replicate _ _ }

/-- A matrix for the examples: entry `m[c][r]` has the bit pattern `4 * c + r`. -/
def exampleMatrix : mat4 := fun c r => { bits := 4 * c.val + r.val }

/-- Three objects for the examples, referring to bottom-level structures 7, 8 and 9. -/
def exampleObjects : List (AccelerationStructure × mat4) :=
  [({ as_ := 7, primitive_count_ := 12 }, exampleMatrix),
   ({ as_ := 8, primitive_count_ := 1 }, exampleMatrix),
   ({ as_ := 9, primitive_count_ := 3 }, exampleMatrix)]

/-- A session on the Dynamic example buffer: shrink to 4 bytes, write two bytes at offset
1, transfer on frame 0, move to frame 1, transfer there, read two bytes back. -/
def exampleSession : List DynamicOp :=
  [.Resize 4, .UploadData [7, 9] 2 1, .TransferData [], .NextFrame 1, .TransferData [],
   .DownloadData [0, 0] 2 1]

/-- The Dynamic example buffer after `Resize(4)` and an upload of the bytes 7, 9 at offset
1: the staging buffer holds 0, 7, 9, 0 and the two frame buffers still have 8 zero bytes. -/
def exampleUploaded : D3D12Core × D3D12DynamicBuffer :=
  (DynamicOp.runAll [.Resize 4, .UploadData [7, 9] 2 1] exampleDynamic).getD exampleDynamic

/-- The Dynamic example buffer after `Resize(4)`: the staging buffer has 4 bytes, the two
frame buffers still have 8. -/
def exampleResized : D3D12Core × D3D12DynamicBuffer :=
  (exampleDynamic.2.Resize exampleDynamic.1 4).getD exampleDynamic

/-- The example device in an environment whose coming platform calls have the given
outcomes. -/
def exampleDeviceWith (outcomes : List HRESULT) : Device :=
  { exampleDevice with hresults := outcomes }

/-- The example device when the prebuild query asks for no scratch memory and for a result
of 64 bytes, and the platform refuses the next buffer creation (a buffer of zero bytes). -/
def exampleEmptyBuildDevice : Device :=
  { exampleDevice with
    prebuild := fun _ => { ResultDataMaxSizeInBytes := 64, ScratchDataSizeInBytes := 0 }
    hresults := [E_INVALIDARG] }

/-- A device holding a vertex buffer of 36 bytes (handle 0) and an index buffer of 24 bytes
(handle 1), with empty pools. -/
def exampleGeometryDevice : Device :=
  { exampleDevice with
    resources :=
      [some { Width := 36, heap_type := .DEFAULT, heap_flags := .NONE, state := .GENERIC_READ,
              flags := .ALLOW_UNORDERED_ACCESS, bytes := List.replicate 36 0 },
       some { Width := 24, heap_type := .DEFAULT, heap_flags := .NONE, state := .GENERIC_READ,
              flags := .ALLOW_UNORDERED_ACCESS, bytes := List.replicate 24 0 }] }

/-- The export name a subobject defines, if it defines one. -/
def Subobject.exportName : Subobject → Option String
  | .DXIL_LIBRARY _ name _ => some name
  | .HIT_GROUP hit_group_export _ _ _ _ => some hit_group_export
  | _ => none

/-- An example answer of the platform to identifier lookups: the identifier of a name the
description exports is the length of the name repeated, any other name gets zeros. -/
def exampleProperties (desc : List Subobject) (name : String) : ShaderIdentifier :=
  { bytes := List.replicate D3D12_SHADER_IDENTIFIER_SIZE_IN_BYTES
      (if some name ∈ desc.map Subobject.exportName then name.length else 0)
    size_eq := List.length_replicate _ _ }

/-- The ray generation shader of the example. -/
def exampleRayGen : ShaderModule := { code := 1, entry_point := "RayGen" }

/-- The miss shaders of the example. -/
def exampleMissShaders : List ShaderModule :=
  [{ code := 2, entry_point := "MissA" }, { code := 3, entry_point := "MissB" }]

/-- The hit groups of the example: one procedural group with an intersection shader. -/
def exampleHitGroups : List HitGroup :=
  [{ closest_hit_shader := { code := 4, entry_point := "Hit" }
     any_hit_shader := none
     intersection_shader := some { code := 5, entry_point := "Box" }
     procedure := true }]

/-- The callable shaders of the example. -/
def exampleCallableShaders : List ShaderModule := [{ code := 6, entry_point := "Call" }]

/-! # Theorems -/

/-! ## Memory lemmas -/

theorem memcpy_some {dst src : List Byte} {dst_off src_off n : Nat}
    (h1 : dst_off + n ≤ dst.length) (h2 : src_off + n ≤ src.length) :
    memcpy dst dst_off src src_off n =
      some (dst.take dst_off ++ (src.drop src_off).take n ++ dst.drop (dst_off + n)) := by
  simp [memcpy, h1, h2]

theorem memcpy_bounds {dst src d : List Byte} {dst_off src_off n : Nat}
    (h : memcpy dst dst_off src src_off n = some d) :
    dst_off + n ≤ dst.length ∧ src_off + n ≤ src.length := by
  unfold memcpy at h
  split at h
  · assumption
  · cases h

theorem memcpy_length {dst src d : List Byte} {dst_off src_off n : Nat}
    (h : memcpy dst dst_off src src_off n = some d) : d.length = dst.length := by
  have hb := memcpy_bounds h
  rw [memcpy_some hb.1 hb.2] at h
  cases h
  simp
  omega

theorem memcpy_get {dst src d : List Byte} {dst_off src_off n : Nat}
    (h : memcpy dst dst_off src src_off n = some d) (k : Nat) :
    d[k]? = if dst_off ≤ k ∧ k < dst_off + n then src[src_off + (k - dst_off)]? else dst[k]? := by
  have hb := memcpy_bounds h
  rw [memcpy_some hb.1 hb.2] at h
  cases h
  by_cases h1 : k < dst_off
  · have : ¬ (dst_off ≤ k ∧ k < dst_off + n) := by omega
    rw [if_neg this, List.append_assoc, List.getElem?_append_left (by simp; omega)]
    simp [List.getElem?_take, h1]
  · by_cases h2 : k < dst_off + n
    · have : dst_off ≤ k ∧ k < dst_off + n := by omega
      rw [if_pos this, List.append_assoc, List.getElem?_append_right (by simp; omega),
        List.getElem?_append_left (by simp; omega)]
      simp only [List.length_take, List.getElem?_take, List.getElem?_drop]
      have e : min dst_off dst.length = dst_off := by omega
      rw [e, if_pos (by omega)]
    · have : ¬ (dst_off ≤ k ∧ k < dst_off + n) := by omega
      rw [if_neg this, List.append_assoc, List.getElem?_append_right (by simp; omega),
        List.getElem?_append_right (by simp; omega)]
      simp only [List.length_take, List.getElem?_drop, List.length_drop]
      congr 1
      omega

theorem readBytes_some {mem : List Byte} {off n : Nat} (h : off + n ≤ mem.length) :
    readBytes mem off n = some ((mem.drop off).take n) := by
  simp [readBytes, h]

theorem readBytes_of_get {mem l : List Byte} {off n : Nat} (hlen : l.length = n)
    (hb : off + n ≤ mem.length) (h : ∀ t, t < n → mem[off + t]? = l[t]?) :
    readBytes mem off n = some l := by
  rw [readBytes_some hb]
  congr 1
  apply List.ext_getElem?
  intro t
  rw [List.getElem?_take, List.getElem?_drop]
  by_cases ht : t < n
  · rw [if_pos ht, h t ht]
  · rw [if_neg ht, List.getElem?_eq_none (by omega)]

theorem readBytes_get {mem l : List Byte} {off n : Nat}
    (h : readBytes mem off n = some l) :
    l.length = n ∧ off + n ≤ mem.length ∧ ∀ t, t < n → l[t]? = mem[off + t]? := by
  unfold readBytes at h
  split at h
  · cases h
    refine ⟨by simp; omega, by assumption, ?_⟩
    intro t ht
    rw [List.getElem?_take, List.getElem?_drop, if_pos ht]
  · cases h

theorem readBytes_congr {mem mem2 l : List Byte} {off n : Nat}
    (h : readBytes mem off n = some l) (hlen : mem2.length = mem.length)
    (hsame : ∀ k, off ≤ k → k < off + n → mem2[k]? = mem[k]?) :
    readBytes mem2 off n = some l := by
  obtain ⟨h1, h2, h3⟩ := readBytes_get h
  apply readBytes_of_get h1 (by omega)
  intro t ht
  rw [hsame (off + t) (by omega) (by omega), h3 t ht]

/-- Reading back exactly the range a `memcpy` has written returns the copied bytes. -/
theorem readBytes_memcpy {dst src d : List Byte} {dst_off src_off n : Nat}
    (h : memcpy dst dst_off src src_off n = some d) :
    readBytes d dst_off n = readBytes src src_off n := by
  have hb := memcpy_bounds h
  have hl := memcpy_length h
  rw [readBytes_some hb.2]
  apply readBytes_of_get (by simp; omega) (by omega)
  intro t ht
  rw [memcpy_get h, if_pos (by omega), List.getElem?_take, List.getElem?_drop, if_pos ht]
  congr 1
  omega

theorem memcpy_outside {dst src d : List Byte} {dst_off src_off n : Nat}
    (h : memcpy dst dst_off src src_off n = some d) (k : Nat)
    (hk : k < dst_off ∨ dst_off + n ≤ k) : d[k]? = dst[k]? := by
  rw [memcpy_get h, if_neg]
  omega

/-! ## Heap lemmas -/

@[simp] theorem Device.afterCall_resources (dev : Device) :
    dev.afterCall.resources = dev.resources := rfl

@[simp] theorem Device.afterCall_hresults (dev : Device) :
    dev.afterCall.hresults = dev.hresults.tail := rfl

@[simp] theorem Device.afterCall_executed (dev : Device) :
    dev.afterCall.executed = dev.executed := rfl

@[simp] theorem Device.afterCall_scratch (dev : Device) :
    dev.afterCall.scratch_buffer_ = dev.scratch_buffer_ := rfl

@[simp] theorem Device.afterCall_instance (dev : Device) :
    dev.afterCall.instance_buffer_ = dev.instance_buffer_ := rfl

@[simp] theorem Device.log_resources (dev : Device) (c : Command) :
    (dev.log c).resources = dev.resources := rfl

@[simp] theorem Device.log_hresults (dev : Device) (c : Command) :
    (dev.log c).hresults = dev.hresults := rfl

@[simp] theorem Device.log_executed (dev : Device) (c : Command) :
    (dev.log c).executed = dev.executed ++ [c] := rfl

@[simp] theorem Device.log_scratch (dev : Device) (c : Command) :
    (dev.log c).scratch_buffer_ = dev.scratch_buffer_ := rfl

@[simp] theorem Device.log_instance (dev : Device) (c : Command) :
    (dev.log c).instance_buffer_ = dev.instance_buffer_ := rfl

@[simp] theorem Device.store_resources (dev : Device) (h : Nat) (r : Resource) :
    (dev.store h r).resources = dev.resources.set h (some r) := rfl

@[simp] theorem Device.store_hresults (dev : Device) (h : Nat) (r : Resource) :
    (dev.store h r).hresults = dev.hresults := rfl

@[simp] theorem Device.store_executed (dev : Device) (h : Nat) (r : Resource) :
    (dev.store h r).executed = dev.executed := rfl

@[simp] theorem Device.store_scratch (dev : Device) (h : Nat) (r : Resource) :
    (dev.store h r).scratch_buffer_ = dev.scratch_buffer_ := rfl

@[simp] theorem Device.store_instance (dev : Device) (h : Nat) (r : Resource) :
    (dev.store h r).instance_buffer_ = dev.instance_buffer_ := rfl

@[simp] theorem Device.release_resources (dev : Device) (h : Nat) :
    (dev.release h).resources = dev.resources.set h none := rfl

@[simp] theorem Device.release_hresults (dev : Device) (h : Nat) :
    (dev.release h).hresults = dev.hresults := rfl

@[simp] theorem Device.release_executed (dev : Device) (h : Nat) :
    (dev.release h).executed = dev.executed := rfl

@[simp] theorem Device.release_scratch (dev : Device) (h : Nat) :
    (dev.release h).scratch_buffer_ = dev.scratch_buffer_ := rfl

@[simp] theorem Device.release_instance (dev : Device) (h : Nat) :
    (dev.release h).instance_buffer_ = dev.instance_buffer_ := rfl

@[simp] theorem Device.alloc_resources (dev : Device) (r : Resource) :
    (dev.alloc r).1.resources = dev.resources ++ [some r] := rfl

@[simp] theorem Device.alloc_hresults (dev : Device) (r : Resource) :
    (dev.alloc r).1.hresults = dev.hresults := rfl

@[simp] theorem Device.alloc_executed (dev : Device) (r : Resource) :
    (dev.alloc r).1.executed = dev.executed := rfl

@[simp] theorem Device.alloc_scratch (dev : Device) (r : Resource) :
    (dev.alloc r).1.scratch_buffer_ = dev.scratch_buffer_ := rfl

@[simp] theorem Device.alloc_instance (dev : Device) (r : Resource) :
    (dev.alloc r).1.instance_buffer_ = dev.instance_buffer_ := rfl

@[simp] theorem Device.alloc_handle (dev : Device) (r : Resource) :
    (dev.alloc r).2 = dev.resources.length := rfl

@[simp] theorem Device.setScratch_resources (dev : Device) (p : Option Nat) :
    (dev.setScratch p).resources = dev.resources := rfl

@[simp] theorem Device.setScratch_hresults (dev : Device) (p : Option Nat) :
    (dev.setScratch p).hresults = dev.hresults := rfl

@[simp] theorem Device.setScratch_executed (dev : Device) (p : Option Nat) :
    (dev.setScratch p).executed = dev.executed := rfl

@[simp] theorem Device.setScratch_scratch (dev : Device) (p : Option Nat) :
    (dev.setScratch p).scratch_buffer_ = p := rfl

@[simp] theorem Device.setScratch_instance (dev : Device) (p : Option Nat) :
    (dev.setScratch p).instance_buffer_ = dev.instance_buffer_ := rfl

@[simp] theorem Device.setInstance_resources (dev : Device) (p : Option Nat) :
    (dev.setInstance p).resources = dev.resources := rfl

@[simp] theorem Device.setInstance_hresults (dev : Device) (p : Option Nat) :
    (dev.setInstance p).hresults = dev.hresults := rfl

@[simp] theorem Device.setInstance_executed (dev : Device) (p : Option Nat) :
    (dev.setInstance p).executed = dev.executed := rfl

@[simp] theorem Device.setInstance_scratch (dev : Device) (p : Option Nat) :
    (dev.setInstance p).scratch_buffer_ = dev.scratch_buffer_ := rfl

@[simp] theorem Device.setInstance_instance (dev : Device) (p : Option Nat) :
    (dev.setInstance p).instance_buffer_ = p := rfl

theorem Device.resource_lt {dev : Device} {h : Nat} {r : Resource}
    (hr : dev.resource h = some r) : h < dev.resources.length := by
  unfold Device.resource at hr
  by_contra hc
  rw [List.getElem?_eq_none (by omega)] at hr
  cases hr

theorem Device.resource_eq_of_resources {d1 d2 : Device} (h : d1.resources = d2.resources)
    (k : Nat) : d1.resource k = d2.resource k := by
  simp only [Device.resource, h]

@[simp] theorem Device.resource_afterCall (dev : Device) (k : Nat) :
    dev.afterCall.resource k = dev.resource k := rfl

@[simp] theorem Device.resource_log (dev : Device) (c : Command) (k : Nat) :
    (dev.log c).resource k = dev.resource k := rfl

@[simp] theorem Device.resource_setScratch (dev : Device) (p : Option Nat) (k : Nat) :
    (dev.setScratch p).resource k = dev.resource k := rfl

@[simp] theorem Device.resource_setInstance (dev : Device) (p : Option Nat) (k : Nat) :
    (dev.setInstance p).resource k = dev.resource k := rfl

theorem Device.resource_alloc (dev : Device) (r : Resource) (k : Nat) :
    (dev.alloc r).1.resource k = if k = dev.resources.length then some r else dev.resource k := by
  simp only [Device.alloc, Device.resource, List.getElem?_append]
  by_cases h1 : k < dev.resources.length
  · rw [if_pos h1, if_neg (by omega)]
  · rw [if_neg h1]
    by_cases h2 : k = dev.resources.length
    · rw [if_pos h2, h2]
      simp
    · rw [if_neg h2, List.getElem?_eq_none (by simp; omega), List.getElem?_eq_none (by omega)]

theorem Device.resource_alloc_new (dev : Device) (r : Resource) :
    (dev.alloc r).1.resource dev.resources.length = some r := by
  rw [Device.resource_alloc, if_pos rfl]

theorem Device.resource_alloc_old {dev : Device} (r : Resource) {k : Nat} {r0 : Resource}
    (h : dev.resource k = some r0) : (dev.alloc r).1.resource k = some r0 := by
  rw [Device.resource_alloc, if_neg (by have := Device.resource_lt h; omega), h]

theorem Device.resource_store (dev : Device) (h : Nat) (r : Resource) (k : Nat) :
    (dev.store h r).resource k =
      if k = h then (if h < dev.resources.length then some r else none) else dev.resource k := by
  simp only [Device.store, Device.resource, List.getElem?_set]
  by_cases h1 : k = h
  · subst h1
    simp only [if_true]
    split <;> rfl
  · rw [if_neg (fun e => h1 e.symm), if_neg h1]

theorem Device.resource_store_self {dev : Device} {h : Nat} {q : Resource} (r : Resource)
    (hlive : dev.resource h = some q) : (dev.store h r).resource h = some r := by
  rw [Device.resource_store, if_pos rfl, if_pos (Device.resource_lt hlive)]

theorem Device.resource_store_ne (dev : Device) {h k : Nat} (r : Resource) (hne : k ≠ h) :
    (dev.store h r).resource k = dev.resource k := by
  rw [Device.resource_store, if_neg hne]

theorem Device.resource_release (dev : Device) (h k : Nat) :
    (dev.release h).resource k = if k = h then none else dev.resource k := by
  simp only [Device.release, Device.resource, List.getElem?_set]
  by_cases h1 : k = h
  · subst h1
    simp only [if_true]
    split <;> simp
  · rw [if_neg (fun e => h1 e.symm), if_neg h1]

theorem Device.resource_release_ne (dev : Device) {h k : Nat} (hne : k ≠ h) :
    (dev.release h).resource k = dev.resource k := by
  rw [Device.resource_release, if_neg hne]

theorem Device.NoFailure.afterCall {dev : Device} (h : dev.NoFailure) :
    dev.afterCall.NoFailure := by
  intro hr hmem
  exact h hr (List.mem_of_mem_tail hmem)

theorem Device.NoFailure.of_hresults {d1 d2 : Device} (h : d1.NoFailure)
    (e : d2.hresults = d1.hresults) : d2.NoFailure := by
  unfold Device.NoFailure
  rw [e]
  exact h

theorem Device.platformCall_fst {dev : Device} (h : dev.NoFailure) :
    FAILED dev.platformCall.1 = false := by
  simp only [Device.platformCall, FAILED, decide_eq_false_iff_not, not_lt]
  cases hl : dev.hresults with
  | nil => simp [S_OK]
  | cons x xs =>
    simp only [List.headD_cons]
    exact h x (by simp [hl])

theorem Device.platformCall_ok {dev : Device} (h : dev.NoFailure) :
    ∃ hr, dev.platformCall = (hr, dev.afterCall) ∧ FAILED hr = false :=
  ⟨_, rfl, Device.platformCall_fst h⟩

theorem d3d12.CreateBuffer_succeeds {dev : Device} (h : dev.NoFailure) (size : Nat)
    (heap_type : D3D12_HEAP_TYPE) (heap_flags : D3D12_HEAP_FLAGS)
    (resource_state : D3D12_RESOURCE_STATES) (resource_flags : D3D12_RESOURCE_FLAGS) :
    d3d12.CreateBuffer dev size heap_type heap_flags resource_state resource_flags =
      (S_OK,
        (dev.afterCall.alloc
          { Width := size, heap_type := heap_type, heap_flags := heap_flags,
            state := resource_state, flags := resource_flags,
            bytes := List.replicate size 0 }).1,
        some dev.resources.length) := by
  have hf := Device.platformCall_fst h
  simp only [d3d12.CreateBuffer, hf]
  rfl

theorem Device.CreateBuffer_ok {dev : Device} (h : dev.NoFailure) (size : Nat)
    (heap_type : D3D12_HEAP_TYPE) (heap_flags : D3D12_HEAP_FLAGS)
    (resource_state : D3D12_RESOURCE_STATES) (resource_flags : D3D12_RESOURCE_FLAGS) :
    dev.CreateBuffer size heap_type heap_flags resource_state resource_flags =
      (S_OK,
        (dev.afterCall.alloc
          { Width := size, heap_type := heap_type, heap_flags := heap_flags,
            state := resource_state, flags := resource_flags,
            bytes := List.replicate size 0 }).1,
        some { buffer_ := dev.resources.length, allocated_size_ := size }) := by
  simp only [Device.CreateBuffer, d3d12.CreateBuffer_succeeds h]

/-- The resource `CreateBuffer(size, heap_type, pp_buffer)` creates. -/
theorem Device.CreateBuffer_heap_ok {dev : Device} (h : dev.NoFailure) (size : Nat)
    (heap_type : D3D12_HEAP_TYPE) :
    ∃ r, r.Width = size ∧ r.bytes = List.replicate size 0 ∧ r.heap_type = heap_type ∧
      r.heap_flags = .NONE ∧
      dev.CreateBuffer_heap size heap_type =
        (S_OK, (dev.afterCall.alloc r).1,
          some { buffer_ := dev.resources.length, allocated_size_ := size }) := by
  refine ⟨Resource.mk size heap_type .NONE (HeapTypeDefaultResourceState heap_type)
    (if heap_type = .DEFAULT then .ALLOW_UNORDERED_ACCESS else .NONE) (List.replicate size 0),
    rfl, rfl, rfl, rfl, ?_⟩
  simp only [Device.CreateBuffer_heap, Device.CreateBuffer_state,
    Device.CreateBuffer_state_flags, Device.CreateBuffer_ok h]

theorem Buffer.Map_ok {b : Buffer} {dev : Device} (henv : dev.NoFailure) {r : Resource}
    (hlive : dev.resource b.buffer_ = some r) : b.Map dev = some dev.afterCall := by
  have hf := Device.platformCall_fst henv
  simp only [Buffer.Map, Device.Map, hlive, hf]
  rfl

theorem Device.memcpyTo_ok {d : Device} {h : Nat} {r : Resource} {bytes src : List Byte}
    {dst_off src_off n : Nat} (hlive : d.resource h = some r)
    (hm : memcpy r.bytes dst_off src src_off n = some bytes) :
    d.memcpyTo h dst_off src src_off n = some (d.store h { r with bytes := bytes }) := by
  simp only [Device.memcpyTo, hlive, hm]

theorem Device.memcpyFrom_ok {d : Device} {h : Nat} {r : Resource} (dst : List Byte)
    (dst_off src_off n : Nat) (hlive : d.resource h = some r) :
    d.memcpyFrom dst dst_off h src_off n = memcpy dst dst_off r.bytes src_off n := by
  simp only [Device.memcpyFrom, hlive]

theorem Device.executeCommand_barrier {dev : Device} {h : Nat} {r : Resource}
    (before after : D3D12_RESOURCE_STATES) (hlive : dev.resource h = some r) :
    dev.executeCommand (.ResourceBarrier h before after) =
      some ((dev.store h { r with state := after }).log
        (Command.ResourceBarrier h before after)) := by
  simp only [Device.executeCommand, hlive]

theorem Device.executeCommand_copy {dev : Device} {dst src : Nat} {rd rs : Resource}
    {bytes : List Byte} {dst_offset src_offset size : Nat}
    (hd : dev.resource dst = some rd) (hs : dev.resource src = some rs)
    (hm : memcpy rd.bytes dst_offset rs.bytes src_offset size = some bytes) :
    dev.executeCommand (.CopyBufferRegion dst dst_offset src src_offset size) =
      some ((dev.store dst { rd with bytes := bytes }).log
        (Command.CopyBufferRegion dst dst_offset src src_offset size)) := by
  simp only [Device.executeCommand, hd, hs, hm]

theorem Device.execute_CopyBuffer_copy_dest {dev : Device} {src dst : Buffer}
    {rs rd : Resource} {bytes : List Byte} {size src_offset dst_offset : Nat}
    (hs : dev.resource src.buffer_ = some rs) (hd : dev.resource dst.buffer_ = some rd)
    (hm : memcpy rd.bytes dst_offset rs.bytes src_offset size = some bytes) :
    dev.execute (CopyBuffer [] src dst size src_offset dst_offset .COPY_DEST) =
      some ((dev.store dst.buffer_ { rd with bytes := bytes }).log
        (Command.CopyBufferRegion dst.buffer_ dst_offset src.buffer_ src_offset size)) := by
  simp only [CopyBuffer, ne_eq, not_true_eq_false, if_false, List.nil_append,
    Device.execute, Buffer.Handle, Device.executeCommand_copy hd hs hm]

theorem Device.execute_CopyBuffer_other {dev : Device} {src dst : Buffer}
    {rs rd : Resource} {bytes : List Byte} {size src_offset dst_offset : Nat}
    {st : D3D12_RESOURCE_STATES} (hst : st ≠ .COPY_DEST)
    (hs : dev.resource src.buffer_ = some rs) (hd : dev.resource dst.buffer_ = some rd)
    (hne : src.buffer_ ≠ dst.buffer_)
    (hm : memcpy rd.bytes dst_offset rs.bytes src_offset size = some bytes) :
    dev.execute (CopyBuffer [] src dst size src_offset dst_offset st) =
      some ((((((dev.store dst.buffer_ { rd with state := .COPY_DEST }).log
        (Command.ResourceBarrier dst.buffer_ st .COPY_DEST)).store dst.buffer_
          { rd with state := .COPY_DEST, bytes := bytes }).log
        (Command.CopyBufferRegion dst.buffer_ dst_offset src.buffer_ src_offset size)).store
          dst.buffer_ { rd with state := st, bytes := bytes }).log
        (Command.ResourceBarrier dst.buffer_ .COPY_DEST st)) := by
  have hd1 := Device.resource_store_self { rd with state := .COPY_DEST } hd
  have hs1 : (dev.store dst.buffer_ { rd with state := .COPY_DEST }).resource src.buffer_ =
      some rs := by
    rw [Device.resource_store_ne _ _ hne, hs]
  have e1 := Device.executeCommand_barrier st .COPY_DEST hd
  have e2 := @Device.executeCommand_copy
    ((dev.store dst.buffer_ { rd with state := .COPY_DEST }).log
      (Command.ResourceBarrier dst.buffer_ st .COPY_DEST))
    dst.buffer_ src.buffer_ { rd with state := .COPY_DEST } rs bytes dst_offset src_offset size
    (by rw [Device.resource_log]; exact hd1)
    (by rw [Device.resource_log]; exact hs1) hm
  have hd2 : (((dev.store dst.buffer_ { rd with state := .COPY_DEST }).log
      (Command.ResourceBarrier dst.buffer_ st .COPY_DEST)).store dst.buffer_
      { rd with state := .COPY_DEST, bytes := bytes }).resource dst.buffer_ =
      some { rd with state := .COPY_DEST, bytes := bytes } :=
    Device.resource_store_self _ (q := { rd with state := .COPY_DEST })
      (by rw [Device.resource_log]; exact hd1)
  have e3 := Device.executeCommand_barrier .COPY_DEST st
    ((Device.resource_log _ (Command.CopyBufferRegion dst.buffer_ dst_offset src.buffer_
      src_offset size) _).trans hd2)
  simp only [CopyBuffer, ne_eq, hst, not_false_eq_true, if_true, List.nil_append,
    List.cons_append, Device.execute, Buffer.Handle, e1, e2, e3]

/-- Executing the commands `CopyBuffer` records, between two distinct live resources and
within their bounds: the destination receives the copied range and ends in its declared
original state; no other resource changes. -/
theorem Device.execute_CopyBuffer {dev : Device} {src dst : Buffer} {rs rd : Resource}
    {bytes : List Byte} (size src_offset dst_offset : Nat) (st : D3D12_RESOURCE_STATES)
    (hs : dev.resource src.buffer_ = some rs) (hd : dev.resource dst.buffer_ = some rd)
    (hne : src.buffer_ ≠ dst.buffer_)
    (hm : memcpy rd.bytes dst_offset rs.bytes src_offset size = some bytes) :
    ∃ dev2 rd2,
      dev.execute (CopyBuffer [] src dst size src_offset dst_offset st) = some dev2 ∧
      dev2.resource dst.buffer_ = some rd2 ∧ rd2.bytes = bytes ∧ rd2.Width = rd.Width ∧
      rd2.heap_type = rd.heap_type ∧ rd2.heap_flags = rd.heap_flags ∧
      (∀ k, k ≠ dst.buffer_ → dev2.resource k = dev.resource k) ∧
      dev2.resources.length = dev.resources.length ∧
      dev2.hresults = dev.hresults ∧ dev2.scratch_buffer_ = dev.scratch_buffer_ ∧
      dev2.instance_buffer_ = dev.instance_buffer_ := by
  by_cases hst : st = .COPY_DEST
  · subst hst
    refine ⟨_, { rd with bytes := bytes }, Device.execute_CopyBuffer_copy_dest hs hd hm,
      ?_, rfl, rfl, rfl, rfl, ?_, ?_, ?_, ?_, ?_⟩
    · rw [Device.resource_log, Device.resource_store_self _ hd]
    · intro k hk
      rw [Device.resource_log, Device.resource_store_ne _ _ hk]
    all_goals simp
  · have hd1 := Device.resource_store_self { rd with state := .COPY_DEST } hd
    have hd2 : (((dev.store dst.buffer_ { rd with state := .COPY_DEST }).log
        (Command.ResourceBarrier dst.buffer_ st .COPY_DEST)).store dst.buffer_
        { rd with state := .COPY_DEST, bytes := bytes }).resource dst.buffer_ =
        some { rd with state := .COPY_DEST, bytes := bytes } :=
      Device.resource_store_self _ (q := { rd with state := .COPY_DEST })
        (by rw [Device.resource_log]; exact hd1)
    refine ⟨_, { rd with bytes := bytes, state := st },
      Device.execute_CopyBuffer_other hst hs hd hne hm, ?_, rfl, rfl, rfl, rfl, ?_, ?_,
      ?_, ?_, ?_⟩
    · rw [Device.resource_log]
      exact Device.resource_store_self _ ((Device.resource_log _ _ _).trans hd2)
    · intro k hk
      rw [Device.resource_log, Device.resource_store_ne _ _ hk, Device.resource_log,
        Device.resource_store_ne _ _ hk, Device.resource_log, Device.resource_store_ne _ _ hk]
    all_goals simp

/-! ## Staging pool of the core -/

theorem Buffer.Valid.of_resource {b : Buffer} {d1 d2 : Device} (h : b.Valid d1)
    (e : d2.resource b.buffer_ = d1.resource b.buffer_) : b.Valid d2 := by
  obtain ⟨r, h1, h2, h3⟩ := h
  exact ⟨r, by rw [e, h1], h2, h3⟩

theorem Buffer.Valid.lt {b : Buffer} {d : Device} (h : b.Valid d) :
    b.buffer_ < d.resources.length := by
  obtain ⟨r, h1, _, _⟩ := h
  exact Device.resource_lt h1

/-- Creating the staging buffer anew: the common part of the two `Request...` lemmas. -/
theorem Device.CreateBuffer_heap_fresh {dev : Device} (h : dev.NoFailure) (size : Nat)
    (heap_type : D3D12_HEAP_TYPE) :
    ∃ dev2 nb,
      dev.CreateBuffer_heap size heap_type = (S_OK, dev2, some nb) ∧ dev2.NoFailure ∧
      nb.buffer_ = dev.resources.length ∧ nb.allocated_size_ = size ∧ nb.Valid dev2 ∧
      nb.bytes dev2 = some (List.replicate size 0) ∧
      (∀ k, k ≠ dev.resources.length → dev2.resource k = dev.resource k) ∧
      dev2.resources.length = dev.resources.length + 1 ∧
      dev2.scratch_buffer_ = dev.scratch_buffer_ ∧
      dev2.instance_buffer_ = dev.instance_buffer_ ∧ dev2.executed = dev.executed := by
  obtain ⟨r, hw, hb, _, _, heq⟩ := Device.CreateBuffer_heap_ok h size heap_type
  refine ⟨_, _, heq, ?_, rfl, rfl, ?_, ?_, ?_, ?_, rfl, rfl, rfl⟩
  · exact h.afterCall.of_hresults rfl
  · exact ⟨r, Device.resource_alloc_new dev.afterCall r, hw, by rw [hb]; simp⟩
  · simp only [Buffer.bytes]
    rw [show (dev.afterCall.alloc r).1.resource dev.resources.length = some r from
      Device.resource_alloc_new dev.afterCall r]
    simp only [hb]
  · intro k hk
    rw [Device.resource_alloc, if_neg (by simpa using hk)]
    rfl
  · simp

theorem D3D12Core.RequestUploadStagingBuffer_ok {core : D3D12Core} (hv : core.Valid)
    (size : Nat) :
    ∃ core2 sb,
      core.RequestUploadStagingBuffer size = (core2, some sb) ∧ core2.Valid ∧
      core2.upload_staging_buffer_ = some sb ∧ size ≤ sb.allocated_size_ ∧
      core2.download_staging_buffer_ = core.download_staging_buffer_ ∧
      core2.frames_in_flight_ = core.frames_in_flight_ ∧
      core2.current_frame_ = core.current_frame_ ∧
      core2.cuda_external_memory_ = core.cuda_external_memory_ ∧
      (∀ k r, core.device_.resource k = some r → ¬ core.ownsStaging k →
        core2.device_.resource k = some r ∧ ¬ core2.ownsStaging k) := by
  obtain ⟨henv, hup, hdown, hdist⟩ := hv
  have fresh : ∀ dev : Device, dev.NoFailure →
      dev.resources.length = core.device_.resources.length →
      (∀ c, core.download_staging_buffer_ = some c →
        dev.resource c.buffer_ = core.device_.resource c.buffer_) →
      (∀ k r, core.device_.resource k = some r → ¬ core.ownsStaging k →
        dev.resource k = some r) →
      ∀ dev2 nb, dev.CreateBuffer_heap size .UPLOAD = (S_OK, dev2, some nb) → dev2.NoFailure →
      nb.buffer_ = dev.resources.length → nb.allocated_size_ = size → nb.Valid dev2 →
      (∀ k, k ≠ dev.resources.length → dev2.resource k = dev.resource k) →
      D3D12Core.Valid { core with device_ := dev2, upload_staging_buffer_ := some nb } ∧
      (∀ k r, core.device_.resource k = some r → ¬ core.ownsStaging k →
        dev2.resource k = some r ∧
        ¬ D3D12Core.ownsStaging
          { core with device_ := dev2, upload_staging_buffer_ := some nb } k) := by
    intro dev _ hlen hdn hkeep dev2 nb _ henv2 hnb _ hval hother
    refine ⟨⟨henv2, ?_, ?_, ?_⟩, ?_⟩
    · intro b hb
      cases hb
      exact hval
    · intro c hc
      have hcv := hdown c hc
      have hlt := hcv.lt
      exact hcv.of_resource (by rw [hother _ (by omega), hdn c hc])
    · intro b c hb hc
      cases hb
      have hlt := (hdown c hc).lt
      show nb.buffer_ ≠ c.buffer_
      omega
    · intro k r hk hnot
      have hlt := Device.resource_lt hk
      refine ⟨by rw [hother _ (by omega), hkeep k r hk hnot], ?_⟩
      rintro (⟨b, hb, hbk⟩ | ⟨c, hc, hck⟩)
      · cases hb
        omega
      · exact hnot (Or.inr ⟨c, hc, hck⟩)
  cases hsb : core.upload_staging_buffer_ with
  | none =>
    obtain ⟨dev2, nb, heq, henv2, hnb, hsz, hval, _, hother, _⟩ :=
      Device.CreateBuffer_heap_fresh henv size .UPLOAD
    obtain ⟨hv2, hframe⟩ := fresh core.device_ henv rfl (fun _ _ => rfl)
      (fun k r hk _ => hk) dev2 nb heq henv2 hnb hsz hval hother
    refine ⟨_, nb, ?_, hv2, rfl, by omega, rfl, rfl, rfl, rfl, hframe⟩
    simp only [D3D12Core.RequestUploadStagingBuffer, hsb, heq]
  | some b =>
    by_cases hlt : b.Size < size
    · have henvr : (core.device_.release b.buffer_).NoFailure := henv.of_hresults rfl
      obtain ⟨dev2, nb, heq, henv2, hnb, hsz, hval, _, hother, _⟩ :=
        Device.CreateBuffer_heap_fresh henvr size .UPLOAD
      obtain ⟨hv2, hframe⟩ := fresh (core.device_.release b.buffer_) henvr (by simp)
        (fun c hc => Device.resource_release_ne _ (Ne.symm (hdist b c hsb hc)))
        (fun k r hk hnot => by
          rw [Device.resource_release_ne _ (fun e => hnot (Or.inl ⟨b, hsb, e.symm⟩)), hk])
        dev2 nb heq henv2 hnb hsz hval hother
      refine ⟨_, nb, ?_, hv2, rfl, by omega, rfl, rfl, rfl, rfl, hframe⟩
      simp only [D3D12Core.RequestUploadStagingBuffer, hsb, hlt, if_true, heq]
    · refine ⟨core, b, ?_, ⟨henv, hup, hdown, hdist⟩, hsb, ?_, rfl, rfl, rfl, rfl,
        fun k r hk hnot => ⟨hk, hnot⟩⟩
      · simp only [D3D12Core.RequestUploadStagingBuffer, hsb, hlt, if_false]
      · simp only [Buffer.Size] at hlt
        omega

theorem D3D12Core.RequestDownloadStagingBuffer_ok {core : D3D12Core} (hv : core.Valid)
    (size : Nat) :
    ∃ core2 sb,
      core.RequestDownloadStagingBuffer size = (core2, some sb) ∧ core2.Valid ∧
      core2.download_staging_buffer_ = some sb ∧ size ≤ sb.allocated_size_ ∧
      core2.upload_staging_buffer_ = core.upload_staging_buffer_ ∧
      core2.frames_in_flight_ = core.frames_in_flight_ ∧
      core2.current_frame_ = core.current_frame_ ∧
      core2.cuda_external_memory_ = core.cuda_external_memory_ ∧
      (∀ k r, core.device_.resource k = some r → ¬ core.ownsStaging k →
        core2.device_.resource k = some r ∧ ¬ core2.ownsStaging k) := by
  obtain ⟨henv, hup, hdown, hdist⟩ := hv
  have fresh : ∀ dev : Device, dev.NoFailure →
      dev.resources.length = core.device_.resources.length →
      (∀ c, core.upload_staging_buffer_ = some c →
        dev.resource c.buffer_ = core.device_.resource c.buffer_) →
      (∀ k r, core.device_.resource k = some r → ¬ core.ownsStaging k →
        dev.resource k = some r) →
      ∀ dev2 nb, dev.CreateBuffer_heap size .READBACK = (S_OK, dev2, some nb) →
      dev2.NoFailure →
      nb.buffer_ = dev.resources.length → nb.allocated_size_ = size → nb.Valid dev2 →
      (∀ k, k ≠ dev.resources.length → dev2.resource k = dev.resource k) →
      D3D12Core.Valid { core with device_ := dev2, download_staging_buffer_ := some nb } ∧
      (∀ k r, core.device_.resource k = some r → ¬ core.ownsStaging k →
        dev2.resource k = some r ∧
        ¬ D3D12Core.ownsStaging
          { core with device_ := dev2, download_staging_buffer_ := some nb } k) := by
    intro dev _ hlen hdn hkeep dev2 nb _ henv2 hnb _ hval hother
    refine ⟨⟨henv2, ?_, ?_, ?_⟩, ?_⟩
    · intro c hc
      have hcv := hup c hc
      have hlt := hcv.lt
      exact hcv.of_resource (by rw [hother _ (by omega), hdn c hc])
    · intro b hb
      cases hb
      exact hval
    · intro c b hc hb
      cases hb
      have hlt := (hup c hc).lt
      show c.buffer_ ≠ nb.buffer_
      omega
    · intro k r hk hnot
      have hlt := Device.resource_lt hk
      refine ⟨by rw [hother _ (by omega), hkeep k r hk hnot], ?_⟩
      rintro (⟨c, hc, hck⟩ | ⟨b, hb, hbk⟩)
      · exact hnot (Or.inl ⟨c, hc, hck⟩)
      · cases hb
        omega
  cases hsb : core.download_staging_buffer_ with
  | none =>
    obtain ⟨dev2, nb, heq, henv2, hnb, hsz, hval, _, hother, _⟩ :=
      Device.CreateBuffer_heap_fresh henv size .READBACK
    obtain ⟨hv2, hframe⟩ := fresh core.device_ henv rfl (fun _ _ => rfl)
      (fun k r hk _ => hk) dev2 nb heq henv2 hnb hsz hval hother
    refine ⟨_, nb, ?_, hv2, rfl, by omega, rfl, rfl, rfl, rfl, hframe⟩
    simp only [D3D12Core.RequestDownloadStagingBuffer, hsb, heq]
  | some b =>
    by_cases hlt : b.Size < size
    · have henvr : (core.device_.release b.buffer_).NoFailure := henv.of_hresults rfl
      obtain ⟨dev2, nb, heq, henv2, hnb, hsz, hval, _, hother, _⟩ :=
        Device.CreateBuffer_heap_fresh henvr size .READBACK
      obtain ⟨hv2, hframe⟩ := fresh (core.device_.release b.buffer_) henvr (by simp)
        (fun c hc => Device.resource_release_ne _ (hdist c b hc hsb))
        (fun k r hk hnot => by
          rw [Device.resource_release_ne _ (fun e => hnot (Or.inr ⟨b, hsb, e.symm⟩)), hk])
        dev2 nb heq henv2 hnb hsz hval hother
      refine ⟨_, nb, ?_, hv2, rfl, by omega, rfl, rfl, rfl, rfl, hframe⟩
      simp only [D3D12Core.RequestDownloadStagingBuffer, hsb, hlt, if_true, heq]
    · refine ⟨core, b, ?_, ⟨henv, hup, hdown, hdist⟩, hsb, ?_, rfl, rfl, rfl, rfl,
        fun k r hk hnot => ⟨hk, hnot⟩⟩
      · simp only [D3D12Core.RequestDownloadStagingBuffer, hsb, hlt, if_false]
      · simp only [Buffer.Size] at hlt
        omega

/-! ## Static buffer: effect of upload and download -/

theorem memcpy_congr_src {dst src1 src2 : List Byte} {dst_off off1 off2 n : Nat}
    (h1 : off1 + n ≤ src1.length) (h2 : off2 + n ≤ src2.length)
    (h : readBytes src1 off1 n = readBytes src2 off2 n) :
    memcpy dst dst_off src1 off1 n = memcpy dst dst_off src2 off2 n := by
  rw [readBytes_some h1, readBytes_some h2] at h
  simp only [Option.some.injEq] at h
  by_cases hd : dst_off + n ≤ dst.length
  · rw [memcpy_some hd h1, memcpy_some hd h2, h]
  · simp [memcpy, hd]

theorem D3D12Core.Valid.noFailure {core : D3D12Core} (hv : core.Valid) :
    core.device_.NoFailure := hv.1

/-- The invariant of the core survives a change of the device that keeps the script
healthy and leaves both staging buffers valid. -/
theorem D3D12Core.Valid.of_device {core : D3D12Core} (hv : core.Valid) {dev : Device}
    (henv : dev.NoFailure)
    (hup : ∀ b, core.upload_staging_buffer_ = some b → b.Valid dev)
    (hdown : ∀ b, core.download_staging_buffer_ = some b → b.Valid dev) :
    D3D12Core.Valid { core with device_ := dev } :=
  ⟨henv, hup, hdown, hv.2.2.2⟩

theorem D3D12StaticBuffer.UploadData_static {self : D3D12StaticBuffer} {core : D3D12Core}
    (hv : core.Valid) {b : grassland.Buffer} {r : Resource} (hb : self.buffer_ = some b)
    (hr : core.device_.resource b.buffer_ = some r) (hnot : ¬ core.ownsStaging b.buffer_)
    (data : List Byte) (size offset : Nat) (h1 : offset + size ≤ r.bytes.length)
    (h2 : size ≤ data.length) :
    ∃ core2 r2 bytes,
      self.UploadData core data size offset = some core2 ∧ core2.Valid ∧
      memcpy r.bytes offset data 0 size = some bytes ∧
      core2.device_.resource b.buffer_ = some r2 ∧ r2.bytes = bytes ∧ r2.Width = r.Width ∧
      r2.heap_type = r.heap_type ∧ r2.heap_flags = r.heap_flags ∧
      ¬ core2.ownsStaging b.buffer_ ∧
      core2.frames_in_flight_ = core.frames_in_flight_ ∧
      core2.current_frame_ = core.current_frame_ ∧
      core2.cuda_external_memory_ = core.cuda_external_memory_ := by
  obtain ⟨corea, sb, hreq, hva, hupa, hsize, hdowna, hf1, hf2, hf3, hkeep⟩ :=
    D3D12Core.RequestUploadStagingBuffer_ok hv size
  obtain ⟨hra, hnota⟩ := hkeep _ _ hr hnot
  obtain ⟨rs, hrs, hrsw, hrsl⟩ := hva.2.1 sb hupa
  have hne : sb.buffer_ ≠ b.buffer_ := fun e => hnota (Or.inl ⟨sb, hupa, e⟩)
  -- the host copy into the staging buffer
  have hmap := Buffer.Map_ok hva.1 hrs
  obtain ⟨sbytes, hsbytes⟩ : ∃ sbytes, memcpy rs.bytes 0 data 0 size = some sbytes :=
    ⟨_, memcpy_some (by omega) (by omega)⟩
  have hcopy := Device.memcpyTo_ok (d := corea.device_.afterCall) (h := sb.buffer_)
    (r := rs) (by rw [Device.resource_afterCall]; exact hrs) hsbytes
  have hsl := memcpy_length hsbytes
  -- the device copy into the buffer
  have hs3 : (corea.device_.afterCall.store sb.buffer_ { rs with bytes := sbytes }).resource
      sb.buffer_ = some { rs with bytes := sbytes } :=
    Device.resource_store_self _ (q := rs) (by rw [Device.resource_afterCall]; exact hrs)
  have hd3 : (corea.device_.afterCall.store sb.buffer_ { rs with bytes := sbytes }).resource
      b.buffer_ = some r := by
    rw [Device.resource_store_ne _ _ (Ne.symm hne), Device.resource_afterCall, hra]
  obtain ⟨bytes, hbytes⟩ : ∃ bytes, memcpy r.bytes offset sbytes 0 size = some bytes :=
    ⟨_, memcpy_some h1 (by omega)⟩
  have hbytes2 : memcpy r.bytes offset data 0 size = some bytes := by
    rw [← hbytes]
    exact (memcpy_congr_src (by omega) (by omega) (readBytes_memcpy hsbytes)).symm
  obtain ⟨dev5, r2, hexec, hr2, hr2b, hr2w, hr2t, hr2f, hother, _, hhr, _, _⟩ :=
    Device.execute_CopyBuffer size 0 offset
      .GENERIC_READ hs3 hd3 hne hbytes
  have henv5 : dev5.NoFailure := hva.1.afterCall.of_hresults (by rw [hhr]; rfl)
  refine ⟨{ corea with device_ := dev5 }, r2, bytes, ?_, ?_, hbytes2, hr2, hr2b, hr2w, hr2t,
    hr2f, ?_, hf1, hf2, hf3⟩
  · simp only [D3D12StaticBuffer.UploadData, D3D12Core.WaitGPU, hreq, hmap, hcopy, hb,
      Buffer.Unmap, D3D12Core.SingleTimeCommand, Device.SingleTimeCommand, hexec]
  · refine hva.of_device henv5 ?_ ?_
    · intro c hc
      rw [hupa] at hc
      cases hc
      exact ⟨{ rs with bytes := sbytes }, by rw [hother _ hne]; exact hs3, hrsw,
        by show sbytes.length = _; omega⟩
    · intro c hc
      have hcv := hva.2.2.1 c hc
      have hc1 : c.buffer_ ≠ sb.buffer_ := Ne.symm (hva.2.2.2 sb c hupa hc)
      have hc2 : c.buffer_ ≠ b.buffer_ := fun e => hnota (Or.inr ⟨c, hc, e⟩)
      exact hcv.of_resource (by
        rw [hother _ hc2, Device.resource_store_ne _ _ hc1, Device.resource_afterCall])
  · exact hnota

theorem D3D12StaticBuffer.DownloadData_static {self : D3D12StaticBuffer} {core : D3D12Core}
    (hv : core.Valid) {b : grassland.Buffer} {r : Resource} (hb : self.buffer_ = some b)
    (hr : core.device_.resource b.buffer_ = some r) (hnot : ¬ core.ownsStaging b.buffer_)
    (data : List Byte) (size offset : Nat) (h1 : offset + size ≤ r.bytes.length)
    (h2 : size ≤ data.length) :
    ∃ core2 out,
      self.DownloadData core data size offset = some (core2, out) ∧ core2.Valid ∧
      memcpy data 0 r.bytes offset size = some out ∧
      core2.device_.resource b.buffer_ = some r ∧ ¬ core2.ownsStaging b.buffer_ ∧
      core2.frames_in_flight_ = core.frames_in_flight_ ∧
      core2.current_frame_ = core.current_frame_ ∧
      core2.cuda_external_memory_ = core.cuda_external_memory_ := by
  obtain ⟨corea, sb, hreq, hva, hdowna, hsize, hupa, hf1, hf2, hf3, hkeep⟩ :=
    D3D12Core.RequestDownloadStagingBuffer_ok hv size
  obtain ⟨hra, hnota⟩ := hkeep _ _ hr hnot
  obtain ⟨rs, hrs, hrsw, hrsl⟩ := hva.2.2.1 sb hdowna
  have hne : b.buffer_ ≠ sb.buffer_ := fun e => hnota (Or.inr ⟨sb, hdowna, e.symm⟩)
  obtain ⟨sbytes, hsbytes⟩ : ∃ sbytes, memcpy rs.bytes 0 r.bytes offset size = some sbytes :=
    ⟨_, memcpy_some (by omega) (by omega)⟩
  have hsl := memcpy_length hsbytes
  obtain ⟨dev2, rs2, hexec, hrs2, hrs2b, hrs2w, _, _, hother, _, hhr, _, _⟩ :=
    Device.execute_CopyBuffer size offset 0
      .COPY_DEST hra hrs hne hsbytes
  have henv2 : dev2.NoFailure := hva.1.of_hresults hhr
  have hmap := Buffer.Map_ok henv2 hrs2
  have hfrom := Device.memcpyFrom_ok (d := dev2.afterCall) data 0 0 size
    (h := sb.buffer_) (r := rs2) (by rw [Device.resource_afterCall]; exact hrs2)
  obtain ⟨out, hout⟩ : ∃ out, memcpy data 0 rs2.bytes 0 size = some out :=
    ⟨_, memcpy_some (by omega) (by rw [hrs2b]; omega)⟩
  have hout2 : memcpy data 0 r.bytes offset size = some out := by
    rw [← hout]
    refine (memcpy_congr_src (by rw [hrs2b]; omega) (by omega) ?_).symm
    rw [hrs2b]
    exact readBytes_memcpy hsbytes
  refine ⟨{ corea with device_ := dev2.afterCall }, out, ?_, ?_, hout2, ?_, hnota, hf1, hf2,
    hf3⟩
  · simp only [D3D12StaticBuffer.DownloadData, D3D12Core.WaitGPU, hreq, hb,
      D3D12Core.SingleTimeCommand, Device.SingleTimeCommand, hexec, hmap, hfrom, hout,
      Buffer.Unmap]
  · refine hva.of_device henv2.afterCall ?_ ?_
    · intro c hc
      have hcv := hva.2.1 c hc
      have hc1 : c.buffer_ ≠ sb.buffer_ := hva.2.2.2 c sb hc hdowna
      exact hcv.of_resource (by rw [Device.resource_afterCall, hother _ hc1])
    · intro c hc
      rw [hdowna] at hc
      cases hc
      exact ⟨_, by rw [Device.resource_afterCall]; exact hrs2, by rw [hrs2w]; exact hrsw,
        by rw [hrs2b]; omega⟩
  · rw [Device.resource_afterCall, hother _ hne, hra]

/-- Creation of a buffer, with the created resource made explicit. -/
theorem Device.CreateBuffer_heap_new {dev : Device} (h : dev.NoFailure) (size : Nat)
    (heap_type : D3D12_HEAP_TYPE) :
    ∃ dev2 nb rn,
      dev.CreateBuffer_heap size heap_type = (S_OK, dev2, some nb) ∧ dev2.NoFailure ∧
      nb.buffer_ = dev.resources.length ∧ nb.allocated_size_ = size ∧
      dev2.resource nb.buffer_ = some rn ∧ rn.Width = size ∧
      rn.bytes = List.replicate size 0 ∧ rn.heap_type = heap_type ∧ rn.heap_flags = .NONE ∧
      (∀ k, k ≠ dev.resources.length → dev2.resource k = dev.resource k) ∧
      dev2.resources.length = dev.resources.length + 1 ∧
      dev2.scratch_buffer_ = dev.scratch_buffer_ ∧
      dev2.instance_buffer_ = dev.instance_buffer_ ∧ dev2.executed = dev.executed := by
  obtain ⟨r, hw, hb, ht, hf, heq⟩ := Device.CreateBuffer_heap_ok h size heap_type
  refine ⟨_, _, r, heq, ?_, rfl, rfl, ?_, hw, hb, ht, hf, ?_, ?_, rfl, rfl, rfl⟩
  · exact h.afterCall.of_hresults rfl
  · exact Device.resource_alloc_new dev.afterCall r
  · intro k hk
    rw [Device.resource_alloc, if_neg (by simpa using hk)]
    rfl
  · simp

theorem D3D12StaticBuffer.Resize_static {self : D3D12StaticBuffer} {core : D3D12Core}
    (hv : core.Valid) {b : grassland.Buffer} {r : Resource} (hb : self.buffer_ = some b)
    (hr : core.device_.resource b.buffer_ = some r) (hnot : ¬ core.ownsStaging b.buffer_)
    (hlen : r.bytes.length = b.allocated_size_) (new_size : Nat) :
    ∃ core2 b2 r2,
      self.Resize core new_size = some (core2, { buffer_ := some b2 }) ∧ core2.Valid ∧
      b2.allocated_size_ = new_size ∧ core2.device_.resource b2.buffer_ = some r2 ∧
      r2.Width = new_size ∧ r2.bytes.length = new_size ∧
      readBytes r2.bytes 0 (min b.allocated_size_ new_size) =
        readBytes r.bytes 0 (min b.allocated_size_ new_size) ∧
      r2.heap_type = .DEFAULT ∧ r2.heap_flags = .NONE ∧
      ¬ core2.ownsStaging b2.buffer_ ∧
      core2.frames_in_flight_ = core.frames_in_flight_ ∧
      core2.current_frame_ = core.current_frame_ ∧
      core2.cuda_external_memory_ = core.cuda_external_memory_ := by
  obtain ⟨dev2, nb, rn, heq, henv2, hnb, hnsz, hrn, hrnw, hrnb, hrnt, hrnf, hother, _⟩ :=
    Device.CreateBuffer_heap_new hv.1 new_size .DEFAULT
  have hblt := Device.resource_lt hr
  have hne : b.buffer_ ≠ nb.buffer_ := by omega
  have hr2 : dev2.resource b.buffer_ = some r := by rw [hother _ (by omega), hr]
  obtain ⟨bytes, hbytes⟩ : ∃ bytes,
      memcpy rn.bytes 0 r.bytes 0 (min b.allocated_size_ new_size) = some bytes :=
    ⟨_, memcpy_some (by rw [hrnb]; simp) (by omega)⟩
  obtain ⟨dev3, r3, hexec, hr3, hr3b, hr3w, hr3t, hr3f, hother3, _, hhr3, _, _⟩ :=
    Device.execute_CopyBuffer (min b.allocated_size_ new_size) 0
      0 .GENERIC_READ hr2 hrn hne hbytes
  have hbl := memcpy_length hbytes
  have hstaging : ∀ c : grassland.Buffer, c.Valid core.device_ → core.ownsStaging c.buffer_ →
      c.Valid (dev3.release b.buffer_) := by
    intro c hcv hown
    have hclt := hcv.lt
    have hc1 : c.buffer_ ≠ b.buffer_ := fun e => hnot (e ▸ hown)
    exact hcv.of_resource (by
      rw [Device.resource_release_ne _ hc1, hother3 _ (by omega), hother _ (by omega)])
  refine ⟨{ core with device_ := dev3.release b.buffer_ }, nb, r3, ?_, ?_, hnsz, ?_, ?_, ?_,
    ?_, ?_, ?_, ?_, rfl, rfl, rfl⟩
  · simp only [D3D12StaticBuffer.Resize, D3D12Core.WaitGPU, heq, hb,
      D3D12Core.SingleTimeCommand, Device.SingleTimeCommand, Buffer.Size, hexec]
  · refine hv.of_device (henv2.of_hresults (by rw [Device.release_hresults, hhr3])) ?_ ?_
    · intro c hc
      exact hstaging c (hv.2.1 c hc) (Or.inl ⟨c, hc, rfl⟩)
    · intro c hc
      exact hstaging c (hv.2.2.1 c hc) (Or.inr ⟨c, hc, rfl⟩)
  · show (dev3.release b.buffer_).resource nb.buffer_ = some r3
    rw [Device.resource_release_ne _ (Ne.symm hne), hr3]
  · rw [hr3w, hrnw]
  · rw [hr3b, hbl, hrnb]
    simp
  · rw [hr3b]
    exact readBytes_memcpy hbytes
  · rw [hr3t, hrnt]
  · rw [hr3f, hrnf]
  · rintro (⟨c, hc, hck⟩ | ⟨c, hc, hck⟩)
    · have := (hv.2.1 c hc).lt
      omega
    · have := (hv.2.2.1 c hc).lt
      omega

theorem D3D12CUDABuffer.UploadData_eq (self : D3D12CUDABuffer) (core : D3D12Core)
    (data : List Byte) (size offset : Nat) :
    self.UploadData core data size offset =
      D3D12StaticBuffer.UploadData { buffer_ := self.buffer_ } core data size offset := rfl

theorem D3D12CUDABuffer.Resize_interop {self : D3D12CUDABuffer} {core : D3D12Core}
    (hv : core.Valid) {b : grassland.Buffer} {r : Resource} (hb : self.buffer_ = some b)
    (hr : core.device_.resource b.buffer_ = some r) (hnot : ¬ core.ownsStaging b.buffer_)
    (hlen : r.bytes.length = b.allocated_size_) (new_size : Nat) :
    ∃ core2 b2 r2 m,
      self.Resize core new_size = some (core2, { buffer_ := some b2, cuda_memory_ := m }) ∧
      core2.Valid ∧
      b2.allocated_size_ = new_size ∧ core2.device_.resource b2.buffer_ = some r2 ∧
      r2.Width = new_size ∧ r2.bytes.length = new_size ∧
      readBytes r2.bytes 0 (min b.allocated_size_ new_size) =
        readBytes r.bytes 0 (min b.allocated_size_ new_size) ∧
      r2.heap_type = .DEFAULT ∧ r2.heap_flags = .NONE ∧
      ¬ core2.ownsStaging b2.buffer_ ∧
      core2.frames_in_flight_ = core.frames_in_flight_ ∧
      core2.current_frame_ = core.current_frame_ ∧
      core2.cuda_external_memory_ =
        core.cuda_external_memory_.set self.cuda_memory_ none ++ [some b2.buffer_] ∧
      m = core.cuda_external_memory_.length := by
  obtain ⟨dev2, nb, rn, heq, henv2, hnb, hnsz, hrn, hrnw, hrnb, hrnt, hrnf, hother, _⟩ :=
    Device.CreateBuffer_heap_new hv.1 new_size .DEFAULT
  have hblt := Device.resource_lt hr
  have hne : b.buffer_ ≠ nb.buffer_ := by omega
  have hr2 : dev2.resource b.buffer_ = some r := by rw [hother _ (by omega), hr]
  obtain ⟨bytes, hbytes⟩ : ∃ bytes,
      memcpy rn.bytes 0 r.bytes 0 (min b.allocated_size_ new_size) = some bytes :=
    ⟨_, memcpy_some (by rw [hrnb]; simp) (by omega)⟩
  obtain ⟨dev3, r3, hexec, hr3, hr3b, hr3w, hr3t, hr3f, hother3, _, hhr3, _, _⟩ :=
    Device.execute_CopyBuffer (min b.allocated_size_ new_size) 0
      0 .GENERIC_READ hr2 hrn hne hbytes
  have hbl := memcpy_length hbytes
  have hstaging : ∀ c : grassland.Buffer, c.Valid core.device_ → core.ownsStaging c.buffer_ →
      c.Valid (dev3.release b.buffer_) := by
    intro c hcv hown
    have hclt := hcv.lt
    have hc1 : c.buffer_ ≠ b.buffer_ := fun e => hnot (e ▸ hown)
    exact hcv.of_resource (by
      rw [Device.resource_release_ne _ hc1, hother3 _ (by omega), hother _ (by omega)])
  refine ⟨{ core with
      device_ := dev3.release b.buffer_
      cuda_external_memory_ :=
        core.cuda_external_memory_.set self.cuda_memory_ none ++ [some nb.buffer_] },
    nb, r3, core.cuda_external_memory_.length, ?_, ?_, hnsz, ?_, ?_, ?_, ?_, ?_, ?_, ?_, rfl,
    rfl, rfl, rfl⟩
  · simp only [D3D12CUDABuffer.Resize, D3D12Core.WaitGPU, heq, hb,
      D3D12Core.SingleTimeCommand, Device.SingleTimeCommand, Buffer.Size, hexec,
      D3D12Core.cudaDestroyExternalMemory, D3D12Core.ImportCudaExternalMemory, Buffer.Handle,
      List.length_set]
  · refine ⟨henv2.of_hresults (by rw [Device.release_hresults, hhr3]), ?_, ?_, hv.2.2.2⟩
    · intro c hc
      exact hstaging c (hv.2.1 c hc) (Or.inl ⟨c, hc, rfl⟩)
    · intro c hc
      exact hstaging c (hv.2.2.1 c hc) (Or.inr ⟨c, hc, rfl⟩)
  · show (dev3.release b.buffer_).resource nb.buffer_ = some r3
    rw [Device.resource_release_ne _ (Ne.symm hne), hr3]
  · rw [hr3w, hrnw]
  · rw [hr3b, hbl, hrnb]
    simp
  · rw [hr3b]
    exact readBytes_memcpy hbytes
  · rw [hr3t, hrnt]
  · rw [hr3f, hrnf]
  · rintro (⟨c, hc, hck⟩ | ⟨c, hc, hck⟩)
    · have := (hv.2.1 c hc).lt
      omega
    · have := (hv.2.2.1 c hc).lt
      omega

theorem D3D12CUDABuffer.DownloadData_interop {self : D3D12CUDABuffer} {core : D3D12Core}
    (hv : core.Valid) {b : grassland.Buffer} {r : Resource} (hb : self.buffer_ = some b)
    (hr : core.device_.resource b.buffer_ = some r) (hnot : ¬ core.ownsStaging b.buffer_)
    (data : List Byte) (size offset : Nat) (h1 : offset + size ≤ r.bytes.length)
    (h2 : size ≤ data.length) :
    ∃ core2 out,
      self.DownloadData core data size offset = some (core2, out) ∧ core2.Valid ∧
      memcpy data 0 r.bytes offset size = some out ∧
      core2.device_.resource b.buffer_ = some r ∧ ¬ core2.ownsStaging b.buffer_ ∧
      core2.frames_in_flight_ = core.frames_in_flight_ ∧
      core2.current_frame_ = core.current_frame_ ∧
      core2.cuda_external_memory_ = core.cuda_external_memory_ := by
  obtain ⟨corea, sb, hreq, hva, hdowna, hsize, hupa, hf1, hf2, hf3, hkeep⟩ :=
    D3D12Core.RequestDownloadStagingBuffer_ok hv size
  obtain ⟨hra, hnota⟩ := hkeep _ _ hr hnot
  obtain ⟨dev2, nb, rn, heq, henv2, hnb, hnsz, hrn, hrnw, hrnb, _, _, hother, _⟩ :=
    Device.CreateBuffer_heap_new hva.1 size .READBACK
  have hblt := Device.resource_lt hra
  have hne : b.buffer_ ≠ nb.buffer_ := by omega
  have hr2 : dev2.resource b.buffer_ = some r := by rw [hother _ (by omega), hra]
  obtain ⟨sbytes, hsbytes⟩ : ∃ sbytes, memcpy rn.bytes 0 r.bytes offset size = some sbytes :=
    ⟨_, memcpy_some (by rw [hrnb]; simp) (by omega)⟩
  have hsl := memcpy_length hsbytes
  obtain ⟨dev3, rs2, hexec, hrs2, hrs2b, hrs2w, _, _, hother3, _, hhr, _, _⟩ :=
    Device.execute_CopyBuffer size offset 0
      .GENERIC_READ hr2 hrn hne hsbytes
  have henv3 : dev3.NoFailure := henv2.of_hresults hhr
  have hmap := Buffer.Map_ok henv3 hrs2
  have hfrom := Device.memcpyFrom_ok (d := dev3.afterCall) data 0 0 size
    (h := nb.buffer_) (r := rs2) (by rw [Device.resource_afterCall]; exact hrs2)
  have hsbl : sbytes.length = size := by rw [hsl, hrnb]; simp
  obtain ⟨out, hout⟩ : ∃ out, memcpy data 0 rs2.bytes 0 size = some out :=
    ⟨_, memcpy_some (by omega) (by rw [hrs2b]; omega)⟩
  have hout2 : memcpy data 0 r.bytes offset size = some out := by
    rw [← hout]
    refine (memcpy_congr_src (by rw [hrs2b]; omega) (by omega) ?_).symm
    rw [hrs2b]
    exact readBytes_memcpy hsbytes
  have hstaging : ∀ c : grassland.Buffer, c.Valid corea.device_ → c.Valid dev3.afterCall := by
    intro c hcv
    have hclt := hcv.lt
    exact hcv.of_resource (by
      rw [Device.resource_afterCall, hother3 _ (by omega), hother _ (by omega)])
  refine ⟨{ corea with device_ := dev3.afterCall }, out, ?_, ?_, hout2, ?_, hnota, hf1, hf2,
    hf3⟩
  · simp only [D3D12CUDABuffer.DownloadData, D3D12Core.WaitGPU, hreq, heq, hb,
      Option.isSome_some, if_true, D3D12Core.SingleTimeCommand, Device.SingleTimeCommand,
      hexec, hmap, hfrom, hout, Buffer.Unmap]
  · exact hva.of_device henv3.afterCall (fun c hc => hstaging c (hva.2.1 c hc))
      (fun c hc => hstaging c (hva.2.2.1 c hc))
  · rw [Device.resource_afterCall, hother3 _ hne, hr2]

/-! ## Dynamic buffer: effect of the operations -/

theorem D3D12DynamicBuffer.UploadData_ok {self : D3D12DynamicBuffer} {core : D3D12Core}
    (henv : core.device_.NoFailure) {sb : grassland.Buffer} {r : Resource}
    (hsb : self.staging_buffer_ = some sb) (hr : core.device_.resource sb.buffer_ = some r)
    (data : List Byte) (size offset : Nat) (h1 : offset + size ≤ r.bytes.length)
    (h2 : size ≤ data.length) :
    ∃ bytes,
      memcpy r.bytes offset data 0 size = some bytes ∧
      self.UploadData core data size offset =
        some { core with
          device_ := core.device_.afterCall.store sb.buffer_ { r with bytes := bytes } } := by
  obtain ⟨bytes, hbytes⟩ : ∃ bytes, memcpy r.bytes offset data 0 size = some bytes :=
    ⟨_, memcpy_some h1 (by omega)⟩
  have hmap := Buffer.Map_ok henv hr
  have hcopy := Device.memcpyTo_ok (d := core.device_.afterCall) (h := sb.buffer_)
    (r := r) (by rw [Device.resource_afterCall]; exact hr) hbytes
  refine ⟨bytes, hbytes, ?_⟩
  simp only [D3D12DynamicBuffer.UploadData, hsb, hmap, hcopy, Buffer.Unmap]

theorem D3D12DynamicBuffer.DownloadData_ok {self : D3D12DynamicBuffer} {core : D3D12Core}
    (henv : core.device_.NoFailure) {sb : grassland.Buffer} {r : Resource}
    (hsb : self.staging_buffer_ = some sb) (hr : core.device_.resource sb.buffer_ = some r)
    (data : List Byte) (size offset : Nat) (h1 : offset + size ≤ r.bytes.length)
    (h2 : size ≤ data.length) :
    ∃ out,
      memcpy data 0 r.bytes offset size = some out ∧
      self.DownloadData core data size offset =
        some ({ core with device_ := core.device_.afterCall }, out) := by
  obtain ⟨out, hout⟩ : ∃ out, memcpy data 0 r.bytes offset size = some out :=
    ⟨_, memcpy_some (by omega) h1⟩
  have hmap := Buffer.Map_ok henv hr
  have hfrom := Device.memcpyFrom_ok (d := core.device_.afterCall) data 0 offset size
    (h := sb.buffer_) (r := r) (by rw [Device.resource_afterCall]; exact hr)
  refine ⟨out, hout, ?_⟩
  simp only [D3D12DynamicBuffer.DownloadData, hsb, hmap, hfrom, hout, Buffer.Unmap]

theorem D3D12DynamicBuffer.Resize_ok {self : D3D12DynamicBuffer} {core : D3D12Core}
    (henv : core.device_.NoFailure) {sb : grassland.Buffer} {r : Resource}
    (hsb : self.staging_buffer_ = some sb) (hr : core.device_.resource sb.buffer_ = some r)
    (hlen : r.bytes.length = sb.allocated_size_) (new_size : Nat) :
    ∃ dev2 nb r2,
      self.Resize core new_size =
        some ({ core with device_ := dev2 }, { self with staging_buffer_ := some nb }) ∧
      dev2.NoFailure ∧ nb.allocated_size_ = new_size ∧ nb.buffer_ = core.device_.resources.length ∧
      dev2.resource nb.buffer_ = some r2 ∧ r2.Width = new_size ∧ r2.bytes.length = new_size ∧
      readBytes r2.bytes 0 (min new_size sb.allocated_size_) =
        readBytes r.bytes 0 (min new_size sb.allocated_size_) ∧
      (∀ k, k ≠ nb.buffer_ → k ≠ sb.buffer_ → dev2.resource k = core.device_.resource k) ∧
      dev2.resource sb.buffer_ = none := by
  obtain ⟨dev2, nb, rn, heq, henv2, hnb, hnsz, hrn, hrnw, hrnb, _, _, hother, _⟩ :=
    Device.CreateBuffer_heap_new henv new_size .UPLOAD
  have hblt := Device.resource_lt hr
  have hne : sb.buffer_ ≠ nb.buffer_ := by omega
  have hr2 : dev2.resource sb.buffer_ = some r := by rw [hother _ (by omega), hr]
  have hmap1 := Buffer.Map_ok henv2 hrn
  have hmap2 := Buffer.Map_ok (b := sb) henv2.afterCall (r := r)
    (by rw [Device.resource_afterCall]; exact hr2)
  obtain ⟨bytes, hbytes⟩ : ∃ bytes,
      memcpy rn.bytes 0 r.bytes 0 (min new_size sb.allocated_size_) = some bytes :=
    ⟨_, memcpy_some (by rw [hrnb]; simp) (by omega)⟩
  have hbl := memcpy_length hbytes
  have hcopy : dev2.afterCall.afterCall.memcpyMapped nb.buffer_ 0 sb.buffer_ 0
      (min new_size sb.allocated_size_) =
      some (dev2.afterCall.afterCall.store nb.buffer_ { rn with bytes := bytes }) := by
    have hsrc : dev2.afterCall.afterCall.resource sb.buffer_ = some r := hr2
    simp only [Device.memcpyMapped, hsrc]
    exact Device.memcpyTo_ok (d := dev2.afterCall.afterCall) (by exact hrn) hbytes
  refine ⟨(dev2.afterCall.afterCall.store nb.buffer_ { rn with bytes := bytes }).release
      sb.buffer_, nb, { rn with bytes := bytes }, ?_, ?_, hnsz, hnb, ?_, hrnw, ?_, ?_, ?_, ?_⟩
  · simp only [D3D12DynamicBuffer.Resize, heq, hsb, hmap1, hmap2, Buffer.Size, hcopy,
      Buffer.Unmap]
  · exact henv2.afterCall.afterCall.of_hresults rfl
  · rw [Device.resource_release_ne _ (Ne.symm hne)]
    exact Device.resource_store_self _ (q := rn) hrn
  · show bytes.length = new_size
    rw [hbl, hrnb]
    simp
  · exact readBytes_memcpy hbytes
  · intro k hk1 hk2
    rw [Device.resource_release_ne _ hk2, Device.resource_store_ne _ _ hk1]
    exact hother k (by omega)
  · rw [Device.resource_release, if_pos rfl]

/-! ## Shader table -/

theorem shader_record_size_eq : shader_record_size = 32 := by decide

theorem MappedTable.copyIdentifier_some {mapped : MappedTable} {offset size : Nat}
    {lookup : Option ShaderIdentifier} {identifier : ShaderIdentifier} {data : List Byte}
    (hl : lookup = some identifier)
    (hm : memcpy mapped.data offset identifier.bytes 0 size = some data) :
    mapped.copyIdentifier offset lookup size =
      some { data := data, writes := mapped.writes ++ [(offset, size)] } := by
  simp only [MappedTable.copyIdentifier, hl, hm]

theorem copyShaderRecords_spec (pp : StateObjectProperties) (name : String) (region : Nat) :
    ∀ (ids : List Int) (i : Nat) (mapped : MappedTable),
      region + (i + ids.length) * shader_record_size ≤ mapped.data.length →
      (∀ id ∈ ids, (pp.GetShaderIdentifier (name ++ toString id)).isSome = true) →
      ∃ mapped2, copyShaderRecords pp name region ids i mapped = some mapped2 ∧
        mapped2.data.length = mapped.data.length ∧
        (∀ k, k < region + i * shader_record_size ∨
            region + (i + ids.length) * shader_record_size ≤ k →
          mapped2.data[k]? = mapped.data[k]?) ∧
        (∀ j, ∀ hj : j < ids.length, ∃ identifier,
          pp.GetShaderIdentifier (name ++ toString ids[j]) = some identifier ∧
          readBytes mapped2.data (region + (i + j) * shader_record_size)
              D3D12_SHADER_IDENTIFIER_SIZE_IN_BYTES = some identifier.bytes) ∧
        mapped2.writes = mapped.writes ++
          (List.range ids.length).map fun j : Nat =>
            (region + (i + j) * shader_record_size, D3D12_SHADER_IDENTIFIER_SIZE_IN_BYTES) := by
  intro ids
  induction ids with
  | nil =>
    intro i mapped _ _
    exact ⟨mapped, rfl, rfl, fun _ _ => rfl, fun j hj => absurd hj (by simp), by simp⟩
  | cons id rest ih =>
    intro i mapped hb hnames
    obtain ⟨identifier, hlook⟩ : ∃ identifier,
        pp.GetShaderIdentifier (name ++ toString id) = some identifier :=
      Option.isSome_iff_exists.1 (hnames id (List.mem_cons_self _ _))
    have hsz := identifier.size_eq
    rw [shader_record_size_eq] at hb
    simp only [List.length_cons] at hb
    obtain ⟨d1, hd1⟩ : ∃ d1, memcpy mapped.data (region + i * shader_record_size)
        identifier.bytes 0 D3D12_SHADER_IDENTIFIER_SIZE_IN_BYTES = some d1 :=
      ⟨_, memcpy_some
        (by rw [shader_record_size_eq]; simp only [D3D12_SHADER_IDENTIFIER_SIZE_IN_BYTES]; omega)
        (by rw [hsz]; omega)⟩
    have hl1 := memcpy_length hd1
    have hcopy := MappedTable.copyIdentifier_some hlook hd1
    obtain ⟨m2, hm2, hl2, hout, hrec, hwr⟩ :=
      ih (i + 1)
        { data := d1
          writes := mapped.writes ++
            [(region + i * shader_record_size, D3D12_SHADER_IDENTIFIER_SIZE_IN_BYTES)] }
        (by show _ ≤ d1.length; rw [hl1, shader_record_size_eq]; omega)
        (fun x hx => hnames x (List.mem_cons_of_mem _ hx))
    refine ⟨m2, ?_, ?_, ?_, ?_, ?_⟩
    · simp only [copyShaderRecords, hcopy, hm2]
    · rw [hl2]
      exact hl1
    · intro k hk
      rw [shader_record_size_eq] at hk hout
      simp only [List.length_cons] at hk
      rw [hout k (by omega)]
      show d1[k]? = _
      rw [memcpy_get hd1, if_neg]
      rw [shader_record_size_eq]
      simp only [D3D12_SHADER_IDENTIFIER_SIZE_IN_BYTES]
      omega
    · intro j hj
      cases j with
      | zero =>
        have h0 : readBytes d1 (region + i * shader_record_size)
            D3D12_SHADER_IDENTIFIER_SIZE_IN_BYTES = some identifier.bytes := by
          rw [readBytes_memcpy hd1, readBytes_some (by rw [hsz]; omega)]
          simp [← hsz]
        refine ⟨identifier, hlook, ?_⟩
        apply readBytes_congr h0 (by rw [hl2])
        intro k _ hk2
        rw [shader_record_size_eq] at hout hk2
        simp only [D3D12_SHADER_IDENTIFIER_SIZE_IN_BYTES] at hk2
        exact hout k (Or.inl (by omega))
      | succ j =>
        have hj2 : j < rest.length := by simpa using hj
        obtain ⟨identifier2, hlook2, hread2⟩ := hrec j hj2
        refine ⟨identifier2, by simpa using hlook2, ?_⟩
        have e : i + 1 + j = i + (j + 1) := by omega
        rw [e] at hread2
        exact hread2
    · rw [hwr, List.length_cons, List.range_succ_eq_map, List.map_cons, List.map_map,
        List.append_assoc]
      congr 1
      rw [List.singleton_append]
      congr 1
      apply List.map_congr_left
      intro j _
      show (region + (i + 1 + j) * shader_record_size, _) = (region + (i + (j + 1)) * _, _)
      rw [show i + 1 + j = i + (j + 1) by omega]

/-- A loop that meets an index whose export name the state object does not know is
undefined. -/
theorem copyShaderRecords_null (pp : StateObjectProperties) (name : String) (region : Nat) :
    ∀ (ids : List Int) (i : Nat) (mapped : MappedTable),
      (∃ id ∈ ids, (pp.GetShaderIdentifier (name ++ toString id)).isSome = false) →
      copyShaderRecords pp name region ids i mapped = none := by
  intro ids
  induction ids with
  | nil =>
    intro i mapped h
    obtain ⟨id, hid, _⟩ := h
    cases hid
  | cons id rest ih =>
    intro i mapped h
    cases hl : pp.GetShaderIdentifier (name ++ toString id) with
    | none => simp only [copyShaderRecords, hl, MappedTable.copyIdentifier]
    | some identifier =>
      have hrest : ∃ x ∈ rest, (pp.GetShaderIdentifier (name ++ toString x)).isSome = false := by
        obtain ⟨x, hx, hnone⟩ := h
        rcases List.mem_cons.1 hx with e | e
        · subst e
          rw [hl] at hnone
          cases hnone
        · exact ⟨x, e, hnone⟩
      simp only [copyShaderRecords, hl]
      cases hc : mapped.copyIdentifier (region + i * shader_record_size) (some identifier)
          D3D12_SHADER_IDENTIFIER_SIZE_IN_BYTES with
      | none => rfl
      | some m1 => exact ih (i + 1) m1 hrest

theorem SizeAlignTo_table_ge (x : Nat) :
    x ≤ SizeAlignTo x D3D12_RAYTRACING_SHADER_TABLE_BYTE_ALIGNMENT := by
  simp only [SizeAlignTo, D3D12_RAYTRACING_SHADER_TABLE_BYTE_ALIGNMENT]
  omega

/-- Under an environment without failures, and when every looked-up name is exported,
`CreateShaderTable_properties` succeeds; the lemma names the table it builds, lists the
destination ranges of its copies and describes every record of the buffer. -/
theorem Device.CreateShaderTable_properties_ok (dev : Device) (pp : StateObjectProperties)
    (miss hit call : List Int) (henv : dev.NoFailure) (hnames : pp.Resolves miss hit call)
    (mo ho co total : Nat)
    (hmo : mo = SizeAlignTo (0 + shader_record_size * 1)
      D3D12_RAYTRACING_SHADER_TABLE_BYTE_ALIGNMENT)
    (hho : ho = SizeAlignTo (mo + shader_record_size * miss.length)
      D3D12_RAYTRACING_SHADER_TABLE_BYTE_ALIGNMENT)
    (hco : co = SizeAlignTo (ho + shader_record_size * hit.length)
      D3D12_RAYTRACING_SHADER_TABLE_BYTE_ALIGNMENT)
    (htot : total = SizeAlignTo (co + shader_record_size * call.length)
      D3D12_RAYTRACING_SHADER_TABLE_BYTE_ALIGNMENT) :
    ∃ dev2 data ray,
      dev.CreateShaderTable_properties pp miss hit call =
        some (S_OK, dev2, some
          ({ buffer_ := dev.resources.length
             ray_gen_offset_ := 0
             miss_offset_ := mo
             hit_group_offset_ := ho
             callable_offset_ := co
             miss_shader_count_ := miss.length
             hit_group_count_ := hit.length
             callable_shader_count_ := call.length },
            [(0, D3D12_SHADER_IDENTIFIER_SIZE_IN_BYTES)] ++
              ((List.range miss.length).map fun j : Nat =>
                (mo + j * shader_record_size, D3D12_SHADER_IDENTIFIER_SIZE_IN_BYTES)) ++
              ((List.range hit.length).map fun j : Nat =>
                (ho + j * shader_record_size, D3D12_SHADER_IDENTIFIER_SIZE_IN_BYTES)) ++
              ((List.range call.length).map fun j : Nat =>
                (co + j * shader_record_size, D3D12_SHADER_IDENTIFIER_SIZE_IN_BYTES)))) ∧
      dev2.resource dev.resources.length =
        some { Width := total, heap_type := .UPLOAD, heap_flags := .NONE,
               state := .GENERIC_READ, flags := .NONE, bytes := data } ∧
      data.length = total ∧
      pp.GetShaderIdentifier "RayGenMain" = some ray ∧
      readBytes data 0 D3D12_SHADER_IDENTIFIER_SIZE_IN_BYTES = some ray.bytes ∧
      (∀ i, ∀ hi : i < miss.length, ∃ identifier,
        pp.GetShaderIdentifier ("MissMain" ++ toString miss[i]) = some identifier ∧
        readBytes data (mo + i * shader_record_size) D3D12_SHADER_IDENTIFIER_SIZE_IN_BYTES =
          some identifier.bytes) ∧
      (∀ i, ∀ hi : i < hit.length, ∃ identifier,
        pp.GetShaderIdentifier ("HitGroup" ++ toString hit[i]) = some identifier ∧
        readBytes data (ho + i * shader_record_size) D3D12_SHADER_IDENTIFIER_SIZE_IN_BYTES =
          some identifier.bytes) ∧
      (∀ i, ∀ hi : i < call.length, ∃ identifier,
        pp.GetShaderIdentifier ("CallableMain" ++ toString call[i]) = some identifier ∧
        readBytes data (co + i * shader_record_size) D3D12_SHADER_IDENTIFIER_SIZE_IN_BYTES =
          some identifier.bytes) ∧
      (∀ k, D3D12_SHADER_IDENTIFIER_SIZE_IN_BYTES ≤ k →
        (k < mo ∨ mo + miss.length * shader_record_size ≤ k) →
        (k < ho ∨ ho + hit.length * shader_record_size ≤ k) →
        (k < co ∨ co + call.length * shader_record_size ≤ k) →
        data[k]? = (List.replicate total 0)[k]?) := by
  obtain ⟨hnray, hnmiss, hnhit, hncall⟩ := hnames
  obtain ⟨ray, hray⟩ : ∃ ray, pp.GetShaderIdentifier "RayGenMain" = some ray :=
    Option.isSome_iff_exists.1 hnray
  -- arithmetic facts about the layout
  have hsr := shader_record_size_eq
  have hmo64 : mo = 64 := by rw [hmo, hsr]; decide
  have h1 := SizeAlignTo_table_ge (mo + shader_record_size * miss.length)
  have h2 := SizeAlignTo_table_ge (ho + shader_record_size * hit.length)
  have h3 := SizeAlignTo_table_ge (co + shader_record_size * call.length)
  rw [← hho] at h1
  rw [← hco] at h2
  rw [← htot] at h3
  rw [hsr] at h1 h2 h3
  -- the platform calls
  have henv1 : dev.afterCall.NoFailure := henv.afterCall
  have henv2 := henv1.afterCall
  have hf0 : FAILED (dev.hresults.headD S_OK) = false := Device.platformCall_fst henv
  have hf2 : FAILED (dev.hresults.tail.tail.headD S_OK) = false := Device.platformCall_fst henv2
  have hcb := d3d12.CreateBuffer_succeeds henv1 total .UPLOAD .NONE .GENERIC_READ .NONE
  -- the freshly created resource
  obtain ⟨res, hres⟩ : ∃ res : Resource, res =
      { Width := total, heap_type := .UPLOAD, heap_flags := .NONE, state := .GENERIC_READ,
        flags := .NONE, bytes := List.replicate total 0 } := ⟨_, rfl⟩
  rw [← hres] at hcb
  have hlen0 : res.bytes.length = total := by rw [hres]; simp
  -- the four groups of writes
  have hsz := ray.size_eq
  obtain ⟨d0, hd0⟩ : ∃ d0, memcpy res.bytes 0 ray.bytes 0
      D3D12_SHADER_IDENTIFIER_SIZE_IN_BYTES = some d0 :=
    ⟨_, memcpy_some (by rw [hlen0]; simp only [D3D12_SHADER_IDENTIFIER_SIZE_IN_BYTES]; omega)
      (by rw [hsz]; omega)⟩
  have hl0 := memcpy_length hd0
  have hc0 : MappedTable.copyIdentifier { data := res.bytes, writes := [] } 0
      (pp.GetShaderIdentifier "RayGenMain") D3D12_SHADER_IDENTIFIER_SIZE_IN_BYTES =
      some { data := d0, writes := [] ++ [(0, D3D12_SHADER_IDENTIFIER_SIZE_IN_BYTES)] } :=
    MappedTable.copyIdentifier_some hray hd0
  obtain ⟨m1, hm1, hl1, hout1, hrec1, hw1⟩ :=
    copyShaderRecords_spec pp "MissMain" mo miss 0
      { data := d0, writes := [] ++ [(0, D3D12_SHADER_IDENTIFIER_SIZE_IN_BYTES)] }
      (by show _ ≤ d0.length; rw [hl0, hlen0, hsr]; omega) hnmiss
  have hl1b : m1.data.length = d0.length := hl1
  obtain ⟨m2, hm2, hl2, hout2, hrec2, hw2⟩ :=
    copyShaderRecords_spec pp "HitGroup" ho hit 0 m1
      (by rw [hl1b, hl0, hlen0, hsr]; omega) hnhit
  obtain ⟨m3, hm3, hl3, hout3, hrec3, hw3⟩ :=
    copyShaderRecords_spec pp "CallableMain" co call 0 m2
      (by rw [hl2, hl1b, hl0, hlen0, hsr]; omega) hncall
  rw [hsr] at hout1 hout2 hout3
  have hout1b : ∀ k, k < mo + 0 * 32 ∨ mo + (0 + miss.length) * 32 ≤ k →
      m1.data[k]? = d0[k]? := hout1
  have hidsz : D3D12_SHADER_IDENTIFIER_SIZE_IN_BYTES = 32 := rfl
  have hwrites : m3.writes =
      [(0, D3D12_SHADER_IDENTIFIER_SIZE_IN_BYTES)] ++
        ((List.range miss.length).map fun j : Nat =>
          (mo + j * shader_record_size, D3D12_SHADER_IDENTIFIER_SIZE_IN_BYTES)) ++
        ((List.range hit.length).map fun j : Nat =>
          (ho + j * shader_record_size, D3D12_SHADER_IDENTIFIER_SIZE_IN_BYTES)) ++
        ((List.range call.length).map fun j : Nat =>
          (co + j * shader_record_size, D3D12_SHADER_IDENTIFIER_SIZE_IN_BYTES)) := by
    rw [hw3, hw2, hw1]
    simp only [Nat.zero_add, List.nil_append]
  refine ⟨?dev2, m3.data, ray, ?heq, ?hres2, by omega, hray, ?hray, ?hmiss, ?hhit, ?hcall,
    ?hframe⟩
  case dev2 =>
    exact Device.store (dev.afterCall.afterCall.alloc res).1.afterCall
      dev.resources.length { res with bytes := m3.data }
  · simp only [Device.CreateShaderTable_properties, Device.platformCall, hf0, ← hmo, ← hho,
      ← hco, ← htot]
    rw [show d3d12.CreateBuffer dev.afterCall total .UPLOAD .NONE .GENERIC_READ .NONE =
      (S_OK, (dev.afterCall.afterCall.alloc res).1, some dev.resources.length) from hcb]
    have hlive : (dev.afterCall.afterCall.alloc res).1.resource dev.resources.length =
        some res := Device.resource_alloc_new dev.afterCall.afterCall res
    have hf2b : FAILED ((dev.afterCall.afterCall.alloc res).1.hresults.headD S_OK) = false := hf2
    simp only [Device.Map, Device.platformCall, Device.afterCall_resources, hlive,
      Device.resource_afterCall, hf2b, hc0, hm1, hm2, hm3, hwrites]
    rfl
  · rw [Device.resource_store, if_pos rfl, if_pos (by simp)]
    rw [hres]
  · have h0 : readBytes d0 0 D3D12_SHADER_IDENTIFIER_SIZE_IN_BYTES = some ray.bytes := by
      rw [readBytes_memcpy hd0, readBytes_some (by rw [hsz]; omega)]
      simp [← hsz]
    apply readBytes_congr h0 (by omega)
    intro k _ hk
    rw [hidsz] at hk
    rw [hout3 k (by omega), hout2 k (by omega), hout1b k (by omega)]
  · intro i hi
    obtain ⟨identifier, hlook, hread⟩ := hrec1 i hi
    rw [Nat.zero_add] at hread
    refine ⟨identifier, hlook, ?_⟩
    apply readBytes_congr hread (by omega)
    intro k hk1 hk2
    rw [hidsz, hsr] at hk2
    rw [hout3 k (by omega), hout2 k (by omega)]
  · intro i hi
    obtain ⟨identifier, hlook, hread⟩ := hrec2 i hi
    rw [Nat.zero_add] at hread
    refine ⟨identifier, hlook, ?_⟩
    apply readBytes_congr hread (by omega)
    intro k hk1 hk2
    rw [hidsz, hsr] at hk2
    rw [hout3 k (by omega)]
  · intro i hi
    obtain ⟨identifier, hlook, hread⟩ := hrec3 i hi
    rw [Nat.zero_add] at hread
    exact ⟨identifier, hlook, hread⟩
  · intro k hk0 hk1 hk2 hk3
    rw [hidsz] at hk0
    rw [hsr] at hk1 hk2 hk3
    rw [hout3 k (by omega), hout2 k (by omega), hout1b k (by omega),
      memcpy_outside hd0 k (Or.inr (by rw [hidsz]; omega)), hres]

/-- When no platform call fails and some looked-up name is not exported,
`CreateShaderTable_properties` is undefined: it copies from the null pointer. -/
theorem Device.CreateShaderTable_properties_null (dev : Device) (pp : StateObjectProperties)
    (miss hit call : List Int) (henv : dev.NoFailure) (hnames : ¬ pp.Resolves miss hit call) :
    dev.CreateShaderTable_properties pp miss hit call = none := by
  have henv1 : dev.afterCall.NoFailure := henv.afterCall
  have henv2 := henv1.afterCall
  have hf0 : FAILED (dev.hresults.headD S_OK) = false := Device.platformCall_fst henv
  have hf2 : FAILED (dev.hresults.tail.tail.headD S_OK) = false := Device.platformCall_fst henv2
  obtain ⟨total, htot⟩ : ∃ total, total = SizeAlignTo
      (SizeAlignTo (SizeAlignTo (SizeAlignTo (0 + shader_record_size * 1)
        D3D12_RAYTRACING_SHADER_TABLE_BYTE_ALIGNMENT + shader_record_size * miss.length)
        D3D12_RAYTRACING_SHADER_TABLE_BYTE_ALIGNMENT + shader_record_size * hit.length)
        D3D12_RAYTRACING_SHADER_TABLE_BYTE_ALIGNMENT + shader_record_size * call.length)
      D3D12_RAYTRACING_SHADER_TABLE_BYTE_ALIGNMENT := ⟨_, rfl⟩
  have hcb := d3d12.CreateBuffer_succeeds henv1 total .UPLOAD .NONE .GENERIC_READ .NONE
  obtain ⟨res, hres⟩ : ∃ res : Resource, res =
      { Width := total, heap_type := .UPLOAD, heap_flags := .NONE, state := .GENERIC_READ,
        flags := .NONE, bytes := List.replicate total 0 } := ⟨_, rfl⟩
  rw [← hres] at hcb
  have hlive : (dev.afterCall.afterCall.alloc res).1.resource dev.resources.length =
      some res := Device.resource_alloc_new dev.afterCall.afterCall res
  have hf2b : FAILED ((dev.afterCall.afterCall.alloc res).1.hresults.headD S_OK) = false := hf2
  simp only [Device.CreateShaderTable_properties, Device.platformCall, hf0, ← htot]
  rw [show d3d12.CreateBuffer dev.afterCall total .UPLOAD .NONE .GENERIC_READ .NONE =
    (S_OK, (dev.afterCall.afterCall.alloc res).1, some dev.resources.length) from hcb]
  simp only [Device.Map, Device.platformCall, Device.afterCall_resources, hlive,
    Device.resource_afterCall, hf2b, Bool.false_eq_true, if_false]
  -- the copies
  cases h0 : MappedTable.copyIdentifier { data := res.bytes, writes := [] } 0
      (pp.GetShaderIdentifier "RayGenMain") D3D12_SHADER_IDENTIFIER_SIZE_IN_BYTES with
  | none => rfl
  | some m0 =>
    have hray : (pp.GetShaderIdentifier "RayGenMain").isSome = true := by
      cases hl : pp.GetShaderIdentifier "RayGenMain" with
      | none =>
        rw [hl] at h0
        cases h0
      | some x => rfl
    show (match copyShaderRecords pp "MissMain" _ miss 0 m0 with
      | none => none
      | some mapped => _) = none
    cases h1 : copyShaderRecords pp "MissMain" (SizeAlignTo (0 + shader_record_size * 1)
        D3D12_RAYTRACING_SHADER_TABLE_BYTE_ALIGNMENT) miss 0 m0 with
    | none => rfl
    | some m1 =>
      have hmiss : ∀ id ∈ miss,
          (pp.GetShaderIdentifier ("MissMain" ++ toString id)).isSome = true := by
        intro id hid
        by_contra hne
        rw [copyShaderRecords_null pp "MissMain" _ miss 0 m0
          ⟨id, hid, by simpa using hne⟩] at h1
        cases h1
      show (match copyShaderRecords pp "HitGroup" _ hit 0 m1 with
        | none => none
        | some mapped => _) = none
      cases h2 : copyShaderRecords pp "HitGroup" (SizeAlignTo
          (SizeAlignTo (0 + shader_record_size * 1)
            D3D12_RAYTRACING_SHADER_TABLE_BYTE_ALIGNMENT + shader_record_size * miss.length)
          D3D12_RAYTRACING_SHADER_TABLE_BYTE_ALIGNMENT) hit 0 m1 with
      | none => rfl
      | some m2 =>
        have hhit : ∀ id ∈ hit,
            (pp.GetShaderIdentifier ("HitGroup" ++ toString id)).isSome = true := by
          intro id hid
          by_contra hne
          rw [copyShaderRecords_null pp "HitGroup" _ hit 0 m1
            ⟨id, hid, by simpa using hne⟩] at h2
          cases h2
        have hcall : ∃ id ∈ call,
            (pp.GetShaderIdentifier ("CallableMain" ++ toString id)).isSome = false := by
          by_contra hall
          apply hnames
          refine ⟨hray, hmiss, hhit, ?_⟩
          intro id hid
          by_contra hne
          exact hall ⟨id, hid, by simpa using hne⟩
        show (match copyShaderRecords pp "CallableMain" _ call 0 m2 with
          | none => none
          | some mapped => _) = none
        rw [copyShaderRecords_null pp "CallableMain" _ call 0 m2 hcall]

/-- Under an environment without failures `CreateShaderTable` succeeds; the lemma names
the table it builds and describes every record of the buffer. -/
theorem Device.CreateShaderTable_ok (dev : Device) (p : RayTracingPipeline)
    (miss hit call : List Int) (henv : dev.NoFailure) (mo ho co total : Nat)
    (hmo : mo = SizeAlignTo (0 + shader_record_size * 1)
      D3D12_RAYTRACING_SHADER_TABLE_BYTE_ALIGNMENT)
    (hho : ho = SizeAlignTo (mo + shader_record_size * miss.length)
      D3D12_RAYTRACING_SHADER_TABLE_BYTE_ALIGNMENT)
    (hco : co = SizeAlignTo (ho + shader_record_size * hit.length)
      D3D12_RAYTRACING_SHADER_TABLE_BYTE_ALIGNMENT)
    (htot : total = SizeAlignTo (co + shader_record_size * call.length)
      D3D12_RAYTRACING_SHADER_TABLE_BYTE_ALIGNMENT) :
    ∃ dev2 data,
      dev.CreateShaderTable p miss hit call =
        some (S_OK, dev2, some
          { buffer_ := dev.resources.length
            ray_gen_offset_ := 0
            miss_offset_ := mo
            hit_group_offset_ := ho
            callable_offset_ := co
            miss_shader_count_ := miss.length
            hit_group_count_ := hit.length
            callable_shader_count_ := call.length }) ∧
      dev2.resource dev.resources.length =
        some { Width := total, heap_type := .UPLOAD, heap_flags := .NONE,
               state := .GENERIC_READ, flags := .NONE, bytes := data } ∧
      data.length = total ∧
      readBytes data 0 D3D12_SHADER_IDENTIFIER_SIZE_IN_BYTES =
        some (p.GetShaderIdentifier "RayGenMain").bytes ∧
      (∀ i, ∀ hi : i < miss.length,
        readBytes data (mo + i * shader_record_size) D3D12_SHADER_IDENTIFIER_SIZE_IN_BYTES =
          some (p.GetShaderIdentifier ("MissMain" ++ toString miss[i])).bytes) ∧
      (∀ i, ∀ hi : i < hit.length,
        readBytes data (ho + i * shader_record_size) D3D12_SHADER_IDENTIFIER_SIZE_IN_BYTES =
          some (p.GetShaderIdentifier ("HitGroup" ++ toString hit[i])).bytes) ∧
      (∀ i, ∀ hi : i < call.length,
        readBytes data (co + i * shader_record_size) D3D12_SHADER_IDENTIFIER_SIZE_IN_BYTES =
          some (p.GetShaderIdentifier ("CallableMain" ++ toString call[i])).bytes) := by
  have hnames : p.properties.Resolves miss hit call :=
    ⟨rfl, fun _ _ => rfl, fun _ _ => rfl, fun _ _ => rfl⟩
  obtain ⟨dev2, data, ray, heq, hres, hlen, hray, hread, hmiss, hhit, hcall, _⟩ :=
    Device.CreateShaderTable_properties_ok dev p.properties miss hit call henv hnames
      mo ho co total hmo hho hco htot
  refine ⟨dev2, data, ?_, hres, hlen, ?_, ?_, ?_, ?_⟩
  · simp only [Device.CreateShaderTable, heq, Option.map_some']
  · have e : some (p.GetShaderIdentifier "RayGenMain") = some ray := hray
    rw [Option.some.inj e]
    exact hread
  · intro i hi
    obtain ⟨identifier, hlook, hr⟩ := hmiss i hi
    have e : some (p.GetShaderIdentifier ("MissMain" ++ toString miss[i])) = some identifier :=
      hlook
    rw [Option.some.inj e]
    exact hr
  · intro i hi
    obtain ⟨identifier, hlook, hr⟩ := hhit i hi
    have e : some (p.GetShaderIdentifier ("HitGroup" ++ toString hit[i])) = some identifier :=
      hlook
    rw [Option.some.inj e]
    exact hr
  · intro i hi
    obtain ⟨identifier, hlook, hr⟩ := hcall i hi
    have e : some (p.GetShaderIdentifier ("CallableMain" ++ toString call[i])) =
        some identifier := hlook
    rw [Option.some.inj e]
    exact hr

theorem exampleDevice_noFailure : exampleDevice.NoFailure := by
  intro hr h
  cases h

/-- C1: for index lists of lengths n1, n2, n3, when no platform call fails,
`CreateShaderTable` returns `S_OK` with a table whose offsets are `rayGenOffset = 0`,
`missOffset = align(r, a)`, `hitGroupOffset = align(missOffset + n1*r, a)`,
`callableOffset = align(hitGroupOffset + n2*r, a)`, where `r` is the identifier size
aligned to the record alignment and `a` is the table alignment; the buffer is a newly
allocated resource of exactly `align(callableOffset + n3*r, a)` bytes and the table
reports the counts n1, n2, n3. -/
theorem CreateShaderTable_layout (dev : Device) (p : RayTracingPipeline)
    (miss hit call : List Int) (henv : dev.NoFailure) :
    ∃ dev2 table res r a,
      r = SizeAlignTo D3D12_SHADER_IDENTIFIER_SIZE_IN_BYTES
        D3D12_RAYTRACING_SHADER_RECORD_BYTE_ALIGNMENT ∧
      a = D3D12_RAYTRACING_SHADER_TABLE_BYTE_ALIGNMENT ∧
      dev.CreateShaderTable p miss hit call = some (S_OK, dev2, some table) ∧
      table.ray_gen_offset_ = 0 ∧
      table.miss_offset_ = SizeAlignTo r a ∧
      table.hit_group_offset_ = SizeAlignTo (table.miss_offset_ + miss.length * r) a ∧
      table.callable_offset_ = SizeAlignTo (table.hit_group_offset_ + hit.length * r) a ∧
      dev.resource table.buffer_ = none ∧
      dev2.resource table.buffer_ = some res ∧
      res.Width = SizeAlignTo (table.callable_offset_ + call.length * r) a ∧
      res.bytes.length = res.Width ∧
      table.miss_shader_count_ = miss.length ∧
      table.hit_group_count_ = hit.length ∧
      table.callable_shader_count_ = call.length := by
  obtain ⟨dev2, data, heq, hres, hlen, -⟩ :=
    Device.CreateShaderTable_ok dev p miss hit call henv _ _ _ _ rfl rfl rfl rfl
  refine ⟨dev2, _, _, _, _, rfl, rfl, heq, rfl, ?_, ?_, ?_, ?_, hres, ?_, hlen, rfl, rfl, rfl⟩
  · simp [shader_record_size]
  · simp [shader_record_size, Nat.mul_comm]
  · simp [shader_record_size, Nat.mul_comm]
  · simp [Device.resource]
  · simp [shader_record_size, Nat.mul_comm]

/-- C1 at miss = [0, 1], hitGroups = [0], callables = []: the offsets are 0, 64, 128, 192
and the buffer has 192 bytes. -/
theorem CreateShaderTable_layout_witness :
    exampleDevice.NoFailure ∧
    ∃ dev2 table res,
      exampleDevice.CreateShaderTable examplePipeline [0, 1] [0] [] =
        some (S_OK, dev2, some table) ∧
      table.ray_gen_offset_ = 0 ∧ table.miss_offset_ = 64 ∧ table.hit_group_offset_ = 128 ∧
      table.callable_offset_ = 192 ∧ dev2.resource table.buffer_ = some res ∧
      res.Width = 192 ∧ table.miss_shader_count_ = 2 ∧ table.hit_group_count_ = 1 ∧
      table.callable_shader_count_ = 0 := by
  refine ⟨exampleDevice_noFailure, ?_⟩
  obtain ⟨dev2, table, res, r, a, hr, ha, heq, h0, h1, h2, h3, _, h5, h6, _, h8, h9, h10⟩ :=
    CreateShaderTable_layout exampleDevice examplePipeline [0, 1] [0] []
      exampleDevice_noFailure
  have hr32 : r = 32 := by rw [hr]; decide
  have ha64 : a = 64 := by rw [ha]; decide
  subst hr32 ha64
  have e1 : table.miss_offset_ = 64 := by rw [h1]; decide
  have e2 : table.hit_group_offset_ = 128 := by rw [h2, e1]; decide
  have e3 : table.callable_offset_ = 192 := by rw [h3, e2]; decide
  have e4 : res.Width = 192 := by rw [h6, e3]; decide
  exact ⟨dev2, table, res, heq, h0, e1, e2, e3, h5, e4, h8, h9, h10⟩

/-- C2, as the code behaves: when no platform call fails and every export name looked up
for the index lists is known to the state object of the pipeline, the buffer of the table
built by `CreateShaderTable` holds the identifier of `RayGenMain` in the identifier-size
bytes at offset 0 and, for each of the three categories and every position `i` of its
index list, the identifier-size bytes at `region_offset + i * stride` are the identifier
the lookup returns for the export named by the category and the index `list[i]`. -/
theorem CreateShaderTable_records (dev : Device) (pp : StateObjectProperties)
    (miss hit call : List Int) (henv : dev.NoFailure) (hnames : pp.Resolves miss hit call) :
    ∃ dev2 table writes res,
      dev.CreateShaderTable_properties pp miss hit call =
        some (S_OK, dev2, some (table, writes)) ∧
      dev2.resource table.buffer_ = some res ∧
      (∃ identifier,
        pp.GetShaderIdentifier "RayGenMain" = some identifier ∧
        readBytes res.bytes 0 D3D12_SHADER_IDENTIFIER_SIZE_IN_BYTES = some identifier.bytes) ∧
      (∀ i, ∀ hi : i < miss.length, ∃ identifier,
        pp.GetShaderIdentifier ("MissMain" ++ toString miss[i]) = some identifier ∧
        readBytes res.bytes (table.miss_offset_ + i * shader_record_size)
            D3D12_SHADER_IDENTIFIER_SIZE_IN_BYTES = some identifier.bytes) ∧
      (∀ i, ∀ hi : i < hit.length, ∃ identifier,
        pp.GetShaderIdentifier ("HitGroup" ++ toString hit[i]) = some identifier ∧
        readBytes res.bytes (table.hit_group_offset_ + i * shader_record_size)
            D3D12_SHADER_IDENTIFIER_SIZE_IN_BYTES = some identifier.bytes) ∧
      (∀ i, ∀ hi : i < call.length, ∃ identifier,
        pp.GetShaderIdentifier ("CallableMain" ++ toString call[i]) = some identifier ∧
        readBytes res.bytes (table.callable_offset_ + i * shader_record_size)
            D3D12_SHADER_IDENTIFIER_SIZE_IN_BYTES = some identifier.bytes) := by
  obtain ⟨dev2, data, ray, heq, hres, _, hray, h0, h1, h2, h3, _⟩ :=
    Device.CreateShaderTable_properties_ok dev pp miss hit call henv hnames _ _ _ _
      rfl rfl rfl rfl
  exact ⟨dev2, _, _, _, heq, hres, ⟨ray, hray, h0⟩, h1, h2, h3⟩

theorem exampleStateObject_resolves : exampleStateObject.Resolves [1, 0] [0] [] := by
  refine ⟨rfl, ?_, ?_, ?_⟩
  · intro id hid
    simp only [List.mem_cons, List.mem_singleton, List.not_mem_nil, or_false] at hid
    rcases hid with e | e <;> subst e <;> rfl
  · intro id hid
    simp only [List.mem_singleton] at hid
    subst hid
    rfl
  · intro id hid
    cases hid

/-- C2 on the example state object at miss = [1, 0], hitGroups = [0], callables = []: the
ray generation record holds the identifier of `RayGenMain` (bytes 1), the two miss records
hold, in list order, the identifiers of `MissMain1` (bytes 3) and `MissMain0` (bytes 2),
and the hit group record holds the identifier of `HitGroup0` (bytes 4). -/
theorem CreateShaderTable_records_witness :
    exampleDevice.NoFailure ∧ exampleStateObject.Resolves [1, 0] [0] [] ∧
    ∃ dev2 table writes res,
      exampleDevice.CreateShaderTable_properties exampleStateObject [1, 0] [0] [] =
        some (S_OK, dev2, some (table, writes)) ∧
      dev2.resource table.buffer_ = some res ∧
      readBytes res.bytes 0 D3D12_SHADER_IDENTIFIER_SIZE_IN_BYTES =
        some (List.replicate 32 1) ∧
      readBytes res.bytes (table.miss_offset_ + 0 * shader_record_size)
        D3D12_SHADER_IDENTIFIER_SIZE_IN_BYTES = some (List.replicate 32 3) ∧
      readBytes res.bytes (table.miss_offset_ + 1 * shader_record_size)
        D3D12_SHADER_IDENTIFIER_SIZE_IN_BYTES = some (List.replicate 32 2) ∧
      readBytes res.bytes (table.hit_group_offset_ + 0 * shader_record_size)
        D3D12_SHADER_IDENTIFIER_SIZE_IN_BYTES = some (List.replicate 32 4) := by
  obtain ⟨dev2, table, writes, res, heq, hres, ⟨ray, hray, h0⟩, hmiss, hhit, _⟩ :=
    CreateShaderTable_records exampleDevice exampleStateObject [1, 0] [0] []
      exampleDevice_noFailure exampleStateObject_resolves
  have key : ∀ (name : String) (tag : Byte) (identifier : ShaderIdentifier),
      (exampleStateObject.GetShaderIdentifier name).map ShaderIdentifier.bytes =
        some (List.replicate 32 tag) →
      exampleStateObject.GetShaderIdentifier name = some identifier →
      identifier.bytes = List.replicate 32 tag := by
    intro name tag identifier h1 h2
    rw [h2] at h1
    exact Option.some.inj h1
  obtain ⟨m0, hm0, hr0⟩ := hmiss 0 (by decide)
  obtain ⟨m1, hm1, hr1⟩ := hmiss 1 (by decide)
  obtain ⟨g0, hg0, hrg⟩ := hhit 0 (by decide)
  rw [key "RayGenMain" 1 ray rfl hray] at h0
  rw [key ("MissMain" ++ toString ([1, 0] : List Int)[0]) 3 m0 rfl hm0] at hr0
  rw [key ("MissMain" ++ toString ([1, 0] : List Int)[1]) 2 m1 rfl hm1] at hr1
  rw [key ("HitGroup" ++ toString ([0] : List Int)[0]) 4 g0 rfl hg0] at hrg
  exact ⟨exampleDevice_noFailure, exampleStateObject_resolves, dev2, table, writes, res, heq,
    hres, h0, hr0, hr1, hrg⟩

/-- C2 fails for an index that names no export: the example state object does not export
`MissMain5`, its lookup returns the null pointer, and `CreateShaderTable` with the miss
list `[5]` copies from that pointer, which is undefined, although no platform call
fails. -/
theorem CreateShaderTable_records_counterexample :
    exampleDevice.NoFailure ∧
    (exampleStateObject.GetShaderIdentifier ("MissMain" ++ toString (5 : Int))).isSome = false ∧
    exampleDevice.CreateShaderTable_properties exampleStateObject [5] [] [] = none := by
  have hnull : (exampleStateObject.GetShaderIdentifier
      ("MissMain" ++ toString (5 : Int))).isSome = false := rfl
  refine ⟨exampleDevice_noFailure, hnull, ?_⟩
  apply Device.CreateShaderTable_properties_null exampleDevice exampleStateObject [5] [] []
    exampleDevice_noFailure
  intro h
  have := h.2.1 5 (List.mem_singleton.2 rfl)
  rw [hnull] at this
  cases this

/-! ## The buffer laws (C3, C4, C5) -/

theorem readBytes_zero_eq_take {mem : List Byte} {n : Nat} (h : n ≤ mem.length) :
    readBytes mem 0 n = some (mem.take n) := by
  rw [readBytes_some (by omega)]
  simp

theorem memcpy_take {dst src out : List Byte} {src_off n : Nat}
    (h : memcpy dst 0 src src_off n = some out) : out.take n = (src.drop src_off).take n := by
  have hb := memcpy_bounds h
  have h1 := readBytes_memcpy h
  rw [readBytes_zero_eq_take (by rw [memcpy_length h]; omega), readBytes_some hb.2] at h1
  exact Option.some.inj h1

/-- Upload followed by download of the same range, stated for one buffer resource: the
bytes that come back are the bytes that went in. -/
theorem roundtrip_bytes {rbytes bytes data out out2 : List Byte} {size offset : Nat}
    (hup : memcpy rbytes offset data 0 size = some bytes)
    (hdown : memcpy out 0 bytes offset size = some out2) :
    out2.take size = data.take size := by
  rw [memcpy_take hdown]
  have h1 := readBytes_memcpy hup
  have hb := memcpy_bounds hup
  rw [readBytes_some (by rw [memcpy_length hup]; exact hb.1), readBytes_some hb.2] at h1
  simpa using h1

theorem exampleCore_valid : exampleCore.Valid :=
  ⟨exampleDevice_noFailure, fun _ h => (nomatch h), fun _ h => (nomatch h),
    fun _ _ h => (nomatch h)⟩

/-- C3 (round-trip law): for every buffer variant behind the interface (Static, Dynamic,
Interop), every valid state, and every `(data, size, offset)` with
`offset + size <= Size()`, `UploadData(data, size, offset)` followed by
`DownloadData(out, size, offset)` returns, and the first `size` bytes of `out` are then the
first `size` bytes of `data`. -/
theorem upload_download_roundtrip (buf : D3D12Buffer) (core : D3D12Core)
    (data out : List Byte) (size offset n : Nat) (hcore : core.Valid) (hbuf : buf.Valid core)
    (hsize : buf.Size = some n) (hrange : offset + size ≤ n) (hdata : size ≤ data.length)
    (hout : size ≤ out.length) :
    ∃ core1 core2 out2,
      buf.UploadData core data size offset = some core1 ∧
      buf.DownloadData core1 out size offset = some (core2, out2) ∧
      out2.take size = data.take size := by
  cases buf with
  | Static sbuf =>
    obtain ⟨b, hb, ⟨r, hr, _, hrl⟩, hnot⟩ := hbuf
    have hn : b.allocated_size_ = n := by
      simpa [D3D12Buffer.Size, D3D12StaticBuffer.Size, hb, Buffer.Size] using hsize
    obtain ⟨core1, r2, bytes, hup, hv1, hm1, hr2, hr2b, _, _, _, hnot1, _⟩ :=
      D3D12StaticBuffer.UploadData_static hcore hb hr hnot data size
        offset (by omega) hdata
    have hbl := memcpy_length hm1
    obtain ⟨core2, out2, hdown, _, hm2, _⟩ :=
      D3D12StaticBuffer.DownloadData_static hv1 hb hr2 hnot1 out size
        offset (by rw [hr2b]; omega) hout
    rw [hr2b] at hm2
    exact ⟨core1, core2, out2, hup, hdown, roundtrip_bytes hm1 hm2⟩
  | Dynamic dbuf =>
    obtain ⟨_, _, sb, hsb, ⟨r, hr, _, hrl⟩, _⟩ := hbuf
    have hn : sb.allocated_size_ = n := by
      simpa [D3D12Buffer.Size, D3D12DynamicBuffer.Size, hsb, Buffer.Size] using hsize
    obtain ⟨bytes, hm1, hup⟩ :=
      D3D12DynamicBuffer.UploadData_ok hcore.1 hsb hr data size
        offset (by omega) hdata
    have hbl := memcpy_length hm1
    obtain ⟨out2, hm2, hdown⟩ :=
      @D3D12DynamicBuffer.DownloadData_ok dbuf
        { core with
          device_ := core.device_.afterCall.store sb.buffer_ { r with bytes := bytes } }
        (hcore.1.afterCall.of_hresults rfl) sb { r with bytes := bytes } hsb
        (Device.resource_store_self _ (q := r)
          (by rw [Device.resource_afterCall]; exact hr))
        out size offset
        (by show offset + size ≤ bytes.length; omega) hout
    exact ⟨_, _, out2, hup, hdown, roundtrip_bytes hm1 hm2⟩
  | Interop cbuf =>
    obtain ⟨b, hb, ⟨r, hr, _, hrl⟩, hnot⟩ := hbuf
    have hn : b.allocated_size_ = n := by
      simpa [D3D12Buffer.Size, D3D12CUDABuffer.Size, hb, Buffer.Size] using hsize
    obtain ⟨core1, r2, bytes, hup, hv1, hm1, hr2, hr2b, _, _, _, hnot1, _⟩ :=
      @D3D12StaticBuffer.UploadData_static { buffer_ := cbuf.buffer_ } _ hcore _ _ hb hr hnot
        data size offset (by omega) hdata
    have hbl := memcpy_length hm1
    obtain ⟨core2, out2, hdown, _, hm2, _⟩ :=
      D3D12CUDABuffer.DownloadData_interop hv1 hb hr2 hnot1 out size
        offset (by rw [hr2b]; omega) hout
    rw [hr2b] at hm2
    exact ⟨core1, core2, out2, hup, hdown, roundtrip_bytes hm1 hm2⟩

theorem exampleStatic_core_valid : exampleStatic.1.Valid :=
  ⟨exampleDevice_noFailure, fun _ h => (nomatch h), fun _ h => (nomatch h),
    fun _ _ h => (nomatch h)⟩

theorem exampleStatic_valid : (D3D12Buffer.Static exampleStatic.2).Valid exampleStatic.1 := by
  refine ⟨⟨0, 8⟩, rfl, ⟨_, rfl, rfl, rfl⟩, ?_⟩
  rintro (⟨b, h, _⟩ | ⟨b, h, _⟩) <;> cases h

/-- C3 on the Static example buffer: uploading 3 bytes of `[1, 2, 3, 4]` at offset 2 and
downloading the same range returns `[1, 2, 3]`. -/
theorem upload_download_roundtrip_witness :
    exampleStatic.1.Valid ∧ (D3D12Buffer.Static exampleStatic.2).Valid exampleStatic.1 ∧
    (D3D12Buffer.Static exampleStatic.2).Size = some 8 ∧ 2 + 3 ≤ 8 ∧
    ∃ core1 core2 out2,
      (D3D12Buffer.Static exampleStatic.2).UploadData exampleStatic.1 [1, 2, 3, 4] 3 2 =
        some core1 ∧
      (D3D12Buffer.Static exampleStatic.2).DownloadData core1 [0, 0, 0, 0, 0] 3 2 =
        some (core2, out2) ∧
      out2.take 3 = [1, 2, 3] :=
  ⟨exampleStatic_core_valid, exampleStatic_valid, rfl, by decide,
    upload_download_roundtrip (.Static exampleStatic.2) exampleStatic.1 [1, 2, 3, 4]
      [0, 0, 0, 0, 0] 3 2 8 exampleStatic_core_valid exampleStatic_valid rfl (by decide)
      (by decide) (by decide)⟩

/-- C4: for every buffer variant behind the interface (Static, Dynamic, Interop), every
valid state and every size `s`, `Resize(s)` returns and `Size()` of the resized buffer
is `s`. -/
theorem resize_then_size (buf : D3D12Buffer) (core : D3D12Core) (s : Nat)
    (hcore : core.Valid) (hbuf : buf.Valid core) :
    ∃ core2 buf2, buf.Resize core s = some (core2, buf2) ∧ buf2.Size = some s := by
  cases buf with
  | Static sbuf =>
    obtain ⟨b, hb, ⟨r, hr, _, hrl⟩, hnot⟩ := hbuf
    obtain ⟨core2, b2, r2, hres, _, hsz, _⟩ :=
      D3D12StaticBuffer.Resize_static hcore hb hr hnot hrl s
    refine ⟨core2, .Static { buffer_ := some b2 }, ?_, ?_⟩
    · simp only [D3D12Buffer.Resize, hres, Option.map_some']
    · simp only [D3D12Buffer.Size, D3D12StaticBuffer.Size, Buffer.Size, hsz]
  | Dynamic dbuf =>
    obtain ⟨_, _, sb, hsb, ⟨r, hr, _, hrl⟩, _⟩ := hbuf
    obtain ⟨dev2, nb, r2, hres, _, hsz, _⟩ :=
      D3D12DynamicBuffer.Resize_ok hcore.1 hsb hr hrl s
    refine ⟨{ core with device_ := dev2 },
      .Dynamic { dbuf with staging_buffer_ := some nb }, ?_, ?_⟩
    · simp only [D3D12Buffer.Resize, hres, Option.map_some']
    · simp only [D3D12Buffer.Size, D3D12DynamicBuffer.Size, Buffer.Size, hsz]
  | Interop cbuf =>
    obtain ⟨b, hb, ⟨r, hr, _, hrl⟩, hnot⟩ := hbuf
    obtain ⟨core2, b2, r2, m, hres, _, hsz, _⟩ :=
      D3D12CUDABuffer.Resize_interop hcore hb hr hnot hrl s
    refine ⟨core2, .Interop { buffer_ := some b2, cuda_memory_ := m }, ?_, ?_⟩
    · simp only [D3D12Buffer.Resize, hres, Option.map_some']
    · simp only [D3D12Buffer.Size, D3D12CUDABuffer.Size, Buffer.Size, hsz]

theorem exampleDynamic_core_valid : exampleDynamic.1.Valid :=
  ⟨exampleDevice_noFailure, fun _ h => (nomatch h), fun _ h => (nomatch h),
    fun _ _ h => (nomatch h)⟩

theorem exampleDynamic_valid :
    (D3D12Buffer.Dynamic exampleDynamic.2).Valid exampleDynamic.1 := by
  refine ⟨rfl, by decide, ⟨2, 8⟩, rfl, ⟨_, rfl, rfl, rfl⟩, [⟨0, 8⟩, ⟨1, 8⟩], rfl, ?_, by decide⟩
  intro fb hfb
  simp only [List.mem_cons, List.mem_singleton, List.not_mem_nil, or_false] at hfb
  rcases hfb with e | e <;> subst e <;> exact ⟨_, rfl, rfl, rfl⟩

/-- C4 on the Dynamic example buffer: after `Resize(5)`, `Size()` is 5. -/
theorem resize_then_size_witness :
    exampleDynamic.1.Valid ∧ (D3D12Buffer.Dynamic exampleDynamic.2).Valid exampleDynamic.1 ∧
    ∃ core2 buf2,
      (D3D12Buffer.Dynamic exampleDynamic.2).Resize exampleDynamic.1 5 = some (core2, buf2) ∧
      buf2.Size = some 5 :=
  ⟨exampleDynamic_core_valid, exampleDynamic_valid,
    resize_then_size (.Dynamic exampleDynamic.2) exampleDynamic.1 5 exampleDynamic_core_valid
      exampleDynamic_valid⟩

theorem memcpy_eq_of_readBytes {dst src1 src2 out : List Byte} {off n : Nat}
    (h1 : memcpy dst 0 src1 off n = some out) (h2 : off + n ≤ src2.length)
    (h : readBytes src2 off n = readBytes src1 off n) :
    memcpy dst 0 src2 off n = some out := by
  rw [← h1]
  exact memcpy_congr_src h2 (memcpy_bounds h1).2 h

/-- C5 (prefix-preservation law): for every buffer variant behind the interface, every
valid state of size `old_size` and every new size `s`: downloading the first
`min(old_size, s)` bytes, resizing to `s`, and downloading the same range again all
return, and the second download yields the same bytes as the first. -/
theorem resize_preserves_prefix (buf : D3D12Buffer) (core : D3D12Core) (s old_size : Nat)
    (out : List Byte) (hcore : core.Valid) (hbuf : buf.Valid core)
    (hsize : buf.Size = some old_size) (hout : min old_size s ≤ out.length) :
    ∃ core0 out0 core1 buf1 core2 out1,
      buf.DownloadData core out (min old_size s) 0 = some (core0, out0) ∧
      buf.Resize core0 s = some (core1, buf1) ∧
      buf1.DownloadData core1 out (min old_size s) 0 = some (core2, out1) ∧
      out1 = out0 ∧ out1.take (min old_size s) = out0.take (min old_size s) := by
  cases buf with
  | Static sbuf =>
    obtain ⟨b, hb, ⟨r, hr, _, hrl⟩, hnot⟩ := hbuf
    have hn : b.allocated_size_ = old_size := by
      simpa [D3D12Buffer.Size, D3D12StaticBuffer.Size, hb, Buffer.Size] using hsize
    obtain ⟨core0, out0, hd0, hv0, hm0, hr0, hnot0, _⟩ :=
      D3D12StaticBuffer.DownloadData_static hcore hb hr hnot out
        (min old_size s) 0 (by omega) hout
    obtain ⟨core1, b2, r2, hres, hv1, hsz, hr2, _, hr2l, hpre, _, _, hnot1, _⟩ :=
      D3D12StaticBuffer.Resize_static hv0 hb hr0 hnot0 hrl s
    rw [hn] at hpre
    obtain ⟨core2, out1, hd1, _, hm1, _⟩ :=
      @D3D12StaticBuffer.DownloadData_static { buffer_ := some b2 } _ hv1 _ _ rfl hr2 hnot1
        out (min old_size s) 0 (by omega) hout
    have e : out1 = out0 := by
      have := memcpy_eq_of_readBytes hm0 (by omega) hpre
      rw [hm1] at this
      exact Option.some.inj this
    refine ⟨core0, out0, core1, .Static { buffer_ := some b2 }, core2, out1, hd0, ?_, hd1, e,
      by rw [e]⟩
    simp only [D3D12Buffer.Resize, hres, Option.map_some']
  | Dynamic dbuf =>
    obtain ⟨_, _, sb, hsb, ⟨r, hr, _, hrl⟩, _⟩ := hbuf
    have hn : sb.allocated_size_ = old_size := by
      simpa [D3D12Buffer.Size, D3D12DynamicBuffer.Size, hsb, Buffer.Size] using hsize
    obtain ⟨out0, hm0, hd0⟩ :=
      D3D12DynamicBuffer.DownloadData_ok hcore.1 hsb hr out
        (min old_size s) 0 (by omega) hout
    obtain ⟨dev2, nb, r2, hres, henv2, hsz, _, hr2, _, hr2l, hpre, _⟩ :=
      @D3D12DynamicBuffer.Resize_ok dbuf { core with device_ := core.device_.afterCall }
        (hcore.1.afterCall.of_hresults rfl) sb r hsb
        (by rw [Device.resource_afterCall]; exact hr) hrl s
    rw [hn, Nat.min_comm] at hpre
    obtain ⟨out1, hm1, hd1⟩ :=
      @D3D12DynamicBuffer.DownloadData_ok { dbuf with staging_buffer_ := some nb }
        { core with device_ := dev2 } henv2 _ _ rfl hr2 out
        (min old_size s) 0 (by omega) hout
    have e : out1 = out0 := by
      have := memcpy_eq_of_readBytes hm0 (by omega) hpre
      rw [hm1] at this
      exact Option.some.inj this
    refine ⟨_, out0, { core with device_ := dev2 },
      .Dynamic { dbuf with staging_buffer_ := some nb }, _, out1, hd0, ?_, hd1, e, by rw [e]⟩
    simp only [D3D12Buffer.Resize, hres, Option.map_some']
  | Interop cbuf =>
    obtain ⟨b, hb, ⟨r, hr, _, hrl⟩, hnot⟩ := hbuf
    have hn : b.allocated_size_ = old_size := by
      simpa [D3D12Buffer.Size, D3D12CUDABuffer.Size, hb, Buffer.Size] using hsize
    obtain ⟨core0, out0, hd0, hv0, hm0, hr0, hnot0, _⟩ :=
      D3D12CUDABuffer.DownloadData_interop hcore hb hr hnot out
        (min old_size s) 0 (by omega) hout
    obtain ⟨core1, b2, r2, m, hres, hv1, hsz, hr2, _, hr2l, hpre, _, _, hnot1, _⟩ :=
      D3D12CUDABuffer.Resize_interop hv0 hb hr0 hnot0 hrl s
    rw [hn] at hpre
    obtain ⟨core2, out1, hd1, _, hm1, _⟩ :=
      @D3D12CUDABuffer.DownloadData_interop { buffer_ := some b2, cuda_memory_ := m } _ hv1 _ _
        rfl hr2 hnot1 out (min old_size s) 0 (by omega) hout
    have e : out1 = out0 := by
      have := memcpy_eq_of_readBytes hm0 (by omega) hpre
      rw [hm1] at this
      exact Option.some.inj this
    refine ⟨core0, out0, core1, .Interop { buffer_ := some b2, cuda_memory_ := m }, core2,
      out1, hd0, ?_, hd1, e, by rw [e]⟩
    simp only [D3D12Buffer.Resize, hres, Option.map_some']

theorem exampleInterop_core_valid : exampleInterop.1.Valid :=
  ⟨exampleDevice_noFailure, fun _ h => (nomatch h), fun _ h => (nomatch h),
    fun _ _ h => (nomatch h)⟩

theorem exampleInterop_valid :
    (D3D12Buffer.Interop exampleInterop.2).Valid exampleInterop.1 := by
  refine ⟨⟨0, 8⟩, rfl, ⟨_, rfl, rfl, rfl⟩, ?_⟩
  rintro (⟨b, h, _⟩ | ⟨b, h, _⟩) <;> cases h

theorem exampleWritten_valid :
    exampleWritten.Valid ∧ (D3D12Buffer.Static exampleStatic.2).Valid exampleWritten ∧
    exampleWritten.device_.resource 0 =
      some { Width := 8, heap_type := .DEFAULT, heap_flags := .NONE, state := .GENERIC_READ,
             flags := .ALLOW_UNORDERED_ACCESS, bytes := [1, 2, 3, 4, 5, 6, 7, 8] } := by
  obtain ⟨b, hb, ⟨r, hr, _, _⟩, hnot⟩ := exampleStatic_valid
  have eb : b = ⟨0, 8⟩ := by
    have h : exampleStatic.2.buffer_ = some ⟨0, 8⟩ := rfl
    rw [hb] at h
    exact Option.some.inj h
  subst eb
  have er : exampleStatic.1.device_.resource 0 =
      some { Width := 8, heap_type := .DEFAULT, heap_flags := .NONE, state := .GENERIC_READ,
             flags := .ALLOW_UNORDERED_ACCESS, bytes := List.replicate 8 0 } := rfl
  obtain ⟨core2, r2, bytes, hup, hv2, _, hr2, _, hw2, _, _, hnot2, _⟩ :=
    D3D12StaticBuffer.UploadData_static exampleStatic_core_valid hb er hnot
      [1, 2, 3, 4, 5, 6, 7, 8] 8 0 (by decide) (by decide)
  have e : exampleWritten = core2 := by
    simp only [exampleWritten, hup, Option.getD_some]
  have hres : exampleWritten.device_.resource 0 =
      some { Width := 8, heap_type := .DEFAULT, heap_flags := .NONE, state := .GENERIC_READ,
             flags := .ALLOW_UNORDERED_ACCESS, bytes := [1, 2, 3, 4, 5, 6, 7, 8] } := rfl
  rw [e]
  rw [e] at hres
  exact ⟨hv2, ⟨⟨0, 8⟩, hb, ⟨_, hres, rfl, rfl⟩, hnot2⟩, hres⟩

/-- C5 on the Static example buffer holding the bytes 1 to 8, resized to 5 bytes: the
download of the first five bytes returns 1, 2, 3, 4, 5 before the resize and after it. -/
theorem resize_preserves_prefix_witness :
    exampleWritten.Valid ∧ (D3D12Buffer.Static exampleStatic.2).Valid exampleWritten ∧
    (D3D12Buffer.Static exampleStatic.2).Size = some 8 ∧
    ∃ core0 out0 core1 buf1 core2 out1,
      (D3D12Buffer.Static exampleStatic.2).DownloadData exampleWritten
        [9, 9, 9, 9, 9, 9] (min 8 5) 0 = some (core0, out0) ∧
      out0 = [1, 2, 3, 4, 5, 9] ∧
      (D3D12Buffer.Static exampleStatic.2).Resize core0 5 = some (core1, buf1) ∧
      buf1.Size = some 5 ∧
      buf1.DownloadData core1 [9, 9, 9, 9, 9, 9] (min 8 5) 0 = some (core2, out1) ∧
      out1 = [1, 2, 3, 4, 5, 9] := by
  obtain ⟨core0, out0, core1, buf1, core2, out1, hd0, hres, hd1, e, _⟩ :=
    resize_preserves_prefix (.Static exampleStatic.2) exampleWritten 5 8
      [9, 9, 9, 9, 9, 9] exampleWritten_valid.1 exampleWritten_valid.2.1 rfl (by decide)
  have h0 : ((D3D12Buffer.Static exampleStatic.2).DownloadData exampleWritten
      [9, 9, 9, 9, 9, 9] (min 8 5) 0).map Prod.snd = some [1, 2, 3, 4, 5, 9] := rfl
  rw [hd0] at h0
  have e0 : out0 = [1, 2, 3, 4, 5, 9] := Option.some.inj h0
  have hsz : buf1.Size = some 5 := by
    have h1 : (((D3D12Buffer.Static exampleStatic.2).DownloadData exampleWritten
        [9, 9, 9, 9, 9, 9] (min 8 5) 0).bind fun x =>
          ((D3D12Buffer.Static exampleStatic.2).Resize x.1 5).map fun y => y.2.Size) =
        some (some 5) := rfl
    rw [hd0] at h1
    simp only [Option.some_bind, hres, Option.map_some'] at h1
    exact Option.some.inj h1
  exact ⟨exampleWritten_valid.1, exampleWritten_valid.2.1, rfl, core0, out0, core1, buf1, core2,
    out1, hd0, e0, hres, hsz, hd1, e.trans e0⟩

/-! ## Transient pool -/

theorem d3d12.CreateBuffer_new {dev : Device} (h : dev.NoFailure) (size : Nat)
    (heap_type : D3D12_HEAP_TYPE) (heap_flags : D3D12_HEAP_FLAGS)
    (resource_state : D3D12_RESOURCE_STATES) (resource_flags : D3D12_RESOURCE_FLAGS) :
    ∃ hr dev2 rn,
      d3d12.CreateBuffer dev size heap_type heap_flags resource_state resource_flags =
        (hr, dev2, some dev.resources.length) ∧ dev2.NoFailure ∧
      dev2.resource dev.resources.length = some rn ∧ rn.Width = size ∧
      rn.bytes = List.replicate size 0 ∧ rn.heap_type = heap_type ∧
      rn.heap_flags = heap_flags ∧
      (∀ k, k ≠ dev.resources.length → dev2.resource k = dev.resource k) ∧
      dev2.resources.length = dev.resources.length + 1 ∧
      dev2.scratch_buffer_ = dev.scratch_buffer_ ∧
      dev2.instance_buffer_ = dev.instance_buffer_ ∧ dev2.executed = dev.executed ∧
      dev2.gpu_va = dev.gpu_va ∧ dev2.prebuild = dev.prebuild ∧
      dev2.hresults = dev.hresults.tail := by
  refine ⟨_, _, _, d3d12.CreateBuffer_succeeds h size heap_type heap_flags resource_state
    resource_flags, h.afterCall.of_hresults rfl, Device.resource_alloc_new dev.afterCall _, rfl,
    rfl, rfl, rfl, ?_, by simp, rfl, rfl, rfl, rfl, rfl, rfl⟩
  intro k hk
  rw [Device.resource_alloc, if_neg (by simpa using hk)]
  rfl

theorem Device.capacity_of {dev : Device} {p : PoolPurpose} {h : Nat} {r : Resource}
    (hp : dev.pooled p = some h) (hr : dev.resource h = some r) :
    dev.capacity p = r.Width := by
  simp only [Device.capacity, hp, hr]

/-- A request to the pool in an environment without failures: the pool of that purpose ends
with a live buffer whose capacity is the larger of the old capacity and the requested
size; the other purpose and every other live resource are left alone. -/
theorem Device.Request_ok {dev : Device} (henv : dev.NoFailure) (hv : dev.PoolValid)
    (p : PoolPurpose) (size : Nat) :
    ∃ dev2 h r,
      dev.Request p size = some (dev2, some h) ∧ dev2.NoFailure ∧ dev2.PoolValid ∧
      dev2.pooled p = some h ∧ dev2.resource h = some r ∧
      r.Width = max (dev.capacity p) size ∧ r.bytes.length = r.Width ∧
      (∀ q, q ≠ p → dev2.pooled q = dev.pooled q) ∧
      (∀ k, dev.pooled p ≠ some k → k < dev.resources.length →
        dev2.resource k = dev.resource k) ∧
      dev.resources.length ≤ dev2.resources.length ∧ dev2.executed = dev.executed ∧
      dev2.gpu_va = dev.gpu_va ∧ dev2.prebuild = dev.prebuild := by
  obtain ⟨hlive, hdist⟩ := hv
  -- the common part: the pool of `p` is refilled from a device `dev1` that differs from
  -- `dev` by the release of the old buffer
  have refill : ∀ (dev1 : Device) (old : Option Nat), dev1.NoFailure →
      dev1.resources.length = dev.resources.length →
      (∀ k, old ≠ some k → dev1.resource k = dev.resource k) →
      dev.pooled p = old →
      (∀ q, q ≠ p → dev1.pooled q = dev.pooled q) →
      dev1.executed = dev.executed → dev1.gpu_va = dev.gpu_va → dev1.prebuild = dev.prebuild →
      ∀ (hr : HRESULT) (dev2 : Device) (rn : Resource) (dev3 : Device),
      dev2.NoFailure → dev2.resource dev.resources.length = some rn → rn.Width = size →
      rn.bytes = List.replicate size 0 →
      (∀ k, k ≠ dev.resources.length → dev2.resource k = dev1.resource k) →
      dev2.resources.length = dev.resources.length + 1 →
      dev2.scratch_buffer_ = dev1.scratch_buffer_ →
      dev2.instance_buffer_ = dev1.instance_buffer_ → dev2.executed = dev1.executed →
      dev2.gpu_va = dev1.gpu_va → dev2.prebuild = dev1.prebuild →
      dev3.resources = dev2.resources → dev3.hresults = dev2.hresults →
      dev3.executed = dev2.executed → dev3.gpu_va = dev2.gpu_va →
      dev3.prebuild = dev2.prebuild →
      dev3.pooled p = some dev.resources.length →
      (∀ q, q ≠ p → dev3.pooled q = dev2.pooled q) →
      dev3.NoFailure ∧ dev3.PoolValid ∧ dev3.resource dev.resources.length = some rn ∧
      rn.bytes.length = rn.Width ∧
      (∀ q, q ≠ p → dev3.pooled q = dev.pooled q) ∧
      (∀ k, dev.pooled p ≠ some k → k < dev.resources.length →
        dev3.resource k = dev.resource k) ∧
      dev.resources.length ≤ dev3.resources.length ∧ dev3.executed = dev.executed ∧
      dev3.gpu_va = dev.gpu_va ∧ dev3.prebuild = dev.prebuild := by
    intro dev1 old henv1 hlen1 hkeep1 hold hq1 hex1 hva1 hpre1 hr dev2 rn dev3 henv2 hrn hw hb
      hother hlen2 hs2 hi2 hex2 hva2 hpre2 hres3 hhr3 hex3 hva3 hpre3 hp3 hq3
    have hres : ∀ k, dev3.resource k = dev2.resource k :=
      fun k => Device.resource_eq_of_resources hres3 k
    have hq2 : ∀ q, dev2.pooled q = dev1.pooled q := by
      intro q
      cases q with
      | Scratch => exact hs2
      | Instance => exact hi2
    have hqall : ∀ q, q ≠ p → dev3.pooled q = dev.pooled q := by
      intro q hq
      rw [hq3 q hq, hq2 q, hq1 q hq]
    have hqlive : ∀ q h, q ≠ p → dev.pooled q = some h →
        dev3.resource h = dev.resource h ∧ h < dev.resources.length := by
      intro q h hq hqh
      obtain ⟨r, hr1, _⟩ := hlive q h hqh
      have hlt := Device.resource_lt hr1
      have hne : old ≠ some h := by
        rw [← hold]
        intro e
        cases p <;> cases q <;> first
          | exact hq rfl
          | exact hdist _ _ e hqh rfl
          | exact hdist _ _ hqh e rfl
      exact ⟨by rw [hres, hother h (by omega), hkeep1 h hne], hlt⟩
    refine ⟨henv2.of_hresults hhr3, ⟨?_, ?_⟩, by rw [hres, hrn], by rw [hb, hw]; simp, hqall,
      ?_, by rw [hres3, hlen2]; omega, by rw [hex3, hex2, hex1], by rw [hva3, hva2, hva1],
      by rw [hpre3, hpre2, hpre1]⟩
    · intro q h hq
      by_cases hqp : q = p
      · subst hqp
        rw [hp3] at hq
        cases hq
        exact ⟨rn, by rw [hres, hrn], by rw [hb, hw]; simp⟩
      · rw [hqall q hqp] at hq
        obtain ⟨r, hr1, hr2⟩ := hlive q h hq
        exact ⟨r, by rw [(hqlive q h hqp hq).1, hr1], hr2⟩
    · intro h1 h2 e1 e2
      cases p with
      | Scratch =>
        have e1b : dev3.pooled .Scratch = some h1 := e1
        rw [hp3] at e1b
        cases e1b
        have e2b : dev.pooled .Instance = some h2 := by
          rw [← hqall .Instance (by decide)]
          exact e2
        have := (hqlive .Instance h2 (by decide) e2b).2
        omega
      | Instance =>
        have e2b : dev3.pooled .Instance = some h2 := e2
        rw [hp3] at e2b
        cases e2b
        have e1b : dev.pooled .Scratch = some h1 := by
          rw [← hqall .Scratch (by decide)]
          exact e1
        have := (hqlive .Scratch h1 (by decide) e1b).2
        omega
    · intro k hk1 hk2
      rw [hres, hother k (by omega), hkeep1 k (by rw [← hold]; exact hk1)]
  cases hp : dev.pooled p with
  | none =>
    have hcap : dev.capacity p = 0 := by simp only [Device.capacity, hp]
    cases p with
    | Scratch =>
      obtain ⟨hr, dev2, rn, heq, henv2, hrn, hw, hb, _, _, hother, hlen, hs, hi, hex, hva,
        hpre, _⟩ := d3d12.CreateBuffer_new henv size .DEFAULT .NONE .COMMON
          .ALLOW_UNORDERED_ACCESS
      have hp1 : dev.scratch_buffer_ = none := hp
      obtain ⟨g1, g2, g3, g4, g5, g6, g7, g8, g9, g10⟩ :=
        refill dev none henv rfl (fun _ _ => rfl) hp (fun _ _ => rfl) rfl rfl rfl hr dev2 rn
          (dev2.setScratch (some dev.resources.length)) henv2 hrn hw hb hother hlen hs hi hex
          hva hpre rfl rfl rfl rfl rfl rfl
          (fun q hq => by cases q with
            | Scratch => exact absurd rfl hq
            | Instance => rfl)
      refine ⟨_, _, rn, ?_, g1, g2, rfl, g3, by rw [hw, hcap]; simp, g4, g5, ?_, g7, g8, g9,
        g10⟩
      · simp only [Device.Request, Device.RequestScratchBuffer, hp1, heq]
      · intro k _ hk
        exact g6 k (by rw [hp]; exact fun e => nomatch e) hk
    | Instance =>
      obtain ⟨hr, dev2, rn, heq, henv2, hrn, hw, hb, _, _, hother, hlen, hs, hi, hex, hva,
        hpre, _⟩ := d3d12.CreateBuffer_new henv size .UPLOAD .NONE .GENERIC_READ .NONE
      have hp1 : dev.instance_buffer_ = none := hp
      obtain ⟨g1, g2, g3, g4, g5, g6, g7, g8, g9, g10⟩ :=
        refill dev none henv rfl (fun _ _ => rfl) hp (fun _ _ => rfl) rfl rfl rfl hr dev2 rn
          (dev2.setInstance (some dev.resources.length)) henv2 hrn hw hb hother hlen hs hi hex
          hva hpre rfl rfl rfl rfl rfl rfl
          (fun q hq => by cases q with
            | Instance => exact absurd rfl hq
            | Scratch => rfl)
      refine ⟨_, _, rn, ?_, g1, g2, rfl, g3, by rw [hw, hcap]; simp, g4, g5, ?_, g7, g8, g9,
        g10⟩
      · simp only [Device.Request, Device.RequestInstanceBuffer, hp1, heq]
      · intro k _ hk
        exact g6 k (by rw [hp]; exact fun e => nomatch e) hk
  | some h0 =>
    obtain ⟨r0, hr0, hr0l⟩ := hlive p h0 hp
    have hcap : dev.capacity p = r0.Width := Device.capacity_of hp hr0
    have hlt0 := Device.resource_lt hr0
    by_cases hsmall : r0.Width < size
    · cases p with
      | Scratch =>
        have hp1 : dev.scratch_buffer_ = some h0 := hp
        have henvr : ((dev.release h0).setScratch none).NoFailure := henv.of_hresults rfl
        obtain ⟨hr, dev2, rn, heq, henv2, hrn, hw, hb, _, _, hother, hlen, hs, hi, hex, hva,
          hpre, _⟩ := d3d12.CreateBuffer_new henvr size .DEFAULT .NONE .COMMON
            .ALLOW_UNORDERED_ACCESS
        have hlen0 : ((dev.release h0).setScratch none).resources.length =
            dev.resources.length := by simp
        rw [hlen0] at heq hrn hother hlen
        obtain ⟨g1, g2, g3, g4, g5, g6, g7, g8, g9, g10⟩ :=
          refill ((dev.release h0).setScratch none) (some h0) henvr hlen0
            (fun k hk => by
              rw [Device.resource_setScratch,
                Device.resource_release_ne _ (fun e => hk (by rw [e]))])
            hp
            (fun q hq => by cases q with
              | Scratch => exact absurd rfl hq
              | Instance => rfl)
            rfl rfl rfl hr dev2 rn
            (dev2.setScratch (some dev.resources.length)) henv2 hrn hw hb hother hlen hs hi hex
            hva hpre rfl rfl rfl rfl rfl rfl
            (fun q hq => by cases q with
              | Scratch => exact absurd rfl hq
              | Instance => rfl)
        refine ⟨_, _, rn, ?_, g1, g2, rfl, g3, by rw [hw, hcap]; omega, g4, g5, ?_, g7, g8,
          g9, g10⟩
        · simp only [Device.Request, Device.RequestScratchBuffer, hp1, hr0, hsmall, if_true,
            heq]
        · intro k hk1 hk2
          exact g6 k (by rw [hp]; exact hk1) hk2
      | Instance =>
        have hp1 : dev.instance_buffer_ = some h0 := hp
        have henvr : ((dev.release h0).setInstance none).NoFailure := henv.of_hresults rfl
        obtain ⟨hr, dev2, rn, heq, henv2, hrn, hw, hb, _, _, hother, hlen, hs, hi, hex, hva,
          hpre, _⟩ := d3d12.CreateBuffer_new henvr size .UPLOAD .NONE .GENERIC_READ .NONE
        have hlen0 : ((dev.release h0).setInstance none).resources.length =
            dev.resources.length := by simp
        rw [hlen0] at heq hrn hother hlen
        obtain ⟨g1, g2, g3, g4, g5, g6, g7, g8, g9, g10⟩ :=
          refill ((dev.release h0).setInstance none) (some h0) henvr hlen0
            (fun k hk => by
              rw [Device.resource_setInstance,
                Device.resource_release_ne _ (fun e => hk (by rw [e]))])
            hp
            (fun q hq => by cases q with
              | Instance => exact absurd rfl hq
              | Scratch => rfl)
            rfl rfl rfl hr dev2 rn
            (dev2.setInstance (some dev.resources.length)) henv2 hrn hw hb hother hlen hs hi hex
            hva hpre rfl rfl rfl rfl rfl rfl
            (fun q hq => by cases q with
              | Instance => exact absurd rfl hq
              | Scratch => rfl)
        refine ⟨_, _, rn, ?_, g1, g2, rfl, g3, by rw [hw, hcap]; omega, g4, g5, ?_, g7, g8,
          g9, g10⟩
        · simp only [Device.Request, Device.RequestInstanceBuffer, hp1, hr0, hsmall, if_true,
            heq]
        · intro k hk1 hk2
          exact g6 k (by rw [hp]; exact hk1) hk2
    · refine ⟨dev, h0, r0, ?_, henv, ⟨hlive, hdist⟩, hp, hr0, by rw [hcap]; omega, hr0l,
        fun _ _ => rfl, fun _ _ _ => rfl, le_refl _, rfl, rfl, rfl⟩
      cases p with
      | Scratch =>
        have hp1 : dev.scratch_buffer_ = some h0 := hp
        simp only [Device.Request, Device.RequestScratchBuffer, hp1, hr0, hsmall, if_false]
      | Instance =>
        have hp1 : dev.instance_buffer_ = some h0 := hp
        simp only [Device.Request, Device.RequestInstanceBuffer, hp1, hr0, hsmall, if_false]

/-- C6: for the scratch pool and the instance pool alike, if the pool holds a buffer
(handle `h`) of capacity `c` and a request asks for `size <= c`, the request returns the
same handle `h` and leaves the device as it was: the heap is unchanged (nothing allocated,
nothing released), no platform call is consumed, and the capacity is still `c`. -/
theorem pool_request_within_capacity (dev : Device) (p : PoolPurpose) (size h c : Nat)
    (r : Resource) (hp : dev.pooled p = some h) (hr : dev.resource h = some r)
    (hc : r.Width = c) (hsize : size ≤ c) :
    ∃ dev2,
      dev.Request p size = some (dev2, some h) ∧ dev2 = dev ∧
      dev2.resources = dev.resources ∧ dev2.hresults = dev.hresults ∧
      dev2.pooled p = some h ∧ dev2.capacity p = c := by
  refine ⟨dev, ?_, rfl, rfl, rfl, hp, ?_⟩
  · have hnot : ¬ r.Width < size := by omega
    cases p with
    | Scratch =>
      have hp1 : dev.scratch_buffer_ = some h := hp
      simp only [Device.Request, Device.RequestScratchBuffer, hp1, hr, hnot, if_false]
    | Instance =>
      have hp1 : dev.instance_buffer_ = some h := hp
      simp only [Device.Request, Device.RequestInstanceBuffer, hp1, hr, hnot, if_false]
  · rw [Device.capacity_of hp hr, hc]

/-- C6 on the example pool: a scratch request of 10 bytes against a capacity of 16. -/
theorem pool_request_within_capacity_witness :
    examplePoolDevice.pooled .Scratch = some 0 ∧ (10 : Nat) ≤ 16 ∧
    ∃ dev2,
      examplePoolDevice.Request .Scratch 10 = some (dev2, some 0) ∧ dev2 = examplePoolDevice ∧
      dev2.resources = examplePoolDevice.resources ∧
      dev2.hresults = examplePoolDevice.hresults ∧
      dev2.pooled .Scratch = some 0 ∧ dev2.capacity .Scratch = 16 :=
  ⟨rfl, by decide,
    pool_request_within_capacity examplePoolDevice .Scratch 10 0 16 _ rfl rfl rfl
      (by decide)⟩

theorem foldl_max_ge (l : List Nat) (c : Nat) : c ≤ l.foldl max c := by
  induction l generalizing c with
  | nil => exact le_refl _
  | cons x xs ih => exact le_trans (le_max_left c x) (ih (max c x))

theorem foldl_max_mem (l : List Nat) (c s : Nat) (h : s ∈ l) : s ≤ l.foldl max c := by
  induction l generalizing c with
  | nil => cases h
  | cons x xs ih =>
    rcases List.mem_cons.1 h with e | e
    · subst e
      exact le_trans (le_max_right c s) (foldl_max_ge xs (max c s))
    · exact ih (max c x) e

theorem Device.capacity_other {dev dev2 : Device} (hv : dev.PoolValid) {p q : PoolPurpose}
    (hq : q ≠ p) (hpool : dev2.pooled q = dev.pooled q)
    (hkeep : ∀ k, dev.pooled p ≠ some k → k < dev.resources.length →
      dev2.resource k = dev.resource k) :
    dev2.capacity q = dev.capacity q := by
  simp only [Device.capacity, hpool]
  cases hqh : dev.pooled q with
  | none => rfl
  | some h =>
    obtain ⟨r, hr, _⟩ := hv.1 q h hqh
    have hne : dev.pooled p ≠ some h := by
      intro e
      cases p <;> cases q <;> first
        | exact hq rfl
        | exact hv.2 _ _ e hqh rfl
        | exact hv.2 _ _ hqh e rfl
    simp only [hkeep h hne (Device.resource_lt hr)]

/-- Sessions in an environment without failures: every session of requests to the scratch
and instance pools runs to its end, and for each purpose the capacity afterwards is the
maximum of the capacity before and of all sizes requested for that purpose. -/
theorem Device.RequestAll_capacity (dev : Device) (reqs : List (PoolPurpose × Nat))
    (henv : dev.NoFailure) (hv : dev.PoolValid) :
    ∃ dev2,
      dev.RequestAll reqs = some dev2 ∧ dev2.NoFailure ∧ dev2.PoolValid ∧
      ∀ p,
        dev2.capacity p =
          (((reqs.filter fun x => decide (x.1 = p)).map Prod.snd).foldl max (dev.capacity p)) ∧
        dev.capacity p ≤ dev2.capacity p ∧
        ∀ s, (p, s) ∈ reqs → s ≤ dev2.capacity p := by
  induction reqs generalizing dev with
  | nil =>
    exact ⟨dev, rfl, henv, hv, fun p => ⟨rfl, le_refl _, fun _ h => nomatch h⟩⟩
  | cons x rest ih =>
    obtain ⟨p0, s0⟩ := x
    obtain ⟨dev1, h, r, heq, henv1, hv1, hp1, hr1, hw1, _, hq1, hkeep1, _⟩ :=
      Device.Request_ok henv hv p0 s0
    obtain ⟨dev2, hall, henv2, hv2, hcap⟩ := ih dev1 henv1 hv1
    have hcap1 : ∀ p, dev1.capacity p = if p0 = p then max (dev.capacity p) s0
        else dev.capacity p := by
      intro p
      by_cases hpp : p0 = p
      · subst hpp
        rw [if_pos rfl, Device.capacity_of hp1 hr1, hw1]
      · rw [if_neg hpp]
        exact Device.capacity_other hv (Ne.symm hpp) (hq1 p (Ne.symm hpp)) hkeep1
    refine ⟨dev2, ?_, henv2, hv2, ?_⟩
    · simp only [Device.RequestAll, heq, hall]
    · intro p
      obtain ⟨e1, e2, e3⟩ := hcap p
      have hfold : dev2.capacity p =
          ((((p0, s0) :: rest).filter fun x => decide (x.1 = p)).map Prod.snd).foldl max
            (dev.capacity p) := by
        rw [e1, hcap1 p]
        by_cases hpp : p0 = p
        · simp [hpp]
        · simp [hpp]
      refine ⟨hfold, ?_, ?_⟩
      · rw [hfold]
        exact foldl_max_ge _ _
      · intro s hs
        rcases List.mem_cons.1 hs with e | e
        · have hpe : p0 = p := (Prod.mk.inj e).1.symm
          have hse : s = s0 := (Prod.mk.inj e).2
          have : s ≤ dev1.capacity p := by
            rw [hcap1 p, if_pos hpe, hse]
            exact le_max_right _ _
          exact le_trans this e2
        · exact e3 s e

theorem examplePoolDevice_valid : examplePoolDevice.PoolValid := by
  refine ⟨?_, ?_⟩
  · intro p h hp
    cases p with
    | Scratch =>
      cases hp
      exact ⟨_, rfl, rfl⟩
    | Instance =>
      cases hp
      exact ⟨_, rfl, rfl⟩
  · intro h1 h2 e1 e2
    cases e1
    cases e2
    decide

/-- Sessions on the example pool without failures: scratch requests of 10, 30 and 20
bytes, with an instance request in between, leave the scratch capacity at 30. -/
theorem examplePoolDevice_session :
    ∃ dev2,
      examplePoolDevice.RequestAll
        [(.Scratch, 10), (.Scratch, 30), (.Instance, 4), (.Scratch, 20)] = some dev2 ∧
      dev2.capacity .Scratch = 30 ∧ dev2.capacity .Instance = 8 := by
  obtain ⟨dev2, h1, _, _, h2⟩ :=
    Device.RequestAll_capacity examplePoolDevice
      [(.Scratch, 10), (.Scratch, 30), (.Instance, 4), (.Scratch, 20)]
      exampleDevice_noFailure examplePoolDevice_valid
  refine ⟨dev2, h1, ?_, ?_⟩
  · rw [(h2 .Scratch).1]
    decide
  · rw [(h2 .Instance).1]
    decide

/-- C7, as the code behaves when a creation fails: if the pool of a purpose holds a buffer
of capacity `c`, a request asks for more than `c`, and the platform refuses the creation of
the larger buffer, then the request has already released the pooled buffer, it drops the
result code of the creation, and it returns the null pointer: the pool of that purpose is
empty afterwards, its capacity is 0, below the size just requested, and the session goes on
with the next request. -/
theorem pool_capacity_lost_on_failed_creation (dev : Device) (p : PoolPurpose)
    (size h c : Nat) (r : Resource) (rest : List (PoolPurpose × Nat))
    (hp : dev.pooled p = some h) (hr : dev.resource h = some r) (hc : r.Width = c)
    (hsize : c < size) (hfail : FAILED (dev.hresults.headD S_OK) = true) :
    dev.capacity p = c ∧
    ∃ dev2,
      dev.Request p size = some (dev2, none) ∧
      dev2.pooled p = none ∧ dev2.resource h = none ∧ dev2.capacity p = 0 ∧
      dev2.capacity p < size ∧ (0 < c → dev2.capacity p < dev.capacity p) ∧
      dev2.hresults = dev.hresults.tail ∧
      dev.RequestAll ((p, size) :: rest) = dev2.RequestAll rest := by
  have hlt : r.Width < size := by omega
  have hcap : dev.capacity p = c := by rw [Device.capacity_of hp hr, hc]
  have hlive : h < dev.resources.length := Device.resource_lt hr
  cases p with
  | Scratch =>
    have hp1 : dev.scratch_buffer_ = some h := hp
    have hf : FAILED (((dev.release h).setScratch none).hresults.headD S_OK) = true := hfail
    have hreq : dev.Request .Scratch size =
        some ((((dev.release h).setScratch none).afterCall).setScratch none, none) := by
      simp only [Device.Request, Device.RequestScratchBuffer, hp1, hr, hlt, if_true,
        d3d12.CreateBuffer, Device.platformCall, hf]
    refine ⟨hcap, _, hreq, rfl, ?_, ?_, ?_, ?_, rfl, ?_⟩
    · show ((dev.release h).setScratch none).afterCall.resource h = none
      rw [Device.resource_afterCall, Device.resource_setScratch, Device.resource_release,
        if_pos rfl]
    · simp only [Device.capacity, Device.pooled, Device.setScratch]
    · simp only [Device.capacity, Device.pooled, Device.setScratch]
      omega
    · intro hpos
      rw [hcap]
      simp only [Device.capacity, Device.pooled, Device.setScratch]
      exact hpos
    · simp only [Device.RequestAll, hreq]
  | Instance =>
    have hp1 : dev.instance_buffer_ = some h := hp
    have hf : FAILED (((dev.release h).setInstance none).hresults.headD S_OK) = true := hfail
    have hreq : dev.Request .Instance size =
        some ((((dev.release h).setInstance none).afterCall).setInstance none, none) := by
      simp only [Device.Request, Device.RequestInstanceBuffer, hp1, hr, hlt, if_true,
        d3d12.CreateBuffer, Device.platformCall, hf]
    refine ⟨hcap, _, hreq, rfl, ?_, ?_, ?_, ?_, rfl, ?_⟩
    · show ((dev.release h).setInstance none).afterCall.resource h = none
      rw [Device.resource_afterCall, Device.resource_setInstance, Device.resource_release,
        if_pos rfl]
    · simp only [Device.capacity, Device.pooled, Device.setInstance]
    · simp only [Device.capacity, Device.pooled, Device.setInstance]
      omega
    · intro hpos
      rw [hcap]
      simp only [Device.capacity, Device.pooled, Device.setInstance]
      exact hpos
    · simp only [Device.RequestAll, hreq]

/-- C7 on the example pool (scratch capacity 16) when the platform answers
`E_OUTOFMEMORY` to the next creation: after a scratch request of 30 bytes the scratch pool
is empty, its capacity is 0, and the session `30, 10` ends with a capacity of 10, below the
30 bytes requested in it. -/
theorem pool_capacity_lost_on_failed_creation_witness :
    examplePoolFailingDevice.capacity .Scratch = 16 ∧ (16 : Nat) < 30 ∧
    FAILED (examplePoolFailingDevice.hresults.headD S_OK) = true ∧
    ∃ dev2 dev3,
      examplePoolFailingDevice.Request .Scratch 30 = some (dev2, none) ∧
      dev2.capacity .Scratch = 0 ∧
      examplePoolFailingDevice.RequestAll [(.Scratch, 30), (.Scratch, 10)] = some dev3 ∧
      dev3.capacity .Scratch = 10 := by
  obtain ⟨hcap, dev2, hreq, _, _, hzero, _, _, _, hall⟩ :=
    pool_capacity_lost_on_failed_creation examplePoolFailingDevice .Scratch 30 0 16 _
      [(.Scratch, 10)] rfl rfl rfl (by decide) rfl
  have e : examplePoolFailingDevice.Request .Scratch 30 = some (dev2, none) := hreq
  have hd : (examplePoolFailingDevice.RequestAll [(.Scratch, 30), (.Scratch, 10)]).map
      (fun d => d.capacity .Scratch) = some 10 := rfl
  cases h3 : examplePoolFailingDevice.RequestAll [(.Scratch, 30), (.Scratch, 10)] with
  | none =>
    rw [h3] at hd
    cases hd
  | some dev3 =>
    rw [h3] at hd
    exact ⟨hcap, by decide, rfl, dev2, dev3, e, hzero, rfl, Option.some.inj hd⟩

/-! ## Top-level build -/

theorem InstanceLayout.length_encodeAll (layout : InstanceLayout)
    (instances : List D3D12_RAYTRACING_INSTANCE_DESC) :
    (layout.encodeAll instances).length =
      instances.length * sizeof_D3D12_RAYTRACING_INSTANCE_DESC := by
  induction instances with
  | nil => simp [InstanceLayout.encodeAll]
  | cons d ds ih =>
    simp only [InstanceLayout.encodeAll, List.flatMap_cons, List.length_append,
      List.length_cons, layout.size_eq] at ih ⊢
    rw [ih]
    ring

theorem Device.instanceDescs_get (dev : Device) (objects : List (AccelerationStructure × mat4))
    (start i : Nat) :
    (dev.instanceDescs objects start)[i]? =
      (objects[i]?).map (dev.instanceDesc (start + i)) := by
  induction objects generalizing start i with
  | nil => simp [Device.instanceDescs]
  | cons o os ih =>
    cases i with
    | zero => simp [Device.instanceDescs]
    | succ i =>
      simp only [Device.instanceDescs, List.getElem?_cons_succ]
      rw [ih (start + 1) i, show start + 1 + i = start + (i + 1) by omega]

theorem Device.instanceDescs_length (dev : Device)
    (objects : List (AccelerationStructure × mat4)) (start : Nat) :
    (dev.instanceDescs objects start).length = objects.length := by
  induction objects generalizing start with
  | nil => rfl
  | cons o os ih => simp [Device.instanceDescs, ih]

theorem SUCCEEDED_of_not_FAILED {hr : HRESULT} (h : FAILED hr = false) :
    SUCCEEDED hr = true := by
  simp only [FAILED, SUCCEEDED, decide_eq_false_iff_not, not_lt, decide_eq_true_eq] at h ⊢
  exact h

theorem Device.PoolValid.of_resources {dev dev2 : Device} (hv : dev.PoolValid)
    (hs : dev2.scratch_buffer_ = dev.scratch_buffer_)
    (hi : dev2.instance_buffer_ = dev.instance_buffer_)
    (hres : ∀ p h r, dev.pooled p = some h → dev.resource h = some r →
      ∃ r2, dev2.resource h = some r2 ∧ r2.bytes.length = r2.Width) :
    dev2.PoolValid := by
  have hpool : ∀ p, dev2.pooled p = dev.pooled p := by
    intro p
    cases p with
    | Scratch => exact hs
    | Instance => exact hi
  refine ⟨?_, ?_⟩
  · intro p h hp
    rw [hpool p] at hp
    obtain ⟨r, hr, _⟩ := hv.1 p h hp
    exact hres p h r hp hr
  · intro h1 h2 e1 e2
    exact hv.2 h1 h2 (hs ▸ e1) (hi ▸ e2)

/-- The instance-record overload of the top-level build, in an environment without
failures: it returns `S_OK` with a handle that reports the number of records; the pooled
instance buffer starts with the records in order, and one build command is executed. -/
theorem Device.CreateTopLevelAccelerationStructure_instances_ok {dev : Device}
    (henv : dev.NoFailure) (hv : dev.PoolValid) (layout : InstanceLayout)
    (instances : List D3D12_RAYTRACING_INSTANCE_DESC) :
    ∃ dev2 tlas ib r sb,
      dev.CreateTopLevelAccelerationStructure_instances layout instances =
        some (S_OK, dev2, some tlas) ∧
      tlas.primitive_count_ = instances.length ∧
      dev2.instance_buffer_ = some ib ∧ dev2.resource ib = some r ∧
      readBytes r.bytes 0 (instances.length * sizeof_D3D12_RAYTRACING_INSTANCE_DESC) =
        some (layout.encodeAll instances) ∧
      dev2.scratch_buffer_ = some sb ∧
      dev2.executed = dev.executed ++
        [Command.BuildRaytracingAccelerationStructure
          { Inputs :=
              { Type_ := .TOP_LEVEL
                NumDescs := instances.length
                Flags :=
                  D3D12_RAYTRACING_ACCELERATION_STRUCTURE_BUILD_FLAG_PREFER_FAST_TRACE |||
                    D3D12_RAYTRACING_ACCELERATION_STRUCTURE_BUILD_FLAG_ALLOW_UPDATE
                pGeometryDescs := []
                InstanceDescs := dev.gpu_va ib }
            ScratchAccelerationStructureData := dev.gpu_va sb
            DestAccelerationStructureData := dev.gpu_va tlas.as_
            SourceAccelerationStructureData := 0 }] := by
  -- the instance buffer
  obtain ⟨dev1, ib, r1, hreq1, henv1, hv1, hp1, hr1, hw1, hl1, hq1, _, _, hex1, hva1, hpre1⟩ :=
    Device.Request_ok henv hv .Instance
      (sizeof_D3D12_RAYTRACING_INSTANCE_DESC * instances.length)
  have hreq1b : dev.RequestInstanceBuffer
      (sizeof_D3D12_RAYTRACING_INSTANCE_DESC * instances.length) = some (dev1, some ib) := hreq1
  have hcap : instances.length * sizeof_D3D12_RAYTRACING_INSTANCE_DESC ≤ r1.bytes.length := by
    rw [hl1, hw1, Nat.mul_comm]
    exact le_max_right _ _
  have hmap : dev1.Map ib = some (dev1.platformCall.1, dev1.afterCall) := by
    simp only [Device.Map, hr1]
    rfl
  have hf1 := Device.platformCall_fst henv1
  have hlenc := layout.length_encodeAll instances
  obtain ⟨bytes, hbytes⟩ : ∃ bytes, memcpy r1.bytes 0 (layout.encodeAll instances) 0
      (instances.length * sizeof_D3D12_RAYTRACING_INSTANCE_DESC) = some bytes :=
    ⟨_, memcpy_some (by omega) (by omega)⟩
  have hbl := memcpy_length hbytes
  have hcopy := Device.memcpyTo_ok (d := dev1.afterCall) (h := ib) (r := r1)
    (by rw [Device.resource_afterCall]; exact hr1) hbytes
  -- the device after the host copy
  obtain ⟨dev3, hdev3⟩ : ∃ dev3, dev3 = dev1.afterCall.store ib { r1 with bytes := bytes } :=
    ⟨_, rfl⟩
  have hib1 : dev1.instance_buffer_ = some ib := hp1
  have hr3 : dev3.resource ib = some { r1 with bytes := bytes } := by
    rw [hdev3]
    exact Device.resource_store_self _ (q := r1) (by rw [Device.resource_afterCall]; exact hr1)
  have henv3 : dev3.NoFailure := by
    rw [hdev3]
    exact henv1.afterCall.of_hresults rfl
  have hv3 : dev3.PoolValid := by
    refine hv1.of_resources (by rw [hdev3]; rfl) (by rw [hdev3]; rfl) ?_
    intro p h r hp hr
    by_cases hh : h = ib
    · subst hh
      exact ⟨_, hr3, hbl.trans hl1⟩
    · refine ⟨r, ?_, ?_⟩
      · rw [hdev3, Device.resource_store_ne _ _ hh, Device.resource_afterCall, hr]
      · obtain ⟨r', hr', hl'⟩ := hv1.1 p h hp
        rw [hr] at hr'
        cases hr'
        exact hl'
  -- the scratch buffer
  obtain ⟨dev4, sb, r4, hreq4, henv4, hv4, hp4, hr4, _, _, hq4, hkeep4, _, hex4, hva4, hpre4⟩ :=
    Device.Request_ok henv3 hv3 .Scratch
      (dev3.prebuild
        { Type_ := .TOP_LEVEL
          NumDescs := instances.length
          Flags := D3D12_RAYTRACING_ACCELERATION_STRUCTURE_BUILD_FLAG_PREFER_FAST_TRACE |||
            D3D12_RAYTRACING_ACCELERATION_STRUCTURE_BUILD_FLAG_ALLOW_UPDATE
          pGeometryDescs := []
          InstanceDescs := dev3.GetGPUVirtualAddress ib }).ScratchDataSizeInBytes
  have hib3 : dev3.instance_buffer_ = some ib := by rw [hdev3]; exact hib1
  have hib4 : dev4.instance_buffer_ = some ib := by
    have := hq4 .Instance (by decide)
    exact this.trans hib3
  have hr4ib : dev4.resource ib = some { r1 with bytes := bytes } := by
    rw [hkeep4 ib ?_ (Device.resource_lt hr3), hr3]
    intro e
    exact hv3.2 ib ib e hib3 rfl
  -- the result buffer
  obtain ⟨hr5, dev5, rn, heq5, henv5, _, _, _, _, _, hother5, hlen5, hs5, hi5, hex5, hva5, _, _⟩ :=
    d3d12.CreateBuffer_new henv4
      (dev3.prebuild
        { Type_ := .TOP_LEVEL
          NumDescs := instances.length
          Flags := D3D12_RAYTRACING_ACCELERATION_STRUCTURE_BUILD_FLAG_PREFER_FAST_TRACE |||
            D3D12_RAYTRACING_ACCELERATION_STRUCTURE_BUILD_FLAG_ALLOW_UPDATE
          pGeometryDescs := []
          InstanceDescs := dev3.GetGPUVirtualAddress ib }).ResultDataMaxSizeInBytes
      .DEFAULT .NONE .RAYTRACING_ACCELERATION_STRUCTURE .ALLOW_UNORDERED_ACCESS
  have hf5 := SUCCEEDED_of_not_FAILED (Device.platformCall_fst henv5)
  have hva3 : dev3.gpu_va = dev.gpu_va := by rw [hdev3]; exact hva1
  have hex3 : dev3.executed = dev.executed := by rw [hdev3]; exact hex1
  obtain ⟨cmd, hcmd⟩ : ∃ cmd, cmd = Command.BuildRaytracingAccelerationStructure
      { Inputs :=
          { Type_ := .TOP_LEVEL
            NumDescs := instances.length
            Flags := D3D12_RAYTRACING_ACCELERATION_STRUCTURE_BUILD_FLAG_PREFER_FAST_TRACE |||
              D3D12_RAYTRACING_ACCELERATION_STRUCTURE_BUILD_FLAG_ALLOW_UPDATE
            pGeometryDescs := []
            InstanceDescs := dev3.GetGPUVirtualAddress ib }
        ScratchAccelerationStructureData := dev5.GetGPUVirtualAddress sb
        DestAccelerationStructureData := dev5.GetGPUVirtualAddress dev4.resources.length
        SourceAccelerationStructureData := 0 } := ⟨_, rfl⟩
  refine ⟨dev5.afterCall.log cmd,
    { as_ := dev4.resources.length, primitive_count_ := instances.length }, ib,
    { r1 with bytes := bytes }, sb, ?_, rfl, ?_, ?_, ?_, ?_, ?_⟩
  · simp only [Device.CreateTopLevelAccelerationStructure_instances, hreq1b, hmap, hf1,
      hcopy, ← hdev3]
    have hreq4b : dev3.RequestScratchBuffer _ = some (dev4, some sb) := hreq4
    have hf5b : SUCCEEDED (dev5.hresults.headD S_OK) = true := hf5
    simp only [hreq4b, heq5, Device.platformCall, Device.SingleTimeCommand,
      List.nil_append, ← hcmd, hf5b, if_true]
    simp only [Bool.false_eq_true, if_false, Device.execute, hcmd, Device.executeCommand]
  · show dev5.afterCall.instance_buffer_ = some ib
    rw [Device.afterCall_instance, hi5, hib4]
  · show (dev5.afterCall.log _).resource ib = some _
    rw [Device.resource_log, Device.resource_afterCall,
      hother5 ib (by have := Device.resource_lt hr4ib; omega), hr4ib]
  · show readBytes bytes 0 _ = _
    rw [readBytes_memcpy hbytes, readBytes_zero_eq_take (by omega), ← hlenc, List.take_length]
  · show dev5.afterCall.scratch_buffer_ = some sb
    rw [Device.afterCall_scratch, hs5]
    exact hp4
  · show dev5.afterCall.executed ++ _ = _
    rw [Device.afterCall_executed, hex5, hex4, hex3, hcmd]
    simp only [Device.GetGPUVirtualAddress, hva5, hva4, hva3]

theorem exampleDevice_poolValid : exampleDevice.PoolValid :=
  ⟨fun p _ h => (by cases p <;> cases h), fun _ _ h => (nomatch h)⟩

theorem Device.instanceDescs_replicate (dev : Device) (object : AccelerationStructure × mat4)
    (n i : Nat) (hi : i < n) :
    (dev.instanceDescs (List.replicate n object) 0)[i]? = some (dev.instanceDesc i object) := by
  rw [Device.instanceDescs_get, Nat.zero_add, List.getElem?_replicate, if_pos hi]
  rfl

/-- C8, as the code behaves: for every input sequence of (bottom-level structure,
transform) objects, the instance record at position `i` is the one made from `objects[i]`
(input order is kept) and carries `InstanceID = i mod 2^24`, the field having 24 bits, so
`InstanceID = i` for every position `i < 2^24`; in an environment without failures the
top-level build returns `S_OK` with a handle whose instance count is `len(objects)`, the
records lie in the instance buffer in that order, and the executed build command covers
`len(objects)` records. -/
theorem top_level_build_instance_ids (dev : Device) (layout : InstanceLayout)
    (objects : List (AccelerationStructure × mat4)) (henv : dev.NoFailure)
    (hv : dev.PoolValid) :
    (∀ i, (dev.instanceDescs objects 0)[i]? = (objects[i]?).map (dev.instanceDesc i)) ∧
    (∀ (i : Nat) (d : D3D12_RAYTRACING_INSTANCE_DESC),
      (dev.instanceDescs objects 0)[i]? = some d →
        d.InstanceID = i % 2 ^ 24 ∧ (i < 2 ^ 24 → d.InstanceID = i)) ∧
    (objects.length ≤ 2 ^ 24 →
      ∀ (i : Nat) (d : D3D12_RAYTRACING_INSTANCE_DESC),
        (dev.instanceDescs objects 0)[i]? = some d → d.InstanceID = i) ∧
    (dev.instanceDescs objects 0).length = objects.length ∧
    ∃ dev2 tlas ib r desc,
      dev.CreateTopLevelAccelerationStructure layout objects = some (S_OK, dev2, some tlas) ∧
      tlas.primitive_count_ = objects.length ∧
      dev2.instance_buffer_ = some ib ∧ dev2.resource ib = some r ∧
      readBytes r.bytes 0 (objects.length * sizeof_D3D12_RAYTRACING_INSTANCE_DESC) =
        some (layout.encodeAll (dev.instanceDescs objects 0)) ∧
      dev2.executed = dev.executed ++ [Command.BuildRaytracingAccelerationStructure desc] ∧
      desc.Inputs.Type_ = .TOP_LEVEL ∧ desc.Inputs.NumDescs = objects.length ∧
      desc.Inputs.InstanceDescs = dev.gpu_va ib := by
  have hget : ∀ i, (dev.instanceDescs objects 0)[i]? = (objects[i]?).map (dev.instanceDesc i) := by
    intro i
    rw [Device.instanceDescs_get, Nat.zero_add]
  have hlen := Device.instanceDescs_length dev objects 0
  have hid : ∀ (i : Nat) (d : D3D12_RAYTRACING_INSTANCE_DESC),
      (dev.instanceDescs objects 0)[i]? = some d → d.InstanceID = i % 2 ^ 24 := by
    intro i d hd
    rw [hget i] at hd
    cases ho : objects[i]? with
    | none => rw [ho] at hd; cases hd
    | some o =>
      rw [ho] at hd
      cases hd
      rfl
  refine ⟨hget, ?_, ?_, hlen, ?_⟩
  · intro i d hd
    refine ⟨hid i d hd, fun hi => ?_⟩
    rw [hid i d hd]
    exact Nat.mod_eq_of_lt hi
  · intro hsmall i d hd
    have hi : i < (dev.instanceDescs objects 0).length := by
      by_contra hge
      rw [List.getElem?_eq_none (Nat.le_of_not_lt hge)] at hd
      cases hd
    rw [hid i d hd]
    exact Nat.mod_eq_of_lt (by omega)
  · obtain ⟨dev2, tlas, ib, r, sb, heq, hcount, hib, hr, hbytes, _, hex⟩ :=
      Device.CreateTopLevelAccelerationStructure_instances_ok henv hv layout
        (dev.instanceDescs objects 0)
    rw [hlen] at hcount hbytes hex
    exact ⟨dev2, tlas, ib, r, _, heq, hcount, hib, hr, hbytes, hex, rfl, rfl, rfl⟩

/-- C8 on three example objects: the identifiers are 0, 1, 2 and the handle reports 3
instances. -/
theorem top_level_build_instance_ids_witness :
    exampleDevice.NoFailure ∧ exampleDevice.PoolValid ∧ exampleObjects.length ≤ 2 ^ 24 ∧
    (exampleDevice.instanceDescs exampleObjects 0).map
      D3D12_RAYTRACING_INSTANCE_DESC.InstanceID = [0, 1, 2] ∧
    (∀ (i : Nat) (d : D3D12_RAYTRACING_INSTANCE_DESC),
      (exampleDevice.instanceDescs exampleObjects 0)[i]? = some d → d.InstanceID = i) ∧
    ∃ dev2 tlas,
      exampleDevice.CreateTopLevelAccelerationStructure exampleLayout exampleObjects =
        some (S_OK, dev2, some tlas) ∧
      tlas.primitive_count_ = 3 := by
  obtain ⟨_, _, hsmall, _, dev2, tlas, _, _, _, heq, hcount, _⟩ :=
    top_level_build_instance_ids exampleDevice exampleLayout exampleObjects
      exampleDevice_noFailure exampleDevice_poolValid
  exact ⟨exampleDevice_noFailure, exampleDevice_poolValid, by decide, rfl, hsmall (by decide),
    dev2, tlas, heq, hcount⟩

/-- C8 fails beyond `2^24` instances: in the top-level build of `2^24 + 1` copies of one
object, which returns `S_OK` and reports `2^24 + 1` instances, the record at position
`2^24 = 16777216` carries `InstanceID = 0`. -/
theorem top_level_build_instance_id_counterexample :
    (16777216 : Nat) < 16777217 ∧
    ∃ d,
      (exampleDevice.instanceDescs
        (List.replicate 16777217 ({ as_ := 7, primitive_count_ := 12 }, exampleMatrix)) 0)[16777216]? =
        some d ∧
      d.InstanceID = 0 ∧ d.InstanceID ≠ 16777216 ∧
      ∃ dev2 tlas,
        exampleDevice.CreateTopLevelAccelerationStructure exampleLayout
          (List.replicate 16777217 ({ as_ := 7, primitive_count_ := 12 }, exampleMatrix)) =
            some (S_OK, dev2, some tlas) ∧
        tlas.primitive_count_ = 16777217 := by
  have hlt : (16777216 : Nat) < 16777217 := by norm_num
  have hid : (exampleDevice.instanceDesc 16777216
      ({ as_ := 7, primitive_count_ := 12 }, exampleMatrix)).InstanceID = 0 := by
    show 16777216 % 2 ^ 24 = 0
    norm_num
  obtain ⟨dev2, tlas, _, _, _, heq, hcount, _⟩ :=
    Device.CreateTopLevelAccelerationStructure_instances_ok exampleDevice_noFailure
      exampleDevice_poolValid exampleLayout
      (exampleDevice.instanceDescs
        (List.replicate 16777217 ({ as_ := 7, primitive_count_ := 12 }, exampleMatrix)) 0)
  rw [Device.instanceDescs_length, List.length_replicate] at hcount
  refine ⟨hlt, _, Device.instanceDescs_replicate exampleDevice _ 16777217 16777216 hlt, hid, ?_,
    dev2, tlas, heq, hcount⟩
  rw [hid]
  norm_num

/-! ## Dynamic buffer: the state invariant -/

theorem memcpy_whole {dst src : List Byte} {n : Nat} (h1 : dst.length = n)
    (h2 : src.length = n) : memcpy dst 0 src 0 n = some src := by
  rw [memcpy_some (by omega) (by omega)]
  simp [← h2, ← h1]
  omega

theorem frame_ne_staging {sb : grassland.Buffer} {fbs : List grassland.Buffer}
    (hnd : ((sb :: fbs).map fun b : grassland.Buffer => b.buffer_).Nodup)
    {fb : grassland.Buffer} (hfb : fb ∈ fbs) : fb.buffer_ ≠ sb.buffer_ := by
  rw [List.map_cons, List.nodup_cons] at hnd
  intro e
  exact hnd.1 (e ▸ List.mem_map_of_mem (fun b : grassland.Buffer => b.buffer_) hfb)

theorem D3D12DynamicBuffer.UploadData_valid {self : D3D12DynamicBuffer} {core : D3D12Core}
    (henv : core.device_.NoFailure) (hv : self.Valid core) (data : List Byte)
    (size offset : Nat) (h2 : size ≤ data.length) {n : Nat} (hn : self.Size = some n)
    (h1 : offset + size ≤ n) :
    ∃ core2, self.UploadData core data size offset = some core2 ∧ core2.device_.NoFailure ∧
      self.Valid core2 ∧ core2.frames_in_flight_ = core.frames_in_flight_ := by
  obtain ⟨hlen, hf, sb, hsb, ⟨r, hr, hw, hrl⟩, fbs, hfbs, hfv, hnd⟩ := hv
  have hn2 : sb.allocated_size_ = n := by
    simpa [D3D12DynamicBuffer.Size, hsb, Buffer.Size] using hn
  obtain ⟨bytes, hm, hup⟩ :=
    D3D12DynamicBuffer.UploadData_ok henv hsb hr data size offset (by omega) h2
  refine ⟨_, hup, henv.afterCall.of_hresults rfl, ⟨hlen, hf, sb, hsb, ?_, fbs, hfbs, ?_, hnd⟩,
    rfl⟩
  · refine ⟨{ r with bytes := bytes }, Device.resource_store_self _ (q := r) ?_, hw, ?_⟩
    · rw [Device.resource_afterCall]
      exact hr
    · show bytes.length = _
      rw [memcpy_length hm, hrl]
  · intro fb hfb
    refine (hfv fb hfb).of_resource ?_
    show (core.device_.afterCall.store _ _).resource _ = _
    rw [Device.resource_store_ne _ _ (frame_ne_staging hnd hfb)]
    rfl

theorem D3D12DynamicBuffer.DownloadData_valid {self : D3D12DynamicBuffer} {core : D3D12Core}
    (henv : core.device_.NoFailure) (hv : self.Valid core) (data : List Byte)
    (size offset : Nat) (h2 : size ≤ data.length) {n : Nat} (hn : self.Size = some n)
    (h1 : offset + size ≤ n) :
    ∃ core2 out, self.DownloadData core data size offset = some (core2, out) ∧
      core2.device_.NoFailure ∧ self.Valid core2 ∧
      core2.frames_in_flight_ = core.frames_in_flight_ := by
  obtain ⟨hlen, hf, sb, hsb, ⟨r, hr, hw, hrl⟩, fbs, hfbs, hfv, hnd⟩ := hv
  have hn2 : sb.allocated_size_ = n := by
    simpa [D3D12DynamicBuffer.Size, hsb, Buffer.Size] using hn
  obtain ⟨out, hm, hdown⟩ :=
    D3D12DynamicBuffer.DownloadData_ok henv hsb hr data size offset (by omega) h2
  exact ⟨_, out, hdown, henv.afterCall.of_hresults rfl,
    ⟨hlen, hf, sb, hsb, ⟨r, hr, hw, hrl⟩, fbs, hfbs, fun fb hfb => hfv fb hfb, hnd⟩, rfl⟩

theorem D3D12DynamicBuffer.Resize_valid {self : D3D12DynamicBuffer} {core : D3D12Core}
    (henv : core.device_.NoFailure) (hv : self.Valid core) (new_size : Nat) :
    ∃ core2 self2, self.Resize core new_size = some (core2, self2) ∧
      core2.device_.NoFailure ∧ self2.Valid core2 ∧
      core2.frames_in_flight_ = core.frames_in_flight_ ∧ self2.Size = some new_size := by
  obtain ⟨hlen, hf, sb, hsb, ⟨r, hr, hw, hrl⟩, fbs, hfbs, hfv, hnd⟩ := hv
  obtain ⟨dev2, nb, r2, hres, henv2, hsz, hnb, hr2, hr2w, hr2l, _, hother, _⟩ :=
    D3D12DynamicBuffer.Resize_ok henv hsb hr hrl new_size
  have hfresh : ∀ fb ∈ fbs, fb.buffer_ ≠ nb.buffer_ := by
    intro fb hfb
    have := (hfv fb hfb).lt
    omega
  refine ⟨_, _, hres, henv2, ⟨hlen, hf, nb, rfl, ⟨r2, hr2, by rw [hr2w, hsz], by
    rw [hr2l, hsz]⟩, fbs, hfbs, ?_, ?_⟩, rfl, ?_⟩
  · intro fb hfb
    exact (hfv fb hfb).of_resource (hother _ (hfresh fb hfb) (frame_ne_staging hnd hfb))
  · rw [List.map_cons, List.nodup_cons] at hnd ⊢
    refine ⟨?_, hnd.2⟩
    intro hmem
    obtain ⟨fb, hfb, e⟩ := List.mem_map.1 hmem
    exact hfresh fb hfb e
  · simp only [D3D12DynamicBuffer.Size, Buffer.Size, hsz]

theorem nodup_handles_ne {fbs : List grassland.Buffer}
    (hnd : (fbs.map fun b : grassland.Buffer => b.buffer_).Nodup) {i j : Nat}
    {a b : grassland.Buffer} (hi : fbs[i]? = some a) (hj : fbs[j]? = some b) (hij : i ≠ j) :
    a.buffer_ ≠ b.buffer_ := by
  intro e
  have h1 : (fbs.map fun b : grassland.Buffer => b.buffer_)[i]? = some a.buffer_ := by
    rw [List.getElem?_map, hi]
    rfl
  have h2 : (fbs.map fun b : grassland.Buffer => b.buffer_)[j]? = some a.buffer_ := by
    rw [List.getElem?_map, hj, e]
    rfl
  have hjlt : j < (fbs.map fun b : grassland.Buffer => b.buffer_).length := by
    by_contra hc
    rw [List.getElem?_eq_none (by omega)] at h2
    cases h2
  have hilt : i < (fbs.map fun b : grassland.Buffer => b.buffer_).length := by
    by_contra hc
    rw [List.getElem?_eq_none (by omega)] at h1
    cases h1
  rcases Nat.lt_or_gt_of_ne hij with h | h
  · exact List.nodup_iff_getElem?_ne_getElem?.1 hnd i j h hjlt (h1.trans h2.symm)
  · exact List.nodup_iff_getElem?_ne_getElem?.1 hnd j i h hilt (h2.trans h1.symm)

/-- The frame buffer already has the size of the staging buffer: `TransferData` only
records the copy. -/
theorem D3D12DynamicBuffer.TransferData_same {self : D3D12DynamicBuffer} {core : D3D12Core}
    {fb sb : grassland.Buffer} (hfb : self.buffers_[core.current_frame_]? = some (some fb))
    (hsb : self.staging_buffer_ = some sb) (hs : fb.Size = sb.Size)
    (command_list : List Command) :
    self.TransferData core command_list =
      some (core, self, CopyBuffer command_list sb fb sb.Size 0 0 .GENERIC_READ) := by
  simp only [D3D12DynamicBuffer.TransferData, hfb, hsb, hs, ne_eq, not_true_eq_false,
    if_false]

theorem CopyBuffer_append (command_list : List Command) (src dst : grassland.Buffer)
    (size src_offset dst_offset : Nat) (st : D3D12_RESOURCE_STATES) :
    CopyBuffer command_list src dst size src_offset dst_offset st =
      command_list ++ CopyBuffer [] src dst size src_offset dst_offset st := by
  by_cases h : st = .COPY_DEST <;> simp [CopyBuffer, h]

/-- Effect of `TransferData` on a valid Dynamic buffer: the call returns, the frame buffer
of the current frame has the size of the staging buffer afterwards, the staging resource
is untouched, and the copy between the two is recorded. -/
theorem D3D12DynamicBuffer.TransferData_valid {self : D3D12DynamicBuffer} {core : D3D12Core}
    (henv : core.device_.NoFailure) (hv : self.Valid core) :
    ∃ core2 self2 fb sb,
      (∀ command_list, self.TransferData core command_list =
        some (core2, self2, CopyBuffer command_list sb fb sb.Size 0 0 .GENERIC_READ)) ∧
      core2.device_.NoFailure ∧ self2.Valid core2 ∧
      core2.frames_in_flight_ = core.frames_in_flight_ ∧
      core2.current_frame_ = core.current_frame_ ∧
      self.staging_buffer_ = some sb ∧ self2.staging_buffer_ = some sb ∧
      self2.buffers_[core.current_frame_]? = some (some fb) ∧ fb.Size = sb.Size := by
  obtain ⟨hlen, hf, sb, hsb, hsv, fbs, hfbs, hfv, hnd⟩ := hv
  have hflt : core.current_frame_ < fbs.length := by
    rw [hfbs, List.length_map] at hlen
    omega
  obtain ⟨fb0, hget⟩ : ∃ fb0, fbs[core.current_frame_]? = some fb0 :=
    ⟨_, List.getElem?_eq_getElem hflt⟩
  have hbuf : self.buffers_[core.current_frame_]? = some (some fb0) := by
    rw [hfbs, List.getElem?_map, hget]
    rfl
  have hmem0 : fb0 ∈ fbs := List.getElem?_mem hget
  by_cases hs : fb0.Size = sb.Size
  · exact ⟨core, self, fb0, sb, D3D12DynamicBuffer.TransferData_same hbuf hsb hs, henv,
      ⟨hlen, hf, sb, hsb, hsv, fbs, hfbs, hfv, hnd⟩, rfl, rfl, hsb, hsb, hbuf, hs⟩
  · obtain ⟨dev2, nb, rn, heq, henv2, hnb, hnsz, hrn, hrnw, hrnb, _, _, hother, _⟩ :=
      Device.CreateBuffer_heap_new
        (show (core.device_.release fb0.buffer_).NoFailure from henv.of_hresults rfl)
        sb.Size .DEFAULT
    have hrl : (core.device_.release fb0.buffer_).resources.length =
        core.device_.resources.length := by
      simp [Device.release]
    rw [hrl] at hnb hother
    have hkeep : ∀ b : grassland.Buffer, b.Valid core.device_ → b.buffer_ ≠ fb0.buffer_ →
        b.Valid dev2 := by
      intro b hb hne
      have := hb.lt
      exact hb.of_resource (by rw [hother _ (by omega), Device.resource_release_ne _ hne])
    have hnbv : nb.Valid dev2 := ⟨rn, hrn, by rw [hrnw, hnsz], by rw [hrnb, hnsz]; simp⟩
    refine ⟨{ core with device_ := dev2 },
      { self with buffers_ := self.buffers_.set core.current_frame_ (some nb) }, nb, sb, ?_,
      henv2, ⟨?_, hf, sb, hsb, ?_, fbs.set core.current_frame_ nb, ?_, ?_, ?_⟩, rfl, rfl, hsb,
      hsb, ?_, ?_⟩
    · intro command_list
      simp only [D3D12DynamicBuffer.TransferData, hbuf, hsb, ne_eq, hs, not_false_eq_true,
        if_true, heq]
    · show (self.buffers_.set core.current_frame_ (some nb)).length = _
      rw [List.length_set]
      exact hlen
    · exact hkeep sb hsv (frame_ne_staging hnd hmem0).symm
    · show self.buffers_.set core.current_frame_ (some nb) = _
      rw [hfbs, List.map_set]
    · intro fb hfb
      obtain ⟨j, hj⟩ := List.getElem?_of_mem hfb
      rw [List.getElem?_set] at hj
      by_cases hjf : core.current_frame_ = j
      · rw [if_pos hjf, if_pos hflt] at hj
        cases hj
        exact hnbv
      · rw [if_neg hjf] at hj
        exact hkeep fb (hfv fb (List.getElem?_mem hj))
          (nodup_handles_ne (List.nodup_cons.1 (by simpa using hnd)).2 hj hget (Ne.symm hjf))
    · have e : ((sb :: fbs.set core.current_frame_ nb).map
          fun b : grassland.Buffer => b.buffer_) =
          ((sb :: fbs).map fun b : grassland.Buffer => b.buffer_).set
            (core.current_frame_ + 1) nb.buffer_ := by
        simp [List.map_set]
      rw [e]
      refine List.Nodup.set hnd ?_
      intro hmem
      obtain ⟨b, hb, e2⟩ := List.mem_map.1 hmem
      have hbv : b.Valid core.device_ := by
        rcases List.mem_cons.1 hb with h | h
        · rw [h]
          exact hsv
        · exact hfv b h
      have := hbv.lt
      omega
    · show (self.buffers_.set core.current_frame_ (some nb))[core.current_frame_]? = _
      rw [List.getElem?_set, if_pos rfl, if_pos (by omega)]
    · simp only [Buffer.Size, hnsz]

/-- The constructor loop creates `n` valid buffers under fresh, distinct handles and
leaves the resources that existed before alone. -/
theorem D3D12DynamicBuffer.createFrameBuffers_ok (size : Nat) :
    ∀ (n : Nat) (dev : Device), dev.NoFailure →
      ∃ (dev2 : Device) (fbs : List grassland.Buffer),
        D3D12DynamicBuffer.createFrameBuffers dev size n = (dev2, fbs.map some) ∧
        dev2.NoFailure ∧ fbs.length = n ∧
        dev2.resources.length = dev.resources.length + n ∧
        (∀ fb ∈ fbs, fb.Valid dev2 ∧ dev.resources.length ≤ fb.buffer_ ∧
          fb.allocated_size_ = size) ∧
        (fbs.map fun b : grassland.Buffer => b.buffer_).Nodup ∧
        (∀ k, k < dev.resources.length → dev2.resource k = dev.resource k) := by
  intro n
  induction n with
  | zero =>
    intro dev henv
    exact ⟨dev, [], rfl, henv, rfl, rfl, fun _ h => (nomatch h), List.nodup_nil,
      fun _ _ => rfl⟩
  | succ n ih =>
    intro dev henv
    obtain ⟨dev1, nb, rn, heq, henv1, hnb, hnsz, hrn, hrnw, hrnb, _, _, hother, hl1, _⟩ :=
      Device.CreateBuffer_heap_new henv size .DEFAULT
    obtain ⟨dev2, fbs, hrec, henv2, hlen, hl2, hfv, hnd, hold⟩ := ih dev1 henv1
    refine ⟨dev2, nb :: fbs, ?_, henv2, by simp [hlen], by omega, ?_, ?_, ?_⟩
    · simp only [D3D12DynamicBuffer.createFrameBuffers, heq, hrec, List.map_cons]
    · intro fb hfb
      rcases List.mem_cons.1 hfb with h | h
      · subst h
        refine ⟨⟨rn, ?_, by rw [hrnw, hnsz], by rw [hrnb, hnsz]; simp⟩, by omega, hnsz⟩
        rw [hold _ (by omega), hrn]
      · obtain ⟨h1, h2, h3⟩ := hfv fb h
        exact ⟨h1, by omega, h3⟩
    · rw [List.map_cons, List.nodup_cons]
      refine ⟨?_, hnd⟩
      intro hmem
      obtain ⟨fb, hfb, e⟩ := List.mem_map.1 hmem
      have := (hfv fb hfb).2.1
      omega
    · intro k hk
      rw [hold k (by omega), hother k (by omega)]

/-- The constructor establishes the invariant, with `Size()` the requested size. -/
theorem D3D12DynamicBuffer.new_valid {core : D3D12Core} (henv : core.device_.NoFailure)
    (hframe : core.current_frame_ < core.frames_in_flight_) (size : Nat) :
    (D3D12DynamicBuffer.new core size).1.device_.NoFailure ∧
    (D3D12DynamicBuffer.new core size).2.Valid (D3D12DynamicBuffer.new core size).1 ∧
    (D3D12DynamicBuffer.new core size).1.frames_in_flight_ = core.frames_in_flight_ ∧
    (D3D12DynamicBuffer.new core size).2.Size = some size := by
  obtain ⟨dev2, fbs, hrec, henv2, hlen, hl2, hfv, hnd, hold⟩ :=
    D3D12DynamicBuffer.createFrameBuffers_ok size core.frames_in_flight_ core.device_ henv
  obtain ⟨dev3, sb, rs, heq, henv3, hsb, hssz, hrs, hrsw, hrsb, _, _, hother, _⟩ :=
    Device.CreateBuffer_heap_new henv2 size .UPLOAD
  have hnew : D3D12DynamicBuffer.new core size =
      ({ core with device_ := dev3 }, { buffers_ := fbs.map some, staging_buffer_ := some sb }) := by
    simp only [D3D12DynamicBuffer.new, hrec, heq]
  rw [hnew]
  refine ⟨henv3, ⟨by simp [hlen], hframe, sb, rfl, ⟨rs, hrs, by rw [hrsw, hssz], by
    rw [hrsb, hssz]; simp⟩, fbs, rfl, ?_, ?_⟩, rfl, ?_⟩
  · intro fb hfb
    have := (hfv fb hfb).1.lt
    exact (hfv fb hfb).1.of_resource (hother _ (by omega))
  · rw [List.map_cons, List.nodup_cons]
    refine ⟨?_, hnd⟩
    intro hmem
    obtain ⟨fb, hfb, e⟩ := List.mem_map.1 hmem
    have := (hfv fb hfb).1.lt
    omega
  · simp only [D3D12DynamicBuffer.Size, Buffer.Size, hssz]

/-- Every admissible step returns and keeps the environment, the invariant and the number
of frames in flight. -/
theorem DynamicOp.apply_valid (op : DynamicOp) (st : D3D12Core × D3D12DynamicBuffer)
    (henv : st.1.device_.NoFailure) (hv : st.2.Valid st.1) (ha : op.Admissible st) :
    ∃ st2, op.apply st = some st2 ∧ st2.1.device_.NoFailure ∧ st2.2.Valid st2.1 ∧
      st2.1.frames_in_flight_ = st.1.frames_in_flight_ := by
  cases op with
  | Resize new_size =>
    obtain ⟨core2, self2, h, henv2, hv2, hf, _⟩ :=
      D3D12DynamicBuffer.Resize_valid henv hv new_size
    exact ⟨(core2, self2), h, henv2, hv2, hf⟩
  | UploadData data size offset =>
    obtain ⟨h2, n, hn, h1⟩ := ha
    obtain ⟨core2, h, henv2, hv2, hf⟩ :=
      D3D12DynamicBuffer.UploadData_valid henv hv data size offset h2 hn h1
    exact ⟨(core2, st.2), by simp only [DynamicOp.apply, h], henv2, hv2, hf⟩
  | DownloadData data size offset =>
    obtain ⟨h2, n, hn, h1⟩ := ha
    obtain ⟨core2, out, h, henv2, hv2, hf⟩ :=
      D3D12DynamicBuffer.DownloadData_valid henv hv data size offset h2 hn h1
    exact ⟨(core2, st.2), by simp only [DynamicOp.apply, h], henv2, hv2, hf⟩
  | TransferData command_list =>
    obtain ⟨core2, self2, fb, sb, h, henv2, hv2, hf, _⟩ :=
      D3D12DynamicBuffer.TransferData_valid henv hv
    exact ⟨(core2, self2), by simp only [DynamicOp.apply, h command_list], henv2, hv2, hf⟩
  | NextFrame frame =>
    obtain ⟨hlen, _, rest⟩ := hv
    exact ⟨_, rfl, henv, ⟨hlen, ha, rest⟩, rfl⟩

/-- Every admissible session returns and keeps the invariant. -/
theorem DynamicOp.runAll_valid :
    ∀ (ops : List DynamicOp) (st : D3D12Core × D3D12DynamicBuffer),
      st.1.device_.NoFailure → st.2.Valid st.1 → DynamicOp.AdmissibleAll ops st →
      ∃ st2, DynamicOp.runAll ops st = some st2 ∧ st2.1.device_.NoFailure ∧
        st2.2.Valid st2.1 ∧ st2.1.frames_in_flight_ = st.1.frames_in_flight_
  | [], st, henv, hv, _ => ⟨st, rfl, henv, hv, rfl⟩
  | op :: ops, st, henv, hv, ha => by
    obtain ⟨st1, h1, henv1, hv1, hf1⟩ := DynamicOp.apply_valid op st henv hv ha.1
    obtain ⟨st2, h2, henv2, hv2, hf2⟩ :=
      DynamicOp.runAll_valid ops st1 henv1 hv1 (ha.2 st1 h1)
    exact ⟨st2, by simp only [DynamicOp.runAll, h1, h2], henv2, hv2, hf2.trans hf1⟩

theorem DynamicOp.AdmissibleAll.cons {op : DynamicOp} {ops : List DynamicOp}
    {st st2 : D3D12Core × D3D12DynamicBuffer} (ha : op.Admissible st)
    (h : op.apply st = some st2) (hrest : DynamicOp.AdmissibleAll ops st2) :
    DynamicOp.AdmissibleAll (op :: ops) st := by
  refine ⟨ha, fun st3 h3 => ?_⟩
  rw [h] at h3
  cases h3
  exact hrest

/-- C10 (Dynamic-buffer state invariant): a Dynamic buffer constructed on a core with
`N = FramesInFlight` frames (current frame index below `N`), followed by any session of
`Resize`, `UploadData`, `DownloadData`, `TransferData` and frame changes that respects the
preconditions of the calls, ends in a state in which there are exactly `N` per-frame
device-local copies, none of them null, and `Size()` is the size of the live staging
resource. -/
theorem dynamic_buffer_invariant (core : D3D12Core) (size : Nat) (ops : List DynamicOp)
    (henv : core.device_.NoFailure) (hframe : core.current_frame_ < core.frames_in_flight_)
    (hadm : DynamicOp.AdmissibleAll ops (D3D12DynamicBuffer.new core size)) :
    (D3D12DynamicBuffer.new core size).2.buffers_.length = core.frames_in_flight_ ∧
    (D3D12DynamicBuffer.new core size).2.Size = some size ∧
    ∃ st, DynamicOp.runAll ops (D3D12DynamicBuffer.new core size) = some st ∧
      st.2.buffers_.length = core.frames_in_flight_ ∧
      (∀ b ∈ st.2.buffers_, b ≠ none) ∧
      ∃ sb r, st.2.staging_buffer_ = some sb ∧
        st.1.device_.resource sb.buffer_ = some r ∧ st.2.Size = some r.Width ∧
        r.bytes.length = r.Width := by
  obtain ⟨henv0, hv0, hf0, hsize0⟩ := D3D12DynamicBuffer.new_valid henv hframe size
  obtain ⟨st, hrun, _, hv, hf⟩ := DynamicOp.runAll_valid ops _ henv0 hv0 hadm
  refine ⟨by rw [hv0.1, hf0], hsize0, st, hrun, by rw [hv.1, hf, hf0], ?_, ?_⟩
  · obtain ⟨_, _, _, _, _, fbs, hfbs, _⟩ := hv
    intro b hb
    rw [hfbs] at hb
    obtain ⟨fb, _, e⟩ := List.mem_map.1 hb
    rw [← e]
    exact Option.some_ne_none fb
  · obtain ⟨_, _, sb, hsb, ⟨r, hr, hw, hl⟩, _⟩ := hv
    exact ⟨sb, r, hsb, hr, by simp only [D3D12DynamicBuffer.Size, hsb, Buffer.Size, hw],
      by rw [hl, hw]⟩

theorem exampleSession_admissible :
    DynamicOp.AdmissibleAll exampleSession (D3D12DynamicBuffer.new exampleCore 8) :=
  .cons trivial rfl <|
  .cons ⟨by decide, 4, rfl, by decide⟩ rfl <|
  .cons trivial rfl <|
  .cons (show (1 : Nat) < 2 by decide) rfl <|
  .cons trivial rfl <|
  .cons ⟨by decide, 4, rfl, by decide⟩ rfl trivial

/-- C10 on the example core (two frames in flight): after the example session the buffer
still has two frame buffers and reports the size of its staging resource. -/
theorem dynamic_buffer_invariant_witness :
    exampleCore.device_.NoFailure ∧ exampleCore.current_frame_ < exampleCore.frames_in_flight_ ∧
    DynamicOp.AdmissibleAll exampleSession (D3D12DynamicBuffer.new exampleCore 8) ∧
    ∃ st, DynamicOp.runAll exampleSession (D3D12DynamicBuffer.new exampleCore 8) = some st ∧
      st.2.buffers_.length = 2 ∧ st.2.Size = some 4 :=
  ⟨exampleDevice_noFailure, by decide, exampleSession_admissible, by
    obtain ⟨_, _, st, hrun, hlen, _, _⟩ :=
      dynamic_buffer_invariant exampleCore 8 exampleSession exampleDevice_noFailure
        (by decide) exampleSession_admissible
    have e : DynamicOp.runAll exampleSession (D3D12DynamicBuffer.new exampleCore 8) =
        some st := hrun
    exact ⟨st, hrun, hlen, by
      have h2 : (DynamicOp.runAll exampleSession (D3D12DynamicBuffer.new exampleCore 8)).map
          (fun st => st.2.Size) = some (some 4) := rfl
      rw [e] at h2
      exact Option.some.inj h2⟩⟩

/-! ## Dynamic buffer: `TransferData` twice -/

theorem Device.resources_ext {d1 d2 : Device}
    (hl : d1.resources.length = d2.resources.length)
    (h : ∀ k, d1.resource k = d2.resource k) : d1.resources = d2.resources := by
  apply List.ext_getElem hl
  intro k h1 h2
  have := h k
  simpa [Device.resource, List.getElem?_eq_getElem h1, List.getElem?_eq_getElem h2] using this

theorem Device.execute_append (cs1 cs2 : List Command) :
    ∀ dev : Device, dev.execute (cs1 ++ cs2) = (dev.execute cs1).bind fun d => d.execute cs2 := by
  induction cs1 with
  | nil => intro dev; rfl
  | cons c cs1 ih =>
    intro dev
    simp only [List.cons_append, Device.execute]
    cases dev.executeCommand c with
    | none => rfl
    | some d => exact ih d

/-- Executing the commands of a whole-buffer `CopyBuffer` with the default original state:
the destination holds the bytes of the source and is back in the generic-read state. -/
theorem Device.execute_CopyBuffer_whole {dev : Device} {src dst : Buffer} {rs rd : Resource}
    {n : Nat} (hs : dev.resource src.buffer_ = some rs)
    (hd : dev.resource dst.buffer_ = some rd) (hne : src.buffer_ ≠ dst.buffer_)
    (h1 : rd.bytes.length = n) (h2 : rs.bytes.length = n) :
    ∃ dev2,
      dev.execute (CopyBuffer [] src dst n 0 0 .GENERIC_READ) = some dev2 ∧
      dev2.resource dst.buffer_ = some { rd with state := .GENERIC_READ, bytes := rs.bytes } ∧
      (∀ k, k ≠ dst.buffer_ → dev2.resource k = dev.resource k) ∧
      dev2.resources.length = dev.resources.length := by
  have hm := memcpy_whole h1 h2
  have hd1 := Device.resource_store_self { rd with state := .COPY_DEST } hd
  have hd2 : (((dev.store dst.buffer_ { rd with state := .COPY_DEST }).log
      (Command.ResourceBarrier dst.buffer_ .GENERIC_READ .COPY_DEST)).store dst.buffer_
      { rd with state := .COPY_DEST, bytes := rs.bytes }).resource dst.buffer_ =
      some { rd with state := .COPY_DEST, bytes := rs.bytes } :=
    Device.resource_store_self _ (q := { rd with state := .COPY_DEST })
      (by rw [Device.resource_log]; exact hd1)
  refine ⟨_, Device.execute_CopyBuffer_other (by decide) hs hd hne hm, ?_, ?_, ?_⟩
  · rw [Device.resource_log]
    exact Device.resource_store_self _ ((Device.resource_log _ _ _).trans hd2)
  · intro k hk
    rw [Device.resource_log, Device.resource_store_ne _ _ hk, Device.resource_log,
      Device.resource_store_ne _ _ hk, Device.resource_log, Device.resource_store_ne _ _ hk]
  · simp

/-- C9 (`TransferData` twice): for every valid Dynamic buffer (current frame `f < N`), a
call of `TransferData` returns and records a whole-buffer copy from the staging buffer to
the frame-`f` buffer.  A second call, made after the recorded commands have run, leaves
the core and the buffer object as they are and records the same commands again; running
them again changes no resource.  The frame-`f` buffer then still has the size of the
staging buffer and holds its bytes. -/
theorem transfer_data_idempotent (self : D3D12DynamicBuffer) (core : D3D12Core)
    (henv : core.device_.NoFailure) (hv : self.Valid core) :
    ∃ core1 self1 cmds dev1 dev2 fb sb r rs,
      (∀ cl, self.TransferData core cl = some (core1, self1, cl ++ cmds)) ∧
      core1.device_.execute cmds = some dev1 ∧
      (∀ cl, self1.TransferData { core1 with device_ := dev1 } cl =
        some ({ core1 with device_ := dev1 }, self1, cl ++ cmds)) ∧
      dev1.execute cmds = some dev2 ∧
      dev2.resources = dev1.resources ∧
      self1.Buffer { core1 with device_ := dev1 } = some fb ∧
      self1.InstantBuffer = some sb ∧
      dev1.resource fb.buffer_ = some r ∧ dev2.resource fb.buffer_ = some r ∧
      dev1.resource sb.buffer_ = some rs ∧ dev2.resource sb.buffer_ = some rs ∧
      fb.Size = sb.Size ∧ r.Width = sb.Size ∧ r.bytes = rs.bytes := by
  obtain ⟨core1, self1, fb, sb, h1, henv1, hv1, hf, hcf, hsb0, hsb1, hfb1, hsz⟩ :=
    D3D12DynamicBuffer.TransferData_valid henv hv
  obtain ⟨_, _, sb2, hsb2, hsv, fbs, hfbs, hfv, hnd⟩ := hv1
  rw [hsb1] at hsb2
  cases hsb2
  have hfbmem : fb ∈ fbs := by
    rw [hfbs, List.getElem?_map] at hfb1
    cases hg : fbs[core.current_frame_]? with
    | none =>
      rw [hg] at hfb1
      cases hfb1
    | some x =>
      rw [hg] at hfb1
      cases hfb1
      exact List.getElem?_mem hg
  obtain ⟨rd, hrd, hrdw, hrdl⟩ := hfv fb hfbmem
  obtain ⟨rs, hrs, hrsw, hrsl⟩ := hsv
  have hne : sb.buffer_ ≠ fb.buffer_ := (frame_ne_staging hnd hfbmem).symm
  have hsz2 : fb.allocated_size_ = sb.allocated_size_ := hsz
  obtain ⟨dev1, he1, hr1, hoth1, hl1⟩ :=
    Device.execute_CopyBuffer_whole (n := sb.Size) hrs hrd hne (by rw [hrdl, hsz2]; rfl) hrsl
  have hrs1 : dev1.resource sb.buffer_ = some rs := by rw [hoth1 _ hne, hrs]
  obtain ⟨dev2, he2, hr2, hoth2, hl2⟩ :=
    Device.execute_CopyBuffer_whole (n := sb.Size) hrs1 hr1 hne
      (show rs.bytes.length = sb.Size from hrsl) hrsl
  have hfb2 : self1.buffers_[core1.current_frame_]? = some (some fb) := by rw [hcf, hfb1]
  refine ⟨core1, self1, CopyBuffer [] sb fb sb.Size 0 0 .GENERIC_READ, dev1, dev2, fb, sb,
    { rd with state := .GENERIC_READ, bytes := rs.bytes }, rs, ?_, he1, ?_, he2, ?_, ?_, hsb1,
    hr1, hr2, hrs1, ?_, hsz, ?_, rfl⟩
  · intro cl
    rw [h1 cl, CopyBuffer_append]
  · intro cl
    rw [@D3D12DynamicBuffer.TransferData_same self1 { core1 with device_ := dev1 } fb sb hfb2
      hsb1 hsz cl, CopyBuffer_append]
  · refine Device.resources_ext (by rw [hl2]) (fun k => ?_)
    by_cases hk : k = fb.buffer_
    · rw [hk, hr2, hr1]
    · exact hoth2 k hk
  · show (self1.buffers_[core1.current_frame_]?).join = some fb
    rw [hfb2]
    rfl
  · rw [hoth2 _ hne, hrs1]
  · show rd.Width = sb.Size
    rw [hrdw, hsz2]
    rfl

theorem exampleUploaded_valid : exampleUploaded.2.Valid exampleUploaded.1 := by
  refine ⟨rfl, by decide, ⟨3, 4⟩, rfl, ⟨_, rfl, rfl, rfl⟩, [⟨0, 8⟩, ⟨1, 8⟩], rfl, ?_, by decide⟩
  intro fb hfb
  simp only [List.mem_cons, List.mem_singleton, List.not_mem_nil, or_false] at hfb
  rcases hfb with e | e <;> subst e <;> exact ⟨_, rfl, rfl, rfl⟩

theorem exampleUploaded_noFailure : exampleUploaded.1.device_.NoFailure := by
  intro hr h
  cases h

/-- C9 on the Dynamic example buffer after `Resize(4)` and an upload of 7, 9 at offset 1
(two frames in flight, frame 0).  Before the first call the frame-0 copy is resource 0 with
8 zero bytes while the staging copy holds 0, 7, 9, 0.  The first `TransferData` replaces
the frame-0 copy, and once its commands have run that copy has 4 bytes and holds
0, 7, 9, 0.  The second call leaves core and buffer object as they are and records the
same commands; running them leaves the heap as it is. -/
theorem transfer_data_idempotent_witness :
    exampleUploaded.1.device_.NoFailure ∧ exampleUploaded.2.Valid exampleUploaded.1 ∧
    exampleUploaded.2.Buffer exampleUploaded.1 = some ⟨0, 8⟩ ∧
    (exampleUploaded.1.device_.resource 0).map Resource.bytes = some (List.replicate 8 0) ∧
    ∃ core1 self1 cmds dev1 dev2 fb r,
      exampleUploaded.2.TransferData exampleUploaded.1 [] = some (core1, self1, cmds) ∧
      core1.device_.execute cmds = some dev1 ∧
      self1.Buffer { core1 with device_ := dev1 } = some fb ∧ fb ≠ ⟨0, 8⟩ ∧ fb.Size = 4 ∧
      dev1.resource fb.buffer_ = some r ∧ r.bytes = [0, 7, 9, 0] ∧
      self1.TransferData { core1 with device_ := dev1 } [] =
        some ({ core1 with device_ := dev1 }, self1, cmds) ∧
      dev1.execute cmds = some dev2 ∧ dev2.resources = dev1.resources ∧
      dev2.resource fb.buffer_ = some r := by
  refine ⟨exampleUploaded_noFailure, exampleUploaded_valid, rfl, rfl, ?_⟩
  obtain ⟨core1, self1, cmds, dev1, dev2, fb, sb, r, rs, h1, h2, h3, h4, h5, hB, hI, hr1, hr2,
      hrs1, _, hsz, _, hbytes⟩ :=
    transfer_data_idempotent exampleUploaded.2 exampleUploaded.1 exampleUploaded_noFailure
      exampleUploaded_valid
  have hT : exampleUploaded.2.TransferData exampleUploaded.1 [] = some (core1, self1, cmds) := by
    simpa using h1 []
  have hclosed : ((exampleUploaded.2.TransferData exampleUploaded.1 []).bind fun t =>
      (t.1.device_.execute t.2.2).bind fun d =>
        t.2.1.InstantBuffer.bind fun b => (d.resource b.buffer_).map fun x => (b, x.bytes)) =
      some (⟨3, 4⟩, [0, 7, 9, 0]) := rfl
  rw [hT] at hclosed
  simp only [Option.some_bind, h2, hI, hrs1, Option.map_some'] at hclosed
  have hpair := Option.some.inj hclosed
  have esb : sb = ⟨3, 4⟩ := (Prod.mk.inj hpair).1
  have ers : rs.bytes = [0, 7, 9, 0] := (Prod.mk.inj hpair).2
  have hfb4 : fb.Size = 4 := by
    rw [hsz, esb]
    rfl
  refine ⟨core1, self1, cmds, dev1, dev2, fb, r, hT, h2, hB, ?_, hfb4, hr1, hbytes.trans ers,
    by simpa using h3 [], h4, h5, hr2⟩
  intro e
  rw [e] at hfb4
  exact absurd hfb4 (by decide)

/-! ## `CopyBuffer`: the recorded sequence -/

/-- C19: `CopyBuffer(list, src, dst, size, src_offset, dst_offset, dst_original_state)`
appends to the list, when `dst_original_state` is not copy-destination, a transition of
`dst` from `dst_original_state` to copy-destination, one copy of `size` bytes from `src` at
`src_offset` to `dst` at `dst_offset`, and a transition of `dst` back; when it is
copy-destination, only the copy.  Run on live resources with the ranges inside them (and
`dst` in the state the caller declares), the copy executes with `dst` in the
copy-destination state and `dst` ends in `dst_original_state`. -/
theorem CopyBuffer_sequence (dev : Device) (command_list : List Command) (src dst : Buffer)
    (size src_offset dst_offset : Nat) (st : D3D12_RESOURCE_STATES) (rs rd : Resource)
    (hs : dev.resource src.buffer_ = some rs) (hd : dev.resource dst.buffer_ = some rd)
    (hstate : st = .COPY_DEST → rd.state = .COPY_DEST)
    (h1 : dst_offset + size ≤ rd.bytes.length) (h2 : src_offset + size ≤ rs.bytes.length) :
    (st ≠ .COPY_DEST →
      CopyBuffer command_list src dst size src_offset dst_offset st =
        command_list ++
          [Command.ResourceBarrier dst.buffer_ st .COPY_DEST,
           Command.CopyBufferRegion dst.buffer_ dst_offset src.buffer_ src_offset size,
           Command.ResourceBarrier dst.buffer_ .COPY_DEST st]) ∧
    (st = .COPY_DEST →
      CopyBuffer command_list src dst size src_offset dst_offset st =
        command_list ++
          [Command.CopyBufferRegion dst.buffer_ dst_offset src.buffer_ src_offset size]) ∧
    ∃ before copy after dev1 dev2 dev3 r1 r3,
      CopyBuffer [] src dst size src_offset dst_offset st = before ++ [copy] ++ after ∧
      copy = Command.CopyBufferRegion dst.buffer_ dst_offset src.buffer_ src_offset size ∧
      (∀ c ∈ before ++ after, ∃ s1 s2, c = Command.ResourceBarrier dst.buffer_ s1 s2) ∧
      dev.execute before = some dev1 ∧
      dev1.resource dst.buffer_ = some r1 ∧ r1.state = .COPY_DEST ∧
      dev1.executeCommand copy = some dev2 ∧
      dev2.execute after = some dev3 ∧
      dev3.resource dst.buffer_ = some r3 ∧ r3.state = st ∧
      dev.execute (CopyBuffer [] src dst size src_offset dst_offset st) = some dev3 := by
  refine ⟨?_, ?_, ?_⟩
  · intro h
    simp [CopyBuffer, h, Buffer.Handle]
  · intro h
    simp [CopyBuffer, h, Buffer.Handle]
  · by_cases hst : st = .COPY_DEST
    · subst hst
      have hrd := hstate rfl
      obtain ⟨bytes, hm⟩ : ∃ bytes, memcpy rd.bytes dst_offset rs.bytes src_offset size =
          some bytes := ⟨_, memcpy_some h1 h2⟩
      have hc := Device.executeCommand_copy hd hs hm
      refine ⟨[], _, [], dev, _, _, rd, { rd with bytes := bytes }, ?_, rfl, ?_, rfl, hd, hrd,
        hc, rfl, ?_, hrd, ?_⟩
      · simp [CopyBuffer, Buffer.Handle]
      · intro c hc
        cases hc
      · rw [Device.resource_log]
        exact Device.resource_store_self _ hd
      · simp only [CopyBuffer, ne_eq, not_true_eq_false, if_false, List.nil_append,
          Device.execute, Buffer.Handle, hc]
    · have hd1 := Device.resource_store_self { rd with state := .COPY_DEST } hd
      have e1 := Device.executeCommand_barrier st .COPY_DEST hd
      obtain ⟨d1, hd1e⟩ : ∃ d1, d1 = (dev.store dst.buffer_ { rd with state := .COPY_DEST }).log
          (Command.ResourceBarrier dst.buffer_ st .COPY_DEST) := ⟨_, rfl⟩
      rw [← hd1e] at e1
      have hdd : d1.resource dst.buffer_ = some { rd with state := .COPY_DEST } := by
        rw [hd1e, Device.resource_log]
        exact hd1
      obtain ⟨rs1, hs1, hs1b⟩ : ∃ rs1, d1.resource src.buffer_ = some rs1 ∧
          rs1.bytes = rs.bytes := by
        by_cases hsd : src.buffer_ = dst.buffer_
        · refine ⟨{ rd with state := .COPY_DEST }, by rw [hsd]; exact hdd, ?_⟩
          rw [hsd, hd] at hs
          cases hs
          rfl
        · exact ⟨rs, by rw [hd1e, Device.resource_log, Device.resource_store_ne _ _ hsd, hs],
            rfl⟩
      obtain ⟨bytes, hm⟩ : ∃ bytes,
          memcpy rd.bytes dst_offset rs1.bytes src_offset size = some bytes :=
        ⟨_, memcpy_some h1 (by rw [hs1b]; exact h2)⟩
      have e2 := @Device.executeCommand_copy d1 dst.buffer_ src.buffer_
        { rd with state := .COPY_DEST } rs1 bytes dst_offset src_offset size hdd hs1 hm
      obtain ⟨d2, hd2e⟩ : ∃ d2, d2 = (d1.store dst.buffer_
          { rd with state := .COPY_DEST, bytes := bytes }).log
          (Command.CopyBufferRegion dst.buffer_ dst_offset src.buffer_ src_offset size) :=
        ⟨_, rfl⟩
      have e2b : d1.executeCommand
          (Command.CopyBufferRegion dst.buffer_ dst_offset src.buffer_ src_offset size) =
          some d2 := by
        rw [hd2e]
        exact e2
      have hd2 : d2.resource dst.buffer_ = some { rd with state := .COPY_DEST, bytes := bytes } := by
        rw [hd2e, Device.resource_log]
        exact Device.resource_store_self _ hdd
      have e3 := Device.executeCommand_barrier .COPY_DEST st hd2
      obtain ⟨d3, hd3e⟩ : ∃ d3, d3 = (d2.store dst.buffer_
          { rd with state := st, bytes := bytes }).log
          (Command.ResourceBarrier dst.buffer_ .COPY_DEST st) := ⟨_, rfl⟩
      rw [← hd3e] at e3
      refine ⟨[Command.ResourceBarrier dst.buffer_ st .COPY_DEST], _,
        [Command.ResourceBarrier dst.buffer_ .COPY_DEST st], d1, d2, d3,
        { rd with state := .COPY_DEST }, { rd with state := st, bytes := bytes }, ?_, rfl, ?_, ?_,
        hdd, rfl, e2b, ?_, ?_, rfl, ?_⟩
      · simp [CopyBuffer, hst, Buffer.Handle]
      · intro c hc
        simp only [List.cons_append, List.nil_append, List.mem_cons, List.mem_singleton,
          List.not_mem_nil, or_false] at hc
        rcases hc with e | e
        · exact ⟨_, _, e⟩
        · exact ⟨_, _, e⟩
      · simp only [Device.execute, e1]
      · simp only [Device.execute, e3]
      · rw [hd3e, Device.resource_log]
        exact Device.resource_store_self _ hd2
      · simp only [CopyBuffer, ne_eq, hst, not_false_eq_true, if_true, List.nil_append,
          List.cons_append, Device.execute, Buffer.Handle, e1, e2b, e3]

/-- C19 on the Dynamic example buffer: a copy of 8 bytes from the staging buffer (handle
2) to frame buffer 0, declared generic-read, records barrier, copy, barrier, and frame
buffer 0 ends generic-read. -/
theorem CopyBuffer_sequence_witness :
    exampleDynamic.1.device_.resource 2 ≠ none ∧ exampleDynamic.1.device_.resource 0 ≠ none ∧
    CopyBuffer [] ⟨2, 8⟩ ⟨0, 8⟩ 8 0 0 .GENERIC_READ =
      [Command.ResourceBarrier 0 .GENERIC_READ .COPY_DEST, Command.CopyBufferRegion 0 0 2 0 8,
       Command.ResourceBarrier 0 .COPY_DEST .GENERIC_READ] ∧
    ∃ dev3 r3,
      exampleDynamic.1.device_.execute (CopyBuffer [] ⟨2, 8⟩ ⟨0, 8⟩ 8 0 0 .GENERIC_READ) =
        some dev3 ∧
      dev3.resource 0 = some r3 ∧ r3.state = .GENERIC_READ := by
  obtain ⟨hseq, _, _, _, _, _, _, dev3, _, r3, _, _, _, _, _, _, _, _, hr3, hst, hall⟩ :=
    CopyBuffer_sequence exampleDynamic.1.device_ [] ⟨2, 8⟩ ⟨0, 8⟩ 8 0 0 .GENERIC_READ
      { Width := 8, heap_type := .UPLOAD, heap_flags := .NONE, state := .GENERIC_READ,
        flags := .NONE, bytes := List.replicate 8 0 }
      { Width := 8, heap_type := .DEFAULT, heap_flags := .NONE, state := .GENERIC_READ,
        flags := .ALLOW_UNORDERED_ACCESS, bytes := List.replicate 8 0 }
      rfl rfl (fun h => nomatch h) (by decide) (by decide)
  exact ⟨by decide, by decide, hseq (by decide), dev3, r3, hall, hr3, hst⟩

/-! ## Shader table: empty categories and the layout invariant -/

theorem SizeAlignTo_dvd (x a : Nat) : a ∣ SizeAlignTo x a :=
  Nat.dvd_mul_left a _

theorem SizeAlignTo_ge {a : Nat} (ha : 0 < a) (x : Nat) : x ≤ SizeAlignTo x a := by
  unfold SizeAlignTo
  have h1 := Nat.div_add_mod (x + a - 1) a
  have h2 := Nat.mod_lt (x + a - 1) ha
  rw [Nat.mul_comm] at h1
  omega

theorem SizeAlignTo_least {a : Nat} (ha : 0 < a) {x m : Nat} (hm : a ∣ m) (hx : x ≤ m) :
    SizeAlignTo x a ≤ m := by
  obtain ⟨k, rfl⟩ := hm
  unfold SizeAlignTo
  rw [Nat.mul_comm a k]
  apply Nat.mul_le_mul_right
  apply Nat.le_of_lt_succ
  rw [Nat.div_lt_iff_lt_mul ha]
  have : (k + 1) * a = a * k + a := by ring
  rw [Nat.succ_eq_add_one, this]
  omega

theorem SizeAlignTo_of_dvd {a : Nat} (ha : 0 < a) {x : Nat} (hx : a ∣ x) :
    SizeAlignTo x a = x :=
  Nat.le_antisymm (SizeAlignTo_least ha hx (le_refl x)) (SizeAlignTo_ge ha x)

theorem table_alignment_pos : 0 < D3D12_RAYTRACING_SHADER_TABLE_BYTE_ALIGNMENT := by decide

/-- C13 (empty categories): when no platform call fails, `CreateShaderTable` lays every
region out by the same round-up rule; a category with an empty index list gets a region of
length zero (the next offset, or the buffer size for the callable category, equals its own
offset); every offset and the buffer size stay multiples of the table alignment; with all
three lists empty the offsets are `0, align(r,a), align(r,a), align(r,a)` and the buffer has
`align(r,a)` bytes. -/
theorem CreateShaderTable_empty_category (dev : Device) (p : RayTracingPipeline)
    (miss hit call : List Int) (henv : dev.NoFailure) :
    ∃ dev2 table res r a,
      r = shader_record_size ∧ a = D3D12_RAYTRACING_SHADER_TABLE_BYTE_ALIGNMENT ∧
      dev.CreateShaderTable p miss hit call = some (S_OK, dev2, some table) ∧
      dev2.resource table.buffer_ = some res ∧
      table.miss_offset_ = SizeAlignTo r a ∧
      table.hit_group_offset_ = SizeAlignTo (table.miss_offset_ + r * miss.length) a ∧
      table.callable_offset_ = SizeAlignTo (table.hit_group_offset_ + r * hit.length) a ∧
      res.Width = SizeAlignTo (table.callable_offset_ + r * call.length) a ∧
      (miss = [] → table.hit_group_offset_ = table.miss_offset_) ∧
      (hit = [] → table.callable_offset_ = table.hit_group_offset_) ∧
      (call = [] → res.Width = table.callable_offset_) ∧
      a ∣ table.miss_offset_ ∧ a ∣ table.hit_group_offset_ ∧ a ∣ table.callable_offset_ ∧
      a ∣ res.Width ∧
      (miss = [] → hit = [] → call = [] →
        table.ray_gen_offset_ = 0 ∧ table.miss_offset_ = SizeAlignTo r a ∧
        table.hit_group_offset_ = SizeAlignTo r a ∧ table.callable_offset_ = SizeAlignTo r a ∧
        res.Width = SizeAlignTo r a) := by
  obtain ⟨dev2, data, heq, hres, _⟩ :=
    Device.CreateShaderTable_ok dev p miss hit call henv _ _ _ _ rfl rfl rfl rfl
  have hpos := table_alignment_pos
  have hm : SizeAlignTo (0 + shader_record_size * 1)
      D3D12_RAYTRACING_SHADER_TABLE_BYTE_ALIGNMENT =
      SizeAlignTo shader_record_size D3D12_RAYTRACING_SHADER_TABLE_BYTE_ALIGNMENT := by
    rw [Nat.zero_add, Nat.mul_one]
  have e0 : ∀ x, x + shader_record_size * ([] : List Int).length = x := by
    intro x
    simp
  refine ⟨dev2, _, _, shader_record_size, D3D12_RAYTRACING_SHADER_TABLE_BYTE_ALIGNMENT, rfl, rfl,
    heq, hres, hm, ?_, ?_, ?_, ?_, ?_, ?_, SizeAlignTo_dvd _ _, SizeAlignTo_dvd _ _,
    SizeAlignTo_dvd _ _, SizeAlignTo_dvd _ _, ?_⟩
  · show SizeAlignTo _ _ = SizeAlignTo _ _
    rw [hm]
  · rfl
  · rfl
  · intro h
    subst h
    show SizeAlignTo _ _ = SizeAlignTo _ _
    rw [e0]
    exact SizeAlignTo_of_dvd hpos (SizeAlignTo_dvd _ _)
  · intro h
    subst h
    show SizeAlignTo _ _ = SizeAlignTo _ _
    rw [e0]
    exact SizeAlignTo_of_dvd hpos (SizeAlignTo_dvd _ _)
  · intro h
    subst h
    show SizeAlignTo _ _ = SizeAlignTo _ _
    rw [e0]
    exact SizeAlignTo_of_dvd hpos (SizeAlignTo_dvd _ _)
  · intro h1 h2 h3
    subst h1 h2 h3
    have h64 : SizeAlignTo (SizeAlignTo shader_record_size
        D3D12_RAYTRACING_SHADER_TABLE_BYTE_ALIGNMENT)
        D3D12_RAYTRACING_SHADER_TABLE_BYTE_ALIGNMENT =
        SizeAlignTo shader_record_size D3D12_RAYTRACING_SHADER_TABLE_BYTE_ALIGNMENT :=
      SizeAlignTo_of_dvd hpos (SizeAlignTo_dvd _ _)
    refine ⟨rfl, hm, ?_, ?_, ?_⟩
    · show SizeAlignTo _ _ = _
      rw [e0, hm, h64]
    · show SizeAlignTo _ _ = _
      rw [e0, e0, hm, h64, h64]
    · show SizeAlignTo _ _ = _
      rw [e0, e0, e0, hm, h64, h64, h64]

/-- C13 with all three lists empty on the example device: the offsets are 0, 64, 64, 64
and the buffer has 64 bytes. -/
theorem CreateShaderTable_empty_category_witness :
    exampleDevice.NoFailure ∧
    ∃ dev2 table res,
      exampleDevice.CreateShaderTable examplePipeline [] [] [] =
        some (S_OK, dev2, some table) ∧
      dev2.resource table.buffer_ = some res ∧
      table.ray_gen_offset_ = 0 ∧ table.miss_offset_ = 64 ∧ table.hit_group_offset_ = 64 ∧
      table.callable_offset_ = 64 ∧ res.Width = 64 := by
  obtain ⟨dev2, table, res, r, a, hr, ha, heq, hres, _, _, _, _, _, _, _, _, _, _, _, hall⟩ :=
    CreateShaderTable_empty_category exampleDevice examplePipeline [] [] []
      exampleDevice_noFailure
  obtain ⟨h0, h1, h2, h3, h4⟩ := hall rfl rfl rfl
  have e : SizeAlignTo r a = 64 := by
    rw [hr, ha]
    decide
  rw [e] at h1 h2 h3 h4
  exact ⟨exampleDevice_noFailure, dev2, table, res, heq, hres, h0, h1, h2, h3, h4⟩

/-- C14 (layout invariant): when no platform call fails, for all index lists
`CreateShaderTable` places the records of the three list regions at one stride `r`
(record `i` of a region lies at `offset + i * r`), `r` is the least multiple of the
shader-record alignment that is at least the identifier size, the four region offsets and
the buffer size are multiples of the table alignment, and
`rayGenOffset <= missOffset <= hitGroupOffset <= callableOffset <= buffer size`. -/
theorem CreateShaderTable_invariant (dev : Device) (p : RayTracingPipeline)
    (miss hit call : List Int) (henv : dev.NoFailure) :
    ∃ dev2 table res r a,
      r = shader_record_size ∧ a = D3D12_RAYTRACING_SHADER_TABLE_BYTE_ALIGNMENT ∧
      dev.CreateShaderTable p miss hit call = some (S_OK, dev2, some table) ∧
      dev2.resource table.buffer_ = some res ∧ res.bytes.length = res.Width ∧
      (D3D12_RAYTRACING_SHADER_RECORD_BYTE_ALIGNMENT ∣ r ∧
        D3D12_SHADER_IDENTIFIER_SIZE_IN_BYTES ≤ r ∧
        ∀ m, D3D12_RAYTRACING_SHADER_RECORD_BYTE_ALIGNMENT ∣ m →
          D3D12_SHADER_IDENTIFIER_SIZE_IN_BYTES ≤ m → r ≤ m) ∧
      (∀ i, ∀ hi : i < miss.length,
        readBytes res.bytes (table.miss_offset_ + i * r) D3D12_SHADER_IDENTIFIER_SIZE_IN_BYTES =
          some (p.GetShaderIdentifier ("MissMain" ++ toString miss[i])).bytes) ∧
      (∀ i, ∀ hi : i < hit.length,
        readBytes res.bytes (table.hit_group_offset_ + i * r)
            D3D12_SHADER_IDENTIFIER_SIZE_IN_BYTES =
          some (p.GetShaderIdentifier ("HitGroup" ++ toString hit[i])).bytes) ∧
      (∀ i, ∀ hi : i < call.length,
        readBytes res.bytes (table.callable_offset_ + i * r)
            D3D12_SHADER_IDENTIFIER_SIZE_IN_BYTES =
          some (p.GetShaderIdentifier ("CallableMain" ++ toString call[i])).bytes) ∧
      a ∣ table.ray_gen_offset_ ∧ a ∣ table.miss_offset_ ∧ a ∣ table.hit_group_offset_ ∧
      a ∣ table.callable_offset_ ∧ a ∣ res.Width ∧
      table.ray_gen_offset_ ≤ table.miss_offset_ ∧
      table.miss_offset_ ≤ table.hit_group_offset_ ∧
      table.hit_group_offset_ ≤ table.callable_offset_ ∧
      table.callable_offset_ ≤ res.Width := by
  obtain ⟨dev2, data, heq, hres, hlen, _, h1, h2, h3⟩ :=
    Device.CreateShaderTable_ok dev p miss hit call henv _ _ _ _ rfl rfl rfl rfl
  have hpos := table_alignment_pos
  have hrec : 0 < D3D12_RAYTRACING_SHADER_RECORD_BYTE_ALIGNMENT := by decide
  refine ⟨dev2, _, _, shader_record_size, D3D12_RAYTRACING_SHADER_TABLE_BYTE_ALIGNMENT, rfl, rfl,
    heq, hres, hlen, ⟨SizeAlignTo_dvd _ _, SizeAlignTo_ge hrec _,
      fun m hm1 hm2 => SizeAlignTo_least hrec hm1 hm2⟩, h1, h2, h3, Nat.dvd_zero _,
    SizeAlignTo_dvd _ _, SizeAlignTo_dvd _ _, SizeAlignTo_dvd _ _, SizeAlignTo_dvd _ _,
    Nat.zero_le _, ?_, ?_, ?_⟩
  · exact le_trans (Nat.le_add_right _ _) (SizeAlignTo_ge hpos _)
  · exact le_trans (Nat.le_add_right _ _) (SizeAlignTo_ge hpos _)
  · exact le_trans (Nat.le_add_right _ _) (SizeAlignTo_ge hpos _)

/-- C14 at miss = [3, 1, 4], hitGroups = [], callables = [2] on the example device: the
stride is 32, the offsets are 0, 64, 192, 192 and the buffer has 256 bytes. -/
theorem CreateShaderTable_invariant_witness :
    exampleDevice.NoFailure ∧
    ∃ dev2 table res,
      exampleDevice.CreateShaderTable examplePipeline [3, 1, 4] [] [2] =
        some (S_OK, dev2, some table) ∧
      dev2.resource table.buffer_ = some res ∧
      shader_record_size = 32 ∧
      64 ∣ table.miss_offset_ ∧ 64 ∣ table.hit_group_offset_ ∧ 64 ∣ table.callable_offset_ ∧
      64 ∣ res.Width ∧
      table.miss_offset_ ≤ table.hit_group_offset_ ∧
      table.hit_group_offset_ ≤ table.callable_offset_ ∧ table.callable_offset_ ≤ res.Width := by
  obtain ⟨dev2, table, res, r, a, _, ha, heq, hres, _, _, _, _, _, _, d1, d2, d3, d4, _, o1, o2,
      o3⟩ :=
    CreateShaderTable_invariant exampleDevice examplePipeline [3, 1, 4] [] [2]
      exampleDevice_noFailure
  subst ha
  exact ⟨exampleDevice_noFailure, dev2, table, res, heq, hres, by decide, d1, d2, d3, d4, o1,
    o2, o3⟩

/-! ## Top-level build: marshalling of the instance records -/

theorem InstanceLayout.encodeAll_get (layout : InstanceLayout) :
    ∀ (ds : List D3D12_RAYTRACING_INSTANCE_DESC) (i : Nat) (d : D3D12_RAYTRACING_INSTANCE_DESC),
      ds[i]? = some d → ∀ t, t < sizeof_D3D12_RAYTRACING_INSTANCE_DESC →
        (layout.encodeAll ds)[i * sizeof_D3D12_RAYTRACING_INSTANCE_DESC + t]? =
          (layout.encode d)[t]? := by
  intro ds
  induction ds with
  | nil =>
    intro i d h
    cases h
  | cons x xs ih =>
    intro i d h t ht
    have hx := layout.size_eq x
    simp only [InstanceLayout.encodeAll, List.flatMap_cons] at ih ⊢
    cases i with
    | zero =>
      simp only [List.getElem?_cons_zero, Option.some.injEq] at h
      subst h
      rw [Nat.zero_mul, Nat.zero_add, List.getElem?_append_left (by omega)]
    | succ i =>
      simp only [List.getElem?_cons_succ] at h
      rw [List.getElem?_append_right (by rw [hx]; nlinarith [Nat.zero_le i]), hx]
      have e : (i + 1) * sizeof_D3D12_RAYTRACING_INSTANCE_DESC + t -
          sizeof_D3D12_RAYTRACING_INSTANCE_DESC =
          i * sizeof_D3D12_RAYTRACING_INSTANCE_DESC + t := by
        rw [Nat.add_mul, Nat.one_mul]
        omega
      rw [e]
      exact ih i d h t ht

/-- The bytes of record `i` inside a buffer that starts with the encoded records. -/
theorem InstanceLayout.readBytes_record (layout : InstanceLayout)
    {ds : List D3D12_RAYTRACING_INSTANCE_DESC} {mem : List Byte} {i : Nat}
    {d : D3D12_RAYTRACING_INSTANCE_DESC}
    (hall : readBytes mem 0 (ds.length * sizeof_D3D12_RAYTRACING_INSTANCE_DESC) =
      some (layout.encodeAll ds))
    (hd : ds[i]? = some d) :
    readBytes mem (i * sizeof_D3D12_RAYTRACING_INSTANCE_DESC)
      sizeof_D3D12_RAYTRACING_INSTANCE_DESC = some (layout.encode d) := by
  obtain ⟨_, hb, hget⟩ := readBytes_get hall
  have hilt : i < ds.length := by
    by_contra hc
    rw [List.getElem?_eq_none (by omega)] at hd
    cases hd
  have hle : (i + 1) * sizeof_D3D12_RAYTRACING_INSTANCE_DESC ≤
      ds.length * sizeof_D3D12_RAYTRACING_INSTANCE_DESC :=
    Nat.mul_le_mul_right _ hilt
  rw [Nat.add_mul, Nat.one_mul] at hle
  apply readBytes_of_get (layout.size_eq d) (by omega)
  intro t ht
  have := hget (i * sizeof_D3D12_RAYTRACING_INSTANCE_DESC + t) (by omega)
  rw [Nat.zero_add] at this
  rw [← this]
  exact layout.encodeAll_get ds i d hd t ht

/-- C15 (instance-record marshalling): for every list of (bottom-level structure, matrix
`M`) objects and every position `i`, record `i` of the top-level build has
`Transform[r][c] = M_i[c][r]` for `r` in 0..2 and `c` in 0..3, visibility mask `0xFF`,
hit-group contribution 0, and refers to the GPU address of the bottom-level structure of
object `i`; when no platform call fails the build returns `S_OK` and that record lies at
byte `i * sizeof(record)` of the instance buffer. -/
theorem instance_record_marshalling (dev : Device) (layout : InstanceLayout)
    (objects : List (AccelerationStructure × mat4)) (i : Nat)
    (object : AccelerationStructure × mat4) (hi : objects[i]? = some object)
    (henv : dev.NoFailure) (hv : dev.PoolValid) :
    ∃ d,
      (dev.instanceDescs objects 0)[i]? = some d ∧
      (∀ (r : Fin 3) (c : Fin 4), d.Transform r c = object.2 c r.castSucc) ∧
      d.InstanceMask = 0xFF ∧ d.InstanceContributionToHitGroupIndex = 0 ∧
      d.AccelerationStructure = dev.GetGPUVirtualAddress object.1.Handle ∧
      ∃ dev2 tlas ib res,
        dev.CreateTopLevelAccelerationStructure layout objects = some (S_OK, dev2, some tlas) ∧
        dev2.instance_buffer_ = some ib ∧ dev2.resource ib = some res ∧
        readBytes res.bytes (i * sizeof_D3D12_RAYTRACING_INSTANCE_DESC)
          sizeof_D3D12_RAYTRACING_INSTANCE_DESC = some (layout.encode d) := by
  have hget : (dev.instanceDescs objects 0)[i]? = some (dev.instanceDesc i object) := by
    rw [Device.instanceDescs_get, Nat.zero_add, hi]
    rfl
  refine ⟨dev.instanceDesc i object, hget, ?_, rfl, rfl, rfl, ?_⟩
  · intro r c
    fin_cases r <;> fin_cases c <;> rfl
  · obtain ⟨dev2, tlas, ib, r, sb, heq, _, hib, hr, hbytes, _⟩ :=
      Device.CreateTopLevelAccelerationStructure_instances_ok henv hv layout
        (dev.instanceDescs objects 0)
    exact ⟨dev2, tlas, ib, r, heq, hib, hr, layout.readBytes_record hbytes hget⟩

/-- C15 on the second of the three example objects: its record has
`Transform[2][3] = M[3][2]` (bit pattern 14), mask 255, contribution 0, and refers to the
address of bottom-level structure 8. -/
theorem instance_record_marshalling_witness :
    exampleObjects[1]? = some ({ as_ := 8, primitive_count_ := 1 }, exampleMatrix) ∧
    exampleDevice.NoFailure ∧ exampleDevice.PoolValid ∧
    ∃ d,
      (exampleDevice.instanceDescs exampleObjects 0)[1]? = some d ∧
      d.Transform 2 3 = { bits := 14 } ∧ d.Transform 0 1 = { bits := 4 } ∧
      d.InstanceMask = 255 ∧ d.InstanceContributionToHitGroupIndex = 0 ∧
      d.AccelerationStructure = exampleDevice.GetGPUVirtualAddress 8 := by
  obtain ⟨d, hd, ht, hm, hc, ha, _⟩ :=
    instance_record_marshalling exampleDevice exampleLayout exampleObjects 1
      ({ as_ := 8, primitive_count_ := 1 }, exampleMatrix) rfl exampleDevice_noFailure
      exampleDevice_poolValid
  exact ⟨rfl, exampleDevice_noFailure, exampleDevice_poolValid, d, hd, by rw [ht]; rfl,
    by rw [ht]; rfl, hm, hc, ha⟩

/-! ## Dynamic buffer: postcondition of `TransferData` -/

theorem Device.resource_fresh (dev : Device) : dev.resource dev.resources.length = none := by
  simp [Device.resource]

theorem CopyBuffer_generic_read (command_list : List Command) (src dst : grassland.Buffer)
    (size src_offset dst_offset : Nat) :
    CopyBuffer command_list src dst size src_offset dst_offset .GENERIC_READ =
      command_list ++
        [Command.ResourceBarrier dst.buffer_ .GENERIC_READ .COPY_DEST,
         Command.CopyBufferRegion dst.buffer_ dst_offset src.buffer_ src_offset size,
         Command.ResourceBarrier dst.buffer_ .COPY_DEST .GENERIC_READ] := by
  simp [CopyBuffer, Buffer.Handle]

/-- C17 (postcondition of `TransferData` at frame `f < N`): on a valid Dynamic buffer the
call returns; the frame-`f` buffer is released and replaced by a fresh allocation exactly
when its size differs from the size of the staging buffer (otherwise nothing is released
or allocated); afterwards `Buffer()` has the size `Size()`; the commands appended to the
list are the transition, one copy of `Size()` bytes from staging offset 0 to offset 0 of
that buffer, and the transition back; the staging resource and the buffers of all other
frames are as before; and once the recorded commands have run the frame-`f` buffer holds
the bytes of the staging buffer. -/
theorem transfer_data_postcondition (self : D3D12DynamicBuffer) (core : D3D12Core)
    (command_list : List Command) (henv : core.device_.NoFailure) (hv : self.Valid core) :
    ∃ fb0 sb rs core2 self2 fb,
      self.Buffer core = some fb0 ∧ self.InstantBuffer = some sb ∧
      core.device_.resource sb.buffer_ = some rs ∧
      self.TransferData core command_list =
        some (core2, self2, command_list ++
          [Command.ResourceBarrier fb.buffer_ .GENERIC_READ .COPY_DEST,
           Command.CopyBufferRegion fb.buffer_ 0 sb.buffer_ 0 sb.Size,
           Command.ResourceBarrier fb.buffer_ .COPY_DEST .GENERIC_READ]) ∧
      (fb0.Size = sb.Size → fb = fb0 ∧ core2 = core ∧ self2 = self) ∧
      (fb0.Size ≠ sb.Size →
        core2.device_.resource fb0.buffer_ = none ∧ core.device_.resource fb.buffer_ = none) ∧
      self2.Buffer core2 = some fb ∧ self2.Size = some sb.Size ∧ fb.Size = sb.Size ∧
      fb.Valid core2.device_ ∧
      self2.InstantBuffer = some sb ∧ core2.device_.resource sb.buffer_ = some rs ∧
      core2.current_frame_ = core.current_frame_ ∧
      (∀ j, j ≠ core.current_frame_ →
        self2.buffers_[j]? = self.buffers_[j]? ∧
        ∀ b, self.buffers_[j]? = some (some b) →
          core2.device_.resource b.buffer_ = core.device_.resource b.buffer_) ∧
      ∃ dev3 r,
        core2.device_.execute
          [Command.ResourceBarrier fb.buffer_ .GENERIC_READ .COPY_DEST,
           Command.CopyBufferRegion fb.buffer_ 0 sb.buffer_ 0 sb.Size,
           Command.ResourceBarrier fb.buffer_ .COPY_DEST .GENERIC_READ] = some dev3 ∧
        dev3.resource fb.buffer_ = some r ∧ r.bytes = rs.bytes ∧ r.Width = sb.Size ∧
        dev3.resource sb.buffer_ = some rs := by
  obtain ⟨hlen, hf, sb, hsb, ⟨rs, hrs, hrsw, hrsl⟩, fbs, hfbs, hfv, hnd⟩ := hv
  have hflt : core.current_frame_ < fbs.length := by
    rw [hfbs, List.length_map] at hlen
    omega
  obtain ⟨fb0, hget⟩ : ∃ fb0, fbs[core.current_frame_]? = some fb0 :=
    ⟨_, List.getElem?_eq_getElem hflt⟩
  have hbuf : self.buffers_[core.current_frame_]? = some (some fb0) := by
    rw [hfbs, List.getElem?_map, hget]
    rfl
  have hmem0 : fb0 ∈ fbs := List.getElem?_mem hget
  have hne0 : sb.buffer_ ≠ fb0.buffer_ := (frame_ne_staging hnd hmem0).symm
  have hB0 : self.Buffer core = some fb0 := by
    show (self.buffers_[core.current_frame_]?).join = some fb0
    rw [hbuf]
    rfl
  -- the state after the call, in both cases
  have key : ∃ core2 self2 fb rd,
      self.TransferData core command_list =
        some (core2, self2, CopyBuffer command_list sb fb sb.Size 0 0 .GENERIC_READ) ∧
      (fb0.Size = sb.Size → fb = fb0 ∧ core2 = core ∧ self2 = self) ∧
      (fb0.Size ≠ sb.Size →
        core2.device_.resource fb0.buffer_ = none ∧ core.device_.resource fb.buffer_ = none) ∧
      self2.buffers_[core.current_frame_]? = some (some fb) ∧ fb.Size = sb.Size ∧
      core2.device_.resource fb.buffer_ = some rd ∧ rd.Width = fb.allocated_size_ ∧
      rd.bytes.length = fb.allocated_size_ ∧ sb.buffer_ ≠ fb.buffer_ ∧
      self2.staging_buffer_ = some sb ∧ core2.device_.resource sb.buffer_ = some rs ∧
      core2.current_frame_ = core.current_frame_ ∧
      (∀ j, j ≠ core.current_frame_ →
        self2.buffers_[j]? = self.buffers_[j]? ∧
        ∀ b, self.buffers_[j]? = some (some b) →
          core2.device_.resource b.buffer_ = core.device_.resource b.buffer_) := by
    by_cases hs : fb0.Size = sb.Size
    · obtain ⟨rd, hrd, hrdw, hrdl⟩ := hfv fb0 hmem0
      exact ⟨core, self, fb0, rd, D3D12DynamicBuffer.TransferData_same hbuf hsb hs command_list,
        fun _ => ⟨rfl, rfl, rfl⟩, fun h => absurd hs h, hbuf, hs, hrd, hrdw, hrdl, hne0, hsb, hrs,
        rfl, fun j _ => ⟨rfl, fun _ _ => rfl⟩⟩
    · obtain ⟨dev2, nb, rn, heq, henv2, hnb, hnsz, hrn, hrnw, hrnb, _, _, hother, _⟩ :=
        Device.CreateBuffer_heap_new
          (show (core.device_.release fb0.buffer_).NoFailure from henv.of_hresults rfl)
          sb.Size .DEFAULT
      have hrl : (core.device_.release fb0.buffer_).resources.length =
          core.device_.resources.length := by
        simp [Device.release]
      rw [hrl] at hnb hother
      have hlt0 := (hfv fb0 hmem0).lt
      have hslt := Device.resource_lt hrs
      refine ⟨{ core with device_ := dev2 },
        { self with buffers_ := self.buffers_.set core.current_frame_ (some nb) }, nb, rn, ?_,
        fun h => absurd h hs, fun _ => ⟨?_, ?_⟩, ?_, ?_, hrn, by rw [hrnw, hnsz], by
          rw [hrnb, hnsz]; simp, by omega, hsb, ?_, rfl, ?_⟩
      · simp only [D3D12DynamicBuffer.TransferData, hbuf, hsb, ne_eq, hs, not_false_eq_true,
          if_true, heq]
      · show dev2.resource fb0.buffer_ = none
        rw [hother _ (by omega), Device.resource_release, if_pos rfl]
      · rw [hnb]
        exact Device.resource_fresh _
      · show (self.buffers_.set core.current_frame_ (some nb))[core.current_frame_]? = _
        rw [List.getElem?_set, if_pos rfl, if_pos (by omega)]
      · simp only [Buffer.Size, hnsz]
      · show dev2.resource sb.buffer_ = some rs
        rw [hother _ (by omega), Device.resource_release_ne _ hne0, hrs]
      · intro j hj
        refine ⟨?_, ?_⟩
        · show (self.buffers_.set core.current_frame_ (some nb))[j]? = _
          rw [List.getElem?_set, if_neg (Ne.symm hj)]
        · intro b hb
          have hbj : fbs[j]? = some b := by
            rw [hfbs, List.getElem?_map] at hb
            cases hg : fbs[j]? with
            | none => rw [hg] at hb; cases hb
            | some x =>
              rw [hg] at hb
              cases hb
              rfl
          have hblt := (hfv b (List.getElem?_mem hbj)).lt
          have hbne : b.buffer_ ≠ fb0.buffer_ :=
            nodup_handles_ne (List.nodup_cons.1 (by simpa using hnd)).2 hbj hget hj
          show dev2.resource b.buffer_ = _
          rw [hother _ (by omega), Device.resource_release_ne _ hbne]
  obtain ⟨core2, self2, fb, rd, hTD, hsame, hdiff, hfb2, hsz, hrd, hrdw, hrdl, hne, hsb2, hrs2,
    hcf, hothers⟩ := key
  have hsz2 : fb.allocated_size_ = sb.allocated_size_ := hsz
  obtain ⟨dev3, he3, hr3, hoth3, _⟩ :=
    Device.execute_CopyBuffer_whole (n := sb.Size) hrs2 hrd hne (by rw [hrdl, hsz2]; rfl) hrsl
  rw [CopyBuffer_generic_read] at hTD he3
  rw [List.nil_append] at he3
  refine ⟨fb0, sb, rs, core2, self2, fb, hB0, hsb, hrs, hTD, hsame, hdiff, ?_, ?_, hsz,
    ⟨rd, hrd, hrdw, hrdl⟩, hsb2, hrs2, hcf, hothers, dev3, _, he3, hr3, rfl, ?_, ?_⟩
  · show (self2.buffers_[core2.current_frame_]?).join = some fb
    rw [hcf, hfb2]
    rfl
  · simp only [D3D12DynamicBuffer.Size, hsb2]
  · show rd.Width = sb.Size
    rw [hrdw, hsz2]
    rfl
  · rw [hoth3 _ hne, hrs2]

theorem exampleResized_valid : exampleResized.2.Valid exampleResized.1 := by
  refine ⟨rfl, by decide, ⟨3, 4⟩, rfl, ⟨_, rfl, rfl, rfl⟩, [⟨0, 8⟩, ⟨1, 8⟩], rfl, ?_, by decide⟩
  intro fb hfb
  simp only [List.mem_cons, List.mem_singleton, List.not_mem_nil, or_false] at hfb
  rcases hfb with e | e <;> subst e <;> exact ⟨_, rfl, rfl, rfl⟩

theorem exampleResized_noFailure : exampleResized.1.device_.NoFailure := by
  intro hr h
  cases h

/-- C17 on the Dynamic example buffer after `Resize(4)` (frame 0, frame buffers of 8
bytes): `TransferData` returns, and `Buffer()` then has 4 bytes. -/
theorem transfer_data_postcondition_witness :
    exampleResized.1.device_.NoFailure ∧ exampleResized.2.Valid exampleResized.1 ∧
    ∃ core2 self2 cmds fb,
      exampleResized.2.TransferData exampleResized.1 [] = some (core2, self2, cmds) ∧
      self2.Buffer core2 = some fb ∧ fb.Size = 4 ∧ self2.Size = some 4 := by
  obtain ⟨_, sb, _, core2, self2, fb, _, hsb, _, hTD, _, _, hB, hS, hsz, _⟩ :=
    transfer_data_postcondition exampleResized.2 exampleResized.1 []
      exampleResized_noFailure exampleResized_valid
  have e : sb = ⟨3, 4⟩ := by
    have h : exampleResized.2.InstantBuffer = some ⟨3, 4⟩ := rfl
    rw [hsb] at h
    exact Option.some.inj h
  subst e
  exact ⟨exampleResized_noFailure, exampleResized_valid, core2, self2, _, fb, hTD, hB, hsz, hS⟩

/-! ## Dynamic buffer: frame property of `Resize`, `UploadData`, `DownloadData` -/

theorem mem_frames_of_valid {fbs : List grassland.Buffer} {buffers : List (Option grassland.Buffer)}
    (h : buffers = fbs.map some) {fb : grassland.Buffer} (hfb : some fb ∈ buffers) : fb ∈ fbs := by
  rw [h] at hfb
  obtain ⟨x, hx, e⟩ := List.mem_map.1 hfb
  cases e
  exact hx

/-- C18 (frame property): on a valid Dynamic buffer, `Resize`, `UploadData` and
`DownloadData` (within their preconditions) return and leave the list of per-frame buffers
and the resource of every per-frame buffer, size and bytes, as they were; `Buffer()` is
the same object as before.  So after `Resize(s)` with `s` different from the old size, a
frame buffer that had the old size still has it: `Buffer()->Size() != Size()`. -/
theorem dynamic_frame_property (self : D3D12DynamicBuffer) (core : D3D12Core)
    (henv : core.device_.NoFailure) (hv : self.Valid core) :
    (∀ s, ∃ core2 self2,
      self.Resize core s = some (core2, self2) ∧ self2.buffers_ = self.buffers_ ∧
      (∀ fb, some fb ∈ self.buffers_ →
        core2.device_.resource fb.buffer_ = core.device_.resource fb.buffer_) ∧
      self2.Buffer core2 = self.Buffer core ∧ self2.Size = some s ∧
      ∀ fb0 n, self.Buffer core = some fb0 → self.Size = some n → fb0.Size = n → s ≠ n →
        self2.Buffer core2 = some fb0 ∧ fb0.Size = n ∧ self2.Size ≠ some fb0.Size) ∧
    (∀ data size offset n, size ≤ data.length → self.Size = some n → offset + size ≤ n →
      ∃ core2,
        self.UploadData core data size offset = some core2 ∧
        (∀ fb, some fb ∈ self.buffers_ →
          core2.device_.resource fb.buffer_ = core.device_.resource fb.buffer_) ∧
        self.Buffer core2 = self.Buffer core) ∧
    (∀ data size offset n, size ≤ data.length → self.Size = some n → offset + size ≤ n →
      ∃ core2 out,
        self.DownloadData core data size offset = some (core2, out) ∧
        (∀ fb, some fb ∈ self.buffers_ →
          core2.device_.resource fb.buffer_ = core.device_.resource fb.buffer_) ∧
        self.Buffer core2 = self.Buffer core) := by
  obtain ⟨hlen, hf, sb, hsb, ⟨r, hr, hw, hrl⟩, fbs, hfbs, hfv, hnd⟩ := hv
  refine ⟨?_, ?_, ?_⟩
  · intro s
    obtain ⟨dev2, nb, r2, hres, _, hsz, hnb, _, _, _, _, hother, _⟩ :=
      D3D12DynamicBuffer.Resize_ok henv hsb hr hrl s
    have hS : D3D12DynamicBuffer.Size { self with staging_buffer_ := some nb } = some s := by
      simp only [D3D12DynamicBuffer.Size, Buffer.Size, hsz]
    refine ⟨_, _, hres, rfl, ?_, rfl, hS, ?_⟩
    · intro fb hfb
      have hmem := mem_frames_of_valid hfbs hfb
      have hlt := (hfv fb hmem).lt
      exact hother _ (by omega) (frame_ne_staging hnd hmem)
    · intro fb0 n hB hn hfn hsn
      refine ⟨hB, hfn, ?_⟩
      rw [hS, hfn]
      intro e
      exact hsn (Option.some.inj e)
  · intro data size offset n h2 hn h1
    have hn2 : sb.allocated_size_ = n := by
      simpa [D3D12DynamicBuffer.Size, hsb, Buffer.Size] using hn
    obtain ⟨bytes, _, hup⟩ :=
      D3D12DynamicBuffer.UploadData_ok henv hsb hr data size offset (by omega) h2
    refine ⟨_, hup, ?_, rfl⟩
    intro fb hfb
    have hmem := mem_frames_of_valid hfbs hfb
    show (core.device_.afterCall.store _ _).resource _ = _
    rw [Device.resource_store_ne _ _ (frame_ne_staging hnd hmem)]
    rfl
  · intro data size offset n h2 hn h1
    have hn2 : sb.allocated_size_ = n := by
      simpa [D3D12DynamicBuffer.Size, hsb, Buffer.Size] using hn
    obtain ⟨out, _, hdown⟩ :=
      D3D12DynamicBuffer.DownloadData_ok henv hsb hr data size offset (by omega) h2
    exact ⟨_, out, hdown, fun _ _ => rfl, rfl⟩

/-- C18 on the Dynamic example buffer (8 bytes): after `Resize(4)`, `Buffer()` is still
the frame buffer of 8 bytes while `Size()` is 4. -/
theorem dynamic_frame_property_witness :
    exampleDynamic.1.device_.NoFailure ∧ exampleDynamic.2.Valid exampleDynamic.1 ∧
    ∃ core2 self2,
      exampleDynamic.2.Resize exampleDynamic.1 4 = some (core2, self2) ∧
      self2.Buffer core2 = some ⟨0, 8⟩ ∧ self2.Size = some 4 := by
  obtain ⟨core2, self2, hres, _, _, _, hS, hstale⟩ :=
    (dynamic_frame_property exampleDynamic.2 exampleDynamic.1 exampleDevice_noFailure
      exampleDynamic_valid).1 4
  exact ⟨exampleDevice_noFailure, exampleDynamic_valid, core2, self2, hres,
    (hstale ⟨0, 8⟩ 8 rfl rfl rfl (by decide)).1, hS⟩

/-! ## Interop buffer: the allocation behind the buffer after `Resize` -/

/-- C16, as the code behaves: for every valid Interop buffer and every new size, `Resize`
returns with the buffer backed by a new device-local resource created through
`CreateBuffer(new_size, D3D12_HEAP_TYPE_DEFAULT, ...)`, whose heap flags are
`D3D12_HEAP_FLAG_NONE`, not the `D3D12_HEAP_FLAG_SHARED` of the constructor; this resource
is the one imported into the second API, after the old external memory object has been
destroyed. -/
theorem interop_resize_heap_flags (self : D3D12CUDABuffer) (core : D3D12Core) (new_size : Nat)
    (hcore : core.Valid) (hv : self.Valid core)
    (himp : self.cuda_memory_ < core.cuda_external_memory_.length) :
    ∃ core2 self2 b2 r2,
      self.Resize core new_size = some (core2, self2) ∧ self2.buffer_ = some b2 ∧
      core2.device_.resource b2.buffer_ = some r2 ∧ r2.Width = new_size ∧
      r2.heap_type = .DEFAULT ∧ r2.heap_flags = .NONE ∧ r2.heap_flags ≠ .SHARED ∧
      core2.cuda_external_memory_[self2.cuda_memory_]? = some (some b2.buffer_) ∧
      core2.cuda_external_memory_[self.cuda_memory_]? = some none ∧
      self.cuda_memory_ < self2.cuda_memory_ := by
  obtain ⟨b, hb, ⟨r, hr, _, hrl⟩, hnot⟩ := hv
  obtain ⟨core2, b2, r2, m, hres, _, _, hr2, hw2, _, _, ht, hf, _, _, _, hmem, hm⟩ :=
    D3D12CUDABuffer.Resize_interop hcore hb hr hnot hrl new_size
  refine ⟨core2, _, b2, r2, hres, rfl, hr2, hw2, ht, hf, by rw [hf]; decide, ?_, ?_, ?_⟩
  · show core2.cuda_external_memory_[m]? = _
    rw [hmem, hm, List.getElem?_append_right (by simp)]
    simp
  · rw [hmem, List.getElem?_append_left (by simpa using himp), List.getElem?_set,
      if_pos rfl, if_pos himp]
  · show self.cuda_memory_ < m
    rw [hm]
    exact himp

/-- C16 on the Interop example buffer (constructed with 8 bytes, resized to 5): the
resource made by the constructor has the shared heap flag, the resource behind the buffer
after `Resize` has heap flags `NONE`, and it is the resource named by the new external
memory object. -/
theorem interop_resize_heap_flags_witness :
    exampleInterop.1.Valid ∧ exampleInterop.2.Valid exampleInterop.1 ∧
    exampleInterop.2.cuda_memory_ < exampleInterop.1.cuda_external_memory_.length ∧
    (exampleInterop.1.device_.resource 0).map Resource.heap_flags = some .SHARED ∧
    ∃ core2 self2 b2 r2,
      exampleInterop.2.Resize exampleInterop.1 5 = some (core2, self2) ∧
      self2.buffer_ = some b2 ∧ core2.device_.resource b2.buffer_ = some r2 ∧
      r2.heap_flags = .NONE ∧
      core2.cuda_external_memory_[self2.cuda_memory_]? = some (some b2.buffer_) := by
  obtain ⟨core2, self2, b2, r2, hres, hb2, hr2, _, _, hf, _, himp, _⟩ :=
    interop_resize_heap_flags exampleInterop.2 exampleInterop.1 5 exampleInterop_core_valid
      exampleInterop_valid (by decide)
  exact ⟨exampleInterop_core_valid, exampleInterop_valid, by decide, rfl, core2, self2, b2, r2,
    hres, hb2, hr2, hf, himp⟩

/-! ## Bottom-level build -/

/-- The build inputs of a bottom-level build with one geometry. -/
theorem Device.CreateBottomLevelAccelerationStructure_eq (dev : Device) (form : BottomLevelForm) :
    dev.CreateBottomLevelAccelerationStructure form =
      dev.buildBottomLevel form.geometry form.primitive_count := by
  cases form <;> rfl

/-- The shared part of the bottom-level builds in an environment without failures: it
returns `S_OK`; the scratch buffer is the pooled one and covers the size the prebuild
query asked for; the result buffer is a new resource of the size the query reported; one
build command is executed. -/
theorem Device.buildBottomLevel_ok {dev : Device} (henv : dev.NoFailure) (hv : dev.PoolValid)
    (geometry : D3D12_RAYTRACING_GEOMETRY_DESC) (primitive_count : Nat)
    (inputs : D3D12_BUILD_RAYTRACING_ACCELERATION_STRUCTURE_INPUTS)
    (hin : inputs =
      { Type_ := .BOTTOM_LEVEL
        NumDescs := 1
        Flags := D3D12_RAYTRACING_ACCELERATION_STRUCTURE_BUILD_FLAG_PREFER_FAST_TRACE
        pGeometryDescs := [geometry]
        InstanceDescs := 0 }) :
    ∃ dev2 as sb rsb ras,
      dev.buildBottomLevel geometry primitive_count = some (S_OK, dev2, some as) ∧
      as.primitive_count_ = primitive_count ∧
      dev2.scratch_buffer_ = some sb ∧ dev2.resource sb = some rsb ∧
      rsb.Width = max (dev.capacity .Scratch) (dev.prebuild inputs).ScratchDataSizeInBytes ∧
      dev.resource as.as_ = none ∧ dev2.resource as.as_ = some ras ∧
      ras.Width = (dev.prebuild inputs).ResultDataMaxSizeInBytes ∧
      ras.heap_type = .DEFAULT ∧ as.as_ ≠ sb ∧
      dev2.executed = dev.executed ++
        [Command.BuildRaytracingAccelerationStructure
          { Inputs := inputs
            ScratchAccelerationStructureData := dev.gpu_va sb
            DestAccelerationStructureData := dev.gpu_va as.as_
            SourceAccelerationStructureData := 0 }] := by
  subst hin
  obtain ⟨inputs, hin⟩ : ∃ inputs : D3D12_BUILD_RAYTRACING_ACCELERATION_STRUCTURE_INPUTS,
      inputs =
      { Type_ := .BOTTOM_LEVEL
        NumDescs := 1
        Flags := D3D12_RAYTRACING_ACCELERATION_STRUCTURE_BUILD_FLAG_PREFER_FAST_TRACE
        pGeometryDescs := [geometry]
        InstanceDescs := 0 } := ⟨_, rfl⟩
  rw [← hin]
  -- the scratch buffer
  obtain ⟨dev4, sb, r4, hreq4, henv4, hv4, hp4, hr4, hw4, _, _, _, hlen4, hex4, hva4, hpre4⟩ :=
    Device.Request_ok henv hv .Scratch (dev.prebuild inputs).ScratchDataSizeInBytes
  have hreq4b : dev.RequestScratchBuffer (dev.prebuild inputs).ScratchDataSizeInBytes =
      some (dev4, some sb) := hreq4
  -- the result buffer
  obtain ⟨hr5, dev5, rn, heq5, henv5, hrn, hrnw, _, hrnt, _, hother5, hlen5, hs5, _, hex5, hva5,
    _, _⟩ :=
    d3d12.CreateBuffer_new henv4 (dev.prebuild inputs).ResultDataMaxSizeInBytes
      .DEFAULT .NONE .RAYTRACING_ACCELERATION_STRUCTURE .ALLOW_UNORDERED_ACCESS
  have hf5 := SUCCEEDED_of_not_FAILED (Device.platformCall_fst henv5)
  have hsblt := Device.resource_lt hr4
  obtain ⟨cmd, hcmd⟩ : ∃ cmd, cmd = Command.BuildRaytracingAccelerationStructure
      { Inputs := inputs
        ScratchAccelerationStructureData := dev5.GetGPUVirtualAddress sb
        DestAccelerationStructureData := dev5.GetGPUVirtualAddress dev4.resources.length
        SourceAccelerationStructureData := 0 } := ⟨_, rfl⟩
  refine ⟨dev5.afterCall.log cmd,
    { as_ := dev4.resources.length, primitive_count_ := primitive_count }, sb, r4, rn, ?_, rfl,
    ?_, ?_, hw4, ?_, ?_, hrnw, hrnt, ?_, ?_⟩
  · have hf5b : SUCCEEDED (dev5.hresults.headD S_OK) = true := hf5
    simp only [Device.buildBottomLevel, ← hin, hreq4b, heq5, Device.platformCall,
      Device.SingleTimeCommand, List.nil_append, ← hcmd, hf5b, if_true]
    simp only [Device.execute, hcmd, Device.executeCommand]
  · show dev5.afterCall.scratch_buffer_ = some sb
    rw [Device.afterCall_scratch, hs5]
    exact hp4
  · show (dev5.afterCall.log _).resource sb = some _
    rw [Device.resource_log, Device.resource_afterCall, hother5 sb (by omega), hr4]
  · show dev.resource dev4.resources.length = none
    simp only [Device.resource]
    rw [List.getElem?_eq_none (by omega)]
    rfl
  · show (dev5.afterCall.log _).resource dev4.resources.length = some _
    rw [Device.resource_log, Device.resource_afterCall, hrn]
  · show dev4.resources.length ≠ sb
    omega
  · show dev5.afterCall.executed ++ _ = _
    rw [Device.afterCall_executed, hex5, hex4, hcmd]
    simp only [Device.GetGPUVirtualAddress, hva5, hva4]

/-- C20, amended: for both bottom-level build forms, when no platform call fails the
build returns `S_OK` and executes one build command whose inputs hold exactly one geometry
description (the one of the form) and exactly the flag `PREFER_FAST_TRACE`; the scratch
buffer of the command is the pooled one and is at least as large as the scratch size of
the prebuild query; the result buffer is a resource that did not exist before, of exactly
the result size of the query; the handle reports the caller's primitive count (`num_aabb`,
`primitive_count`).  The index count of the triangle form is `primitive_count * 3` reduced
modulo `2^32`, which is `3 * primitive_count` whenever that is below `2^32`. -/
theorem bottom_level_build_success (dev : Device) (form : BottomLevelForm)
    (henv : dev.NoFailure) (hv : dev.PoolValid) :
    ∃ dev2 as sb rsb ras desc,
      dev.CreateBottomLevelAccelerationStructure form = some (S_OK, dev2, some as) ∧
      dev2.executed = dev.executed ++ [Command.BuildRaytracingAccelerationStructure desc] ∧
      desc.Inputs.Type_ = .BOTTOM_LEVEL ∧ desc.Inputs.NumDescs = 1 ∧
      desc.Inputs.Flags = D3D12_RAYTRACING_ACCELERATION_STRUCTURE_BUILD_FLAG_PREFER_FAST_TRACE ∧
      dev2.scratch_buffer_ = some sb ∧ dev2.resource sb = some rsb ∧
      desc.ScratchAccelerationStructureData = dev.gpu_va sb ∧
      (dev.prebuild desc.Inputs).ScratchDataSizeInBytes ≤ rsb.Width ∧
      dev.resource as.as_ = none ∧ dev2.resource as.as_ = some ras ∧
      ras.Width = (dev.prebuild desc.Inputs).ResultDataMaxSizeInBytes ∧
      desc.DestAccelerationStructureData = dev.gpu_va as.as_ ∧
      (∀ aabb_buffer stride num_aabb flags, form = .aabb aabb_buffer stride num_aabb flags →
        desc.Inputs.pGeometryDescs = [.AABBS aabb_buffer stride num_aabb flags] ∧
        as.primitive_count_ = num_aabb) ∧
      (∀ vertex_buffer index_buffer num_vertex stride primitive_count flags,
        form = .triangles vertex_buffer index_buffer num_vertex stride primitive_count flags →
        desc.Inputs.pGeometryDescs =
          [.TRIANGLES vertex_buffer stride num_vertex .R32G32B32_FLOAT index_buffer
            (primitive_count * 3 % 2 ^ 32) .R32_UINT 0 flags] ∧
        as.primitive_count_ = primitive_count ∧
        (3 * primitive_count < 2 ^ 32 → primitive_count * 3 % 2 ^ 32 = 3 * primitive_count)) := by
  obtain ⟨dev2, as, sb, rsb, ras, heq, hcount, hsb, hrsb, hw, hfresh, hras, hrw, _, _, hex⟩ :=
    Device.buildBottomLevel_ok henv hv form.geometry form.primitive_count form.inputs rfl
  refine ⟨dev2, as, sb, rsb, ras, _, ?_, hex, rfl, rfl, rfl, hsb, hrsb, rfl, ?_, hfresh, hras, hrw,
    rfl, ?_, ?_⟩
  · rw [Device.CreateBottomLevelAccelerationStructure_eq, heq]
  · rw [hw]
    exact le_max_right _ _
  · intro aabb_buffer stride num_aabb flags hform
    subst hform
    exact ⟨rfl, hcount⟩
  · intro vertex_buffer index_buffer num_vertex stride primitive_count flags hform
    subst hform
    refine ⟨rfl, hcount, ?_⟩
    intro h
    rw [Nat.mul_comm, Nat.mod_eq_of_lt h]

/-- C20 on the example device, a triangle build with one primitive: the index count
submitted is 3 and the handle reports 1 primitive. -/
theorem bottom_level_build_success_witness :
    exampleDevice.NoFailure ∧ exampleDevice.PoolValid ∧
    ∃ dev2 as desc,
      exampleDevice.CreateBottomLevelAccelerationStructure (.triangles 4096 8192 3 12 1 0) =
        some (S_OK, dev2, some as) ∧
      dev2.executed = [Command.BuildRaytracingAccelerationStructure desc] ∧
      desc.Inputs.pGeometryDescs =
        [.TRIANGLES 4096 12 3 .R32G32B32_FLOAT 8192 3 .R32_UINT 0 0] ∧
      as.primitive_count_ = 1 := by
  obtain ⟨dev2, as, _, _, _, desc, heq, hex, _, _, _, _, _, _, _, _, _, _, _, _, htri⟩ :=
    bottom_level_build_success exampleDevice (.triangles 4096 8192 3 12 1 0)
      exampleDevice_noFailure exampleDevice_poolValid
  obtain ⟨hg, hc, _⟩ := htri 4096 8192 3 12 1 0 rfl
  exact ⟨exampleDevice_noFailure, exampleDevice_poolValid, dev2, as, desc, heq, hex, hg, hc⟩

/-- C20 as stated fails for large triangle counts: with `primitive_count = 1431655766`
(a `uint32_t`) the index count submitted by the triangle build is 2, while
`3 * primitive_count` is 4294967298. -/
theorem bottom_level_build_index_count_counterexample :
    (1431655766 : Nat) < 2 ^ 32 ∧ 3 * 1431655766 = 4294967298 ∧
    ∃ dev2 as desc,
      exampleDevice.CreateBottomLevelAccelerationStructure_triangles 4096 8192 3 12
        1431655766 0 = some (S_OK, dev2, some as) ∧
      dev2.executed = [Command.BuildRaytracingAccelerationStructure desc] ∧
      desc.Inputs.pGeometryDescs =
        [.TRIANGLES 4096 12 3 .R32G32B32_FLOAT 8192 2 .R32_UINT 0 0] := by
  obtain ⟨dev2, as, _, _, _, heq, _, _, _, _, _, _, _, _, _, hex⟩ :=
    Device.buildBottomLevel_ok exampleDevice_noFailure exampleDevice_poolValid
      (.TRIANGLES 4096 12 3 .R32G32B32_FLOAT 8192 (1431655766 * 3 % 2 ^ 32) .R32_UINT 0 0)
      1431655766 _ rfl
  refine ⟨by norm_num, by norm_num, dev2, as, _, heq, hex, ?_⟩
  show [D3D12_RAYTRACING_GEOMETRY_DESC.TRIANGLES 4096 12 3 .R32G32B32_FLOAT 8192
    (1431655766 * 3 % 2 ^ 32) .R32_UINT 0 0] = _
  norm_num

/-! ## Acceleration structure builds: failing steps -/

/-- C11 at failing inputs.  When the command list does not offer the build interface
(`QueryInterface` fails) the three build entry points return `S_OK` with a handle although
no build command was executed; when the creation of the pooled scratch buffer (or, for the
top-level build, of the pooled instance buffer) fails, the null pointer returned by the
pool is dereferenced, which is undefined.  A failing creation of the result buffer is
reported: its code is returned and no handle is constructed. -/
theorem build_failure_policy_at_failing_steps :
    (∃ dev2 as,
      (exampleDeviceWith [S_OK, S_OK, E_NOINTERFACE]).CreateBottomLevelAccelerationStructure
        (.aabb 4096 24 2 0) = some (S_OK, dev2, some as) ∧ dev2.executed = []) ∧
    (∃ dev2 as,
      (exampleDeviceWith [S_OK, S_OK, E_NOINTERFACE]).CreateBottomLevelAccelerationStructure
        (.triangles 4096 8192 3 12 1 0) = some (S_OK, dev2, some as) ∧ dev2.executed = []) ∧
    (∃ dev2 as,
      Device.CreateTopLevelAccelerationStructure
        (exampleDeviceWith [S_OK, S_OK, S_OK, S_OK, E_NOINTERFACE]) exampleLayout
        [({ as_ := 7, primitive_count_ := 12 }, exampleMatrix)] =
          some (S_OK, dev2, some as) ∧ dev2.executed = []) ∧
    (exampleDeviceWith [E_OUTOFMEMORY]).CreateBottomLevelAccelerationStructure
      (.aabb 4096 24 2 0) = none ∧
    (exampleDeviceWith [E_OUTOFMEMORY]).CreateBottomLevelAccelerationStructure
      (.triangles 4096 8192 3 12 1 0) = none ∧
    (exampleDeviceWith [E_OUTOFMEMORY]).CreateTopLevelAccelerationStructure
      exampleLayout exampleObjects = none ∧
    (∃ dev2,
      (exampleDeviceWith [S_OK, E_OUTOFMEMORY]).CreateBottomLevelAccelerationStructure
        (.aabb 4096 24 2 0) = some (E_OUTOFMEMORY, dev2, none)) :=
  ⟨⟨_, _, rfl, rfl⟩, ⟨_, _, rfl, rfl⟩, ⟨_, _, rfl, rfl⟩, rfl, rfl, rfl, ⟨_, rfl⟩⟩

/-- C12, as the code behaves: when the scratch pool is empty, the creation of the scratch
buffer fails and the creation of the result buffer succeeds, a bottom-level build of either
form, with zero primitives like with any other count, reaches the dereference of the null
scratch pointer (`scratch_buffer->GetGPUVirtualAddress()`), which is undefined. -/
theorem bottom_level_build_null_scratch (dev : Device) (form : BottomLevelForm)
    (hpool : dev.scratch_buffer_ = none)
    (hfail : FAILED (dev.hresults.headD S_OK) = true)
    (hok : FAILED (dev.hresults.tail.headD S_OK) = false) :
    dev.RequestScratchBuffer (dev.prebuild form.inputs).ScratchDataSizeInBytes =
      some (dev.afterCall.setScratch none, none) ∧
    dev.CreateBottomLevelAccelerationStructure form = none := by
  have h1 : dev.RequestScratchBuffer (dev.prebuild form.inputs).ScratchDataSizeInBytes =
      some (dev.afterCall.setScratch none, none) := by
    simp only [Device.RequestScratchBuffer, hpool, d3d12.CreateBuffer, Device.platformCall,
      hfail, if_true]
  have h2 : FAILED ((dev.afterCall.setScratch none).hresults.headD S_OK) = false := hok
  refine ⟨h1, ?_⟩
  rw [Device.CreateBottomLevelAccelerationStructure_eq]
  have h1b : dev.RequestScratchBuffer
      (dev.prebuild
        { Type_ := .BOTTOM_LEVEL
          NumDescs := 1
          Flags := D3D12_RAYTRACING_ACCELERATION_STRUCTURE_BUILD_FLAG_PREFER_FAST_TRACE
          pGeometryDescs := [form.geometry]
          InstanceDescs := 0 }).ScratchDataSizeInBytes =
      some (dev.afterCall.setScratch none, none) := h1
  simp only [Device.buildBottomLevel, h1b, d3d12.CreateBuffer, Device.platformCall, h2,
    Bool.false_eq_true, if_false, Device.alloc]

/-- C12 at zero primitives, on the example device when the prebuild query asks for no
scratch memory and the platform refuses to create a buffer of zero bytes: the AABB build
with `num_aabb = 0` and the triangle build with `primitive_count = 0` are undefined. -/
theorem bottom_level_build_null_scratch_witness :
    exampleEmptyBuildDevice.scratch_buffer_ = none ∧
    FAILED (exampleEmptyBuildDevice.hresults.headD S_OK) = true ∧
    FAILED (exampleEmptyBuildDevice.hresults.tail.headD S_OK) = false ∧
    (BottomLevelForm.aabb 4096 24 0 0).primitive_count = 0 ∧
    (BottomLevelForm.triangles 4096 8192 0 12 0 0).primitive_count = 0 ∧
    exampleEmptyBuildDevice.CreateBottomLevelAccelerationStructure (.aabb 4096 24 0 0) = none ∧
    exampleEmptyBuildDevice.CreateBottomLevelAccelerationStructure
      (.triangles 4096 8192 0 12 0 0) = none :=
  ⟨rfl, rfl, rfl, rfl, rfl,
    (bottom_level_build_null_scratch exampleEmptyBuildDevice (.aabb 4096 24 0 0) rfl rfl rfl).2,
    (bottom_level_build_null_scratch exampleEmptyBuildDevice (.triangles 4096 8192 0 12 0 0)
      rfl rfl rfl).2⟩

/-! ## Bottom-level build from a vertex and an index buffer -/

/-- C24: the buffer overload of the bottom-level build is undefined for `stride = 0` (a
division by zero); for `stride > 0`, when no platform call fails, it returns `S_OK` after
one build command whose triangle geometry has vertex count
`floor(vertex_buffer.Size() / stride)` and is built for
`floor(index_buffer.Size() / 12)` primitives, each reduced to 32 bits, with the geometry
flag `NO_DUPLICATE_ANYHIT_INVOCATION`; the handle reports that primitive count.  When the
sizes are below `2^32` nothing is lost, `3 * primitive_count * 4 <= index_buffer.Size()`
and `vertex_count * stride <= vertex_buffer.Size()`. -/
theorem bottom_level_build_from_buffers (dev : Device) (vertex_buffer index_buffer : Buffer)
    (stride : Nat) (henv : dev.NoFailure) (hv : dev.PoolValid) :
    (stride = 0 →
      dev.CreateBottomLevelAccelerationStructure_buffers vertex_buffer index_buffer stride =
        none) ∧
    (0 < stride →
      ∃ dev2 as desc vertex_count primitive_count,
        vertex_count = vertex_buffer.Size / stride % 2 ^ 32 ∧
        primitive_count = index_buffer.Size / 12 % 2 ^ 32 ∧
        dev.CreateBottomLevelAccelerationStructure_buffers vertex_buffer index_buffer stride =
          some (S_OK, dev2, some as) ∧
        dev2.executed = dev.executed ++ [Command.BuildRaytracingAccelerationStructure desc] ∧
        desc.Inputs.pGeometryDescs =
          [.TRIANGLES (dev.gpu_va vertex_buffer.buffer_) stride vertex_count .R32G32B32_FLOAT
            (dev.gpu_va index_buffer.buffer_) (primitive_count * 3 % 2 ^ 32) .R32_UINT 0
            D3D12_RAYTRACING_GEOMETRY_FLAG_NO_DUPLICATE_ANYHIT_INVOCATION] ∧
        as.primitive_count_ = primitive_count ∧
        (index_buffer.Size < 2 ^ 32 →
          primitive_count = index_buffer.Size / 12 ∧
          3 * primitive_count * 4 ≤ index_buffer.Size ∧
          primitive_count * 3 % 2 ^ 32 = 3 * primitive_count) ∧
        (vertex_buffer.Size < 2 ^ 32 →
          vertex_count = vertex_buffer.Size / stride ∧
          vertex_count * stride ≤ vertex_buffer.Size)) := by
  refine ⟨?_, ?_⟩
  · intro h
    simp only [Device.CreateBottomLevelAccelerationStructure_buffers, h, if_true]
  · intro hpos
    obtain ⟨dev2, as, _, _, _, heq, hcount, _, _, _, _, _, _, _, _, hex⟩ :=
      Device.buildBottomLevel_ok henv hv
        (.TRIANGLES (dev.gpu_va vertex_buffer.buffer_) stride
          (vertex_buffer.Size / stride % 2 ^ 32) .R32G32B32_FLOAT
          (dev.gpu_va index_buffer.buffer_) (index_buffer.Size / 12 % 2 ^ 32 * 3 % 2 ^ 32)
          .R32_UINT 0 D3D12_RAYTRACING_GEOMETRY_FLAG_NO_DUPLICATE_ANYHIT_INVOCATION)
        (index_buffer.Size / 12 % 2 ^ 32) _ rfl
    refine ⟨dev2, as, _, _, _, rfl, rfl, ?_, hex, rfl, hcount, ?_, ?_⟩
    · have hne : stride ≠ 0 := by omega
      simp only [Device.CreateBottomLevelAccelerationStructure_buffers, hne, if_false]
      exact heq
    · intro hsmall
      have hq : index_buffer.Size / 12 < 2 ^ 32 :=
        lt_of_le_of_lt (Nat.div_le_self _ _) hsmall
      have hm := Nat.div_mul_le_self index_buffer.Size 12
      rw [Nat.mod_eq_of_lt hq]
      refine ⟨rfl, by omega, ?_⟩
      rw [Nat.mod_eq_of_lt (by omega)]
      omega
    · intro hsmall
      have hq : vertex_buffer.Size / stride < 2 ^ 32 :=
        lt_of_le_of_lt (Nat.div_le_self _ _) hsmall
      rw [Nat.mod_eq_of_lt hq]
      exact ⟨rfl, Nat.div_mul_le_self _ _⟩

theorem exampleGeometryDevice_noFailure : exampleGeometryDevice.NoFailure := by
  intro hr h
  cases h

theorem exampleGeometryDevice_poolValid : exampleGeometryDevice.PoolValid :=
  ⟨fun p _ h => (by cases p <;> cases h), fun _ _ h => (nomatch h)⟩

/-- C24 on a vertex buffer of 36 bytes and an index buffer of 24 bytes with stride 12:
three vertices, two primitives, index count 6. -/
theorem bottom_level_build_from_buffers_witness :
    exampleGeometryDevice.NoFailure ∧ exampleGeometryDevice.PoolValid ∧ (0 : Nat) < 12 ∧
    ∃ dev2 as desc,
      exampleGeometryDevice.CreateBottomLevelAccelerationStructure_buffers ⟨0, 36⟩ ⟨1, 24⟩ 12 =
        some (S_OK, dev2, some as) ∧
      dev2.executed = [Command.BuildRaytracingAccelerationStructure desc] ∧
      desc.Inputs.pGeometryDescs =
        [.TRIANGLES (exampleGeometryDevice.gpu_va 0) 12 3 .R32G32B32_FLOAT
          (exampleGeometryDevice.gpu_va 1) 6 .R32_UINT 0 2] ∧
      as.primitive_count_ = 2 := by
  obtain ⟨dev2, as, desc, nv, pc, hnv, hpc, heq, hex, hg, hc, _, _⟩ :=
    (bottom_level_build_from_buffers exampleGeometryDevice ⟨0, 36⟩ ⟨1, 24⟩ 12
      exampleGeometryDevice_noFailure exampleGeometryDevice_poolValid).2 (by decide)
  have e1 : nv = 3 := by rw [hnv]; rfl
  have e2 : pc = 2 := by rw [hpc]; rfl
  subst e1 e2
  exact ⟨exampleGeometryDevice_noFailure, exampleGeometryDevice_poolValid, by decide, dev2, as,
    desc, heq, hex, hg, hc⟩

/-! ## Shader table: the writes stay inside the buffer and apart -/

theorem pairwise_records (offset n : Nat) :
    ((List.range n).map fun i : Nat =>
      (offset + i * shader_record_size, D3D12_SHADER_IDENTIFIER_SIZE_IN_BYTES)).Pairwise
      (fun w1 w2 => w1.1 + w1.2 ≤ w2.1) := by
  rw [List.pairwise_map]
  refine List.Pairwise.imp ?_ (List.pairwise_lt_range n)
  intro a b hab
  show offset + a * shader_record_size + D3D12_SHADER_IDENTIFIER_SIZE_IN_BYTES ≤
    offset + b * shader_record_size
  rw [shader_record_size_eq]
  simp only [D3D12_SHADER_IDENTIFIER_SIZE_IN_BYTES]
  omega

theorem mem_records {offset n : Nat} {w : Nat × Nat}
    (h : w ∈ (List.range n).map fun i : Nat =>
      (offset + i * shader_record_size, D3D12_SHADER_IDENTIFIER_SIZE_IN_BYTES)) :
    offset ≤ w.1 ∧ w.1 + w.2 ≤ offset + n * 32 := by
  obtain ⟨i, hi, e⟩ := List.mem_map.1 h
  rw [List.mem_range] at hi
  rw [← e, shader_record_size_eq]
  simp only [D3D12_SHADER_IDENTIFIER_SIZE_IN_BYTES]
  omega

theorem mem_records_intro (offset n i : Nat) (hi : i < n) :
    (offset + i * shader_record_size, D3D12_SHADER_IDENTIFIER_SIZE_IN_BYTES) ∈
      (List.range n).map fun i : Nat =>
        (offset + i * shader_record_size, D3D12_SHADER_IDENTIFIER_SIZE_IN_BYTES) :=
  List.mem_map.2 ⟨i, List.mem_range.2 hi, rfl⟩

/-- C22: when no platform call fails, `CreateShaderTable` returns a table exactly when
every export name it looks up is known to the state object (otherwise it copies from the
null pointer).  In every run that returns a table, the copies into the mapped buffer go to
the ray-gen range `[0, idSize)` and, for each category and every `i` below the length of
its list, to `[offset + i*r, offset + i*r + idSize)`, in this order and nowhere else; every
one of these ranges lies inside the allocated buffer; each range ends at or before the
start of every range written after it, so no two overlap; every byte of the buffer outside
these ranges is as it was allocated; the ray-gen range ends at or before `missOffset`, and
the range of record `i` of a category lies inside the region of the category, from its
offset to the next offset (the buffer size for the callable category). -/
theorem CreateShaderTable_writes_in_bounds (dev : Device) (pp : StateObjectProperties)
    (miss hit call : List Int) (henv : dev.NoFailure) :
    (pp.Resolves miss hit call →
      ∃ dev2 table writes,
        dev.CreateShaderTable_properties pp miss hit call =
          some (S_OK, dev2, some (table, writes))) ∧
    (¬ pp.Resolves miss hit call →
      dev.CreateShaderTable_properties pp miss hit call = none) ∧
    ∀ (hr : HRESULT) (dev2 : Device) (table : ShaderTable) (writes : List (Nat × Nat)),
      dev.CreateShaderTable_properties pp miss hit call =
        some (hr, dev2, some (table, writes)) →
      ∃ res r idSize,
        r = shader_record_size ∧ idSize = D3D12_SHADER_IDENTIFIER_SIZE_IN_BYTES ∧
        dev2.resource table.buffer_ = some res ∧ res.bytes.length = res.Width ∧
        writes =
          [(table.ray_gen_offset_, idSize)] ++
            ((List.range miss.length).map fun i : Nat => (table.miss_offset_ + i * r, idSize)) ++
            ((List.range hit.length).map fun i : Nat =>
              (table.hit_group_offset_ + i * r, idSize)) ++
            ((List.range call.length).map fun i : Nat =>
              (table.callable_offset_ + i * r, idSize)) ∧
        (∀ w ∈ writes, w.1 + w.2 ≤ res.bytes.length) ∧
        writes.Pairwise (fun w1 w2 => w1.1 + w1.2 ≤ w2.1) ∧
        (∀ k, (∀ w ∈ writes, k < w.1 ∨ w.1 + w.2 ≤ k) →
          res.bytes[k]? = (List.replicate res.Width 0)[k]?) ∧
        table.ray_gen_offset_ = 0 ∧ table.ray_gen_offset_ + idSize ≤ table.miss_offset_ ∧
        (∀ i, i < miss.length →
          table.miss_offset_ ≤ table.miss_offset_ + i * r ∧
          table.miss_offset_ + i * r + idSize ≤ table.hit_group_offset_) ∧
        (∀ i, i < hit.length →
          table.hit_group_offset_ ≤ table.hit_group_offset_ + i * r ∧
          table.hit_group_offset_ + i * r + idSize ≤ table.callable_offset_) ∧
        (∀ i, i < call.length →
          table.callable_offset_ ≤ table.callable_offset_ + i * r ∧
          table.callable_offset_ + i * r + idSize ≤ res.Width) ∧
        table.miss_offset_ ≤ table.hit_group_offset_ ∧
        table.hit_group_offset_ ≤ table.callable_offset_ ∧
        table.callable_offset_ ≤ res.Width := by
  have hnull := Device.CreateShaderTable_properties_null dev pp miss hit call henv
  refine ⟨?_, hnull, ?_⟩
  · intro hnames
    obtain ⟨dev2, data, ray, heq, _⟩ :=
      Device.CreateShaderTable_properties_ok dev pp miss hit call henv hnames _ _ _ _
        rfl rfl rfl rfl
    exact ⟨dev2, _, _, heq⟩
  · intro hr dev2 table writes hrun
    have hnames : pp.Resolves miss hit call := by
      by_contra hne
      rw [hnull hne] at hrun
      cases hrun
    have hpos := table_alignment_pos
    have hsr := shader_record_size_eq
    have hid : D3D12_SHADER_IDENTIFIER_SIZE_IN_BYTES = 32 := rfl
    have hmo : SizeAlignTo (0 + shader_record_size * 1)
        D3D12_RAYTRACING_SHADER_TABLE_BYTE_ALIGNMENT = 64 := by
      rw [hsr]
      decide
    obtain ⟨mo, hmo2⟩ : ∃ mo, mo = SizeAlignTo (0 + shader_record_size * 1)
        D3D12_RAYTRACING_SHADER_TABLE_BYTE_ALIGNMENT := ⟨_, rfl⟩
    obtain ⟨ho, hho⟩ : ∃ ho, ho = SizeAlignTo (mo + shader_record_size * miss.length)
        D3D12_RAYTRACING_SHADER_TABLE_BYTE_ALIGNMENT := ⟨_, rfl⟩
    obtain ⟨co, hco⟩ : ∃ co, co = SizeAlignTo (ho + shader_record_size * hit.length)
        D3D12_RAYTRACING_SHADER_TABLE_BYTE_ALIGNMENT := ⟨_, rfl⟩
    obtain ⟨total, htot⟩ : ∃ total, total = SizeAlignTo (co + shader_record_size * call.length)
        D3D12_RAYTRACING_SHADER_TABLE_BYTE_ALIGNMENT := ⟨_, rfl⟩
    have g1 := SizeAlignTo_ge hpos (mo + shader_record_size * miss.length)
    have g2 := SizeAlignTo_ge hpos (ho + shader_record_size * hit.length)
    have g3 := SizeAlignTo_ge hpos (co + shader_record_size * call.length)
    rw [← hho] at g1
    rw [← hco] at g2
    rw [← htot] at g3
    obtain ⟨dev3, data, ray, heq, hres, hlen, _, _, _, _, _, hframe⟩ :=
      Device.CreateShaderTable_properties_ok dev pp miss hit call henv hnames mo ho co total
        hmo2 hho hco htot
    rw [← hmo2] at hmo
    rw [hsr] at g1 g2 g3
    rw [heq] at hrun
    have hinj := Option.some.inj hrun
    have e1 : dev3 = dev2 := (Prod.mk.inj (Prod.mk.inj hinj).2).1
    have e2 := Prod.mk.inj (Option.some.inj (Prod.mk.inj (Prod.mk.inj hinj).2).2)
    have etable := e2.1
    have ewrites := e2.2
    subst e1
    subst etable
    refine ⟨_, shader_record_size, D3D12_SHADER_IDENTIFIER_SIZE_IN_BYTES, rfl, rfl, hres, hlen,
      ewrites.symm, ?_, ?_, ?_, rfl, ?_, ?_, ?_, ?_, ?_, ?_, ?_⟩
    · intro w hw
      rw [← ewrites] at hw
      show w.1 + w.2 ≤ data.length
      rw [hlen]
      simp only [List.mem_append, List.mem_singleton] at hw
      rcases hw with ((hw | hw) | hw) | hw
      · subst hw
        show 0 + D3D12_SHADER_IDENTIFIER_SIZE_IN_BYTES ≤ total
        rw [hid]
        omega
      · have := mem_records hw
        omega
      · have := mem_records hw
        omega
      · have := mem_records hw
        omega
    · rw [← ewrites]
      refine List.pairwise_append.2 ⟨List.pairwise_append.2 ⟨List.pairwise_append.2
        ⟨List.pairwise_singleton _ _, pairwise_records _ _, ?_⟩, pairwise_records _ _, ?_⟩,
        pairwise_records _ _, ?_⟩
      · intro a ha b hb
        rw [List.mem_singleton] at ha
        subst ha
        have := mem_records hb
        show 0 + D3D12_SHADER_IDENTIFIER_SIZE_IN_BYTES ≤ b.1
        rw [hid]
        omega
      · intro a ha b hb
        have hb2 := mem_records hb
        simp only [List.mem_append, List.mem_singleton] at ha
        rcases ha with ha | ha
        · subst ha
          show 0 + D3D12_SHADER_IDENTIFIER_SIZE_IN_BYTES ≤ b.1
          rw [hid]
          omega
        · have := mem_records ha
          omega
      · intro a ha b hb
        have hb2 := mem_records hb
        simp only [List.mem_append, List.mem_singleton] at ha
        rcases ha with (ha | ha) | ha
        · subst ha
          show 0 + D3D12_SHADER_IDENTIFIER_SIZE_IN_BYTES ≤ b.1
          rw [hid]
          omega
        · have := mem_records ha
          omega
        · have := mem_records ha
          omega
    · intro k hk
      rw [← ewrites] at hk
      have hw0 := hk (0, D3D12_SHADER_IDENTIFIER_SIZE_IN_BYTES) (by simp)
      have hrange : ∀ offset n,
          (∀ w ∈ (List.range n).map fun i : Nat =>
            (offset + i * shader_record_size, D3D12_SHADER_IDENTIFIER_SIZE_IN_BYTES),
            k < w.1 ∨ w.1 + w.2 ≤ k) →
          k < offset ∨ offset + n * shader_record_size ≤ k := by
        intro offset n hall
        by_contra hne
        rw [hsr] at hne
        have hi : (k - offset) / 32 < n := by omega
        have := hall _ (mem_records_intro offset n ((k - offset) / 32) hi)
        rw [hsr, hid] at this
        have h1 : offset + (k - offset) / 32 * 32 ≤ k := by omega
        have h2 : k < offset + (k - offset) / 32 * 32 + 32 := by omega
        omega
      have hw1 := hrange mo miss.length (fun w hw => hk w (by simp only [List.mem_append]; tauto))
      have hw2 := hrange ho hit.length (fun w hw => hk w (by simp only [List.mem_append]; tauto))
      have hw3 := hrange co call.length (fun w hw => hk w (by simp only [List.mem_append]; tauto))
      exact hframe k (by rw [hid] at hw0 ⊢; omega) hw1 hw2 hw3
    · show 0 + D3D12_SHADER_IDENTIFIER_SIZE_IN_BYTES ≤ mo
      rw [hid]
      omega
    · intro i hi
      show mo ≤ mo + i * shader_record_size ∧
        mo + i * shader_record_size + D3D12_SHADER_IDENTIFIER_SIZE_IN_BYTES ≤ ho
      rw [hsr, hid]
      omega
    · intro i hi
      show ho ≤ ho + i * shader_record_size ∧
        ho + i * shader_record_size + D3D12_SHADER_IDENTIFIER_SIZE_IN_BYTES ≤ co
      rw [hsr, hid]
      omega
    · intro i hi
      show co ≤ co + i * shader_record_size ∧
        co + i * shader_record_size + D3D12_SHADER_IDENTIFIER_SIZE_IN_BYTES ≤ total
      rw [hsr, hid]
      omega
    · show mo ≤ ho
      omega
    · show ho ≤ co
      omega
    · show co ≤ total
      omega

/-- C22 on the example state object at miss = [1, 0], hitGroups = [0], callables = []:
the table is returned, the buffer has 192 bytes, the copies go to `[0, 32)`, `[64, 96)`,
`[96, 128)` and `[128, 160)`, and the bytes 40 and 160, outside these ranges, are still
zero. -/
theorem CreateShaderTable_writes_in_bounds_witness :
    exampleDevice.NoFailure ∧ exampleStateObject.Resolves [1, 0] [0] [] ∧
    ∃ dev2 table writes res,
      exampleDevice.CreateShaderTable_properties exampleStateObject [1, 0] [0] [] =
        some (S_OK, dev2, some (table, writes)) ∧
      dev2.resource table.buffer_ = some res ∧ res.bytes.length = 192 ∧
      writes = [(0, 32), (64, 32), (96, 32), (128, 32)] ∧
      (∀ w ∈ writes, w.1 + w.2 ≤ 192) ∧
      writes.Pairwise (fun w1 w2 => w1.1 + w1.2 ≤ w2.1) ∧
      res.bytes[40]? = some 0 ∧ res.bytes[160]? = some 0 := by
  obtain ⟨hret, _, hall⟩ :=
    CreateShaderTable_writes_in_bounds exampleDevice exampleStateObject [1, 0] [0] []
      exampleDevice_noFailure
  obtain ⟨dev2, table, writes, heq⟩ := hret exampleStateObject_resolves
  obtain ⟨res, r, idSize, hr, hid, hres, hlen, hw, hin, hpair, hframe, _⟩ :=
    hall S_OK dev2 table writes heq
  obtain ⟨dev3, data, ray, heq2, hres2, hlen2, _⟩ :=
    Device.CreateShaderTable_properties_ok exampleDevice exampleStateObject [1, 0] [0] []
      exampleDevice_noFailure exampleStateObject_resolves 64 128 192 192 (by decide)
      (by decide) (by decide) (by decide)
  rw [heq] at heq2
  have hinj := Option.some.inj heq2
  have e1 : dev2 = dev3 := (Prod.mk.inj (Prod.mk.inj hinj).2).1
  have e2 := Prod.mk.inj (Option.some.inj (Prod.mk.inj (Prod.mk.inj hinj).2).2)
  have etable := e2.1
  have ewrites : writes = [(0, 32), (64, 32), (96, 32), (128, 32)] := e2.2.trans (by decide)
  subst e1
  subst etable
  have hres3 : dev2.resource 0 = some res := hres
  have hres4 : dev2.resource 0 = some _ := hres2
  rw [hres3] at hres4
  have er := Option.some.inj hres4
  have hl192 : res.bytes.length = 192 := by
    rw [er]
    exact hlen2
  rw [hl192] at hin
  have hwidth : res.Width = 192 := by rw [er]
  rw [hwidth] at hframe
  have hout : ∀ k, (∀ w ∈ [((0 : Nat), (32 : Nat)), (64, 32), (96, 32), (128, 32)],
      k < w.1 ∨ w.1 + w.2 ≤ k) → res.bytes[k]? = (List.replicate 192 0)[k]? := by
    intro k hk
    exact hframe k (by rw [ewrites]; exact hk)
  exact ⟨exampleDevice_noFailure, exampleStateObject_resolves, dev2, _, writes, res, heq, hres,
    hl192, ewrites, hin, hpair,
    (hout 40 (by decide)).trans (by rw [List.getElem?_replicate, if_pos (by decide)]),
    (hout 160 (by decide)).trans (by rw [List.getElem?_replicate, if_pos (by decide)])⟩

/-! ## Frame of `UploadData` and `DownloadData` -/

/-- C23: for a Static, Dynamic (or Interop) buffer in a valid state and every
`(data, size, offset)` with `offset + size <= Size()`: `UploadData(data, size, offset)`
returns and leaves the width of the resource behind `InstantBuffer()` and every byte of it
outside `[offset, offset + size)` unchanged (the buffer object, hence `Size()`, is not
touched); `DownloadData(out, size, offset)` returns and leaves that resource unchanged, and
a second download of the same range returns the same bytes. -/
theorem upload_download_frame (buf : D3D12Buffer) (core : D3D12Core)
    (data out : List Byte) (size offset n : Nat) (hcore : core.Valid) (hbuf : buf.Valid core)
    (hsize : buf.Size = some n) (hrange : offset + size ≤ n) (hdata : size ≤ data.length)
    (hout : size ≤ out.length) :
    ∃ b r,
      buf.InstantBuffer = some b ∧ b.Size = n ∧ core.device_.resource b.buffer_ = some r ∧
      r.bytes.length = n ∧
      (∃ core1 r1,
        buf.UploadData core data size offset = some core1 ∧
        core1.device_.resource b.buffer_ = some r1 ∧ r1.Width = r.Width ∧
        r1.bytes.length = r.bytes.length ∧
        ∀ k, k < offset ∨ offset + size ≤ k → r1.bytes[k]? = r.bytes[k]?) ∧
      (∃ core2 out1 core3 out2,
        buf.DownloadData core out size offset = some (core2, out1) ∧
        core2.device_.resource b.buffer_ = some r ∧
        buf.DownloadData core2 out size offset = some (core3, out2) ∧
        core3.device_.resource b.buffer_ = some r ∧ out2 = out1) := by
  cases buf with
  | Static sbuf =>
    obtain ⟨b, hb, ⟨r, hr, _, hrl⟩, hnot⟩ := hbuf
    have hn : b.allocated_size_ = n := by
      simpa [D3D12Buffer.Size, D3D12StaticBuffer.Size, hb, Buffer.Size] using hsize
    obtain ⟨core1, r1, bytes, hup, _, hm1, hr1, hr1b, hr1w, _⟩ :=
      D3D12StaticBuffer.UploadData_static hcore hb hr hnot data size offset (by omega) hdata
    obtain ⟨core2, out1, hd1, hv2, hm2, hr2, hnot2, _⟩ :=
      D3D12StaticBuffer.DownloadData_static hcore hb hr hnot out size offset (by omega) hout
    obtain ⟨core3, out2, hd2, _, hm3, hr3, _⟩ :=
      D3D12StaticBuffer.DownloadData_static hv2 hb hr2 hnot2 out size offset (by omega) hout
    refine ⟨b, r, hb, hn, hr, by omega, ⟨core1, r1, hup, hr1, hr1w, ?_, ?_⟩,
      ⟨core2, out1, core3, out2, hd1, hr2, hd2, hr3, ?_⟩⟩
    · rw [hr1b, memcpy_length hm1]
    · intro k hk
      rw [hr1b]
      exact memcpy_outside hm1 k hk
    · rw [hm2] at hm3
      exact (Option.some.inj hm3).symm
  | Dynamic dbuf =>
    obtain ⟨_, _, sb, hsb, ⟨r, hr, _, hrl⟩, _⟩ := hbuf
    have hn : sb.allocated_size_ = n := by
      simpa [D3D12Buffer.Size, D3D12DynamicBuffer.Size, hsb, Buffer.Size] using hsize
    obtain ⟨bytes, hm1, hup⟩ :=
      D3D12DynamicBuffer.UploadData_ok hcore.1 hsb hr data size offset (by omega) hdata
    obtain ⟨out1, hm2, hd1⟩ :=
      D3D12DynamicBuffer.DownloadData_ok hcore.1 hsb hr out size offset (by omega) hout
    obtain ⟨out2, hm3, hd2⟩ :=
      @D3D12DynamicBuffer.DownloadData_ok dbuf { core with device_ := core.device_.afterCall }
        (hcore.1.afterCall.of_hresults rfl) sb r hsb
        (by rw [Device.resource_afterCall]; exact hr) out size offset (by omega) hout
    refine ⟨sb, r, hsb, hn, hr, by omega, ⟨_, { r with bytes := bytes }, hup, ?_, rfl, ?_, ?_⟩,
      ⟨_, out1, _, out2, hd1, ?_, hd2, ?_, ?_⟩⟩
    · exact Device.resource_store_self _ (q := r) (by rw [Device.resource_afterCall]; exact hr)
    · exact memcpy_length hm1
    · intro k hk
      exact memcpy_outside hm1 k hk
    · exact hr
    · exact hr
    · rw [hm2] at hm3
      exact (Option.some.inj hm3).symm
  | Interop cbuf =>
    obtain ⟨b, hb, ⟨r, hr, _, hrl⟩, hnot⟩ := hbuf
    have hn : b.allocated_size_ = n := by
      simpa [D3D12Buffer.Size, D3D12CUDABuffer.Size, hb, Buffer.Size] using hsize
    obtain ⟨core1, r1, bytes, hup, _, hm1, hr1, hr1b, hr1w, _⟩ :=
      @D3D12StaticBuffer.UploadData_static { buffer_ := cbuf.buffer_ } _ hcore _ _ hb hr hnot
        data size offset (by omega) hdata
    obtain ⟨core2, out1, hd1, hv2, hm2, hr2, hnot2, _⟩ :=
      D3D12CUDABuffer.DownloadData_interop hcore hb hr hnot out size offset (by omega) hout
    obtain ⟨core3, out2, hd2, _, hm3, hr3, _⟩ :=
      D3D12CUDABuffer.DownloadData_interop hv2 hb hr2 hnot2 out size offset (by omega) hout
    refine ⟨b, r, hb, hn, hr, by omega, ⟨core1, r1, hup, hr1, hr1w, ?_, ?_⟩,
      ⟨core2, out1, core3, out2, hd1, hr2, hd2, hr3, ?_⟩⟩
    · rw [hr1b, memcpy_length hm1]
    · intro k hk
      rw [hr1b]
      exact memcpy_outside hm1 k hk
    · rw [hm2] at hm3
      exact (Option.some.inj hm3).symm

/-- C23 on the Static example buffer (8 zero bytes): after uploading three bytes at offset
2 the resource still has width 8 and bytes 0, 1, 5, 6, 7 are untouched. -/
theorem upload_download_frame_witness :
    exampleStatic.1.Valid ∧ (D3D12Buffer.Static exampleStatic.2).Valid exampleStatic.1 ∧
    (D3D12Buffer.Static exampleStatic.2).Size = some 8 ∧
    ∃ core1 r1,
      (D3D12Buffer.Static exampleStatic.2).UploadData exampleStatic.1 [1, 2, 3] 3 2 =
        some core1 ∧
      core1.device_.resource 0 = some r1 ∧ r1.Width = 8 ∧
      r1.bytes[1]? = some 0 ∧ r1.bytes[5]? = some 0 := by
  obtain ⟨b, r, hb, _, hr, _, ⟨core1, r1, hup, hr1, hw, _, hout⟩, _⟩ :=
    upload_download_frame (.Static exampleStatic.2) exampleStatic.1 [1, 2, 3] [0, 0, 0] 3 2 8
      exampleStatic_core_valid exampleStatic_valid rfl (by decide) (by decide) (by decide)
  have eb : b = ⟨0, 8⟩ := by
    have h : (D3D12Buffer.Static exampleStatic.2).InstantBuffer = some ⟨0, 8⟩ := rfl
    rw [hb] at h
    exact Option.some.inj h
  subst eb
  have er : exampleStatic.1.device_.resource 0 =
      some { Width := 8, heap_type := .DEFAULT, heap_flags := .NONE, state := .GENERIC_READ,
             flags := .ALLOW_UNORDERED_ACCESS, bytes := List.replicate 8 0 } := rfl
  have hr0 : exampleStatic.1.device_.resource 0 = some r := hr
  rw [er] at hr0
  have e := Option.some.inj hr0
  subst e
  exact ⟨exampleStatic_core_valid, exampleStatic_valid, rfl, core1, r1, hup, hr1, hw,
    (hout 1 (by decide)).trans rfl, (hout 5 (by decide)).trans rfl⟩

/-! ## Pipeline naming scheme and the default shader table -/

theorem iota_replicate (n : Nat) :
    ∀ value : Int, iota (List.replicate n 0) value =
      (List.range n).map (fun k : Nat => value + (k : Int)) := by
  induction n with
  | zero =>
    intro value
    rfl
  | succ n ih =>
    intro value
    rw [List.replicate_succ, iota, ih, List.range_succ_eq_map, List.map_cons, List.map_map]
    congr 1
    · simp
    · apply List.map_congr_left
      intro k _
      simp only [Function.comp, Nat.cast_succ]
      omega

theorem iota_eq_indexRange (n : Nat) : iota (List.replicate n 0) 0 = indexRange n := by
  rw [iota_replicate, indexRange]
  apply List.map_congr_left
  intro k _
  simp

theorem indexRange_length (n : Nat) : (indexRange n).length = n := by
  simp [indexRange]

theorem indexRange_getElem (n i : Nat) (hi : i < (indexRange n).length) :
    (indexRange n)[i] = Int.ofNat i := by
  simp [indexRange]

theorem indexRange_getElem? (n i : Nat) (hi : i < n) :
    (indexRange n)[i]? = some (Int.ofNat i) := by
  simp [indexRange, hi]

theorem toString_ofNat (i : Nat) : toString (Int.ofNat i) = toString i := rfl

theorem missLibraries_getElem? :
    ∀ (miss_shaders : List ShaderModule) (start i : Nat) (hi : i < miss_shaders.length),
      (missLibraries miss_shaders start)[i]? =
        some (Subobject.DXIL_LIBRARY miss_shaders[i].code ("MissMain" ++ toString (start + i))
          miss_shaders[i].entry_point) := by
  intro miss_shaders
  induction miss_shaders with
  | nil =>
    intro start i hi
    exact absurd hi (Nat.not_lt_zero _)
  | cons m rest ih =>
    intro start i hi
    cases i with
    | zero => simp [missLibraries, callableLibraries]
    | succ i =>
      have hi2 : i < rest.length := Nat.lt_of_succ_lt_succ hi
      have h := ih (start + 1) i hi2
      have e : start + 1 + i = start + (i + 1) := by omega
      rw [e] at h
      simpa [missLibraries] using h

theorem callableLibraries_getElem? :
    ∀ (callable_shaders : List ShaderModule) (start i : Nat)
      (hi : i < callable_shaders.length),
      (callableLibraries callable_shaders start)[i]? =
        some (Subobject.DXIL_LIBRARY callable_shaders[i].code
          ("CallableMain" ++ toString (start + i)) callable_shaders[i].entry_point) := by
  intro callable_shaders
  induction callable_shaders with
  | nil =>
    intro start i hi
    exact absurd hi (Nat.not_lt_zero _)
  | cons m rest ih =>
    intro start i hi
    cases i with
    | zero => simp [missLibraries, callableLibraries]
    | succ i =>
      have hi2 : i < rest.length := Nat.lt_of_succ_lt_succ hi
      have h := ih (start + 1) i hi2
      have e : start + 1 + i = start + (i + 1) := by omega
      rw [e] at h
      simpa [callableLibraries] using h

theorem hitGroupSubobjects_mem :
    ∀ (hit_groups : List HitGroup) (start i : Nat) (hi : i < hit_groups.length),
      ∀ so ∈ hitGroupSubobjectsOf hit_groups[i] (start + i),
        so ∈ hitGroupSubobjects hit_groups start := by
  intro hit_groups
  induction hit_groups with
  | nil =>
    intro start i hi
    exact absurd hi (Nat.not_lt_zero _)
  | cons g rest ih =>
    intro start i hi so hso
    rw [hitGroupSubobjects, List.mem_append]
    cases i with
    | zero => exact Or.inl hso
    | succ i =>
      have hi2 : i < rest.length := Nat.lt_of_succ_lt_succ hi
      have e : start + 1 + i = start + (i + 1) := by omega
      refine Or.inr (ih (start + 1) i hi2 so ?_)
      rw [e]
      exact hso

theorem Device.CreateRayTracingPipeline_ok (dev : Device)
    (properties : List Subobject → String → ShaderIdentifier) (root_signature : Nat)
    (ray_gen_shader : ShaderModule) (miss_shaders : List ShaderModule)
    (hit_groups : List HitGroup) (callable_shaders : List ShaderModule)
    (henv : dev.NoFailure) :
    dev.CreateRayTracingPipeline properties root_signature ray_gen_shader miss_shaders
        hit_groups callable_shaders =
      (S_OK, dev.afterCall,
        some
          { GetShaderIdentifier :=
              properties (rayTracingPipelineDesc root_signature ray_gen_shader miss_shaders
                hit_groups callable_shaders)
            miss_shader_count_ := miss_shaders.length
            hit_group_count_ := hit_groups.length
            callable_shader_count_ := callable_shaders.length }) := by
  have h := Device.platformCall_fst henv
  simp only [Device.platformCall] at h
  simp only [Device.CreateRayTracingPipeline, Device.platformCall, h]
  rfl

theorem Device.CreateShaderTable_default_eq (dev : Device) (p : RayTracingPipeline) :
    dev.CreateShaderTable_default p =
      dev.CreateShaderTable p (indexRange p.miss_shader_count_)
        (indexRange p.hit_group_count_) (indexRange p.callable_shader_count_) := by
  simp only [Device.CreateShaderTable_default, iota_eq_indexRange]

theorem rayTracingPipelineDesc_mem_miss {root_signature : Nat} {ray_gen_shader : ShaderModule}
    {miss_shaders : List ShaderModule} {hit_groups : List HitGroup}
    {callable_shaders : List ShaderModule} {so : Subobject}
    (h : so ∈ missLibraries miss_shaders 0) :
    so ∈ rayTracingPipelineDesc root_signature ray_gen_shader miss_shaders hit_groups
      callable_shaders := by
  simp only [rayTracingPipelineDesc, List.mem_append]
  exact Or.inl (Or.inl (Or.inl (Or.inr h)))

theorem rayTracingPipelineDesc_mem_hit {root_signature : Nat} {ray_gen_shader : ShaderModule}
    {miss_shaders : List ShaderModule} {hit_groups : List HitGroup}
    {callable_shaders : List ShaderModule} {so : Subobject}
    (h : so ∈ hitGroupSubobjects hit_groups 0) :
    so ∈ rayTracingPipelineDesc root_signature ray_gen_shader miss_shaders hit_groups
      callable_shaders := by
  simp only [rayTracingPipelineDesc, List.mem_append]
  exact Or.inl (Or.inl (Or.inr h))

theorem rayTracingPipelineDesc_mem_callable {root_signature : Nat}
    {ray_gen_shader : ShaderModule} {miss_shaders : List ShaderModule}
    {hit_groups : List HitGroup} {callable_shaders : List ShaderModule} {so : Subobject}
    (h : so ∈ callableLibraries callable_shaders 0) :
    so ∈ rayTracingPipelineDesc root_signature ray_gen_shader miss_shaders hit_groups
      callable_shaders := by
  simp only [rayTracingPipelineDesc, List.mem_append]
  exact Or.inl (Or.inr h)

/-- C21 (naming scheme, end to end): when no platform call fails, `CreateRayTracingPipeline`
on `n1` miss shaders, `n2` hit groups and `n3` callable shaders returns a pipeline that
reports the counts `n1`, `n2`, `n3` and whose identifier lookup is that of the state object
made from the description `desc`; on every device the default `CreateShaderTable(pipeline)`
equals `CreateShaderTable` with the index lists `[0..n1-1]`, `[0..n2-1]`, `[0..n3-1]`; the
default table is created, its ray generation record holds the identifier looked up under
`"RayGenMain"`, the export of the ray generation library in `desc`, and for every category
and every `i` below its count record `i` holds the identifier looked up under
`"MissMain"+i` (`"HitGroup"+i`, `"CallableMain"+i`), which is the export name of the `i`-th
library of the miss (callable) loop, made from the `i`-th registered shader, or of the hit
group subobject whose closest-hit import is the export of the library made from the
closest-hit shader of the `i`-th registered hit group. -/
theorem naming_scheme_end_to_end (dev : Device)
    (properties : List Subobject → String → ShaderIdentifier) (root_signature : Nat)
    (ray_gen_shader : ShaderModule) (miss_shaders : List ShaderModule)
    (hit_groups : List HitGroup) (callable_shaders : List ShaderModule)
    (henv : dev.NoFailure) :
    ∃ (dev2 : Device) (pipeline : RayTracingPipeline) (desc : List Subobject),
      desc = rayTracingPipelineDesc root_signature ray_gen_shader miss_shaders hit_groups
        callable_shaders ∧
      dev.CreateRayTracingPipeline properties root_signature ray_gen_shader miss_shaders
        hit_groups callable_shaders = (S_OK, dev2, some pipeline) ∧
      pipeline.GetShaderIdentifier = properties desc ∧
      pipeline.miss_shader_count_ = miss_shaders.length ∧
      pipeline.hit_group_count_ = hit_groups.length ∧
      pipeline.callable_shader_count_ = callable_shaders.length ∧
      (∀ d : Device, d.CreateShaderTable_default pipeline =
        d.CreateShaderTable pipeline (indexRange miss_shaders.length)
          (indexRange hit_groups.length) (indexRange callable_shaders.length)) ∧
      ∃ (dev3 : Device) (table : ShaderTable) (res : Resource),
        dev2.CreateShaderTable_default pipeline = some (S_OK, dev3, some table) ∧
        dev3.resource table.buffer_ = some res ∧
        table.miss_shader_count_ = miss_shaders.length ∧
        table.hit_group_count_ = hit_groups.length ∧
        table.callable_shader_count_ = callable_shaders.length ∧
        readBytes res.bytes table.ray_gen_offset_ D3D12_SHADER_IDENTIFIER_SIZE_IN_BYTES =
          some (properties desc "RayGenMain").bytes ∧
        desc[0]? = some (Subobject.DXIL_LIBRARY ray_gen_shader.code "RayGenMain"
          ray_gen_shader.entry_point) ∧
        (∀ i, ∀ hi : i < miss_shaders.length, ∃ (id : Int) (name : String),
          (indexRange miss_shaders.length)[i]? = some id ∧
          name = "MissMain" ++ toString id ∧
          readBytes res.bytes (table.miss_offset_ + i * shader_record_size)
              D3D12_SHADER_IDENTIFIER_SIZE_IN_BYTES = some (properties desc name).bytes ∧
          (missLibraries miss_shaders 0)[i]? =
            some (Subobject.DXIL_LIBRARY miss_shaders[i].code name
              miss_shaders[i].entry_point) ∧
          Subobject.DXIL_LIBRARY miss_shaders[i].code name miss_shaders[i].entry_point ∈
            desc) ∧
        (∀ i, ∀ hi : i < hit_groups.length, ∃ (id : Int) (name closest_hit : String),
          (indexRange hit_groups.length)[i]? = some id ∧
          name = "HitGroup" ++ toString id ∧
          readBytes res.bytes (table.hit_group_offset_ + i * shader_record_size)
              D3D12_SHADER_IDENTIFIER_SIZE_IN_BYTES = some (properties desc name).bytes ∧
          (hitGroupSubobjectsOf hit_groups[i] i).head? =
            some (Subobject.HIT_GROUP name closest_hit
              (hit_groups[i].intersection_shader.map fun _ =>
                "IntersectionMain" ++ toString i)
              (hit_groups[i].any_hit_shader.map fun _ => "AnyHitMain" ++ toString i)
              (if hit_groups[i].procedure then .PROCEDURAL_PRIMITIVE else .TRIANGLES)) ∧
          Subobject.DXIL_LIBRARY hit_groups[i].closest_hit_shader.code closest_hit
              hit_groups[i].closest_hit_shader.entry_point ∈
            hitGroupSubobjectsOf hit_groups[i] i ∧
          ∀ so ∈ hitGroupSubobjectsOf hit_groups[i] i, so ∈ desc) ∧
        (∀ i, ∀ hi : i < callable_shaders.length, ∃ (id : Int) (name : String),
          (indexRange callable_shaders.length)[i]? = some id ∧
          name = "CallableMain" ++ toString id ∧
          readBytes res.bytes (table.callable_offset_ + i * shader_record_size)
              D3D12_SHADER_IDENTIFIER_SIZE_IN_BYTES = some (properties desc name).bytes ∧
          (callableLibraries callable_shaders 0)[i]? =
            some (Subobject.DXIL_LIBRARY callable_shaders[i].code name
              callable_shaders[i].entry_point) ∧
          Subobject.DXIL_LIBRARY callable_shaders[i].code name
              callable_shaders[i].entry_point ∈ desc) := by
  obtain ⟨desc, hdesc⟩ : ∃ desc, desc = rayTracingPipelineDesc root_signature ray_gen_shader
      miss_shaders hit_groups callable_shaders := ⟨_, rfl⟩
  obtain ⟨pipeline, hp⟩ : ∃ pipeline : RayTracingPipeline, pipeline =
      { GetShaderIdentifier := properties desc
        miss_shader_count_ := miss_shaders.length
        hit_group_count_ := hit_groups.length
        callable_shader_count_ := callable_shaders.length } := ⟨_, rfl⟩
  have hcreate := Device.CreateRayTracingPipeline_ok dev properties root_signature
    ray_gen_shader miss_shaders hit_groups callable_shaders henv
  rw [← hdesc, ← hp] at hcreate
  have hdefault : ∀ d : Device, d.CreateShaderTable_default pipeline =
      d.CreateShaderTable pipeline (indexRange miss_shaders.length)
        (indexRange hit_groups.length) (indexRange callable_shaders.length) := by
    intro d
    rw [Device.CreateShaderTable_default_eq, hp]
  obtain ⟨dev3, data, heq, hres, _, hray, hmiss, hhit, hcall⟩ :=
    Device.CreateShaderTable_ok dev.afterCall pipeline (indexRange miss_shaders.length)
      (indexRange hit_groups.length) (indexRange callable_shaders.length) henv.afterCall
      _ _ _ _ rfl rfl rfl rfl
  have hgs : pipeline.GetShaderIdentifier = properties desc := by rw [hp]
  rw [hgs] at hray hmiss hhit hcall
  refine ⟨dev.afterCall, pipeline, desc, hdesc, hcreate, hgs, by rw [hp], by rw [hp], by rw [hp],
    hdefault, dev3, _, _, (hdefault _).trans heq, hres, indexRange_length _,
    indexRange_length _, indexRange_length _, hray, by rw [hdesc]; simp [rayTracingPipelineDesc], ?_, ?_, ?_⟩
  · intro i hi
    have hi2 : i < (indexRange miss_shaders.length).length := by
      rw [indexRange_length]
      exact hi
    have hlib := missLibraries_getElem? miss_shaders 0 i hi
    rw [Nat.zero_add, ← toString_ofNat] at hlib
    have hrec := hmiss i hi2
    rw [indexRange_getElem _ _ hi2] at hrec
    refine ⟨Int.ofNat i, _, indexRange_getElem? _ _ hi, rfl, hrec, hlib, ?_⟩
    rw [hdesc]
    exact rayTracingPipelineDesc_mem_miss (List.getElem?_mem hlib)
  · intro i hi
    have hi2 : i < (indexRange hit_groups.length).length := by
      rw [indexRange_length]
      exact hi
    have hrec := hhit i hi2
    rw [indexRange_getElem _ _ hi2] at hrec
    refine ⟨Int.ofNat i, _, "ClosestHitMain" ++ toString i, indexRange_getElem? _ _ hi, rfl,
      hrec, rfl, ?_, ?_⟩
    · simp [hitGroupSubobjectsOf]
    · intro so hso
      have h := hitGroupSubobjects_mem hit_groups 0 i hi so (by rw [Nat.zero_add]; exact hso)
      rw [hdesc]
      exact rayTracingPipelineDesc_mem_hit h
  · intro i hi
    have hi2 : i < (indexRange callable_shaders.length).length := by
      rw [indexRange_length]
      exact hi
    have hlib := callableLibraries_getElem? callable_shaders 0 i hi
    rw [Nat.zero_add, ← toString_ofNat] at hlib
    have hrec := hcall i hi2
    rw [indexRange_getElem _ _ hi2] at hrec
    refine ⟨Int.ofNat i, _, indexRange_getElem? _ _ hi, rfl, hrec, hlib, ?_⟩
    rw [hdesc]
    exact rayTracingPipelineDesc_mem_callable (List.getElem?_mem hlib)

/-- C21 on the example shaders (two miss shaders, one hit group, one callable shader): the
pipeline reports the counts 2, 1, 1, the default shader table is created, its second miss
record holds the identifier of `"MissMain1"`, and `"MissMain1"` is the export of the
library made from the second miss shader. -/
theorem naming_scheme_end_to_end_witness :
    exampleDevice.NoFailure ∧
    ∃ (dev2 : Device) (pipeline : RayTracingPipeline) (dev3 : Device) (table : ShaderTable)
      (res : Resource),
      exampleDevice.CreateRayTracingPipeline exampleProperties 7 exampleRayGen
        exampleMissShaders exampleHitGroups exampleCallableShaders =
          (S_OK, dev2, some pipeline) ∧
      pipeline.miss_shader_count_ = 2 ∧ pipeline.hit_group_count_ = 1 ∧
      pipeline.callable_shader_count_ = 1 ∧
      dev2.CreateShaderTable_default pipeline = some (S_OK, dev3, some table) ∧
      dev3.resource table.buffer_ = some res ∧
      readBytes res.bytes (table.miss_offset_ + 1 * shader_record_size)
          D3D12_SHADER_IDENTIFIER_SIZE_IN_BYTES =
        some (List.replicate D3D12_SHADER_IDENTIFIER_SIZE_IN_BYTES 9) ∧
      Subobject.DXIL_LIBRARY 3 "MissMain1" "MissB" ∈
        rayTracingPipelineDesc 7 exampleRayGen exampleMissShaders exampleHitGroups
          exampleCallableShaders := by
  obtain ⟨dev2, pipeline, desc, hdesc, hcreate, _, hn1, hn2, hn3, _, dev3, table, res, htable,
      hres, _, _, _, _, _, hmiss, _, _⟩ :=
    naming_scheme_end_to_end exampleDevice exampleProperties 7 exampleRayGen
      exampleMissShaders exampleHitGroups exampleCallableShaders exampleDevice_noFailure
  obtain ⟨id, name, hid, hname, hrec, _, hmem⟩ := hmiss 1 (by decide)
  have hid1 : id = 1 := by
    have h : (indexRange exampleMissShaders.length)[1]? = some (1 : Int) := by decide
    rw [h] at hid
    exact (Option.some.inj hid).symm
  have hname1 : name = "MissMain1" := by
    rw [hname, hid1]
    decide
  rw [hname1, hdesc] at hrec hmem
  refine ⟨exampleDevice_noFailure, dev2, pipeline, dev3, table, res, hcreate, hn1, hn2, hn3,
    htable, hres, ?_, hmem⟩
  rw [hrec]
  decide

end grassland
